import Mathlib

/-!
# MyTinyGL: a shallow embedding of the fixed-function pipeline state machine

The C sources are embedded as pure Lean functions.  Conventions:

* `float` and `double` values are rationals (exact arithmetic); the libm
  functions the sources call (`cosf`, `sinf`, `sqrtf`, `powf`, `expf`, `log2f`)
  are a parameter.
* `GLenum`, `GLuint`, `GLbitfield`, `uint32_t`, `uint8_t` values are natural
  numbers, `GLint`, `GLsizei`, `int32_t` values are integers.
* C arrays are maps from the index to the stored element.
* every front-end entry point takes the current context and returns the
  context it leaves behind (the `CHECK_CTX` early return is the case where
  there is no context to pass).
* `mtgl_alloc` / `mtgl_realloc` are taken to succeed, except where a function
  takes the outcome as a parameter (`grown`, `alloc_ok`).
* conversions of a float to an integer type and sums of `int` values are those
  of C while the result fits the type.
* a loop or recursion that the sources do not bound (`glCallList`,
  `draw_line_full`, `clip_line`) takes a number of passes `fuel` and returns
  `none` when it has not left after that many passes; `draw_line_full_loop`
  returns, with the context, the cursor at the start of each pass.
-/

namespace MyTinyGL

/-! ## GL/gl.h -/

abbrev GL_FALSE : Bool := false
abbrev GL_TRUE : Bool := true

abbrev GL_POINTS : Nat := 0x0000
abbrev GL_LINES : Nat := 0x0001
abbrev GL_LINE_LOOP : Nat := 0x0002
abbrev GL_LINE_STRIP : Nat := 0x0003
abbrev GL_TRIANGLES : Nat := 0x0004
abbrev GL_TRIANGLE_STRIP : Nat := 0x0005
abbrev GL_TRIANGLE_FAN : Nat := 0x0006
abbrev GL_QUADS : Nat := 0x0007
abbrev GL_QUAD_STRIP : Nat := 0x0008
abbrev GL_POLYGON : Nat := 0x0009

abbrev GL_DEPTH_BUFFER_BIT : Nat := 0x00000100
abbrev GL_STENCIL_BUFFER_BIT : Nat := 0x00000400
abbrev GL_COLOR_BUFFER_BIT : Nat := 0x00004000

abbrev GL_MODELVIEW : Nat := 0x1700
abbrev GL_PROJECTION : Nat := 0x1701
abbrev GL_TEXTURE : Nat := 0x1702

abbrev GL_FOG : Nat := 0x0B60
abbrev GL_DEPTH_TEST : Nat := 0x0B71
abbrev GL_CULL_FACE : Nat := 0x0B44
abbrev GL_BLEND : Nat := 0x0BE2
abbrev GL_TEXTURE_2D : Nat := 0x0DE1
abbrev GL_LIGHTING : Nat := 0x0B50
abbrev GL_SCISSOR_TEST : Nat := 0x0C11
abbrev GL_STENCIL_TEST : Nat := 0x0B90
abbrev GL_ALPHA_TEST : Nat := 0x0BC0
abbrev GL_COLOR_MATERIAL : Nat := 0x0B57
abbrev GL_NORMALIZE : Nat := 0x0BA1
abbrev GL_LIGHT0 : Nat := 0x4000
abbrev GL_LIGHT7 : Nat := 0x4007

abbrev GL_NEVER : Nat := 0x0200
abbrev GL_LESS : Nat := 0x0201
abbrev GL_EQUAL : Nat := 0x0202
abbrev GL_LEQUAL : Nat := 0x0203
abbrev GL_GREATER : Nat := 0x0204
abbrev GL_NOTEQUAL : Nat := 0x0205
abbrev GL_GEQUAL : Nat := 0x0206
abbrev GL_ALWAYS : Nat := 0x0207

abbrev GL_DEPTH_WRITEMASK : Nat := 0x0B72
abbrev GL_COLOR_WRITEMASK : Nat := 0x0C23
abbrev GL_DOUBLEBUFFER : Nat := 0x0C32
abbrev GL_STEREO : Nat := 0x0C33
abbrev GL_RGBA_MODE : Nat := 0x0C31
abbrev GL_INDEX_MODE : Nat := 0x0C30
abbrev GL_CURRENT_RASTER_POSITION_VALID : Nat := 0x0B08
abbrev GL_LIGHT_MODEL_LOCAL_VIEWER : Nat := 0x0B51
abbrev GL_LIGHT_MODEL_TWO_SIDE : Nat := 0x0B52
abbrev GL_VERTEX_ARRAY : Nat := 0x8074
abbrev GL_NORMAL_ARRAY : Nat := 0x8075
abbrev GL_COLOR_ARRAY : Nat := 0x8076
abbrev GL_TEXTURE_COORD_ARRAY : Nat := 0x8078

abbrev GL_COMPILE : Nat := 0x1300
abbrev GL_COMPILE_AND_EXECUTE : Nat := 0x1301

abbrev GL_NO_ERROR : Nat := 0
abbrev GL_INVALID_ENUM : Nat := 0x0500
abbrev GL_INVALID_VALUE : Nat := 0x0501
abbrev GL_INVALID_OPERATION : Nat := 0x0502
abbrev GL_STACK_OVERFLOW : Nat := 0x0503
abbrev GL_STACK_UNDERFLOW : Nat := 0x0504
abbrev GL_OUT_OF_MEMORY : Nat := 0x0505

abbrev GL_ZERO : Nat := 0
abbrev GL_ONE : Nat := 1
abbrev GL_SRC_COLOR : Nat := 0x0300
abbrev GL_ONE_MINUS_SRC_COLOR : Nat := 0x0301
abbrev GL_SRC_ALPHA : Nat := 0x0302
abbrev GL_ONE_MINUS_SRC_ALPHA : Nat := 0x0303
abbrev GL_DST_ALPHA : Nat := 0x0304
abbrev GL_ONE_MINUS_DST_ALPHA : Nat := 0x0305
abbrev GL_DST_COLOR : Nat := 0x0306
abbrev GL_ONE_MINUS_DST_COLOR : Nat := 0x0307
abbrev GL_SRC_ALPHA_SATURATE : Nat := 0x0308
abbrev GL_REPLACE : Nat := 0x1E01
abbrev GL_INCR : Nat := 0x1E02
abbrev GL_DECR : Nat := 0x1E03
abbrev GL_INVERT : Nat := 0x150A
abbrev GL_INCR_WRAP : Nat := 0x8507
abbrev GL_DECR_WRAP : Nat := 0x8508
abbrev GL_CCW : Nat := 0x0901
abbrev GL_BACK : Nat := 0x0405
abbrev GL_FILL : Nat := 0x1B02
abbrev GL_KEEP : Nat := 0x1E00
abbrev GL_SMOOTH : Nat := 0x1D01
abbrev GL_MODULATE : Nat := 0x2100
abbrev GL_DONT_CARE : Nat := 0x1100
abbrev GL_EXP : Nat := 0x0800
abbrev GL_FRONT_AND_BACK : Nat := 0x0408
abbrev GL_AMBIENT_AND_DIFFUSE : Nat := 0x1602

/-! ## graphics.h -/

/-- The libm functions called by the sources. -/
structure LibM where
  cosf : ℚ → ℚ
  sinf : ℚ → ℚ
  sqrtf : ℚ → ℚ
  powf : ℚ → ℚ → ℚ
  expf : ℚ → ℚ
  log2f : ℚ → ℚ

structure vec2_t where
  x : ℚ
  y : ℚ
deriving DecidableEq

structure vec3_t where
  x : ℚ
  y : ℚ
  z : ℚ
deriving DecidableEq

structure vec4_t where
  x : ℚ
  y : ℚ
  z : ℚ
  w : ℚ
deriving DecidableEq

def vec2 (x y : ℚ) : vec2_t := ⟨x, y⟩
def vec3 (x y z : ℚ) : vec3_t := ⟨x, y, z⟩
def vec4 (x y z w : ℚ) : vec4_t := ⟨x, y, z, w⟩

/-- Column-major 4x4 matrix: `float m[16]`. -/
abbrev mat4_t := Fin 16 → ℚ

def mat4_identity : mat4_t :=
  ![1, 0, 0, 0,
    0, 1, 0, 0,
    0, 0, 1, 0,
    0, 0, 0, 1]

def mat4_from_array (arr : Fin 16 → ℚ) : mat4_t := fun i => arr i

def mat4_to_array (m : mat4_t) : Fin 16 → ℚ := fun i => m i

def mat4_mul_vec4 (m : mat4_t) (v : vec4_t) : vec4_t :=
  { x := m 0 * v.x + m 4 * v.y + m 8 * v.z + m 12 * v.w
    y := m 1 * v.x + m 5 * v.y + m 9 * v.z + m 13 * v.w
    z := m 2 * v.x + m 6 * v.y + m 10 * v.z + m 14 * v.w
    w := m 3 * v.x + m 7 * v.y + m 11 * v.z + m 15 * v.w }

/-- The double loop over `col` and `row` writes entry `col * 4 + row`; entry
`k` is therefore written with `col = k / 4` and `row = k % 4`. -/
def mat4_mul (a b : mat4_t) : mat4_t := fun k =>
  let col : Fin 16 := k / 4
  let row : Fin 16 := k % 4
  a (0 * 4 + row) * b (col * 4 + 0) +
  a (1 * 4 + row) * b (col * 4 + 1) +
  a (2 * 4 + row) * b (col * 4 + 2) +
  a (3 * 4 + row) * b (col * 4 + 3)

def mat4_translate (x y z : ℚ) : mat4_t :=
  ![1, 0, 0, 0,
    0, 1, 0, 0,
    0, 0, 1, 0,
    x, y, z, 1]

def mat4_scale (x y z : ℚ) : mat4_t :=
  ![x, 0, 0, 0,
    0, y, 0, 0,
    0, 0, z, 0,
    0, 0, 0, 1]

def mat4_rotate (lm : LibM) (angle_deg x y z : ℚ) : mat4_t :=
  let rad := angle_deg * (314159265358979 / 100000000000000) / 180
  let c := lm.cosf rad
  let s := lm.sinf rad
  let len := lm.sqrtf (x * x + y * y + z * z)
  if len = 0 then mat4_identity
  else
    let x := x / len
    let y := y / len
    let z := z / len
    ![x * x * (1 - c) + c, y * x * (1 - c) + z * s, x * z * (1 - c) - y * s, 0,
      x * y * (1 - c) - z * s, y * y * (1 - c) + c, y * z * (1 - c) + x * s, 0,
      x * z * (1 - c) + y * s, y * z * (1 - c) - x * s, z * z * (1 - c) + c, 0,
      0, 0, 0, 1]

def mat4_ortho (left right bottom top near far : ℚ) : mat4_t :=
  let rl := right - left
  let tb := top - bottom
  let fn := far - near
  if rl = 0 ∨ tb = 0 ∨ fn = 0 then mat4_identity
  else
    ![2 / rl, 0, 0, 0,
      0, 2 / tb, 0, 0,
      0, 0, -2 / fn, 0,
      -(right + left) / rl, -(top + bottom) / tb, -(far + near) / fn, 1]

def mat4_frustum (left right bottom top near far : ℚ) : mat4_t :=
  let rl := right - left
  let tb := top - bottom
  let fn := far - near
  if rl = 0 ∨ tb = 0 ∨ fn = 0 then mat4_identity
  else
    ![2 * near / rl, 0, 0, 0,
      0, 2 * near / tb, 0, 0,
      (right + left) / rl, (top + bottom) / tb, -(far + near) / fn, -1,
      0, 0, -2 * far * near / fn, 0]

structure color_t where
  r : ℚ
  g : ℚ
  b : ℚ
  a : ℚ
deriving DecidableEq

def color (r g b a : ℚ) : color_t := ⟨r, g, b, a⟩

def color_add (a b : color_t) : color_t := ⟨a.r + b.r, a.g + b.g, a.b + b.b, a.a + b.a⟩

def color_mul (a b : color_t) : color_t := ⟨a.r * b.r, a.g * b.g, a.b * b.b, a.a * b.a⟩

/-- The conversion `(uint8_t)f` of a float: truncation, reduced to 8 bits. -/
def float_to_uint8 (f : ℚ) : Nat := (Int.toNat ⌊f⌋) % 256

/-- The C ternary `v < 0 ? 0 : (v > 1 ? 1 : v)`. -/
def clamp01 (v : ℚ) : ℚ := if v < 0 then 0 else if v > 1 then 1 else v

/-- A C expression of type `int` converted to `uint32_t`. -/
def to_uint32 (v : Nat) : Nat := v % 2 ^ 32

def color_to_rgba32 (c : color_t) : Nat :=
  let rf := clamp01 c.r
  let gf := clamp01 c.g
  let bf := clamp01 c.b
  let af := clamp01 c.a
  let r := float_to_uint8 (rf * 255)
  let g := float_to_uint8 (gf * 255)
  let b := float_to_uint8 (bf * 255)
  let a := float_to_uint8 (af * 255)
  to_uint32 ((a <<< 24) ||| (b <<< 16) ||| (g <<< 8) ||| r)

def color_from_rgba32 (pixel : Nat) : color_t :=
  { r := ((pixel &&& 0xFF : Nat) : ℚ) / 255
    g := (((pixel >>> 8) &&& 0xFF : Nat) : ℚ) / 255
    b := (((pixel >>> 16) &&& 0xFF : Nat) : ℚ) / 255
    a := (((pixel >>> 24) &&& 0xFF : Nat) : ℚ) / 255 }

def color_clamp (c : color_t) : color_t :=
  ⟨clamp01 c.r, clamp01 c.g, clamp01 c.b, clamp01 c.a⟩

def rgba_bytes_to_rgba32 (r g b a : Nat) : Nat :=
  to_uint32 ((a <<< 24) ||| (b <<< 16) ||| (g <<< 8) ||| r)

structure vertex_t where
  position : vec4_t
  color : color_t
  texcoord : vec2_t
  normal : vec3_t
  eye_z : ℚ
  eye_pos : vec3_t
  eye_normal : vec3_t
deriving DecidableEq

/-- The per-pixel unpacking done by `glReadPixels`: `r = pixel & 0xFF`,
`g = (pixel >> 8) & 0xFF`, `b = (pixel >> 16) & 0xFF`, `a = (pixel >> 24) & 0xFF`. -/
def glReadPixels_unpack (pixel : Nat) : Nat × Nat × Nat × Nat :=
  (pixel &&& 0xFF, (pixel >>> 8) &&& 0xFF, (pixel >>> 16) &&& 0xFF, (pixel >>> 24) &&& 0xFF)

/-! ## framebuffer.h -/

/-- The three planes are arrays of `width * height` elements, indexed by
`y * width + x`. -/
structure framebuffer_t where
  width : Int
  height : Int
  color : Nat → Nat
  depth : Nat → ℚ
  stencil : Nat → Nat

abbrev MYTGL_MAX_FRAMEBUFFER_DIM : Int := 16384

/-- The element index `y * fb->width + x`. -/
def fb_index (fb : framebuffer_t) (x y : Int) : Nat := Int.toNat (y * fb.width + x)

/-- The planes handed out by the allocator hold `color0`, `depth0`, `stencil0`. -/
def framebuffer_init (color0 : Nat → Nat) (depth0 : Nat → ℚ) (stencil0 : Nat → Nat)
    (width height : Int) : Option framebuffer_t :=
  if width ≤ 0 ∨ height ≤ 0 then none
  else if width > MYTGL_MAX_FRAMEBUFFER_DIM ∨ height > MYTGL_MAX_FRAMEBUFFER_DIM then none
  else some { width := width, height := height, color := color0, depth := depth0,
              stencil := stencil0 }

def framebuffer_putpixel (fb : framebuffer_t) (x y : Int) (c : Nat) : framebuffer_t :=
  if x < 0 ∨ x ≥ fb.width ∨ y < 0 ∨ y ≥ fb.height then fb
  else { fb with color := Function.update fb.color (fb_index fb x y) c }

def framebuffer_getpixel (fb : framebuffer_t) (x y : Int) : Nat :=
  if x < 0 ∨ x ≥ fb.width ∨ y < 0 ∨ y ≥ fb.height then 0
  else fb.color (fb_index fb x y)

def framebuffer_putdepth (fb : framebuffer_t) (x y : Int) (d : ℚ) : framebuffer_t :=
  if x < 0 ∨ x ≥ fb.width ∨ y < 0 ∨ y ≥ fb.height then fb
  else { fb with depth := Function.update fb.depth (fb_index fb x y) d }

def framebuffer_getdepth (fb : framebuffer_t) (x y : Int) : ℚ :=
  if x < 0 ∨ x ≥ fb.width ∨ y < 0 ∨ y ≥ fb.height then 1
  else fb.depth (fb_index fb x y)

def framebuffer_putstencil (fb : framebuffer_t) (x y : Int) (s : Nat) : framebuffer_t :=
  if x < 0 ∨ x ≥ fb.width ∨ y < 0 ∨ y ≥ fb.height then fb
  else { fb with stencil := Function.update fb.stencil (fb_index fb x y) s }

def framebuffer_getstencil (fb : framebuffer_t) (x y : Int) : Nat :=
  if x < 0 ∨ x ≥ fb.width ∨ y < 0 ∨ y ≥ fb.height then 0
  else fb.stencil (fb_index fb x y)

/-! ## textures.h -/

structure texture_t where
  width : Int
  height : Int
  pixels : Option (List Nat)
  mip1_width : Int
  mip1_height : Int
  mip1_pixels : Option (List Nat)
  min_filter : Int
  mag_filter : Int
  wrap_s : Int
  wrap_t : Int
  allocated : Bool

structure texture_store_t where
  textures : List texture_t

def texture_store_init : texture_store_t := { textures := [] }

/-! ## lists.h, lists.c -/

inductive list_command_t where
  | CMD_END
  | CMD_BEGIN (mode : Nat)
  | CMD_VERTEX (x y z : ℚ)
  | CMD_COLOR (r g b a : ℚ)
  | CMD_TEXCOORD (s t : ℚ)
  | CMD_NORMAL (x y z : ℚ)
  | CMD_TRANSLATEF (x y z : ℚ)
  | CMD_ROTATEF (angle x y z : ℚ)
  | CMD_SCALEF (x y z : ℚ)
  | CMD_PUSH_MATRIX
  | CMD_POP_MATRIX
  | CMD_LOAD_IDENTITY
  | CMD_MULT_MATRIXF (m : Fin 16 → ℚ)
  | CMD_LOAD_MATRIXF (m : Fin 16 → ℚ)
  | CMD_MATRIX_MODE (mode : Nat)
  | CMD_ORTHO (left right bottom top near_val far_val : ℚ)
  | CMD_FRUSTUM (left right bottom top near_val far_val : ℚ)
  | CMD_ENABLE (cap : Nat)
  | CMD_DISABLE (cap : Nat)
  | CMD_BIND_TEXTURE (target : Nat) (texture : Nat)
  | CMD_BLEND_FUNC (sfactor dfactor : Nat)
  | CMD_DEPTH_FUNC (func : Nat)
  | CMD_DEPTH_MASK (flag : Bool)
  | CMD_CULL_FACE (mode : Nat)
  | CMD_FRONT_FACE (mode : Nat)
  | CMD_SHADE_MODEL (mode : Nat)
  | CMD_LIGHTF (light pname : Nat) (param : ℚ)
  | CMD_LIGHTFV (light pname : Nat) (params : Fin 4 → ℚ)
  | CMD_MATERIALF (face pname : Nat) (param : ℚ)
  | CMD_MATERIALFV (face pname : Nat) (params : Fin 4 → ℚ)
  | CMD_CALL_LIST (list : Nat)

/-- The `commands` array with its `count`, as the sequence of recorded commands. -/
structure display_list_t where
  commands : List list_command_t
  valid : Bool
  allocated : Bool

/-- The `lists` array with its `count`. -/
structure list_store_t where
  lists : List display_list_t

def list_store_init : list_store_t := { lists := [] }

/-- The slot of list `id` (1-based), `none` for the NULL result. -/
def list_get (store : list_store_t) (id : Nat) : Option display_list_t :=
  if id = 0 ∨ id > store.lists.length then none
  else
    match store.lists.get? (id - 1) with
    | none => none
    | some list => if !list.allocated then none else some list

def list_add_command (list : display_list_t) (cmd : list_command_t) : display_list_t :=
  { list with commands := list.commands ++ [cmd] }

/-! ## mytinygl.h -/

abbrev MAX_MATRIX_STACK_DEPTH : Int := 24
abbrev MAX_LIGHTS : Nat := 8
abbrev MAX_LIST_CALL_DEPTH : Nat := 64

abbrev FLAG_INSIDE_BEGIN_END : Nat := 1 <<< 0
abbrev FLAG_DEPTH_TEST : Nat := 1 <<< 1
abbrev FLAG_CULL_FACE : Nat := 1 <<< 2
abbrev FLAG_BLEND : Nat := 1 <<< 3
abbrev FLAG_TEXTURE_2D : Nat := 1 <<< 4
abbrev FLAG_LIGHTING : Nat := 1 <<< 5
abbrev FLAG_FOG : Nat := 1 <<< 6
abbrev FLAG_NORMALIZE : Nat := 1 <<< 7
abbrev FLAG_COLOR_MATERIAL : Nat := 1 <<< 8
abbrev FLAG_ALPHA_TEST : Nat := 1 <<< 9
abbrev FLAG_SCISSOR_TEST : Nat := 1 <<< 10
abbrev FLAG_STENCIL_TEST : Nat := 1 <<< 11

structure light_t where
  ambient : color_t
  diffuse : color_t
  specular : color_t
  position : vec4_t
  spot_direction : vec3_t
  spot_exponent : ℚ
  spot_cutoff : ℚ
  constant_attenuation : ℚ
  linear_attenuation : ℚ
  quadratic_attenuation : ℚ
  enabled : Bool
deriving DecidableEq

structure material_t where
  ambient : color_t
  diffuse : color_t
  specular : color_t
  emission : color_t
  shininess : ℚ
deriving DecidableEq

/-- The context.  The vertex-array descriptors and the buffer store of the C
struct hold client pointers and are left out. -/
structure GLState where
  clear_color : color_t
  clear_depth : ℚ
  viewport_x : Int
  viewport_y : Int
  viewport_w : Int
  viewport_h : Int
  current_color : color_t
  current_texcoord : vec2_t
  current_normal : vec3_t
  matrix_mode : Nat
  modelview_matrix : Int → Fin 16 → ℚ
  projection_matrix : Int → Fin 16 → ℚ
  texture_matrix : Int → Fin 16 → ℚ
  modelview_stack_depth : Int
  projection_stack_depth : Int
  texture_stack_depth : Int
  primitive_mode : Nat
  flags : Nat
  blend_src : Nat
  blend_dst : Nat
  cull_face_mode : Nat
  front_face : Nat
  depth_func : Nat
  depth_mask : Bool
  alpha_func : Nat
  alpha_ref : ℚ
  scissor_x : Int
  scissor_y : Int
  scissor_w : Int
  scissor_h : Int
  stencil_func : Nat
  stencil_ref : Int
  stencil_mask : Nat
  stencil_fail : Nat
  stencil_zfail : Nat
  stencil_zpass : Nat
  stencil_writemask : Nat
  stencil_clear : Int
  depth_near : ℚ
  depth_far : ℚ
  color_mask_r : Bool
  color_mask_g : Bool
  color_mask_b : Bool
  color_mask_a : Bool
  line_width : ℚ
  point_size : ℚ
  polygon_mode_front : Nat
  polygon_mode_back : Nat
  textures : texture_store_t
  bound_texture_2d : Nat
  tex_env_mode : Nat
  tex_env_color : color_t
  perspective_correction_hint : Nat
  raster_pos_x : Int
  raster_pos_y : Int
  raster_pos_valid : Bool
  fog_mode : Nat
  fog_density : ℚ
  fog_start : ℚ
  fog_end : ℚ
  fog_color : color_t
  lights : Nat → light_t
  material_front : material_t
  material_back : material_t
  light_model_ambient : color_t
  light_model_local_viewer : Bool
  light_model_two_side : Bool
  color_material_face : Nat
  color_material_mode : Nat
  shade_model : Nat
  bound_array_buffer : Nat
  bound_element_buffer : Nat
  client_state : Nat
  framebuffer : framebuffer_t
  lists : list_store_t
  list_base : Nat
  list_index : Nat
  list_mode : Nat
  list_call_depth : Nat
  vertices : List vertex_t
  error : Nat

/-- The rasterizer entry points of raster.c that `glEnd` dispatches to.  They
read the context and write nothing of it but the planes of `ctx->framebuffer`
and, through lazy mip generation while sampling, the textures of
`ctx->textures`; each is given by the framebuffer and texture store it leaves. -/
structure Rasterizer where
  flush_points : GLState → framebuffer_t × texture_store_t
  flush_lines : GLState → framebuffer_t × texture_store_t
  flush_line_strip : GLState → framebuffer_t × texture_store_t
  flush_line_loop : GLState → framebuffer_t × texture_store_t
  flush_triangles : GLState → framebuffer_t × texture_store_t
  flush_triangle_strip : GLState → framebuffer_t × texture_store_t
  flush_triangle_fan : GLState → framebuffer_t × texture_store_t
  flush_quads : GLState → framebuffer_t × texture_store_t
  flush_quad_strip : GLState → framebuffer_t × texture_store_t
  flush_polygon : GLState → framebuffer_t × texture_store_t

/-- A value of type `int` after an arithmetic operation, in two's complement. -/
def wrap_int32 (v : Int) : Int := (v + 2 ^ 31) % 2 ^ 32 - 2 ^ 31

/-- The complement `~v` of a 32-bit unsigned value. -/
def bit_not32 (v : Nat) : Nat := 0xFFFFFFFF ^^^ v

/-- The loop `for (i = lo; i < hi; i++) s = body(i, s)`. -/
def for_range {σ : Type} (lo hi : Int) (body : Int → σ → σ) (s : σ) : σ :=
  (List.range (Int.toNat (hi - lo))).foldl (fun s (k : Nat) => body (lo + (k : Int)) s) s

/-! ## gl_api.c: error latch, vertex buffer, context creation -/

def gl_set_error (c : GLState) (error : Nat) : GLState :=
  if c.error = GL_NO_ERROR then { c with error := error } else c

def glGetError (c : GLState) : Nat × GLState :=
  let err := c.error
  (err, { c with error := GL_NO_ERROR })

def vertex_buffer_push (c : GLState) (v : vertex_t) : GLState :=
  { c with vertices := c.vertices ++ [v] }

def vertex_buffer_count (c : GLState) : Nat := c.vertices.length

def vertex_buffer_clear (c : GLState) : GLState := { c with vertices := [] }

def light_init (index : Nat) : light_t :=
  { ambient := color 0 0 0 1
    diffuse := if index = 0 then color 1 1 1 1 else color 0 0 0 1
    specular := if index = 0 then color 1 1 1 1 else color 0 0 0 1
    position := vec4 0 0 1 0
    spot_direction := vec3 0 0 (-1)
    spot_exponent := 0
    spot_cutoff := 180
    constant_attenuation := 1
    linear_attenuation := 0
    quadratic_attenuation := 0
    enabled := GL_FALSE }

def material_init : material_t :=
  { ambient := color (2 / 10) (2 / 10) (2 / 10) 1
    diffuse := color (8 / 10) (8 / 10) (8 / 10) 1
    specular := color 0 0 0 1
    emission := color 0 0 0 1
    shininess := 0 }

/-- The context `gl_create_context(width, height)` returns, `none` for NULL.
The framebuffer planes come from the allocator with contents `color0`,
`depth0`, `stencil0`. -/
def gl_create_context (color0 : Nat → Nat) (depth0 : Nat → ℚ) (stencil0 : Nat → Nat)
    (width height : Int) : Option GLState :=
  match framebuffer_init color0 depth0 stencil0 width height with
  | none => none
  | some fb =>
    some
      { clear_color := color 0 0 0 1
        clear_depth := 1
        viewport_x := 0
        viewport_y := 0
        viewport_w := width
        viewport_h := height
        current_color := color 1 1 1 1
        current_texcoord := vec2 0 0
        current_normal := vec3 0 0 1
        matrix_mode := GL_MODELVIEW
        modelview_stack_depth := 0
        projection_stack_depth := 0
        texture_stack_depth := 0
        modelview_matrix := fun _ => mat4_to_array mat4_identity
        projection_matrix := fun _ => mat4_to_array mat4_identity
        texture_matrix := fun _ => mat4_to_array mat4_identity
        primitive_mode := 0
        flags := 0
        blend_src := GL_ONE
        blend_dst := GL_ZERO
        cull_face_mode := GL_BACK
        front_face := GL_CCW
        depth_func := GL_LESS
        depth_mask := GL_TRUE
        alpha_func := GL_ALWAYS
        alpha_ref := 0
        scissor_x := 0
        scissor_y := 0
        scissor_w := width
        scissor_h := height
        stencil_func := GL_ALWAYS
        stencil_ref := 0
        stencil_mask := 0xFFFFFFFF
        stencil_fail := GL_KEEP
        stencil_zfail := GL_KEEP
        stencil_zpass := GL_KEEP
        stencil_writemask := 0xFFFFFFFF
        stencil_clear := 0
        depth_near := 0
        depth_far := 1
        color_mask_r := GL_TRUE
        color_mask_g := GL_TRUE
        color_mask_b := GL_TRUE
        color_mask_a := GL_TRUE
        line_width := 1
        point_size := 1
        polygon_mode_front := GL_FILL
        polygon_mode_back := GL_FILL
        textures := texture_store_init
        bound_texture_2d := 0
        tex_env_mode := GL_MODULATE
        tex_env_color := color 0 0 0 0
        perspective_correction_hint := GL_DONT_CARE
        raster_pos_x := 0
        raster_pos_y := 0
        raster_pos_valid := GL_TRUE
        fog_mode := GL_EXP
        fog_density := 1
        fog_start := 0
        fog_end := 1
        fog_color := color 0 0 0 0
        bound_array_buffer := 0
        bound_element_buffer := 0
        client_state := 0
        lights := fun i => light_init i
        material_front := material_init
        material_back := material_init
        light_model_ambient := color (2 / 10) (2 / 10) (2 / 10) 1
        light_model_local_viewer := GL_FALSE
        light_model_two_side := GL_FALSE
        color_material_face := GL_FRONT_AND_BACK
        color_material_mode := GL_AMBIENT_AND_DIFFUSE
        shade_model := GL_SMOOTH
        framebuffer := fb
        lists := list_store_init
        list_base := 0
        list_index := 0
        list_mode := 0
        list_call_depth := 0
        vertices := []
        error := GL_NO_ERROR }

/-! ## lists.c: recording -/

/-- Appends `cmd` to the list being recorded; the flag returned tells the
caller to skip execution (`GL_COMPILE`). -/
def record_cmd (c : GLState) (cmd : list_command_t) : GLState × Bool :=
  if c.list_index = 0 then (c, false)
  else
    let c1 :=
      match list_get c.lists c.list_index with
      | some list =>
        { c with lists :=
            { lists := c.lists.lists.set (c.list_index - 1) (list_add_command list cmd) } }
      | none => c
    (c1, decide (c.list_mode = GL_COMPILE))

/-- The common body of the `list_record_*` functions, which differ in the
command they build. -/
def list_record (c : GLState) (cmd : list_command_t) : GLState × Bool :=
  if c.list_index = 0 then (c, false) else record_cmd c cmd

def list_record_begin (c : GLState) (mode : Nat) : GLState × Bool :=
  list_record c (.CMD_BEGIN mode)

def list_record_end (c : GLState) : GLState × Bool :=
  list_record c .CMD_END

def list_record_translatef (c : GLState) (x y z : ℚ) : GLState × Bool :=
  list_record c (.CMD_TRANSLATEF x y z)

def list_record_rotatef (c : GLState) (angle x y z : ℚ) : GLState × Bool :=
  list_record c (.CMD_ROTATEF angle x y z)

def list_record_scalef (c : GLState) (x y z : ℚ) : GLState × Bool :=
  list_record c (.CMD_SCALEF x y z)

def list_record_push_matrix (c : GLState) : GLState × Bool :=
  list_record c .CMD_PUSH_MATRIX

def list_record_pop_matrix (c : GLState) : GLState × Bool :=
  list_record c .CMD_POP_MATRIX

def list_record_load_identity (c : GLState) : GLState × Bool :=
  list_record c .CMD_LOAD_IDENTITY

def list_record_mult_matrixf (c : GLState) (m : Fin 16 → ℚ) : GLState × Bool :=
  list_record c (.CMD_MULT_MATRIXF m)

def list_record_load_matrixf (c : GLState) (m : Fin 16 → ℚ) : GLState × Bool :=
  list_record c (.CMD_LOAD_MATRIXF m)

def list_record_matrix_mode (c : GLState) (mode : Nat) : GLState × Bool :=
  list_record c (.CMD_MATRIX_MODE mode)

def list_record_ortho (c : GLState) (l r b t n f : ℚ) : GLState × Bool :=
  list_record c (.CMD_ORTHO l r b t n f)

def list_record_frustum (c : GLState) (l r b t n f : ℚ) : GLState × Bool :=
  list_record c (.CMD_FRUSTUM l r b t n f)

def list_record_enable (c : GLState) (cap : Nat) : GLState × Bool :=
  list_record c (.CMD_ENABLE cap)

def list_record_disable (c : GLState) (cap : Nat) : GLState × Bool :=
  list_record c (.CMD_DISABLE cap)

/-- The early return `if (list_record_x(...)) return;` at the head of a
recordable entry point: `r` is the context and the flag the recording function
returns, `body` the rest of the entry point. -/
def unless_recorded (r : GLState × Bool) (body : GLState → GLState) : GLState :=
  if r.2 then r.1 else body r.1

/-! ## gl_api.c: enable state -/

def cap_to_flag (cap : Nat) : Nat :=
  if cap = GL_DEPTH_TEST then FLAG_DEPTH_TEST
  else if cap = GL_CULL_FACE then FLAG_CULL_FACE
  else if cap = GL_BLEND then FLAG_BLEND
  else if cap = GL_TEXTURE_2D then FLAG_TEXTURE_2D
  else if cap = GL_LIGHTING then FLAG_LIGHTING
  else if cap = GL_FOG then FLAG_FOG
  else if cap = GL_NORMALIZE then FLAG_NORMALIZE
  else if cap = GL_COLOR_MATERIAL then FLAG_COLOR_MATERIAL
  else if cap = GL_ALPHA_TEST then FLAG_ALPHA_TEST
  else if cap = GL_SCISSOR_TEST then FLAG_SCISSOR_TEST
  else if cap = GL_STENCIL_TEST then FLAG_STENCIL_TEST
  else 0

/-- The assignment `ctx->lights[i].enabled = v`. -/
def set_light_enabled (c : GLState) (i : Nat) (v : Bool) : GLState :=
  { c with lights := Function.update c.lights i { c.lights i with enabled := v } }

def glEnable (c : GLState) (cap : Nat) : GLState :=
  unless_recorded (list_record_enable c cap) fun c =>
    let flag := cap_to_flag cap
    if flag ≠ 0 then { c with flags := c.flags ||| flag }
    else if cap ≥ GL_LIGHT0 ∧ cap ≤ GL_LIGHT7 then set_light_enabled c (cap - GL_LIGHT0) GL_TRUE
    else gl_set_error c GL_INVALID_ENUM

def glDisable (c : GLState) (cap : Nat) : GLState :=
  unless_recorded (list_record_disable c cap) fun c =>
    let flag := cap_to_flag cap
    if flag ≠ 0 then { c with flags := c.flags &&& bit_not32 flag }
    else if cap ≥ GL_LIGHT0 ∧ cap ≤ GL_LIGHT7 then set_light_enabled c (cap - GL_LIGHT0) GL_FALSE
    else gl_set_error c GL_INVALID_ENUM

/-- The C expression `(ctx->flags & flag) ? GL_TRUE : GL_FALSE`. -/
def flag_set (c : GLState) (flag : Nat) : Bool := decide (c.flags &&& flag ≠ 0)

def glIsEnabled (c : GLState) (cap : Nat) : Bool × GLState :=
  if cap = GL_DEPTH_TEST then (flag_set c FLAG_DEPTH_TEST, c)
  else if cap = GL_CULL_FACE then (flag_set c FLAG_CULL_FACE, c)
  else if cap = GL_BLEND then (flag_set c FLAG_BLEND, c)
  else if cap = GL_TEXTURE_2D then (flag_set c FLAG_TEXTURE_2D, c)
  else if cap = GL_LIGHTING then (flag_set c FLAG_LIGHTING, c)
  else if cap = GL_FOG then (flag_set c FLAG_FOG, c)
  else if cap = GL_NORMALIZE then (flag_set c FLAG_NORMALIZE, c)
  else if cap = GL_COLOR_MATERIAL then (flag_set c FLAG_COLOR_MATERIAL, c)
  else if cap = GL_ALPHA_TEST then (flag_set c FLAG_ALPHA_TEST, c)
  else if cap = GL_SCISSOR_TEST then (flag_set c FLAG_SCISSOR_TEST, c)
  else if cap = GL_STENCIL_TEST then (flag_set c FLAG_STENCIL_TEST, c)
  else if cap ≥ GL_LIGHT0 ∧ cap ≤ GL_LIGHT7 then ((c.lights (cap - GL_LIGHT0)).enabled, c)
  else (GL_FALSE, gl_set_error c GL_INVALID_ENUM)

/-- The `switch (pname)` of `glGetIntegerv` and of `glGetFloatv`: which
values of `pname` have a case (every case only stores into `params`), and the
integer `glGetIntegerv` leaves in `params[0]`. -/
structure QueryTable where
  int_known : Nat → Bool
  int_value : GLState → Nat → Int
  float_known : Nat → Bool

/-- The context `glGetIntegerv(pname, params)` leaves (`params` not NULL): the
cases of the switch store into `params`, the default case latches
`GL_INVALID_ENUM`. -/
def glGetIntegerv (q : QueryTable) (c : GLState) (pname : Nat) : GLState :=
  if q.int_known pname then c else gl_set_error c GL_INVALID_ENUM

/-- The context `glGetFloatv(pname, params)` leaves (`params` not NULL): the
default case saves the latch, clears it, tries the integer query and restores
the latch. -/
def glGetFloatv (q : QueryTable) (c : GLState) (pname : Nat) : GLState :=
  if q.float_known pname then c
  else
    let saved_error := c.error
    let c := { c with error := GL_NO_ERROR }
    let c := glGetIntegerv q c pname
    if c.error = GL_NO_ERROR then { c with error := saved_error }
    else gl_set_error { c with error := saved_error } GL_INVALID_ENUM

/-- The values `glGetBooleanv(pname, params)` stores in `params[0 ..]`, and the
context it leaves. -/
def glGetBooleanv (q : QueryTable) (c : GLState) (pname : Nat) : List Bool × GLState :=
  if pname = GL_DEPTH_TEST then ([flag_set c FLAG_DEPTH_TEST], c)
  else if pname = GL_CULL_FACE then ([flag_set c FLAG_CULL_FACE], c)
  else if pname = GL_BLEND then ([flag_set c FLAG_BLEND], c)
  else if pname = GL_TEXTURE_2D then ([flag_set c FLAG_TEXTURE_2D], c)
  else if pname = GL_LIGHTING then ([flag_set c FLAG_LIGHTING], c)
  else if pname = GL_FOG then ([flag_set c FLAG_FOG], c)
  else if pname = GL_NORMALIZE then ([flag_set c FLAG_NORMALIZE], c)
  else if pname = GL_COLOR_MATERIAL then ([flag_set c FLAG_COLOR_MATERIAL], c)
  else if pname = GL_ALPHA_TEST then ([flag_set c FLAG_ALPHA_TEST], c)
  else if pname = GL_SCISSOR_TEST then ([flag_set c FLAG_SCISSOR_TEST], c)
  else if pname = GL_STENCIL_TEST then ([flag_set c FLAG_STENCIL_TEST], c)
  else if pname = GL_DEPTH_WRITEMASK then ([c.depth_mask], c)
  else if pname = GL_COLOR_WRITEMASK then
    ([c.color_mask_r, c.color_mask_g, c.color_mask_b, c.color_mask_a], c)
  else if pname = GL_DOUBLEBUFFER then ([GL_TRUE], c)
  else if pname = GL_STEREO then ([GL_FALSE], c)
  else if pname = GL_RGBA_MODE then ([GL_TRUE], c)
  else if pname = GL_INDEX_MODE then ([GL_FALSE], c)
  else if pname = GL_CURRENT_RASTER_POSITION_VALID then ([c.raster_pos_valid], c)
  else if pname = GL_LIGHT_MODEL_LOCAL_VIEWER then ([c.light_model_local_viewer], c)
  else if pname = GL_LIGHT_MODEL_TWO_SIDE then ([c.light_model_two_side], c)
  else if pname = GL_VERTEX_ARRAY then ([decide (c.client_state &&& (1 <<< 0) ≠ 0)], c)
  else if pname = GL_COLOR_ARRAY then ([decide (c.client_state &&& (1 <<< 1) ≠ 0)], c)
  else if pname = GL_NORMAL_ARRAY then ([decide (c.client_state &&& (1 <<< 3) ≠ 0)], c)
  else if pname = GL_TEXTURE_COORD_ARRAY then ([decide (c.client_state &&& (1 <<< 2) ≠ 0)], c)
  else if pname ≥ GL_LIGHT0 ∧ pname ≤ GL_LIGHT7 then ([(c.lights (pname - GL_LIGHT0)).enabled], c)
  else ([decide (q.int_value c pname ≠ 0)], glGetIntegerv q c pname)

/-! ## gl_api.c: glClear -/

/-- The clear region `(x0, y0, x1, y1)` that `glClear` determines first: the
scissor box clamped to the framebuffer when the scissor test is enabled, the
whole framebuffer otherwise. -/
def glClear_region (c : GLState) : Int × Int × Int × Int :=
  let fb := c.framebuffer
  if c.flags &&& FLAG_SCISSOR_TEST ≠ 0 then
    let x0 := c.scissor_x
    let y0 := c.scissor_y
    let x1 := wrap_int32 (c.scissor_x + c.scissor_w)
    let y1 := wrap_int32 (c.scissor_y + c.scissor_h)
    let x0 := if x0 < 0 then 0 else x0
    let y0 := if y0 < 0 then 0 else y0
    let x1 := if x1 > fb.width then fb.width else x1
    let y1 := if y1 > fb.height then fb.height else y1
    (x0, y0, x1, y1)
  else (0, 0, fb.width, fb.height)

def glClear (c : GLState) (mask : Nat) : GLState :=
  let fb := c.framebuffer
  let x0 := (glClear_region c).1
  let y0 := (glClear_region c).2.1
  let x1 := (glClear_region c).2.2.1
  let y1 := (glClear_region c).2.2.2
  let fb :=
    if mask &&& GL_COLOR_BUFFER_BIT ≠ 0 then
      let clear_pixel := color_to_rgba32 c.clear_color
      for_range y0 y1 (fun y fb => for_range x0 x1 (fun x fb =>
        { fb with color := Function.update fb.color (fb_index fb x y) clear_pixel }) fb) fb
    else fb
  let fb :=
    if mask &&& GL_DEPTH_BUFFER_BIT ≠ 0 then
      let clear_depth := c.clear_depth
      for_range y0 y1 (fun y fb => for_range x0 x1 (fun x fb =>
        { fb with depth := Function.update fb.depth (fb_index fb x y) clear_depth }) fb) fb
    else fb
  let fb :=
    if mask &&& GL_STENCIL_BUFFER_BIT ≠ 0 then
      let clear_stencil := Int.toNat (c.stencil_clear % 256)
      for_range y0 y1 (fun y fb => for_range x0 x1 (fun x fb =>
        { fb with stencil := Function.update fb.stencil (fb_index fb x y) clear_stencil }) fb) fb
    else fb
  { c with framebuffer := fb }

/-! ## gl_api.c: matrix stacks -/

/-- The array `current_matrix()` points to. -/
def current_matrix (c : GLState) : Fin 16 → ℚ :=
  if c.matrix_mode = GL_MODELVIEW then c.modelview_matrix c.modelview_stack_depth
  else if c.matrix_mode = GL_PROJECTION then c.projection_matrix c.projection_stack_depth
  else if c.matrix_mode = GL_TEXTURE then c.texture_matrix c.texture_stack_depth
  else c.modelview_matrix c.modelview_stack_depth

/-- A store of the 16 floats `m` through the pointer `current_matrix()`. -/
def current_matrix_store (c : GLState) (m : Fin 16 → ℚ) : GLState :=
  if c.matrix_mode = GL_MODELVIEW then
    { c with modelview_matrix := Function.update c.modelview_matrix c.modelview_stack_depth m }
  else if c.matrix_mode = GL_PROJECTION then
    { c with projection_matrix :=
        Function.update c.projection_matrix c.projection_stack_depth m }
  else if c.matrix_mode = GL_TEXTURE then
    { c with texture_matrix := Function.update c.texture_matrix c.texture_stack_depth m }
  else
    { c with modelview_matrix := Function.update c.modelview_matrix c.modelview_stack_depth m }

/-- The integer `current_stack_depth()` points to. -/
def current_stack_depth (c : GLState) : Int :=
  if c.matrix_mode = GL_MODELVIEW then c.modelview_stack_depth
  else if c.matrix_mode = GL_PROJECTION then c.projection_stack_depth
  else if c.matrix_mode = GL_TEXTURE then c.texture_stack_depth
  else c.modelview_stack_depth

/-- A store of `d` through the pointer `current_stack_depth()`. -/
def current_stack_depth_store (c : GLState) (d : Int) : GLState :=
  if c.matrix_mode = GL_MODELVIEW then { c with modelview_stack_depth := d }
  else if c.matrix_mode = GL_PROJECTION then { c with projection_stack_depth := d }
  else if c.matrix_mode = GL_TEXTURE then { c with texture_stack_depth := d }
  else { c with modelview_stack_depth := d }

def glMatrixMode (c : GLState) (mode : Nat) : GLState :=
  unless_recorded (list_record_matrix_mode c mode) fun c =>
    { c with matrix_mode := mode }

def glLoadIdentity (c : GLState) : GLState :=
  unless_recorded (list_record_load_identity c) fun c =>
    current_matrix_store c (mat4_to_array mat4_identity)

def glPushMatrix (c : GLState) : GLState :=
  unless_recorded (list_record_push_matrix c) fun c =>
    let depth := current_stack_depth c
    if depth ≥ MAX_MATRIX_STACK_DEPTH - 1 then gl_set_error c GL_STACK_OVERFLOW
    else
      let src := mat4_from_array (current_matrix c)
      let c := current_stack_depth_store c (depth + 1)
      current_matrix_store c (mat4_to_array src)

def glPopMatrix (c : GLState) : GLState :=
  unless_recorded (list_record_pop_matrix c) fun c =>
    let depth := current_stack_depth c
    if depth ≤ 0 then gl_set_error c GL_STACK_UNDERFLOW
    else current_stack_depth_store c (depth - 1)

def glOrtho (c : GLState) (left right bottom top near far : ℚ) : GLState :=
  unless_recorded (list_record_ortho c left right bottom top near far) fun c =>
    let result := mat4_mul (mat4_from_array (current_matrix c))
      (mat4_ortho left right bottom top near far)
    current_matrix_store c (mat4_to_array result)

def glFrustum (c : GLState) (left right bottom top near far : ℚ) : GLState :=
  unless_recorded (list_record_frustum c left right bottom top near far) fun c =>
    let result := mat4_mul (mat4_from_array (current_matrix c))
      (mat4_frustum left right bottom top near far)
    current_matrix_store c (mat4_to_array result)

def glTranslatef (c : GLState) (x y z : ℚ) : GLState :=
  unless_recorded (list_record_translatef c x y z) fun c =>
    let result := mat4_mul (mat4_from_array (current_matrix c)) (mat4_translate x y z)
    current_matrix_store c (mat4_to_array result)

def glRotatef (lm : LibM) (c : GLState) (angle x y z : ℚ) : GLState :=
  unless_recorded (list_record_rotatef c angle x y z) fun c =>
    let result := mat4_mul (mat4_from_array (current_matrix c)) (mat4_rotate lm angle x y z)
    current_matrix_store c (mat4_to_array result)

def glScalef (c : GLState) (x y z : ℚ) : GLState :=
  unless_recorded (list_record_scalef c x y z) fun c =>
    let result := mat4_mul (mat4_from_array (current_matrix c)) (mat4_scale x y z)
    current_matrix_store c (mat4_to_array result)

def glMultMatrixf (c : GLState) (mult : Fin 16 → ℚ) : GLState :=
  unless_recorded (list_record_mult_matrixf c mult) fun c =>
    let result := mat4_mul (mat4_from_array (current_matrix c)) (mat4_from_array mult)
    current_matrix_store c (mat4_to_array result)

def glLoadMatrixf (c : GLState) (m : Fin 16 → ℚ) : GLState :=
  unless_recorded (list_record_load_matrixf c m) fun c =>
    current_matrix_store c (mat4_to_array (mat4_from_array m))

/-! ## gl_api.c: glBegin, glEnd -/

def glBegin (c : GLState) (mode : Nat) : GLState :=
  unless_recorded (list_record_begin c mode) fun c =>
    if c.flags &&& FLAG_INSIDE_BEGIN_END ≠ 0 then gl_set_error c GL_INVALID_OPERATION
    else if mode > GL_POLYGON then gl_set_error c GL_INVALID_ENUM
    else { c with primitive_mode := mode, flags := c.flags ||| FLAG_INSIDE_BEGIN_END }

/-- The `switch (ctx->primitive_mode)` of `glEnd`. -/
def flush_primitive (rs : Rasterizer) (c : GLState) : GLState :=
  let put (r : framebuffer_t × texture_store_t) : GLState :=
    { c with framebuffer := r.1, textures := r.2 }
  if c.primitive_mode = GL_POINTS then put (rs.flush_points c)
  else if c.primitive_mode = GL_LINES then put (rs.flush_lines c)
  else if c.primitive_mode = GL_LINE_STRIP then put (rs.flush_line_strip c)
  else if c.primitive_mode = GL_LINE_LOOP then put (rs.flush_line_loop c)
  else if c.primitive_mode = GL_TRIANGLES then put (rs.flush_triangles c)
  else if c.primitive_mode = GL_TRIANGLE_STRIP then put (rs.flush_triangle_strip c)
  else if c.primitive_mode = GL_TRIANGLE_FAN then put (rs.flush_triangle_fan c)
  else if c.primitive_mode = GL_QUADS then put (rs.flush_quads c)
  else if c.primitive_mode = GL_QUAD_STRIP then put (rs.flush_quad_strip c)
  else if c.primitive_mode = GL_POLYGON then put (rs.flush_polygon c)
  else c

def glEnd (rs : Rasterizer) (c : GLState) : GLState :=
  unless_recorded (list_record_end c) fun c =>
    if c.flags &&& FLAG_INSIDE_BEGIN_END = 0 then gl_set_error c GL_INVALID_OPERATION
    else
      let c := { c with flags := c.flags &&& bit_not32 FLAG_INSIDE_BEGIN_END }
      let c := flush_primitive rs c
      vertex_buffer_clear c

/-! ## raster.c: fragment merge -/

def write_pixel_masked (c : GLState) (x y : Int) (col : color_t) : framebuffer_t :=
  let fb := c.framebuffer
  if c.color_mask_r ∧ c.color_mask_g ∧ c.color_mask_b ∧ c.color_mask_a then
    framebuffer_putpixel fb x y (color_to_rgba32 col)
  else if ¬c.color_mask_r ∧ ¬c.color_mask_g ∧ ¬c.color_mask_b ∧ ¬c.color_mask_a then fb
  else
    let dst_pixel := framebuffer_getpixel fb x y
    let dst := color_from_rgba32 dst_pixel
    let dst := if c.color_mask_r then { dst with r := col.r } else dst
    let dst := if c.color_mask_g then { dst with g := col.g } else dst
    let dst := if c.color_mask_b then { dst with b := col.b } else dst
    let dst := if c.color_mask_a then { dst with a := col.a } else dst
    framebuffer_putpixel fb x y (color_to_rgba32 dst)

def depth_test (func : Nat) (incoming stored : ℚ) : Bool :=
  if func = GL_NEVER then false
  else if func = GL_LESS then decide (incoming < stored)
  else if func = GL_EQUAL then decide (incoming = stored)
  else if func = GL_LEQUAL then decide (incoming ≤ stored)
  else if func = GL_GREATER then decide (incoming > stored)
  else if func = GL_NOTEQUAL then decide (incoming ≠ stored)
  else if func = GL_GEQUAL then decide (incoming ≥ stored)
  else if func = GL_ALWAYS then true
  else true

def alpha_test (func : Nat) (incoming ref : ℚ) : Bool :=
  if func = GL_NEVER then false
  else if func = GL_LESS then decide (incoming < ref)
  else if func = GL_EQUAL then decide (incoming = ref)
  else if func = GL_LEQUAL then decide (incoming ≤ ref)
  else if func = GL_GREATER then decide (incoming > ref)
  else if func = GL_NOTEQUAL then decide (incoming ≠ ref)
  else if func = GL_GEQUAL then decide (incoming ≥ ref)
  else if func = GL_ALWAYS then true
  else true

def get_blend_factor (factor : Nat) (src dst : color_t) : color_t :=
  if factor = GL_ZERO then color 0 0 0 0
  else if factor = GL_ONE then color 1 1 1 1
  else if factor = GL_SRC_COLOR then src
  else if factor = GL_ONE_MINUS_SRC_COLOR then color (1 - src.r) (1 - src.g) (1 - src.b) (1 - src.a)
  else if factor = GL_DST_COLOR then dst
  else if factor = GL_ONE_MINUS_DST_COLOR then color (1 - dst.r) (1 - dst.g) (1 - dst.b) (1 - dst.a)
  else if factor = GL_SRC_ALPHA then color src.a src.a src.a src.a
  else if factor = GL_ONE_MINUS_SRC_ALPHA then color (1 - src.a) (1 - src.a) (1 - src.a) (1 - src.a)
  else if factor = GL_DST_ALPHA then color dst.a dst.a dst.a dst.a
  else if factor = GL_ONE_MINUS_DST_ALPHA then color (1 - dst.a) (1 - dst.a) (1 - dst.a) (1 - dst.a)
  else if factor = GL_SRC_ALPHA_SATURATE then
    let f := if src.a < 1 - dst.a then src.a else 1 - dst.a
    color f f f 1
  else color 1 1 1 1

def blend_colors (c : GLState) (src dst : color_t) : color_t :=
  let sf := get_blend_factor c.blend_src src dst
  let df := get_blend_factor c.blend_dst src dst
  color_clamp (color_add (color_mul src sf) (color_mul dst df))

/-- A `GLint` converted to `GLuint`. -/
def int_to_uint32 (v : Int) : Nat := Int.toNat (v % 2 ^ 32)

def stencil_test (func : Nat) (ref : Int) (mask : Nat) (stencil_val : Nat) : Bool :=
  let masked_ref : Int := wrap_int32 ((int_to_uint32 ref &&& mask : Nat) : Int)
  let masked_val : Int := wrap_int32 ((stencil_val &&& mask : Nat) : Int)
  if func = GL_NEVER then false
  else if func = GL_LESS then decide (masked_ref < masked_val)
  else if func = GL_EQUAL then decide (masked_ref = masked_val)
  else if func = GL_LEQUAL then decide (masked_ref ≤ masked_val)
  else if func = GL_GREATER then decide (masked_ref > masked_val)
  else if func = GL_NOTEQUAL then decide (masked_ref ≠ masked_val)
  else if func = GL_GEQUAL then decide (masked_ref ≥ masked_val)
  else if func = GL_ALWAYS then true
  else true

def stencil_op (op : Nat) (stencil_val : Nat) (ref : Int) : Nat :=
  if op = GL_KEEP then stencil_val
  else if op = GL_ZERO then 0
  else if op = GL_REPLACE then Int.toNat (ref % 256)
  else if op = GL_INCR then (if stencil_val < 255 then stencil_val + 1 else 255)
  else if op = GL_INCR_WRAP then (stencil_val + 1) % 256
  else if op = GL_DECR then (if stencil_val > 0 then stencil_val - 1 else 0)
  else if op = GL_DECR_WRAP then (stencil_val + 255) % 256
  else if op = GL_INVERT then (0xFF ^^^ stencil_val) % 256
  else stencil_val

def write_stencil_masked (fb : framebuffer_t) (x y : Int) (new_val : Nat) (writemask : Nat) :
    framebuffer_t :=
  let old_val := framebuffer_getstencil fb x y
  let mask8 := (writemask &&& 0xFF) % 256
  let result := ((old_val &&& (0xFF ^^^ mask8)) ||| (new_val &&& mask8)) % 256
  framebuffer_putstencil fb x y result

/-- What the shading stages of the pixel loop of `rasterize_triangle_smooth`
(interpolation, lighting, texture sampling and environment, fog) deliver to
the merge stages: the alpha of the sampled texel when a texture is sampled
(`tex && tex->pixels`), and the color `c` that reaches the blend stage. -/
structure shaded_t where
  tex_alpha : Option ℚ
  color : color_t

/-- The body of the pixel loop of `rasterize_triangle_smooth` for a covered pixel
`(x, y)` with interpolated depth `depth`: stencil test, depth test, stencil
pass op, alpha test, depth write, blend, masked color write.  It returns the
framebuffer. -/
def rasterize_triangle_smooth_pixel (c : GLState) (x y : Int) (depth : ℚ) (sh : shaded_t) :
    framebuffer_t :=
  let fb := c.framebuffer
  let depth_enabled := c.flags &&& FLAG_DEPTH_TEST ≠ 0
  let stencil_enabled := c.flags &&& FLAG_STENCIL_TEST ≠ 0
  let stencil_val := if stencil_enabled then framebuffer_getstencil fb x y else 0
  if stencil_enabled ∧ ¬stencil_test c.stencil_func c.stencil_ref c.stencil_mask stencil_val then
    write_stencil_masked fb x y (stencil_op c.stencil_fail stencil_val c.stencil_ref)
      c.stencil_writemask
  else if depth_enabled ∧ ¬depth_test c.depth_func depth (framebuffer_getdepth fb x y) then
    if stencil_enabled then
      write_stencil_masked fb x y (stencil_op c.stencil_zfail stencil_val c.stencil_ref)
        c.stencil_writemask
    else fb
  else
    let fb :=
      if stencil_enabled then
        write_stencil_masked fb x y (stencil_op c.stencil_zpass stencil_val c.stencil_ref)
          c.stencil_writemask
      else fb
    let alpha_fail : Bool :=
      match sh.tex_alpha with
      | some a => decide (c.flags &&& FLAG_ALPHA_TEST ≠ 0) && !alpha_test c.alpha_func a c.alpha_ref
      | none => false
    if alpha_fail then fb
    else
      let fb := if depth_enabled ∧ c.depth_mask then framebuffer_putdepth fb x y depth else fb
      let col :=
        if c.flags &&& FLAG_BLEND ≠ 0 then
          blend_colors c sh.color (color_from_rgba32 (framebuffer_getpixel fb x y))
        else sh.color
      let col := color_clamp col
      write_pixel_masked { c with framebuffer := fb } x y col

/-- The context after the pixel-loop body of `rasterize_triangle_smooth` ran for
one covered pixel: the loop works on `ctx->framebuffer` in place. -/
def rasterize_triangle_smooth_step (c : GLState) (x y : Int) (depth : ℚ) (sh : shaded_t) :
    GLState :=
  { c with framebuffer := rasterize_triangle_smooth_pixel c x y depth sh }

/-! ## Sequences of front-end calls -/

/-- A front-end call with its arguments. -/
inductive front_end_call where
  | glEnable (cap : Nat)
  | glDisable (cap : Nat)
  | glIsEnabled (cap : Nat)
  | glGetIntegerv (pname : Nat)
  | glGetFloatv (pname : Nat)
  | glGetBooleanv (pname : Nat)
  | glClear (mask : Nat)
  | glMatrixMode (mode : Nat)
  | glLoadIdentity
  | glPushMatrix
  | glPopMatrix
  | glOrtho (left right bottom top near far : ℚ)
  | glFrustum (left right bottom top near far : ℚ)
  | glTranslatef (x y z : ℚ)
  | glRotatef (angle x y z : ℚ)
  | glScalef (x y z : ℚ)
  | glMultMatrixf (m : Fin 16 → ℚ)
  | glLoadMatrixf (m : Fin 16 → ℚ)
  | glBegin (mode : Nat)
  | glEnd

/-- The libm, the rasterizer and the query tables the front end runs with. -/
structure Platform where
  lm : LibM
  rs : Rasterizer
  q : QueryTable

/-- The context a front-end call leaves. -/
def front_end_call.run (pf : Platform) (k : front_end_call) (c : GLState) : GLState :=
  match k with
  | .glEnable cap => MyTinyGL.glEnable c cap
  | .glDisable cap => MyTinyGL.glDisable c cap
  | .glIsEnabled cap => (MyTinyGL.glIsEnabled c cap).2
  | .glGetIntegerv pname => MyTinyGL.glGetIntegerv pf.q c pname
  | .glGetFloatv pname => MyTinyGL.glGetFloatv pf.q c pname
  | .glGetBooleanv pname => (MyTinyGL.glGetBooleanv pf.q c pname).2
  | .glClear mask => MyTinyGL.glClear c mask
  | .glMatrixMode mode => MyTinyGL.glMatrixMode c mode
  | .glLoadIdentity => MyTinyGL.glLoadIdentity c
  | .glPushMatrix => MyTinyGL.glPushMatrix c
  | .glPopMatrix => MyTinyGL.glPopMatrix c
  | .glOrtho l r b t n f => MyTinyGL.glOrtho c l r b t n f
  | .glFrustum l r b t n f => MyTinyGL.glFrustum c l r b t n f
  | .glTranslatef x y z => MyTinyGL.glTranslatef c x y z
  | .glRotatef a x y z => MyTinyGL.glRotatef pf.lm c a x y z
  | .glScalef x y z => MyTinyGL.glScalef c x y z
  | .glMultMatrixf m => MyTinyGL.glMultMatrixf c m
  | .glLoadMatrixf m => MyTinyGL.glLoadMatrixf c m
  | .glBegin mode => MyTinyGL.glBegin c mode
  | .glEnd => MyTinyGL.glEnd pf.rs c

/-- The context a sequence of front-end calls leaves. -/
def run_calls (pf : Platform) (calls : List front_end_call) (c : GLState) : GLState :=
  calls.foldl (fun c k => k.run pf c) c

/-- The error a call detects in context `c`: the code it latches when the latch
is clear. -/
def detected_error (pf : Platform) (k : front_end_call) (c : GLState) : Nat :=
  (k.run pf { c with error := GL_NO_ERROR }).error

/-- The first error detected by a sequence of calls started in context `c`,
`GL_NO_ERROR` when none is. -/
def first_error (pf : Platform) : List front_end_call → GLState → Nat
  | [], _ => GL_NO_ERROR
  | k :: ks, c =>
    if detected_error pf k c ≠ GL_NO_ERROR then detected_error pf k c
    else first_error pf ks (k.run pf c)

/-- The capabilities kept as a bit of `ctx->flags`. -/
def flag_cap (cap : Nat) : Prop :=
  cap = GL_DEPTH_TEST ∨ cap = GL_CULL_FACE ∨ cap = GL_BLEND ∨ cap = GL_TEXTURE_2D ∨
  cap = GL_LIGHTING ∨ cap = GL_FOG ∨ cap = GL_NORMALIZE ∨ cap = GL_COLOR_MATERIAL ∨
  cap = GL_ALPHA_TEST ∨ cap = GL_SCISSOR_TEST ∨ cap = GL_STENCIL_TEST

/-- The supported capabilities: the eleven flag capabilities and
`GL_LIGHT0 .. GL_LIGHT7`. -/
def supported_cap (cap : Nat) : Prop :=
  flag_cap cap ∨ (GL_LIGHT0 ≤ cap ∧ cap ≤ GL_LIGHT7)

instance (cap : Nat) : Decidable (flag_cap cap) := by
  unfold flag_cap; infer_instance

instance (cap : Nat) : Decidable (supported_cap cap) := by
  unfold supported_cap; infer_instance

/-- The stack array `current_matrix()` points into: `current_matrix()` is its
entry at index `current_stack_depth()`. -/
def current_stack (c : GLState) : Int → Fin 16 → ℚ :=
  if c.matrix_mode = GL_MODELVIEW then c.modelview_matrix
  else if c.matrix_mode = GL_PROJECTION then c.projection_matrix
  else if c.matrix_mode = GL_TEXTURE then c.texture_matrix
  else c.modelview_matrix

/-- A sequence of calls made between a `glPushMatrix` that left the selected
stack at depth index `d` and its `glPopMatrix`, with `n` nested pushes open:
the calls are matrix mutators and nested `glPushMatrix` / `glPopMatrix`, every
nested pop closes a nested push, every nested push finds the stack below its
last slot, and the sequence ends with no nested push open. -/
def balanced_mutations (d : Int) : Nat → List front_end_call → Bool
  | n, [] => decide (n = 0)
  | n, k :: ks =>
    match k with
    | .glPushMatrix => decide (d + n < MAX_MATRIX_STACK_DEPTH - 1) && balanced_mutations d (n + 1) ks
    | .glPopMatrix => decide (0 < n) && balanced_mutations d (n - 1) ks
    | .glLoadIdentity => balanced_mutations d n ks
    | .glLoadMatrixf _ => balanced_mutations d n ks
    | .glMultMatrixf _ => balanced_mutations d n ks
    | .glTranslatef _ _ _ => balanced_mutations d n ks
    | .glRotatef _ _ _ _ => balanced_mutations d n ks
    | .glScalef _ _ _ => balanced_mutations d n ks
    | .glOrtho _ _ _ _ _ _ => balanced_mutations d n ks
    | .glFrustum _ _ _ _ _ _ => balanced_mutations d n ks
    | _ => false

/-- A platform whose libm functions return 0, whose rasterizer draws nothing
and whose query tables are empty. -/
def test_platform : Platform :=
  { lm :=
      { cosf := fun _ => 0, sinf := fun _ => 0, sqrtf := fun _ => 0, powf := fun _ _ => 0
        expf := fun _ => 0, log2f := fun _ => 0 }
    rs :=
      { flush_points := fun c => (c.framebuffer, c.textures)
        flush_lines := fun c => (c.framebuffer, c.textures)
        flush_line_strip := fun c => (c.framebuffer, c.textures)
        flush_line_loop := fun c => (c.framebuffer, c.textures)
        flush_triangles := fun c => (c.framebuffer, c.textures)
        flush_triangle_strip := fun c => (c.framebuffer, c.textures)
        flush_triangle_fan := fun c => (c.framebuffer, c.textures)
        flush_quads := fun c => (c.framebuffer, c.textures)
        flush_quad_strip := fun c => (c.framebuffer, c.textures)
        flush_polygon := fun c => (c.framebuffer, c.textures) }
    q := { int_known := fun _ => false, int_value := fun _ _ => 0, float_known := fun _ => false } }

/-- The context `gl_create_context(4, 4)` returns when the allocator hands out
zeroed color and stencil planes and a depth plane of ones. -/
def test_context : GLState :=
  (gl_create_context (fun _ => 0) (fun _ => 1) (fun _ => 0) 4 4).get (by decide)

/-- The context of `test_context` after `glEnable(GL_DEPTH_TEST)`. -/
def depth_test_context : GLState :=
  { test_context with flags := FLAG_DEPTH_TEST }

/-- The context of `depth_test_context` after
`glColorMask(GL_FALSE, GL_FALSE, GL_FALSE, GL_FALSE)`. -/
def masked_test_context : GLState :=
  { depth_test_context with
    color_mask_r := false
    color_mask_g := false
    color_mask_b := false
    color_mask_a := false }

/-- The context `gl_create_context(2, 2)` returns when the color plane holds
the packed color `(0, 0, 0, 1)`, after `glEnable(GL_BLEND)` and
`glBlendFunc(GL_SRC_ALPHA, GL_ONE_MINUS_SRC_ALPHA)`. -/
def blend_test_context : GLState :=
  { (gl_create_context (fun _ => 0xFF000000) (fun _ => 1) (fun _ => 0) 2 2).get (by decide) with
    flags := FLAG_BLEND
    blend_src := GL_SRC_ALPHA
    blend_dst := GL_ONE_MINUS_SRC_ALPHA }



/-! ## lists.c: allocation of list names -/

abbrev GL_MAX_LISTS : Nat := 1024

/-- The loop of `find_free_range` from index `i` on, over the slots not yet
visited, with the running values of `consecutive` and `start`. -/
def find_free_range_loop (range : Int) : List display_list_t → Nat → Int → Int → Int
  | [], _, _, _ => -1
  | l :: rest, i, consecutive, start =>
    if !l.allocated then
      let start := if consecutive = 0 then (i : Int) else start
      let consecutive := consecutive + 1
      if consecutive ≥ range then start
      else find_free_range_loop range rest (i + 1) consecutive start
    else find_free_range_loop range rest (i + 1) 0 start

/-- The first index of a run of `range` free slots, or -1. -/
def find_free_range (store : list_store_t) (range : Int) : Int :=
  if store.lists.length = 0 then -1
  else find_free_range_loop range store.lists 0 0 (-1)

/-- The slot left by the assignments `commands = NULL`, `count = 0`,
`capacity = 0`, `valid = GL_FALSE`, `allocated = GL_TRUE`. -/
def display_list_fresh : display_list_t := { commands := [], valid := GL_FALSE, allocated := GL_TRUE }

/-- The first name allocated (0 on failure) and the store afterwards.
`grown` is the outcome of the block that grows the slot array: `true` when
the array has room or the allocator delivers.  The slots past `count` that the
second loop initializes join the list when `count` is raised. -/
def list_alloc_range (grown : Bool) (store : list_store_t) (range : Int) : Nat × list_store_t :=
  if range ≤ 0 then (0, store)
  else
    let free_start := find_free_range store range
    if free_start ≥ 0 then
      (int_to_uint32 (free_start + 1),
        { lists := for_range 0 range
            (fun i ls => ls.set (Int.toNat (free_start + i)) display_list_fresh) store.lists })
    else if (store.lists.length : Int) + range > GL_MAX_LISTS then (0, store)
    else if !grown then (0, store)
    else
      (to_uint32 (store.lists.length + 1),
        { lists := store.lists ++ List.replicate (Int.toNat range) display_list_fresh })

/-- The name returned and the context afterwards. -/
def glGenLists (grown : Bool) (c : GLState) (range : Int) : Nat × GLState :=
  if range < 0 then (0, gl_set_error c GL_INVALID_VALUE)
  else
    let r := list_alloc_range grown c.lists range
    (r.1, { c with lists := r.2 })

/-- A run of `n` free slots starts at index `j`. -/
def free_run (lists : List display_list_t) (n : Int) (j : Nat) : Prop :=
  ∀ k : Nat, (k : Int) < n → ∃ l, lists[j + k]? = some l ∧ l.allocated = false

/-- A store with three slots: list 1 allocated, lists 2 and 3 freed. -/
def alloc_test_store : list_store_t :=
  { lists := [⟨[], true, true⟩, ⟨[], false, false⟩, ⟨[], false, false⟩] }

/-! ## GL/gl.h: lighting, shading and blend-color constants -/

abbrev GL_CW : Nat := 0x0900
abbrev GL_FRONT : Nat := 0x0404
abbrev GL_FLAT : Nat := 0x1D00
abbrev GL_PHONG : Nat := 0x1D02
abbrev GL_AMBIENT : Nat := 0x1200
abbrev GL_DIFFUSE : Nat := 0x1201
abbrev GL_SPECULAR : Nat := 0x1202
abbrev GL_POSITION : Nat := 0x1203
abbrev GL_SPOT_DIRECTION : Nat := 0x1204
abbrev GL_SPOT_EXPONENT : Nat := 0x1205
abbrev GL_SPOT_CUTOFF : Nat := 0x1206
abbrev GL_CONSTANT_ATTENUATION : Nat := 0x1207
abbrev GL_LINEAR_ATTENUATION : Nat := 0x1208
abbrev GL_QUADRATIC_ATTENUATION : Nat := 0x1209
abbrev GL_EMISSION : Nat := 0x1600
abbrev GL_SHININESS : Nat := 0x1601
abbrev GL_CONSTANT_COLOR : Nat := 0x8001
abbrev GL_ONE_MINUS_CONSTANT_COLOR : Nat := 0x8002
abbrev GL_CONSTANT_ALPHA : Nat := 0x8003
abbrev GL_ONE_MINUS_CONSTANT_ALPHA : Nat := 0x8004

/-! ## graphics.h: vectors and the normal matrix -/

def vec3_add (a b : vec3_t) : vec3_t := ⟨a.x + b.x, a.y + b.y, a.z + b.z⟩

def vec3_sub (a b : vec3_t) : vec3_t := ⟨a.x - b.x, a.y - b.y, a.z - b.z⟩

def vec3_scale (v : vec3_t) (s : ℚ) : vec3_t := ⟨v.x * s, v.y * s, v.z * s⟩

def vec3_dot (a b : vec3_t) : ℚ := a.x * b.x + a.y * b.y + a.z * b.z

def vec3_length (lm : LibM) (v : vec3_t) : ℚ := lm.sqrtf (vec3_dot v v)

def vec3_normalize (lm : LibM) (v : vec3_t) : vec3_t :=
  let len := vec3_length lm v
  if len > 0 then vec3_scale v (1 / len) else v

def color_scale (c : color_t) (s : ℚ) : color_t := ⟨c.r * s, c.g * s, c.b * s, c.a * s⟩

def mat4_normal_matrix (m : mat4_t) : mat4_t :=
  let a := m 0
  let b := m 1
  let c := m 2
  let d := m 4
  let e := m 5
  let f := m 6
  let g := m 8
  let h := m 9
  let i := m 10
  let det := a * (e * i - f * h) - b * (d * i - f * g) + c * (d * h - e * g)
  if |det| < 1 / 10 ^ 10 then mat4_identity
  else
    let inv_det := 1 / det
    ![(e * i - f * h) * inv_det, (d * i - f * g) * -inv_det, (d * h - e * g) * inv_det, 0,
      (b * i - c * h) * -inv_det, (a * i - c * g) * inv_det, (a * h - b * g) * -inv_det, 0,
      (b * f - c * e) * inv_det, (a * f - c * d) * -inv_det, (a * e - b * d) * inv_det, 0,
      0, 0, 0, 1]

/-! ## lighting.h -/

/-- The direction `L` to the light and the attenuation that the loop body of
`compute_lighting` computes for one enabled light. -/
def light_direction (lm : LibM) (light : light_t) (eye_pos : vec3_t) : vec3_t × ℚ :=
  if light.position.w = 0 then
    (vec3_normalize lm (vec3 light.position.x light.position.y light.position.z), 1)
  else
    let light_pos := vec3 light.position.x light.position.y light.position.z
    let to_light := vec3_sub light_pos eye_pos
    let dist := vec3_length lm to_light
    let dist := if dist < 1 / 10 ^ 6 then 1 / 10 ^ 6 else dist
    let L := vec3_scale to_light (1 / dist)
    let atten_denom := light.constant_attenuation + light.linear_attenuation * dist
      + light.quadratic_attenuation * dist * dist
    let atten_denom := if atten_denom < 1 / 10 ^ 6 then 1 / 10 ^ 6 else atten_denom
    let attenuation := 1 / atten_denom
    let attenuation :=
      if light.spot_cutoff < 180 then
        let spot_dir := vec3_normalize lm light.spot_direction
        let cos_angle := -vec3_dot L spot_dir
        let cos_cutoff := lm.cosf (light.spot_cutoff * (314159265 / 100000000) / 180)
        if cos_angle < cos_cutoff then 0
        else attenuation * lm.powf cos_angle light.spot_exponent
      else attenuation
    (L, attenuation)

/-- One iteration of the loop over the lights in `compute_lighting`: `result`
after light `i` was processed. -/
def compute_lighting_light (lm : LibM) (c : GLState) (eye_pos N : vec3_t) (mat : material_t)
    (result : color_t) (i : Nat) : color_t :=
  if !(c.lights i).enabled then result
  else
    let light := c.lights i
    let L := (light_direction lm light eye_pos).1
    let attenuation := (light_direction lm light eye_pos).2
    if attenuation ≤ 0 then result
    else
      let result := color_add result (color_scale (color_mul mat.ambient light.ambient) attenuation)
      let NdotL := vec3_dot N L
      if NdotL > 0 then
        let result := color_add result
          (color_scale (color_mul mat.diffuse light.diffuse) (attenuation * NdotL))
        if mat.shininess > 0 then
          let V :=
            if c.light_model_local_viewer then vec3_normalize lm (vec3_scale eye_pos (-1))
            else vec3 0 0 1
          let H := vec3_normalize lm (vec3_add L V)
          let NdotH := vec3_dot N H
          if NdotH > 0 then
            let spec := lm.powf NdotH mat.shininess * attenuation
            color_add result (color_scale (color_mul mat.specular light.specular) spec)
          else result
        else result
      else result

def compute_lighting (lm : LibM) (c : GLState) (eye_pos eye_normal : vec3_t) (mat : material_t) :
    color_t :=
  let result := color_add mat.emission (color_mul mat.ambient c.light_model_ambient)
  let result := { result with a := mat.diffuse.a }
  let N := if c.flags &&& FLAG_NORMALIZE ≠ 0 then vec3_normalize lm eye_normal else eye_normal
  let result := (List.range MAX_LIGHTS).foldl (compute_lighting_light lm c eye_pos N mat) result
  color_clamp result

/-! ## raster.c, gl_api.c: vertex specification -/

def transform_vertex (c : GLState) (x y z w : ℚ) : vec4_t :=
  let v := vec4 x y z w
  let mv := mat4_from_array (c.modelview_matrix c.modelview_stack_depth)
  let proj := mat4_from_array (c.projection_matrix c.projection_stack_depth)
  let v := mat4_mul_vec4 mv v
  mat4_mul_vec4 proj v

/-- The material a face has after the color-material block of `emit_vertex`
assigned the clamped current color to the properties selected by
`color_material_mode`. -/
def color_material_apply (mode : Nat) (clamped_color : color_t) (m : material_t) : material_t :=
  let m := if mode = GL_AMBIENT ∨ mode = GL_AMBIENT_AND_DIFFUSE then
    { m with ambient := clamped_color } else m
  let m := if mode = GL_DIFFUSE ∨ mode = GL_AMBIENT_AND_DIFFUSE then
    { m with diffuse := clamped_color } else m
  let m := if mode = GL_SPECULAR then { m with specular := clamped_color } else m
  let m := if mode = GL_EMISSION then { m with emission := clamped_color } else m
  m

/-- The front and back materials after the color-material block of
`emit_vertex`. -/
def emit_vertex_materials (c : GLState) : material_t × material_t :=
  if c.flags &&& FLAG_LIGHTING ≠ 0 ∧ c.flags &&& FLAG_COLOR_MATERIAL ≠ 0 then
    let mode := c.color_material_mode
    let face := c.color_material_face
    let clamped_color := color_clamp c.current_color
    (if face = GL_FRONT ∨ face = GL_FRONT_AND_BACK then
        color_material_apply mode clamped_color c.material_front else c.material_front,
      if face = GL_BACK ∨ face = GL_FRONT_AND_BACK then
        color_material_apply mode clamped_color c.material_back else c.material_back)
  else (c.material_front, c.material_back)

/-- The vertex `emit_vertex` builds, computed in the context `c` in which the
color-material block has already run. -/
def emit_vertex_build (lm : LibM) (c : GLState) (x y z w : ℚ) : vertex_t :=
  let v := vec4 x y z w
  let mv := mat4_from_array (c.modelview_matrix c.modelview_stack_depth)
  let eye := mat4_mul_vec4 mv v
  let eye_z := -eye.z
  let eye_pos := vec3 eye.x eye.y eye.z
  let obj_normal := c.current_normal
  let normal_mat := mat4_normal_matrix mv
  let n4 := mat4_mul_vec4 normal_mat (vec4 obj_normal.x obj_normal.y obj_normal.z 0)
  let eye_normal := vec3 n4.x n4.y n4.z
  let eye_normal := vec3_normalize lm eye_normal
  let vert_color := c.current_color
  let vert_color :=
    if c.flags &&& FLAG_LIGHTING ≠ 0 ∧ c.shade_model ≠ GL_PHONG then
      compute_lighting lm c eye_pos eye_normal c.material_front
    else vert_color
  let pos := transform_vertex c x y z w
  let texcoord := c.current_texcoord
  let tex_mat := mat4_from_array (c.texture_matrix c.texture_stack_depth)
  let tex4 := mat4_mul_vec4 tex_mat (vec4 texcoord.x texcoord.y 0 1)
  let texcoord :=
    if tex4.w ≠ 0 ∧ tex4.w ≠ 1 then vec2 (tex4.x / tex4.w) (tex4.y / tex4.w)
    else vec2 tex4.x tex4.y
  { position := pos, color := vert_color, texcoord := texcoord, normal := obj_normal,
    eye_z := eye_z, eye_pos := eye_pos, eye_normal := eye_normal }

def emit_vertex (lm : LibM) (c : GLState) (x y z w : ℚ) : GLState :=
  let c := { c with material_front := (emit_vertex_materials c).1,
                    material_back := (emit_vertex_materials c).2 }
  vertex_buffer_push c (emit_vertex_build lm c x y z w)

def list_record_vertex (c : GLState) (x y z : ℚ) : GLState × Bool :=
  list_record c (.CMD_VERTEX x y z)

def list_record_color (c : GLState) (r g b a : ℚ) : GLState × Bool :=
  list_record c (.CMD_COLOR r g b a)

def list_record_texcoord (c : GLState) (s t : ℚ) : GLState × Bool :=
  list_record c (.CMD_TEXCOORD s t)

def list_record_normal (c : GLState) (x y z : ℚ) : GLState × Bool :=
  list_record c (.CMD_NORMAL x y z)

def glVertex2f (lm : LibM) (c : GLState) (x y : ℚ) : GLState :=
  unless_recorded (list_record_vertex c x y 0) fun c => emit_vertex lm c x y 0 1

def glVertex3f (lm : LibM) (c : GLState) (x y z : ℚ) : GLState :=
  unless_recorded (list_record_vertex c x y z) fun c => emit_vertex lm c x y z 1

/-- Every rational is a finite float: `!isnan(f) && !isinf(f)`. -/
def is_valid_float (_f : ℚ) : Bool := true

/-- The statement `if (v < 0.0f) v = 0.0f; else if (v > 1.0f) v = 1.0f;`. -/
def clamp_unit (v : ℚ) : ℚ := if v < 0 then 0 else if v > 1 then 1 else v

def glColor3f (c : GLState) (r g b : ℚ) : GLState :=
  let r := if !is_valid_float r then 0 else r
  let g := if !is_valid_float g then 0 else g
  let b := if !is_valid_float b then 0 else b
  let r := clamp_unit r
  let g := clamp_unit g
  let b := clamp_unit b
  unless_recorded (list_record_color c r g b 1) fun c =>
    { c with current_color := color r g b 1 }

def glColor4f (c : GLState) (r g b a : ℚ) : GLState :=
  let r := if !is_valid_float r then 0 else r
  let g := if !is_valid_float g then 0 else g
  let b := if !is_valid_float b then 0 else b
  let a := if !is_valid_float a then 1 else a
  let r := clamp_unit r
  let g := clamp_unit g
  let b := clamp_unit b
  let a := clamp_unit a
  unless_recorded (list_record_color c r g b a) fun c =>
    { c with current_color := color r g b a }

/-- The arguments are of type `GLubyte`. -/
def glColor3ub (c : GLState) (r g b : Nat) : GLState :=
  let rf := ((r % 256 : Nat) : ℚ) / 255
  let gf := ((g % 256 : Nat) : ℚ) / 255
  let bf := ((b % 256 : Nat) : ℚ) / 255
  unless_recorded (list_record_color c rf gf bf 1) fun c =>
    { c with current_color := color rf gf bf 1 }

def glColor4ub (c : GLState) (r g b a : Nat) : GLState :=
  let rf := ((r % 256 : Nat) : ℚ) / 255
  let gf := ((g % 256 : Nat) : ℚ) / 255
  let bf := ((b % 256 : Nat) : ℚ) / 255
  let af := ((a % 256 : Nat) : ℚ) / 255
  unless_recorded (list_record_color c rf gf bf af) fun c =>
    { c with current_color := color rf gf bf af }

def glTexCoord2f (c : GLState) (s t : ℚ) : GLState :=
  unless_recorded (list_record_texcoord c s t) fun c =>
    { c with current_texcoord := vec2 s t }

def glNormal3f (c : GLState) (nx ny nz : ℚ) : GLState :=
  unless_recorded (list_record_normal c nx ny nz) fun c =>
    { c with current_normal := vec3 nx ny nz }

/-! ## gl_api.c: recordable state setters -/

def list_record_bind_texture (c : GLState) (target texture : Nat) : GLState × Bool :=
  list_record c (.CMD_BIND_TEXTURE target texture)

def list_record_blend_func (c : GLState) (sfactor dfactor : Nat) : GLState × Bool :=
  list_record c (.CMD_BLEND_FUNC sfactor dfactor)

def list_record_depth_func (c : GLState) (func : Nat) : GLState × Bool :=
  list_record c (.CMD_DEPTH_FUNC func)

def list_record_depth_mask (c : GLState) (flag : Bool) : GLState × Bool :=
  list_record c (.CMD_DEPTH_MASK flag)

def list_record_cull_face (c : GLState) (mode : Nat) : GLState × Bool :=
  list_record c (.CMD_CULL_FACE mode)

def list_record_front_face (c : GLState) (mode : Nat) : GLState × Bool :=
  list_record c (.CMD_FRONT_FACE mode)

def list_record_shade_model (c : GLState) (mode : Nat) : GLState × Bool :=
  list_record c (.CMD_SHADE_MODEL mode)

def list_record_lightf (c : GLState) (light pname : Nat) (param : ℚ) : GLState × Bool :=
  list_record c (.CMD_LIGHTF light pname param)

def list_record_lightfv (c : GLState) (light pname : Nat) (params : Fin 4 → ℚ) :
    GLState × Bool :=
  list_record c (.CMD_LIGHTFV light pname params)

def list_record_materialf (c : GLState) (face pname : Nat) (param : ℚ) : GLState × Bool :=
  list_record c (.CMD_MATERIALF face pname param)

def list_record_materialfv (c : GLState) (face pname : Nat) (params : Fin 4 → ℚ) :
    GLState × Bool :=
  list_record c (.CMD_MATERIALFV face pname params)

def list_record_call_list (c : GLState) (list : Nat) : GLState × Bool :=
  list_record c (.CMD_CALL_LIST list)

def glBindTexture (c : GLState) (target texture : Nat) : GLState :=
  unless_recorded (list_record_bind_texture c target texture) fun c =>
    if target ≠ GL_TEXTURE_2D then gl_set_error c GL_INVALID_ENUM
    else { c with bound_texture_2d := texture }

def is_valid_blend_factor (factor : Nat) (is_src : Bool) : Bool :=
  if factor = GL_ZERO ∨ factor = GL_ONE ∨ factor = GL_SRC_COLOR
      ∨ factor = GL_ONE_MINUS_SRC_COLOR ∨ factor = GL_DST_COLOR
      ∨ factor = GL_ONE_MINUS_DST_COLOR ∨ factor = GL_SRC_ALPHA
      ∨ factor = GL_ONE_MINUS_SRC_ALPHA ∨ factor = GL_DST_ALPHA
      ∨ factor = GL_ONE_MINUS_DST_ALPHA ∨ factor = GL_CONSTANT_COLOR
      ∨ factor = GL_ONE_MINUS_CONSTANT_COLOR ∨ factor = GL_CONSTANT_ALPHA
      ∨ factor = GL_ONE_MINUS_CONSTANT_ALPHA then true
  else if factor = GL_SRC_ALPHA_SATURATE then is_src
  else false

def glBlendFunc (c : GLState) (sfactor dfactor : Nat) : GLState :=
  unless_recorded (list_record_blend_func c sfactor dfactor) fun c =>
    if !is_valid_blend_factor sfactor true || !is_valid_blend_factor dfactor false then
      gl_set_error c GL_INVALID_ENUM
    else { c with blend_src := sfactor, blend_dst := dfactor }

def glCullFace (c : GLState) (mode : Nat) : GLState :=
  unless_recorded (list_record_cull_face c mode) fun c =>
    if mode ≠ GL_FRONT ∧ mode ≠ GL_BACK ∧ mode ≠ GL_FRONT_AND_BACK then
      gl_set_error c GL_INVALID_ENUM
    else { c with cull_face_mode := mode }

def glFrontFace (c : GLState) (mode : Nat) : GLState :=
  unless_recorded (list_record_front_face c mode) fun c =>
    if mode ≠ GL_CW ∧ mode ≠ GL_CCW then gl_set_error c GL_INVALID_ENUM
    else { c with front_face := mode }

def glDepthFunc (c : GLState) (func : Nat) : GLState :=
  unless_recorded (list_record_depth_func c func) fun c =>
    if func < GL_NEVER ∨ func > GL_ALWAYS then gl_set_error c GL_INVALID_ENUM
    else { c with depth_func := func }

def glDepthMask (c : GLState) (flag : Bool) : GLState :=
  unless_recorded (list_record_depth_mask c flag) fun c =>
    { c with depth_mask := flag }

def glShadeModel (c : GLState) (mode : Nat) : GLState :=
  unless_recorded (list_record_shade_model c mode) fun c =>
    if mode ≠ GL_FLAT ∧ mode ≠ GL_SMOOTH ∧ mode ≠ GL_PHONG then gl_set_error c GL_INVALID_ENUM
    else { c with shade_model := mode }

/-! ## gl_api.c: lights and materials -/

/-- The light `l` after the `switch (pname)` of `glLightfv`, `mv` being the
current modelview matrix. -/
def light_set (mv : mat4_t) (l : light_t) (pname : Nat) (params : Fin 4 → ℚ) : light_t :=
  if pname = GL_AMBIENT then
    { l with ambient := color (params 0) (params 1) (params 2) (params 3) }
  else if pname = GL_DIFFUSE then
    { l with diffuse := color (params 0) (params 1) (params 2) (params 3) }
  else if pname = GL_SPECULAR then
    { l with specular := color (params 0) (params 1) (params 2) (params 3) }
  else if pname = GL_POSITION then
    { l with position := mat4_mul_vec4 mv (vec4 (params 0) (params 1) (params 2) (params 3)) }
  else if pname = GL_SPOT_DIRECTION then
    let dir := mat4_mul_vec4 mv (vec4 (params 0) (params 1) (params 2) 0)
    { l with spot_direction := vec3 dir.x dir.y dir.z }
  else if pname = GL_SPOT_EXPONENT then { l with spot_exponent := params 0 }
  else if pname = GL_SPOT_CUTOFF then { l with spot_cutoff := params 0 }
  else if pname = GL_CONSTANT_ATTENUATION then { l with constant_attenuation := params 0 }
  else if pname = GL_LINEAR_ATTENUATION then { l with linear_attenuation := params 0 }
  else if pname = GL_QUADRATIC_ATTENUATION then { l with quadratic_attenuation := params 0 }
  else l

def glLightfv (c : GLState) (light pname : Nat) (params : Fin 4 → ℚ) : GLState :=
  unless_recorded (list_record_lightfv c light pname params) fun c =>
    if light < GL_LIGHT0 ∨ light > GL_LIGHT7 then gl_set_error c GL_INVALID_ENUM
    else
      let idx := light - GL_LIGHT0
      let mv := mat4_from_array (c.modelview_matrix c.modelview_stack_depth)
      { c with lights := Function.update c.lights idx (light_set mv (c.lights idx) pname params) }

def glLightf (c : GLState) (light pname : Nat) (param : ℚ) : GLState :=
  unless_recorded (list_record_lightf c light pname param) fun c =>
    glLightfv c light pname (fun _ => param)

/-- The material `m` after the `switch (pname)` of `glMaterialfv` for a face
the call selects; `none` in the default case. -/
def material_set (m : material_t) (pname : Nat) (params : Fin 4 → ℚ) : Option material_t :=
  let col := color (params 0) (params 1) (params 2) (params 3)
  if pname = GL_AMBIENT then some { m with ambient := col }
  else if pname = GL_DIFFUSE then some { m with diffuse := col }
  else if pname = GL_SPECULAR then some { m with specular := col }
  else if pname = GL_EMISSION then some { m with emission := col }
  else if pname = GL_SHININESS then some { m with shininess := params 0 }
  else if pname = GL_AMBIENT_AND_DIFFUSE then some { m with ambient := col, diffuse := col }
  else none

def glMaterialfv (c : GLState) (face pname : Nat) (params : Fin 4 → ℚ) : GLState :=
  unless_recorded (list_record_materialfv c face pname params) fun c =>
    if face ≠ GL_FRONT ∧ face ≠ GL_BACK ∧ face ≠ GL_FRONT_AND_BACK then
      gl_set_error c GL_INVALID_ENUM
    else
      match material_set c.material_front pname params, material_set c.material_back pname params
      with
      | some front, some back =>
        { c with
          material_front :=
            if face = GL_FRONT ∨ face = GL_FRONT_AND_BACK then front else c.material_front
          material_back :=
            if face = GL_BACK ∨ face = GL_FRONT_AND_BACK then back else c.material_back }
      | _, _ => gl_set_error c GL_INVALID_ENUM

def glMaterialf (c : GLState) (face pname : Nat) (param : ℚ) : GLState :=
  unless_recorded (list_record_materialf c face pname param) fun c =>
    glMaterialfv c face pname (fun _ => param)

/-! ## gl_api.c: display lists -/

/-- The `switch (cmd->opcode)` of `execute_list`; `call` is `glCallList`. -/
def execute_command (pf : Platform) (call : GLState → Nat → Option GLState) (c : GLState) :
    list_command_t → Option GLState
  | .CMD_BEGIN mode => some (glBegin c mode)
  | .CMD_END => some (glEnd pf.rs c)
  | .CMD_VERTEX x y z => some (glVertex3f pf.lm c x y z)
  | .CMD_COLOR r g b a => some (glColor4f c r g b a)
  | .CMD_TEXCOORD s t => some (glTexCoord2f c s t)
  | .CMD_NORMAL x y z => some (glNormal3f c x y z)
  | .CMD_TRANSLATEF x y z => some (glTranslatef c x y z)
  | .CMD_ROTATEF angle x y z => some (glRotatef pf.lm c angle x y z)
  | .CMD_SCALEF x y z => some (glScalef c x y z)
  | .CMD_PUSH_MATRIX => some (glPushMatrix c)
  | .CMD_POP_MATRIX => some (glPopMatrix c)
  | .CMD_LOAD_IDENTITY => some (glLoadIdentity c)
  | .CMD_MULT_MATRIXF m => some (glMultMatrixf c m)
  | .CMD_LOAD_MATRIXF m => some (glLoadMatrixf c m)
  | .CMD_MATRIX_MODE mode => some (glMatrixMode c mode)
  | .CMD_ENABLE cap => some (glEnable c cap)
  | .CMD_DISABLE cap => some (glDisable c cap)
  | .CMD_BIND_TEXTURE target texture => some (glBindTexture c target texture)
  | .CMD_BLEND_FUNC sfactor dfactor => some (glBlendFunc c sfactor dfactor)
  | .CMD_DEPTH_FUNC func => some (glDepthFunc c func)
  | .CMD_DEPTH_MASK flag => some (glDepthMask c flag)
  | .CMD_CULL_FACE mode => some (glCullFace c mode)
  | .CMD_FRONT_FACE mode => some (glFrontFace c mode)
  | .CMD_SHADE_MODEL mode => some (glShadeModel c mode)
  | .CMD_LIGHTF light pname param => some (glLightf c light pname param)
  | .CMD_LIGHTFV light pname params => some (glLightfv c light pname params)
  | .CMD_MATERIALF face pname param => some (glMaterialf c face pname param)
  | .CMD_MATERIALFV face pname params => some (glMaterialfv c face pname params)
  | .CMD_CALL_LIST list => call c list
  | .CMD_ORTHO l r b t n f => some (glOrtho c l r b t n f)
  | .CMD_FRUSTUM l r b t n f => some (glFrustum c l r b t n f)

/-- The commands of a valid list are executed in order; `none` when a nested
`glCallList` does not return.  The loop reads `list->count` and
`list->commands[i]` at each iteration: recording appends only to the list
named by `list_index`, which `glNewList` marked not valid and which is not
the list executed, so the loop runs over the commands the list holds on
entry. -/
def execute_list (pf : Platform) (call : GLState → Nat → Option GLState) (c : GLState)
    (list_id : Nat) : Option GLState :=
  match list_get c.lists list_id with
  | none => some c
  | some list =>
    if !list.valid then some c
    else list.commands.foldlM (execute_command pf call) c

/-- The context `glCallList(list)` leaves; the recursion through
`execute_list` is cut after `fuel` nested calls, with `none` for a call that
has not returned by then. -/
def glCallList (pf : Platform) : Nat → GLState → Nat → Option GLState
  | 0 => fun _ _ => none
  | fuel + 1 => fun c list =>
    let r := list_record_call_list c list
    if r.2 then some r.1
    else
      let c := r.1
      if c.list_call_depth ≥ MAX_LIST_CALL_DEPTH then some (gl_set_error c GL_STACK_OVERFLOW)
      else
        let c := { c with list_call_depth := to_uint32 (c.list_call_depth + 1) }
        match execute_list pf (glCallList pf fuel) c list with
        | none => none
        | some c => some { c with list_call_depth := to_uint32 (c.list_call_depth + (2 ^ 32 - 1)) }

/-- A recordable front-end call with its arguments. -/
inductive recordable_call where
  | glEnable (cap : Nat)
  | glDisable (cap : Nat)
  | glMatrixMode (mode : Nat)
  | glLoadIdentity
  | glPushMatrix
  | glPopMatrix
  | glOrtho (left right bottom top near far : ℚ)
  | glFrustum (left right bottom top near far : ℚ)
  | glTranslatef (x y z : ℚ)
  | glRotatef (angle x y z : ℚ)
  | glScalef (x y z : ℚ)
  | glMultMatrixf (m : Fin 16 → ℚ)
  | glLoadMatrixf (m : Fin 16 → ℚ)
  | glBegin (mode : Nat)
  | glEnd
  | glVertex2f (x y : ℚ)
  | glVertex3f (x y z : ℚ)
  | glColor3f (r g b : ℚ)
  | glColor4f (r g b a : ℚ)
  | glColor3ub (r g b : Nat)
  | glColor4ub (r g b a : Nat)
  | glTexCoord2f (s t : ℚ)
  | glNormal3f (nx ny nz : ℚ)
  | glBindTexture (target texture : Nat)
  | glBlendFunc (sfactor dfactor : Nat)
  | glCullFace (mode : Nat)
  | glFrontFace (mode : Nat)
  | glDepthFunc (func : Nat)
  | glDepthMask (flag : Bool)
  | glShadeModel (mode : Nat)
  | glLightfv (light pname : Nat) (params : Fin 4 → ℚ)
  | glLightf (light pname : Nat) (param : ℚ)
  | glMaterialfv (face pname : Nat) (params : Fin 4 → ℚ)
  | glMaterialf (face pname : Nat) (param : ℚ)
  | glCallList (list : Nat)

/-- The context a recordable call leaves, `none` for a `glCallList` that has
not returned after `fuel` nested calls. -/
def recordable_call.run (pf : Platform) (fuel : Nat) (k : recordable_call) (c : GLState) :
    Option GLState :=
  match k with
  | .glEnable cap => some (MyTinyGL.glEnable c cap)
  | .glDisable cap => some (MyTinyGL.glDisable c cap)
  | .glMatrixMode mode => some (MyTinyGL.glMatrixMode c mode)
  | .glLoadIdentity => some (MyTinyGL.glLoadIdentity c)
  | .glPushMatrix => some (MyTinyGL.glPushMatrix c)
  | .glPopMatrix => some (MyTinyGL.glPopMatrix c)
  | .glOrtho l r b t n f => some (MyTinyGL.glOrtho c l r b t n f)
  | .glFrustum l r b t n f => some (MyTinyGL.glFrustum c l r b t n f)
  | .glTranslatef x y z => some (MyTinyGL.glTranslatef c x y z)
  | .glRotatef a x y z => some (MyTinyGL.glRotatef pf.lm c a x y z)
  | .glScalef x y z => some (MyTinyGL.glScalef c x y z)
  | .glMultMatrixf m => some (MyTinyGL.glMultMatrixf c m)
  | .glLoadMatrixf m => some (MyTinyGL.glLoadMatrixf c m)
  | .glBegin mode => some (MyTinyGL.glBegin c mode)
  | .glEnd => some (MyTinyGL.glEnd pf.rs c)
  | .glVertex2f x y => some (MyTinyGL.glVertex2f pf.lm c x y)
  | .glVertex3f x y z => some (MyTinyGL.glVertex3f pf.lm c x y z)
  | .glColor3f r g b => some (MyTinyGL.glColor3f c r g b)
  | .glColor4f r g b a => some (MyTinyGL.glColor4f c r g b a)
  | .glColor3ub r g b => some (MyTinyGL.glColor3ub c r g b)
  | .glColor4ub r g b a => some (MyTinyGL.glColor4ub c r g b a)
  | .glTexCoord2f s t => some (MyTinyGL.glTexCoord2f c s t)
  | .glNormal3f nx ny nz => some (MyTinyGL.glNormal3f c nx ny nz)
  | .glBindTexture target texture => some (MyTinyGL.glBindTexture c target texture)
  | .glBlendFunc sfactor dfactor => some (MyTinyGL.glBlendFunc c sfactor dfactor)
  | .glCullFace mode => some (MyTinyGL.glCullFace c mode)
  | .glFrontFace mode => some (MyTinyGL.glFrontFace c mode)
  | .glDepthFunc func => some (MyTinyGL.glDepthFunc c func)
  | .glDepthMask flag => some (MyTinyGL.glDepthMask c flag)
  | .glShadeModel mode => some (MyTinyGL.glShadeModel c mode)
  | .glLightfv light pname params => some (MyTinyGL.glLightfv c light pname params)
  | .glLightf light pname param => some (MyTinyGL.glLightf c light pname param)
  | .glMaterialfv face pname params => some (MyTinyGL.glMaterialfv c face pname params)
  | .glMaterialf face pname param => some (MyTinyGL.glMaterialf c face pname param)
  | .glCallList list => MyTinyGL.glCallList pf fuel c list

/-- The command entry a recordable call hands to `record_cmd`. -/
def recordable_call.command : recordable_call → list_command_t
  | .glEnable cap => .CMD_ENABLE cap
  | .glDisable cap => .CMD_DISABLE cap
  | .glMatrixMode mode => .CMD_MATRIX_MODE mode
  | .glLoadIdentity => .CMD_LOAD_IDENTITY
  | .glPushMatrix => .CMD_PUSH_MATRIX
  | .glPopMatrix => .CMD_POP_MATRIX
  | .glOrtho l r b t n f => .CMD_ORTHO l r b t n f
  | .glFrustum l r b t n f => .CMD_FRUSTUM l r b t n f
  | .glTranslatef x y z => .CMD_TRANSLATEF x y z
  | .glRotatef a x y z => .CMD_ROTATEF a x y z
  | .glScalef x y z => .CMD_SCALEF x y z
  | .glMultMatrixf m => .CMD_MULT_MATRIXF m
  | .glLoadMatrixf m => .CMD_LOAD_MATRIXF m
  | .glBegin mode => .CMD_BEGIN mode
  | .glEnd => .CMD_END
  | .glVertex2f x y => .CMD_VERTEX x y 0
  | .glVertex3f x y z => .CMD_VERTEX x y z
  | .glColor3f r g b => .CMD_COLOR (clamp_unit r) (clamp_unit g) (clamp_unit b) 1
  | .glColor4f r g b a => .CMD_COLOR (clamp_unit r) (clamp_unit g) (clamp_unit b) (clamp_unit a)
  | .glColor3ub r g b =>
    .CMD_COLOR (((r % 256 : Nat) : ℚ) / 255) (((g % 256 : Nat) : ℚ) / 255)
      (((b % 256 : Nat) : ℚ) / 255) 1
  | .glColor4ub r g b a =>
    .CMD_COLOR (((r % 256 : Nat) : ℚ) / 255) (((g % 256 : Nat) : ℚ) / 255)
      (((b % 256 : Nat) : ℚ) / 255) (((a % 256 : Nat) : ℚ) / 255)
  | .glTexCoord2f s t => .CMD_TEXCOORD s t
  | .glNormal3f nx ny nz => .CMD_NORMAL nx ny nz
  | .glBindTexture target texture => .CMD_BIND_TEXTURE target texture
  | .glBlendFunc sfactor dfactor => .CMD_BLEND_FUNC sfactor dfactor
  | .glCullFace mode => .CMD_CULL_FACE mode
  | .glFrontFace mode => .CMD_FRONT_FACE mode
  | .glDepthFunc func => .CMD_DEPTH_FUNC func
  | .glDepthMask flag => .CMD_DEPTH_MASK flag
  | .glShadeModel mode => .CMD_SHADE_MODEL mode
  | .glLightfv light pname params => .CMD_LIGHTFV light pname params
  | .glLightf light pname param => .CMD_LIGHTF light pname param
  | .glMaterialfv face pname params => .CMD_MATERIALFV face pname params
  | .glMaterialf face pname param => .CMD_MATERIALF face pname param
  | .glCallList list => .CMD_CALL_LIST list

/-- The context `c` with another display-list state. -/
def with_list_state (c : GLState) (lists : list_store_t) (index mode depth : Nat) : GLState :=
  { c with lists := lists, list_index := index, list_mode := mode, list_call_depth := depth }

/-- The context of `test_context` with two lists, list 1 valid and holding
`glEnable(GL_BLEND)`, list 2 allocated, after
`glNewList(2, GL_COMPILE_AND_EXECUTE)`. -/
def recording_test_context : GLState :=
  { test_context with
    lists := { lists := [{ commands := [.CMD_ENABLE GL_BLEND], valid := true, allocated := true },
                         { commands := [], valid := false, allocated := true }] }
    list_index := 2
    list_mode := GL_COMPILE_AND_EXECUTE }

/-! ## gl_api.c: pixel transfer -/

abbrev GL_UNSIGNED_BYTE : Nat := 0x1401
abbrev GL_RGB : Nat := 0x1907
abbrev GL_RGBA : Nat := 0x1908
abbrev GL_LUMINANCE : Nat := 0x1909
abbrev GL_LUMINANCE_ALPHA : Nat := 0x190A

/-- The call `memset(p + start, 0, len)` on a byte array. -/
def memset_zero (p : Nat → Nat) (start len : Int) : Nat → Nat :=
  fun i => if Int.toNat start ≤ i ∧ i < Int.toNat start + Int.toNat len then 0 else p i

/-- The body of the column loop of `glReadPixels`, at row `row` of the
rectangle, which is row `fb_y` of the framebuffer. -/
def glReadPixels_pixel (fb : framebuffer_t) (x width : Int) (format : Nat)
    (row fb_y col : Int) (dst : Nat → Nat) : Nat → Nat :=
  let src_x := x + col
  let p : Nat × Nat × Nat × Nat :=
    if src_x ≥ 0 ∧ src_x < fb.width then
      glReadPixels_unpack (fb.color (Int.toNat (fb_y * fb.width + src_x)))
    else (0, 0, 0, 255)
  if format = GL_RGBA then
    let idx := Int.toNat ((row * width + col) * 4)
    let dst := Function.update dst (idx + 0) p.1
    let dst := Function.update dst (idx + 1) p.2.1
    let dst := Function.update dst (idx + 2) p.2.2.1
    Function.update dst (idx + 3) p.2.2.2
  else if format = GL_RGB then
    let idx := Int.toNat ((row * width + col) * 3)
    let dst := Function.update dst (idx + 0) p.1
    let dst := Function.update dst (idx + 1) p.2.1
    Function.update dst (idx + 2) p.2.2.1
  else dst

/-- The body of the row loop of `glReadPixels`. -/
def glReadPixels_row (fb : framebuffer_t) (x y width : Int) (format : Nat) (row : Int)
    (dst : Nat → Nat) : Nat → Nat :=
  let src_y := y + row
  let fb_y := fb.height - 1 - src_y
  if fb_y < 0 ∨ fb_y ≥ fb.height then
    if format = GL_RGBA then memset_zero dst (row * width * 4) (width * 4)
    else if format = GL_RGB then memset_zero dst (row * width * 3) (width * 3)
    else dst
  else
    for_range 0 width (fun col dst =>
      glReadPixels_pixel fb x width format row fb_y col dst) dst

/-- The buffer `pixels` after `glReadPixels`, `none` standing for the null
pointer. The context is left as it is. The index arithmetic is that of C on a
framebuffer of at most `MYTGL_MAX_FRAMEBUFFER_DIM` pixels a side, where it does
not overflow. -/
def glReadPixels (c : GLState) (x y width height : Int) (format type : Nat)
    (pixels : Option (Nat → Nat)) : Option (Nat → Nat) :=
  match pixels with
  | none => none
  | some dst =>
    if type ≠ GL_UNSIGNED_BYTE then some dst
    else some (for_range 0 height (glReadPixels_row c.framebuffer x y width format) dst)

def drawpixels_alpha_test (func : Nat) (incoming ref : ℚ) : Bool :=
  if func = GL_NEVER then false
  else if func = GL_LESS then decide (incoming < ref)
  else if func = GL_EQUAL then decide (incoming = ref)
  else if func = GL_LEQUAL then decide (incoming ≤ ref)
  else if func = GL_GREATER then decide (incoming > ref)
  else if func = GL_NOTEQUAL then decide (incoming ≠ ref)
  else if func = GL_GEQUAL then decide (incoming ≥ ref)
  else if func = GL_ALWAYS then true
  else true

def drawpixels_depth_test (func : Nat) (incoming stored : ℚ) : Bool :=
  if func = GL_NEVER then false
  else if func = GL_LESS then decide (incoming < stored)
  else if func = GL_EQUAL then decide (incoming = stored)
  else if func = GL_LEQUAL then decide (incoming ≤ stored)
  else if func = GL_GREATER then decide (incoming > stored)
  else if func = GL_NOTEQUAL then decide (incoming ≠ stored)
  else if func = GL_GEQUAL then decide (incoming ≥ stored)
  else if func = GL_ALWAYS then true
  else true

def drawpixels_blend_factor (factor : Nat) (src dst : color_t) : color_t :=
  if factor = GL_ZERO then color 0 0 0 0
  else if factor = GL_ONE then color 1 1 1 1
  else if factor = GL_SRC_COLOR then src
  else if factor = GL_ONE_MINUS_SRC_COLOR then color (1 - src.r) (1 - src.g) (1 - src.b) (1 - src.a)
  else if factor = GL_DST_COLOR then dst
  else if factor = GL_ONE_MINUS_DST_COLOR then color (1 - dst.r) (1 - dst.g) (1 - dst.b) (1 - dst.a)
  else if factor = GL_SRC_ALPHA then color src.a src.a src.a src.a
  else if factor = GL_ONE_MINUS_SRC_ALPHA then color (1 - src.a) (1 - src.a) (1 - src.a) (1 - src.a)
  else if factor = GL_DST_ALPHA then color dst.a dst.a dst.a dst.a
  else if factor = GL_ONE_MINUS_DST_ALPHA then color (1 - dst.a) (1 - dst.a) (1 - dst.a) (1 - dst.a)
  else if factor = GL_SRC_ALPHA_SATURATE then
    let f := if src.a < 1 - dst.a then src.a else 1 - dst.a
    color f f f 1
  else color 1 1 1 1

/-- The bytes `(r, g, b, a)` that `glDrawPixels` reads for the pixel
`(row, col)` of the rectangle, `none` for a format it skips. -/
def glDrawPixels_fetch (format : Nat) (width row col : Int) (src : Nat → Nat) :
    Option (Nat × Nat × Nat × Nat) :=
  if format = GL_RGBA then
    let idx := Int.toNat ((row * width + col) * 4)
    some (src (idx + 0), src (idx + 1), src (idx + 2), src (idx + 3))
  else if format = GL_RGB then
    let idx := Int.toNat ((row * width + col) * 3)
    some (src (idx + 0), src (idx + 1), src (idx + 2), 255)
  else if format = GL_LUMINANCE then
    let l := src (Int.toNat (row * width + col))
    some (l, l, l, 255)
  else if format = GL_LUMINANCE_ALPHA then
    let idx := Int.toNat ((row * width + col) * 2)
    let l := src (idx + 0)
    some (l, l, l, src (idx + 1))
  else none

/-- The body of the column loop of `glDrawPixels`, at row `row` of the
rectangle, which is row `fb_y` of the framebuffer. -/
def glDrawPixels_pixel (c : GLState) (width : Int) (format : Nat) (src : Nat → Nat)
    (row fb_y col : Int) (fb : framebuffer_t) : framebuffer_t :=
  let alpha_test_enabled := c.flags &&& FLAG_ALPHA_TEST ≠ 0
  let depth_test_enabled := c.flags &&& FLAG_DEPTH_TEST ≠ 0
  let blend_enabled := c.flags &&& FLAG_BLEND ≠ 0
  let pixel_depth : ℚ := 0
  let dst_x := c.raster_pos_x + col
  if dst_x < 0 ∨ dst_x ≥ fb.width then fb
  else
    match glDrawPixels_fetch format width row col src with
    | none => fb
    | some (r, g, b, a) =>
      if alpha_test_enabled ∧
          ¬ drawpixels_alpha_test c.alpha_func ((a : ℚ) / 255) c.alpha_ref then fb
      else if depth_test_enabled ∧
          ¬ drawpixels_depth_test c.depth_func pixel_depth (framebuffer_getdepth fb dst_x fb_y)
        then fb
      else
        let src_color := color ((r : ℚ) / 255) ((g : ℚ) / 255) ((b : ℚ) / 255) ((a : ℚ) / 255)
        let src_color :=
          if blend_enabled then
            let dst_pixel := fb.color (Int.toNat (fb_y * fb.width + dst_x))
            let dst_color := color_from_rgba32 dst_pixel
            let sf := drawpixels_blend_factor c.blend_src src_color dst_color
            let df := drawpixels_blend_factor c.blend_dst src_color dst_color
            color_clamp (color_add (color_mul src_color sf) (color_mul dst_color df))
          else src_color
        let fb := if depth_test_enabled ∧ c.depth_mask then
          framebuffer_putdepth fb dst_x fb_y pixel_depth else fb
        { fb with color := Function.update fb.color (Int.toNat (fb_y * fb.width + dst_x))
                    (color_to_rgba32 src_color) }

/-- The body of the row loop of `glDrawPixels`. -/
def glDrawPixels_row (c : GLState) (width : Int) (format : Nat) (src : Nat → Nat) (row : Int)
    (fb : framebuffer_t) : framebuffer_t :=
  let dst_y := c.raster_pos_y + row
  let fb_y := fb.height - 1 - dst_y
  if fb_y < 0 ∨ fb_y ≥ fb.height then fb
  else for_range 0 width (fun col fb =>
    glDrawPixels_pixel c width format src row fb_y col fb) fb

/-- The context after `glDrawPixels`, `none` standing for the null pointer.
The bytes of `pixels` are values of type `uint8_t`. -/
def glDrawPixels (c : GLState) (width height : Int) (format type : Nat)
    (pixels : Option (Nat → Nat)) : GLState :=
  match pixels with
  | none => c
  | some src =>
    if type ≠ GL_UNSIGNED_BYTE ∨ ¬ c.raster_pos_valid then c
    else
      { c with framebuffer :=
          for_range 0 height (glDrawPixels_row c width format src) c.framebuffer }

/-- The context of `test_context` with the raster position `(1, 1)`. -/
def raster_test_context : GLState :=
  { test_context with raster_pos_x := 1, raster_pos_y := 1 }

/-- The byte number `ch` of the four bytes `(r, g, b, a)` of a pixel. -/
def pixel_channel (p : Nat × Nat × Nat × Nat) (ch : Nat) : Nat :=
  if ch = 0 then p.1 else if ch = 1 then p.2.1 else if ch = 2 then p.2.2.1 else p.2.2.2

/-! ## textures.c: sampling -/

abbrev GL_NEAREST : Nat := 0x2600
abbrev GL_LINEAR : Nat := 0x2601
abbrev GL_NEAREST_MIPMAP_NEAREST : Nat := 0x2700
abbrev GL_LINEAR_MIPMAP_NEAREST : Nat := 0x2701
abbrev GL_NEAREST_MIPMAP_LINEAR : Nat := 0x2702
abbrev GL_LINEAR_MIPMAP_LINEAR : Nat := 0x2703
abbrev GL_REPEAT : Nat := 0x2901
abbrev GL_CLAMP : Nat := 0x2900

/-- The conversion `(int)f` of a float: truncation toward zero. C defines it
while the truncated value fits an `int`. -/
def float_to_int (f : ℚ) : Int := if f < 0 then -⌊-f⌋ else ⌊f⌋

def color_lerp (a b : color_t) (t : ℚ) : color_t :=
  color_add (color_scale a (1 - t)) (color_scale b t)

/-- The element `pixels[i]` of a texel array. -/
def texel_at (pixels : Option (List Nat)) (i : Int) : Nat :=
  (pixels.getD []).getD (Int.toNat i) 0

/-- The texel `get_texel_wrapped` returns. The operator `%` of C on `int` is the
remainder of the division that truncates toward zero, `Int.tmod`. -/
def get_texel_wrapped (tex : texture_t) (x y : Int) : Nat :=
  let x :=
    if tex.wrap_s = GL_REPEAT then ((x.tmod tex.width) + tex.width).tmod tex.width
    else if x < 0 then 0
    else if x ≥ tex.width then tex.width - 1
    else x
  let y :=
    if tex.wrap_t = GL_REPEAT then ((y.tmod tex.height) + tex.height).tmod tex.height
    else if y < 0 then 0
    else if y ≥ tex.height then tex.height - 1
    else y
  texel_at tex.pixels (y * tex.width + x)

def bilinear_filter (c00 c10 c01 c11 : Nat) (fx fy : ℚ) : Nat :=
  let col00 := color_from_rgba32 c00
  let col10 := color_from_rgba32 c10
  let col01 := color_from_rgba32 c01
  let col11 := color_from_rgba32 c11
  let top := color_lerp col00 col10 fx
  let bottom := color_lerp col01 col11 fx
  let result := color_lerp top bottom fy
  color_to_rgba32 result

/-- The texel `(x, y)` of mip level 1: the average of a 2 x 2 block of the
base level. -/
def mip1_texel (tex : texture_t) (x y : Int) : Nat :=
  let sx := x * 2
  let sy := y * 2
  let c00 := texel_at tex.pixels (sy * tex.width + sx)
  let c10 := texel_at tex.pixels (sy * tex.width + sx + 1)
  let c01 := texel_at tex.pixels ((sy + 1) * tex.width + sx)
  let c11 := texel_at tex.pixels ((sy + 1) * tex.width + sx + 1)
  let col := color_from_rgba32 c00
  let col := color_add col (color_from_rgba32 c10)
  let col := color_add col (color_from_rgba32 c01)
  let col := color_add col (color_from_rgba32 c11)
  let col := color_scale col (1 / 4)
  color_to_rgba32 col

/-- The return value of `texture_generate_mip1` and the texture it leaves.
`alloc_ok` tells whether the allocator delivers the level; the two loops fill
element `y * mip1_width + x` with the texel `(x, y)`. -/
def texture_generate_mip1 (alloc_ok : Bool) (tex : texture_t) : Int × texture_t :=
  if tex.mip1_pixels.isSome then (0, tex)
  else if tex.pixels.isNone ∨ tex.width < 2 ∨ tex.height < 2 then (-1, tex)
  else
    let mip1_width := tex.width / 2
    let mip1_height := tex.height / 2
    if ¬ alloc_ok then (-1, { tex with mip1_width := 0, mip1_height := 0 })
    else
      let mip_size := Int.toNat (mip1_width * mip1_height)
      (0, { tex with
              mip1_width := mip1_width
              mip1_height := mip1_height
              mip1_pixels := some ((List.range mip_size).map (fun (i : Nat) =>
                mip1_texel tex ((i : Int) % mip1_width) ((i : Int) / mip1_width))) })

def get_mip1_texel_wrapped (tex : texture_t) (x y : Int) : Nat :=
  let x :=
    if tex.wrap_s = GL_REPEAT then
      ((x.tmod tex.mip1_width) + tex.mip1_width).tmod tex.mip1_width
    else if x < 0 then 0
    else if x ≥ tex.mip1_width then tex.mip1_width - 1
    else x
  let y :=
    if tex.wrap_t = GL_REPEAT then
      ((y.tmod tex.mip1_height) + tex.mip1_height).tmod tex.mip1_height
    else if y < 0 then 0
    else if y ≥ tex.mip1_height then tex.mip1_height - 1
    else y
  texel_at tex.mip1_pixels (y * tex.mip1_width + x)

def texture_sample_base (tex : texture_t) (u v : ℚ) (filter : Int) : Nat :=
  let tx := u * tex.width - 1 / 2
  let ty := v * tex.height - 1 / 2
  if filter = GL_LINEAR then
    let x0 : Int := ⌊tx⌋
    let y0 : Int := ⌊ty⌋
    let x1 := x0 + 1
    let y1 := y0 + 1
    let fx := tx - x0
    let fy := ty - y0
    let c00 := get_texel_wrapped tex x0 y0
    let c10 := get_texel_wrapped tex x1 y0
    let c01 := get_texel_wrapped tex x0 y1
    let c11 := get_texel_wrapped tex x1 y1
    bilinear_filter c00 c10 c01 c11 fx fy
  else
    let x : Int := ⌊tx + 1 / 2⌋
    let y : Int := ⌊ty + 1 / 2⌋
    let x := if x < 0 then 0 else x
    let x := if x ≥ tex.width then tex.width - 1 else x
    let y := if y < 0 then 0 else y
    let y := if y ≥ tex.height then tex.height - 1 else y
    texel_at tex.pixels (y * tex.width + x)

/-- The texel `texture_sample_mip1` returns and the texture it leaves: the
level is generated on first use. -/
def texture_sample_mip1 (alloc_ok : Bool) (tex : texture_t) (u v : ℚ) (filter : Int) :
    Nat × texture_t :=
  let g := texture_generate_mip1 alloc_ok tex
  if g.1 ≠ 0 then (0xFFFFFFFF, g.2)
  else
    let tex := g.2
    let tx := u * tex.mip1_width - 1 / 2
    let ty := v * tex.mip1_height - 1 / 2
    if filter = GL_LINEAR ∨ filter = GL_LINEAR_MIPMAP_NEAREST ∨ filter = GL_LINEAR_MIPMAP_LINEAR
    then
      let x0 : Int := ⌊tx⌋
      let y0 : Int := ⌊ty⌋
      let x1 := x0 + 1
      let y1 := y0 + 1
      let fx := tx - x0
      let fy := ty - y0
      let c00 := get_mip1_texel_wrapped tex x0 y0
      let c10 := get_mip1_texel_wrapped tex x1 y0
      let c01 := get_mip1_texel_wrapped tex x0 y1
      let c11 := get_mip1_texel_wrapped tex x1 y1
      (bilinear_filter c00 c10 c01 c11 fx fy, tex)
    else
      let x : Int := ⌊tx + 1 / 2⌋
      let y : Int := ⌊ty + 1 / 2⌋
      let x := if x < 0 then 0 else x
      let x := if x ≥ tex.mip1_width then tex.mip1_width - 1 else x
      let y := if y < 0 then 0 else y
      let y := if y ≥ tex.mip1_height then tex.mip1_height - 1 else y
      (texel_at tex.mip1_pixels (y * tex.mip1_width + x), tex)

/-- The block of `texture_sample_lod` that applies a wrap mode to a texture
coordinate. -/
def texture_wrap_coord (wrap : Int) (u : ℚ) : ℚ :=
  if wrap = GL_REPEAT then
    let u := u - (float_to_int u : ℚ)
    if u < 0 then u + 1 else u
  else
    let u := if u < 0 then 0 else u
    if u > 1 then 1 else u

/-- The part of `texture_sample_lod` from the conversion to texel coordinates
on: the base level sampled with `filter`. -/
def texture_sample_lod_base (tex : texture_t) (u v : ℚ) (filter : Int) : Nat :=
  let tx := u * tex.width - 1 / 2
  let ty := v * tex.height - 1 / 2
  if filter = GL_LINEAR then
    let x0 : Int := ⌊tx⌋
    let y0 : Int := ⌊ty⌋
    let x1 := x0 + 1
    let y1 := y0 + 1
    let fx := tx - x0
    let fy := ty - y0
    let c00 := get_texel_wrapped tex x0 y0
    let c10 := get_texel_wrapped tex x1 y0
    let c01 := get_texel_wrapped tex x0 y1
    let c11 := get_texel_wrapped tex x1 y1
    bilinear_filter c00 c10 c01 c11 fx fy
  else
    let x : Int := ⌊tx + 1 / 2⌋
    let y : Int := ⌊ty + 1 / 2⌋
    let x := if x < 0 then 0 else x
    let x := if x ≥ tex.width then tex.width - 1 else x
    let y := if y < 0 then 0 else y
    let y := if y ≥ tex.height then tex.height - 1 else y
    texel_at tex.pixels (y * tex.width + x)

/-- The texel `texture_sample_lod` returns and the texture it leaves (the
function may generate mip level 1). -/
def texture_sample_lod (alloc_ok : Bool) (tex : texture_t) (u v lod : ℚ) : Nat × texture_t :=
  if tex.pixels.isNone ∨ tex.width ≤ 0 ∨ tex.height ≤ 0 then (0xFFFFFFFF, tex)
  else
    let u := texture_wrap_coord tex.wrap_s u
    let v := texture_wrap_coord tex.wrap_t v
    let filter := if lod > 0 then tex.min_filter else tex.mag_filter
    if filter = GL_NEAREST_MIPMAP_NEAREST ∨ filter = GL_LINEAR_MIPMAP_NEAREST then
      if lod ≥ 1 / 2 then texture_sample_mip1 alloc_ok tex u v filter
      else
        let filter : Int := if filter = GL_NEAREST_MIPMAP_NEAREST then GL_NEAREST else GL_LINEAR
        (texture_sample_lod_base tex u v filter, tex)
    else if filter = GL_NEAREST_MIPMAP_LINEAR ∨ filter = GL_LINEAR_MIPMAP_LINEAR then
      if lod > 0 then
        let clamped_lod := if lod > 1 then 1 else lod
        let base_filter : Int :=
          if filter = GL_NEAREST_MIPMAP_LINEAR then GL_NEAREST else GL_LINEAR
        let c0 := texture_sample_base tex u v base_filter
        let s1 := texture_sample_mip1 alloc_ok tex u v filter
        let col0 := color_from_rgba32 c0
        let col1 := color_from_rgba32 s1.1
        let result := color_lerp col0 col1 clamped_lod
        (color_to_rgba32 result, s1.2)
      else
        let filter : Int := if filter = GL_NEAREST_MIPMAP_LINEAR then GL_NEAREST else GL_LINEAR
        (texture_sample_lod_base tex u v filter, tex)
    else (texture_sample_lod_base tex u v filter, tex)

/-- A 2 x 2 texture of four distinct texels with both wrap modes `GL_REPEAT`,
a trilinear minification filter and a bilinear magnification filter. -/
def repeat_test_texture : texture_t :=
  { width := 2, height := 2, pixels := some [0xFF0000FF, 0xFF00FF00, 0xFFFF0000, 0xFFFFFFFF]
    mip1_width := 0, mip1_height := 0, mip1_pixels := none
    min_filter := GL_NEAREST_MIPMAP_LINEAR, mag_filter := GL_LINEAR
    wrap_s := GL_REPEAT, wrap_t := GL_REPEAT, allocated := true }

/-! ## graphics.h: interpolation -/

abbrev GL_POINT : Nat := 0x1B00
abbrev GL_LINE : Nat := 0x1B01
abbrev GL_EXP2 : Nat := 0x0801
abbrev GL_DECAL : Nat := 0x2101
abbrev GL_ADD : Nat := 0x0104
abbrev GL_FASTEST : Nat := 0x1101

def lerpf (a b t : ℚ) : ℚ := a + t * (b - a)

def vec2_lerp (a b : vec2_t) (t : ℚ) : vec2_t :=
  ⟨a.x + t * (b.x - a.x), a.y + t * (b.y - a.y)⟩

def vec3_lerp (a b : vec3_t) (t : ℚ) : vec3_t :=
  ⟨a.x + t * (b.x - a.x), a.y + t * (b.y - a.y), a.z + t * (b.z - a.z)⟩

def vec4_lerp (a b : vec4_t) (t : ℚ) : vec4_t :=
  ⟨a.x + t * (b.x - a.x), a.y + t * (b.y - a.y), a.z + t * (b.z - a.z), a.w + t * (b.w - a.w)⟩

def vec3_bary (a b c : vec3_t) (b0 b1 b2 : ℚ) : vec3_t :=
  ⟨a.x * b0 + b.x * b1 + c.x * b2, a.y * b0 + b.y * b1 + c.y * b2,
    a.z * b0 + b.z * b1 + c.z * b2⟩

def color_bary (a b c : color_t) (b0 b1 b2 : ℚ) : color_t :=
  ⟨a.r * b0 + b.r * b1 + c.r * b2, a.g * b0 + b.g * b1 + c.g * b2,
    a.b * b0 + b.b * b1 + c.b * b2, a.a * b0 + b.a * b1 + c.a * b2⟩

def color_lerp_rgb (a b : color_t) (t : ℚ) : color_t :=
  ⟨a.r + (b.r - a.r) * t, a.g + (b.g - a.g) * t, a.b + (b.b - a.b) * t, a.a⟩

def color_add_rgb_mul_a (a b : color_t) : color_t :=
  ⟨a.r + b.r, a.g + b.g, a.b + b.b, a.a * b.a⟩

def color_blend_per_channel (a b env : color_t) : color_t :=
  ⟨a.r * (1 - b.r) + env.r * b.r, a.g * (1 - b.g) + env.g * b.g,
    a.b * (1 - b.b) + env.b * b.b, a.a * b.a⟩

def vertex_lerp (a b : vertex_t) (t : ℚ) : vertex_t :=
  { position := vec4_lerp a.position b.position t
    color := color_lerp a.color b.color t
    texcoord := vec2_lerp a.texcoord b.texcoord t
    normal := vec3_lerp a.normal b.normal t
    eye_z := lerpf a.eye_z b.eye_z t
    eye_pos := vec3_lerp a.eye_pos b.eye_pos t
    eye_normal := vec3_lerp a.eye_normal b.eye_normal t }

/-! ## clipping.h: polygon clipping -/

abbrev PLANE_NEAR : Nat := 0
abbrev PLANE_FAR : Nat := 1
abbrev PLANE_LEFT : Nat := 2
abbrev PLANE_RIGHT : Nat := 3
abbrev PLANE_BOTTOM : Nat := 4
abbrev PLANE_TOP : Nat := 5

def clip_near (v : vec4_t) : ℚ := v.z + v.w
def clip_far (v : vec4_t) : ℚ := v.w - v.z
def clip_left (v : vec4_t) : ℚ := v.x + v.w
def clip_right (v : vec4_t) : ℚ := v.w - v.x
def clip_bottom (v : vec4_t) : ℚ := v.y + v.w
def clip_top (v : vec4_t) : ℚ := v.w - v.y

def snap_to_plane (v : vertex_t) (plane_id : Nat) : vertex_t :=
  if plane_id = PLANE_LEFT then { v with position := { v.position with x := -v.position.w } }
  else if plane_id = PLANE_RIGHT then { v with position := { v.position with x := v.position.w } }
  else if plane_id = PLANE_BOTTOM then { v with position := { v.position with y := -v.position.w } }
  else if plane_id = PLANE_TOP then { v with position := { v.position with y := v.position.w } }
  else if plane_id = PLANE_NEAR then { v with position := { v.position with z := -v.position.w } }
  else if plane_id = PLANE_FAR then { v with position := { v.position with z := v.position.w } }
  else v

/-- The body of the loop of `clip_polygon_plane_id`: the state is the output
polygon, the previous vertex and its distance. -/
def clip_polygon_plane_step (plane_func : vec4_t → ℚ) (plane_id : Nat)
    (st : List vertex_t × vertex_t × ℚ) (curr : vertex_t) : List vertex_t × vertex_t × ℚ :=
  let out := st.1
  let prev := st.2.1
  let prev_dist := st.2.2
  let curr_dist := plane_func curr.position
  let out :=
    if prev_dist ≥ 0 then
      if curr_dist ≥ 0 then out ++ [curr]
      else
        let denom := prev_dist - curr_dist
        if |denom| > 1 / 10 ^ 10 then
          let t := prev_dist / denom
          out ++ [snap_to_plane (vertex_lerp prev curr t) plane_id]
        else out
    else
      if curr_dist ≥ 0 then
        let denom := prev_dist - curr_dist
        let out :=
          if |denom| > 1 / 10 ^ 10 then
            let t := prev_dist / denom
            out ++ [snap_to_plane (vertex_lerp prev curr t) plane_id]
          else out
        out ++ [curr]
      else out
  (out, curr, curr_dist)

/-- The polygon `clip_polygon_plane_id` writes to `out`; its length is the
count the function returns. -/
def clip_polygon_plane_id (inp : List vertex_t) (plane_func : vec4_t → ℚ) (plane_id : Nat) :
    List vertex_t :=
  match inp.getLast? with
  | none => []
  | some prev =>
    (inp.foldl (clip_polygon_plane_step plane_func plane_id)
      ([], prev, plane_func prev.position)).1

/-- The polygon `clip_triangle` writes to `out`; its length is the count the
function returns. -/
def clip_triangle (triangle : List vertex_t) : List vertex_t :=
  let temp1 := clip_polygon_plane_id triangle clip_near PLANE_NEAR
  if temp1.length = 0 then []
  else
    let temp2 := clip_polygon_plane_id temp1 clip_far PLANE_FAR
    if temp2.length = 0 then []
    else
      let temp1 := clip_polygon_plane_id temp2 clip_left PLANE_LEFT
      if temp1.length = 0 then []
      else
        let temp2 := clip_polygon_plane_id temp1 clip_right PLANE_RIGHT
        if temp2.length = 0 then []
        else
          let temp1 := clip_polygon_plane_id temp2 clip_bottom PLANE_BOTTOM
          if temp1.length = 0 then []
          else clip_polygon_plane_id temp1 clip_top PLANE_TOP

/-! ## textures.c: lookup -/

def texture_get (store : texture_store_t) (id : Nat) : Option texture_t :=
  if id = 0 ∨ id > store.textures.length then none
  else
    match store.textures[id - 1]? with
    | none => none
    | some tex => if ¬ tex.allocated then none else some tex

/-- The store after a write through the pointer `texture_get(store, id)`
returned. -/
def texture_put (store : texture_store_t) (id : Nat) (tex : texture_t) : texture_store_t :=
  { textures := store.textures.set (id - 1) tex }

/-! ## raster.c: triangles -/

/-- The conversion of NDC coordinates to screen coordinates; the conversions to
`int32_t` truncate toward zero. -/
def ndc_to_screen (c : GLState) (x y : ℚ) : Int × Int :=
  (float_to_int ((x + 1) * (1 / 2) * c.viewport_w + c.viewport_x),
   float_to_int ((1 - y) * (1 / 2) * c.viewport_h + c.viewport_y))

def edge_function (ax ay bx by_ px py : ℚ) : ℚ :=
  (px - ax) * (by_ - ay) - (py - ay) * (bx - ax)

/-- The fog factor that the switch on `ctx->fog_mode` computes from the fog
coordinate, clamped to `[0, 1]`. -/
def fog_factor (lm : LibM) (c : GLState) (fog_coord : ℚ) : ℚ :=
  let f : ℚ :=
    if c.fog_mode = GL_LINEAR then
      if c.fog_end ≠ c.fog_start then (c.fog_end - fog_coord) / (c.fog_end - c.fog_start)
      else 1
    else if c.fog_mode = GL_EXP then lm.expf (-c.fog_density * fog_coord)
    else if c.fog_mode = GL_EXP2 then
      let d := c.fog_density * fog_coord
      lm.expf (-d * d)
    else 1
  let f := if f < 0 then 0 else f
  if f > 1 then 1 else f

/-- The arguments of `rasterize_triangle_smooth` that belong to one vertex:
screen position, NDC depth, `1/w`, color, texture coordinates, eye-space z,
eye-space position and normal. -/
structure raster_vertex_t where
  x : Int
  y : Int
  z : ℚ
  w_inv : ℚ
  c : color_t
  uv : vec2_t
  ez : ℚ
  ep : vec3_t
  en : vec3_t

/-- The ternary `a < b ? (a < c ? a : c) : (b < c ? b : c)`. -/
def min3 (a b c : Int) : Int := if a < b then (if a < c then a else c) else (if b < c then b else c)

/-- The ternary `a > b ? (a > c ? a : c) : (b > c ? b : c)`. -/
def max3 (a b c : Int) : Int := if a > b then (if a > c then a else c) else (if b > c then b else c)

/-- The box `(minX, minY, maxX, maxY)` that `rasterize_triangle_smooth` scans:
the bounding box of the triangle clipped to the viewport and, when the scissor
test is enabled, to the scissor box. -/
def rasterize_triangle_smooth_box (c : GLState) (v0 v1 v2 : raster_vertex_t) :
    Int × Int × Int × Int :=
  let minX := min3 v0.x v1.x v2.x
  let minY := min3 v0.y v1.y v2.y
  let maxX := max3 v0.x v1.x v2.x
  let maxY := max3 v0.y v1.y v2.y
  let minX := if minX < c.viewport_x then c.viewport_x else minX
  let minY := if minY < c.viewport_y then c.viewport_y else minY
  let maxX := if maxX ≥ c.viewport_x + c.viewport_w then c.viewport_x + c.viewport_w - 1 else maxX
  let maxY := if maxY ≥ c.viewport_y + c.viewport_h then c.viewport_y + c.viewport_h - 1 else maxY
  if c.flags &&& FLAG_SCISSOR_TEST ≠ 0 then
    let minX := if minX < c.scissor_x then c.scissor_x else minX
    let minY := if minY < c.scissor_y then c.scissor_y else minY
    let maxX := if maxX ≥ c.scissor_x + c.scissor_w then c.scissor_x + c.scissor_w - 1 else maxX
    let maxY := if maxY ≥ c.scissor_y + c.scissor_h then c.scissor_y + c.scissor_h - 1 else maxY
    (minX, minY, maxX, maxY)
  else (minX, minY, maxX, maxY)

/-- The texture `rasterize_triangle_smooth` samples: the bound texture when
texturing is enabled and the texture has a base level (`tex && tex->pixels`). -/
def rasterize_triangle_smooth_tex (c : GLState) : Option texture_t :=
  if c.flags &&& FLAG_TEXTURE_2D ≠ 0 ∧ c.bound_texture_2d ≠ 0 then
    match texture_get c.textures c.bound_texture_2d with
    | none => none
    | some tex => if tex.pixels.isSome then some tex else none
  else none

/-- The level of detail `tex_lod` that `rasterize_triangle_smooth` computes
before its loop. -/
def rasterize_triangle_smooth_lod (lm : LibM) (c : GLState) (v0 v1 v2 : raster_vertex_t)
    (area : ℚ) : ℚ :=
  match rasterize_triangle_smooth_tex c with
  | none => 0
  | some tex =>
    let screen_area := |area| * (1 / 2)
    let du1 := (v1.uv.x - v0.uv.x) * tex.width
    let dv1 := (v1.uv.y - v0.uv.y) * tex.height
    let du2 := (v2.uv.x - v0.uv.x) * tex.width
    let dv2 := (v2.uv.y - v0.uv.y) * tex.height
    let texel_area := |du1 * dv2 - du2 * dv1| * (1 / 2)
    if screen_area > 0 then
      let texels_per_pixel := texel_area / screen_area
      if texels_per_pixel > 0 then
        let tex_lod := lm.log2f texels_per_pixel * (1 / 2)
        if tex_lod < 0 then 0 else tex_lod
      else 0
    else 0

/-- The shading stages of the pixel loop of `rasterize_triangle_smooth` at
barycentric coordinates `(b0, b1, b2)`: color interpolation, lighting, texture
sampling and environment, fog. The result is what reaches the merge stages and
the texture store after sampling. -/
def rasterize_triangle_smooth_shade (lm : LibM) (alloc_ok : Bool) (c : GLState)
    (v0 v1 v2 : raster_vertex_t) (is_back_facing : Bool) (tex_lod b0 b1 b2 : ℚ) :
    shaded_t × texture_store_t :=
  let col := if c.shade_model = GL_FLAT then v2.c else color_bary v0.c v1.c v2.c b0 b1 b2
  let col :=
    if c.flags &&& FLAG_LIGHTING ≠ 0 then
      if c.shade_model = GL_PHONG then
        let eye_pos := vec3_bary v0.ep v1.ep v2.ep b0 b1 b2
        let eye_normal := vec3_bary v0.en v1.en v2.en b0 b1 b2
        if is_back_facing ∧ c.light_model_two_side then
          compute_lighting lm c eye_pos (vec3_scale eye_normal (-1)) c.material_back
        else compute_lighting lm c eye_pos eye_normal c.material_front
      else if is_back_facing ∧ c.light_model_two_side then
        let eye_pos := vec3_bary v0.ep v1.ep v2.ep b0 b1 b2
        let eye_normal := vec3_bary v0.en v1.en v2.en b0 b1 b2
        let eye_normal := vec3_scale eye_normal (-1)
        compute_lighting lm c eye_pos eye_normal c.material_back
      else col
    else col
  let fog (col : color_t) : color_t :=
    if c.flags &&& FLAG_FOG ≠ 0 then
      let fog_coord := b0 * v0.ez + b1 * v1.ez + b2 * v2.ez
      color_lerp_rgb c.fog_color col (fog_factor lm c fog_coord)
    else col
  match rasterize_triangle_smooth_tex c with
  | none => ({ tex_alpha := none, color := fog col }, c.textures)
  | some tex =>
    let u0_w := v0.uv.x * v0.w_inv
    let v0_w := v0.uv.y * v0.w_inv
    let u1_w := v1.uv.x * v1.w_inv
    let v1_w := v1.uv.y * v1.w_inv
    let u2_w := v2.uv.x * v2.w_inv
    let v2_w := v2.uv.y * v2.w_inv
    let uv : ℚ × ℚ :=
      if c.perspective_correction_hint ≠ GL_FASTEST then
        let u_over_w := b0 * u0_w + b1 * u1_w + b2 * u2_w
        let v_over_w := b0 * v0_w + b1 * v1_w + b2 * v2_w
        let one_over_w := b0 * v0.w_inv + b1 * v1.w_inv + b2 * v2.w_inv
        let w := 1 / one_over_w
        (u_over_w * w, v_over_w * w)
      else
        (b0 * v0.uv.x + b1 * v1.uv.x + b2 * v2.uv.x, b0 * v0.uv.y + b1 * v1.uv.y + b2 * v2.uv.y)
    let s := texture_sample_lod alloc_ok tex uv.1 uv.2 tex_lod
    let tex_color := color_from_rgba32 s.1
    let col :=
      if c.tex_env_mode = GL_REPLACE then tex_color
      else if c.tex_env_mode = GL_DECAL then color_lerp_rgb col tex_color tex_color.a
      else if c.tex_env_mode = GL_BLEND then color_blend_per_channel col tex_color c.tex_env_color
      else if c.tex_env_mode = GL_ADD then color_add_rgb_mul_a col tex_color
      else color_mul col tex_color
    ({ tex_alpha := some tex_color.a, color := fog col },
      texture_put c.textures c.bound_texture_2d s.2)

/-- The body of the pixel loop of `rasterize_triangle_smooth` for a covered
pixel. The framebuffer is merged by `rasterize_triangle_smooth_pixel`; the
texture store is the one sampling leaves when the stencil and depth tests let
the pixel reach the shading stages. -/
def rasterize_triangle_smooth_fragment (lm : LibM) (alloc_ok : Bool)
    (v0 v1 v2 : raster_vertex_t) (is_back_facing : Bool) (tex_lod : ℚ) (x y : Int)
    (b0 b1 b2 depth : ℚ) (c : GLState) : GLState :=
  let sh := rasterize_triangle_smooth_shade lm alloc_ok c v0 v1 v2 is_back_facing tex_lod b0 b1 b2
  let stencil_enabled := c.flags &&& FLAG_STENCIL_TEST ≠ 0
  let depth_enabled := c.flags &&& FLAG_DEPTH_TEST ≠ 0
  let stencil_val := if stencil_enabled then framebuffer_getstencil c.framebuffer x y else 0
  let stencil_failed :=
    stencil_enabled ∧ ¬stencil_test c.stencil_func c.stencil_ref c.stencil_mask stencil_val
  let depth_failed :=
    depth_enabled ∧ ¬depth_test c.depth_func depth (framebuffer_getdepth c.framebuffer x y)
  { c with
    framebuffer := rasterize_triangle_smooth_pixel c x y depth sh.1
    textures := if stencil_failed ∨ depth_failed then c.textures else sh.2 }

/-- The body of the pixel loop of `rasterize_triangle_smooth` at pixel
`(x, y)`. -/
def rasterize_triangle_smooth_at (lm : LibM) (alloc_ok : Bool)
    (v0 v1 v2 : raster_vertex_t) (is_back_facing : Bool) (area inv_area tex_lod : ℚ)
    (y x : Int) (c : GLState) : GLState :=
  let e0 := edge_function v1.x v1.y v2.x v2.y x y
  let e1 := edge_function v2.x v2.y v0.x v0.y x y
  let e2 := edge_function v0.x v0.y v1.x v1.y x y
  if (area > 0 ∧ e0 ≥ 0 ∧ e1 ≥ 0 ∧ e2 ≥ 0) ∨ (area < 0 ∧ e0 ≤ 0 ∧ e1 ≤ 0 ∧ e2 ≤ 0) then
    let b0 := e0 * inv_area
    let b1 := e1 * inv_area
    let b2 := e2 * inv_area
    let z := b0 * v0.z + b1 * v1.z + b2 * v2.z
    let depth := (z + 1) * (1 / 2) * (c.depth_far - c.depth_near) + c.depth_near
    rasterize_triangle_smooth_fragment lm alloc_ok v0 v1 v2 is_back_facing tex_lod x y
      b0 b1 b2 depth c
  else c

/-- The context after `rasterize_triangle_smooth`. The sums of the viewport and
scissor boxes are those of C while they fit an `int`. -/
def rasterize_triangle_smooth (lm : LibM) (alloc_ok : Bool) (c : GLState)
    (v0 v1 v2 : raster_vertex_t) (is_back_facing : Bool) : GLState :=
  let box := rasterize_triangle_smooth_box c v0 v1 v2
  let minX := box.1
  let minY := box.2.1
  let maxX := box.2.2.1
  let maxY := box.2.2.2
  if minX > maxX ∨ minY > maxY then c
  else
    let area := edge_function v0.x v0.y v1.x v1.y v2.x v2.y
    if |area| < 1 / 2 then c
    else
      let inv_area := 1 / area
      let tex_lod := rasterize_triangle_smooth_lod lm c v0 v1 v2 area
      for_range minY (maxY + 1) (fun y c =>
        for_range minX (maxX + 1) (fun x c =>
          rasterize_triangle_smooth_at lm alloc_ok v0 v1 v2 is_back_facing area inv_area
            tex_lod y x c) c) c

/-- The return value of `perspective_divide` and the vertex it leaves. -/
def perspective_divide (v : vertex_t) : Int × vertex_t :=
  if |v.position.w| < 1 / 10 ^ 6 then
    (-1, { v with position := ⟨0, 0, 0, 1⟩ })
  else
    let inv_w := 1 / v.position.w
    (0, { v with position :=
      ⟨v.position.x * inv_w, v.position.y * inv_w, v.position.z * inv_w, inv_w⟩ })

def should_cull (c : GLState) (signed_area : ℚ) : Bool :=
  if c.flags &&& FLAG_CULL_FACE = 0 then false
  else
    let is_front : Bool :=
      if c.front_face = GL_CCW then decide (signed_area < 0) else decide (signed_area > 0)
    if c.cull_face_mode = GL_FRONT then is_front
    else if c.cull_face_mode = GL_BACK then !is_front
    else true

def draw_point_at_screen (lm : LibM) (c : GLState) (x y : Int) (z : ℚ) (col : color_t)
    (eye_z : ℚ) : GLState :=
  let fb := c.framebuffer
  if x < 0 ∨ x ≥ fb.width ∨ y < 0 ∨ y ≥ fb.height then c
  else if c.flags &&& FLAG_SCISSOR_TEST ≠ 0 ∧
      (x < c.scissor_x ∨ x ≥ c.scissor_x + c.scissor_w ∨
        y < c.scissor_y ∨ y ≥ c.scissor_y + c.scissor_h) then c
  else
    let depth := (z + 1) * (1 / 2) * (c.depth_far - c.depth_near) + c.depth_near
    let depth_enabled := c.flags &&& FLAG_DEPTH_TEST ≠ 0
    if depth_enabled ∧ ¬depth_test c.depth_func depth (framebuffer_getdepth fb x y) then c
    else if c.flags &&& FLAG_ALPHA_TEST ≠ 0 ∧ ¬alpha_test c.alpha_func col.a c.alpha_ref then c
    else
      let col :=
        if c.flags &&& FLAG_FOG ≠ 0 then
          color_lerp_rgb c.fog_color col (fog_factor lm c (-eye_z))
        else col
      let fb := if depth_enabled ∧ c.depth_mask then framebuffer_putdepth fb x y depth else fb
      let col :=
        if c.flags &&& FLAG_BLEND ≠ 0 then
          blend_colors c col (color_from_rgba32 (framebuffer_getpixel fb x y))
        else col
      { c with framebuffer := write_pixel_masked { c with framebuffer := fb } x y col }

def draw_triangle_points (lm : LibM) (c : GLState) (c0 c1 c2 : vertex_t) : GLState :=
  let p0 := ndc_to_screen c c0.position.x c0.position.y
  let p1 := ndc_to_screen c c1.position.x c1.position.y
  let p2 := ndc_to_screen c c2.position.x c2.position.y
  let c := draw_point_at_screen lm c p0.1 p0.2 c0.position.z c0.color c0.eye_z
  let c := draw_point_at_screen lm c p1.1 p1.2 c1.position.z c1.color c1.eye_z
  draw_point_at_screen lm c p2.1 p2.2 c2.position.z c2.color c2.eye_z

/-- The line rasterizer `draw_line_full` of raster.c, given by the context it
leaves for the arguments `x0 y0 z0 x1 y1 z1 c0 c1 ez0 ez1 uv0 uv1`; `none` when
it does not return. -/
abbrev draw_line_t : Type :=
  GLState → Int → Int → ℚ → Int → Int → ℚ → color_t → color_t → ℚ → ℚ → vec2_t → vec2_t →
    Option GLState

def draw_triangle_wireframe (draw_line_full : draw_line_t) (c : GLState)
    (c0 c1 c2 : vertex_t) : Option GLState :=
  let p0 := ndc_to_screen c c0.position.x c0.position.y
  let p1 := ndc_to_screen c c1.position.x c1.position.y
  let p2 := ndc_to_screen c c2.position.x c2.position.y
  let z0 := c0.position.z
  let z1 := c1.position.z
  let z2 := c2.position.z
  (draw_line_full c p0.1 p0.2 z0 p1.1 p1.2 z1 c0.color c1.color c0.eye_z c1.eye_z
      c0.texcoord c1.texcoord).bind fun c =>
  (draw_line_full c p1.1 p1.2 z1 p2.1 p2.2 z2 c1.color c2.color c1.eye_z c2.eye_z
      c1.texcoord c2.texcoord).bind fun c =>
  draw_line_full c p2.1 p2.2 z2 p0.1 p0.2 z0 c2.color c0.color c2.eye_z c0.eye_z
      c2.texcoord c0.texcoord

/-- The arguments `rasterize_triangle_smooth` receives for a vertex of the
clipped polygon with screen position `p`. -/
def raster_vertex (p : Int × Int) (v : vertex_t) : raster_vertex_t :=
  { x := p.1, y := p.2, z := v.position.z, w_inv := v.position.w, c := v.color,
    uv := v.texcoord, ez := v.eye_z, ep := v.eye_pos, en := v.eye_normal }

/-- The signed area that `render_triangle` computes in screen space. -/
def screen_signed_area (p0 p1 p2 : Int × Int) : ℚ :=
  ((p1.1 - p0.1 : Int) : ℚ) * ((p2.2 - p0.2 : Int) : ℚ)
    - ((p2.1 - p0.1 : Int) : ℚ) * ((p1.2 - p0.2 : Int) : ℚ)

/-- The body of the loop of `render_triangle` over the fan of the clipped
polygon, for the triangle `(a, b, d)`. -/
def render_triangle_fan (lm : LibM) (alloc_ok : Bool) (draw_line_full : draw_line_t)
    (c : GLState) (a b d : vertex_t) : Option GLState :=
  let p0 := ndc_to_screen c a.position.x a.position.y
  let p1 := ndc_to_screen c b.position.x b.position.y
  let p2 := ndc_to_screen c d.position.x d.position.y
  let signed_area := screen_signed_area p0 p1 p2
  if should_cull c signed_area then some c
  else
    let is_back_facing : Bool :=
      if c.front_face = GL_CCW then decide (signed_area ≥ 0) else decide (signed_area < 0)
    let poly_mode := if is_back_facing then c.polygon_mode_back else c.polygon_mode_front
    if poly_mode = GL_POINT then some (draw_triangle_points lm c a b d)
    else if poly_mode = GL_LINE then draw_triangle_wireframe draw_line_full c a b d
    else
      some (rasterize_triangle_smooth lm alloc_ok c (raster_vertex p0 a) (raster_vertex p1 b)
        (raster_vertex p2 d) is_back_facing)

/-- The context after `render_triangle`, `none` when a line of a wireframe
triangle does not return. -/
def render_triangle (lm : LibM) (alloc_ok : Bool) (draw_line_full : draw_line_t)
    (c : GLState) (v0 v1 v2 : vertex_t) : Option GLState :=
  let clipped := clip_triangle [v0, v1, v2]
  if clipped.length < 3 then some c
  else
    let clipped := clipped.map (fun v => (perspective_divide v).2)
    match clipped with
    | [] => some c
    | first :: rest =>
      (List.range (rest.length - 1)).foldlM (fun c (j : Nat) =>
        match rest[j]?, rest[j + 1]? with
        | some b, some d => render_triangle_fan lm alloc_ok draw_line_full c first b d
        | _, _ => some c) c

/-- The framebuffer `fb1` has the size of `fb` and differs from it at most in
the elements of pixel `(x, y)`, when that pixel lies inside. -/
def touches_only (x y : Int) (fb fb1 : framebuffer_t) : Prop :=
  fb1.width = fb.width ∧ fb1.height = fb.height ∧
  ∀ i, ((0 ≤ x ∧ x < fb.width ∧ 0 ≤ y ∧ y < fb.height) ∧ i = fb_index fb x y) ∨
    (fb1.color i = fb.color i ∧ fb1.depth i = fb.depth i ∧ fb1.stencil i = fb.stencil i)

/-- The triangle with the screen vertices `(0, 0)`, `(3, 0)`, `(0, 3)`, white
at the three vertices. -/
def test_raster_vertex (x y : Int) : raster_vertex_t :=
  { x := x, y := y, z := 0, w_inv := 1, c := color 1 1 1 1, uv := ⟨0, 0⟩, ez := 0,
    ep := ⟨0, 0, 0⟩, en := ⟨0, 0, 1⟩ }

/-- The values of the color, depth and stencil planes at pixel `(x, y)`. -/
def pixel_values (fb : framebuffer_t) (x y : Int) : Nat × ℚ × Nat :=
  (framebuffer_getpixel fb x y, framebuffer_getdepth fb x y, framebuffer_getstencil fb x y)

/-- The screen position `render_triangle` computes for a vertex that clipping
leaves as it is: perspective divide, then `ndc_to_screen`. -/
def screen_position (c : GLState) (v : vertex_t) : Int × Int :=
  ndc_to_screen c (perspective_divide v).2.position.x (perspective_divide v).2.position.y

/-- The vertex lies inside the clip volume: none of the six plane distances is
negative. -/
def inside_clip_volume (v : vertex_t) : Prop :=
  clip_near v.position ≥ 0 ∧ clip_far v.position ≥ 0 ∧ clip_left v.position ≥ 0 ∧
  clip_right v.position ≥ 0 ∧ clip_bottom v.position ≥ 0 ∧ clip_top v.position ≥ 0

instance (v : vertex_t) : Decidable (inside_clip_volume v) := by
  unfold inside_clip_volume
  infer_instance

/-- A white vertex at the clip-space position `(x, y, 0, 1)`. -/
def test_vertex (x y : ℚ) : vertex_t :=
  { position := ⟨x, y, 0, 1⟩, color := color 1 1 1 1, texcoord := ⟨0, 0⟩, normal := ⟨0, 0, 1⟩,
    eye_z := 0, eye_pos := ⟨0, 0, 0⟩, eye_normal := ⟨0, 0, 1⟩ }

/-- The context of `test_context` after `glPolygonMode(GL_FRONT_AND_BACK, GL_POINT)`. -/
def point_mode_context : GLState :=
  { test_context with polygon_mode_front := GL_POINT, polygon_mode_back := GL_POINT }

/-- A line rasterizer that draws nothing. -/
def test_draw_line : draw_line_t := fun c _ _ _ _ _ _ _ _ _ _ _ _ => some c

/-- The context of `test_context` after `glEnable(GL_STENCIL_TEST)`,
`glEnable(GL_DEPTH_TEST)`, `glStencilFunc(GL_NEVER, 1, 0xFF)`,
`glStencilOp(GL_INCR, GL_INVERT, GL_KEEP)` and `glStencilMask(0x0F)`. -/
def stencil_fail_context : GLState :=
  { test_context with
    flags := FLAG_STENCIL_TEST ||| FLAG_DEPTH_TEST
    stencil_func := GL_NEVER
    stencil_ref := 1
    stencil_mask := 0xFF
    stencil_fail := GL_INCR
    stencil_zfail := GL_INVERT
    stencil_zpass := GL_KEEP
    stencil_writemask := 0x0F }

/-- The context of `stencil_fail_context` after `glStencilFunc(GL_ALWAYS, 1, 0xFF)`
and `glDepthFunc(GL_NEVER)`. -/
def depth_fail_context : GLState :=
  { stencil_fail_context with stencil_func := GL_ALWAYS, depth_func := GL_NEVER }

/-- The context of `stencil_fail_context` after `glStencilMask(0xFF00)`. -/
def stencil_masked_context : GLState :=
  { stencil_fail_context with stencil_writemask := 0xFF00 }

/-- A white fragment without texture. -/
def test_shaded : shaded_t := { tex_alpha := none, color := color 1 1 1 1 }

/-- The context of `test_context` after `glEnable(GL_LIGHT0)`. -/
def lit_test_context : GLState := set_light_enabled test_context 0 GL_TRUE

/-- The default material after
`glMaterialfv(GL_FRONT, GL_DIFFUSE, (0.8, 0.8, 0.8, 0.5))`. -/
def half_alpha_material : material_t :=
  { material_init with diffuse := color (8 / 10) (8 / 10) (8 / 10) (1 / 2) }

/-! ## gl_api.c: colors given as arbitrary floats -/

/-- A value of type `float`: a finite value, an infinity or a NaN. -/
inductive float_t where
  | finite (q : ℚ)
  | pos_inf
  | neg_inf
  | nan

def isnan (f : float_t) : Bool :=
  match f with
  | .nan => true
  | _ => false

def isinf (f : float_t) : Bool :=
  match f with
  | .pos_inf => true
  | .neg_inf => true
  | _ => false

/-- The function `is_valid_float` on an arbitrary float. -/
def is_valid_float_t (f : float_t) : Bool := !isnan f && !isinf f

/-- The rational a finite float stands for. -/
def float_t.value (f : float_t) : ℚ :=
  match f with
  | .finite q => q
  | _ => 0

/-- The entry point `glColor3f` on arbitrary floats: the first three statements
replace a non-finite argument by `0.0f`, the rest of the body acts on finite
values, as `glColor3f` does. -/
def glColor3f_float (c : GLState) (r g b : float_t) : GLState :=
  let r := if !is_valid_float_t r then float_t.finite 0 else r
  let g := if !is_valid_float_t g then float_t.finite 0 else g
  let b := if !is_valid_float_t b then float_t.finite 0 else b
  glColor3f c r.value g.value b.value

/-- The entry point `glColor4f` on arbitrary floats: the first four statements
replace a non-finite `r`, `g`, `b` by `0.0f` and a non-finite `a` by `1.0f`, the
rest of the body acts on finite values, as `glColor4f` does. -/
def glColor4f_float (c : GLState) (r g b a : float_t) : GLState :=
  let r := if !is_valid_float_t r then float_t.finite 0 else r
  let g := if !is_valid_float_t g then float_t.finite 0 else g
  let b := if !is_valid_float_t b then float_t.finite 0 else b
  let a := if !is_valid_float_t a then float_t.finite 1 else a
  glColor4f c r.value g.value b.value a.value

/-- A call of one of the `glColor*` entry points with its arguments. -/
inductive color_call where
  | glColor3f (r g b : float_t)
  | glColor4f (r g b a : float_t)
  | glColor3ub (r g b : Nat)
  | glColor4ub (r g b a : Nat)

def color_call.run (k : color_call) (c : GLState) : GLState :=
  match k with
  | .glColor3f r g b => glColor3f_float c r g b
  | .glColor4f r g b a => glColor4f_float c r g b a
  | .glColor3ub r g b => MyTinyGL.glColor3ub c r g b
  | .glColor4ub r g b a => MyTinyGL.glColor4ub c r g b a

/-- Every component of the color lies in `[0, 1]`. -/
def color_normalized (col : color_t) : Prop :=
  0 ≤ col.r ∧ col.r ≤ 1 ∧ 0 ≤ col.g ∧ col.g ≤ 1 ∧ 0 ≤ col.b ∧ col.b ≤ 1 ∧ 0 ≤ col.a ∧ col.a ≤ 1

/-! ## gl_api.c: viewport -/

/-- The wrapper `texture_sample` of textures.c: `texture_sample_lod` at level
of detail 0, where no mip level is generated. -/
def texture_sample (tex : texture_t) (u v : ℚ) : Nat :=
  (texture_sample_lod true tex u v 0).1

def write_line_pixel (c : GLState) (px py : Int) (depth : ℚ) (col : color_t)
    (depth_enabled blend_enabled scissor_enabled : Bool) : GLState :=
  let fb := c.framebuffer
  if px < 0 ∨ px ≥ fb.width ∨ py < 0 ∨ py ≥ fb.height then c
  else if scissor_enabled = true ∧
      (px < c.scissor_x ∨ px ≥ c.scissor_x + c.scissor_w ∨
        py < c.scissor_y ∨ py ≥ c.scissor_y + c.scissor_h) then c
  else if depth_enabled = true ∧
      ¬depth_test c.depth_func depth (framebuffer_getdepth fb px py) then c
  else
    let final_color :=
      if blend_enabled = true then
        blend_colors c col (color_from_rgba32 (framebuffer_getpixel fb px py))
      else col
    let fb := if depth_enabled = true ∧ c.depth_mask then framebuffer_putdepth fb px py depth
      else fb
    { c with framebuffer := write_pixel_masked { c with framebuffer := fb } px py final_color }

/-- The variables `draw_line_full` sets before its loop and does not change
in it. -/
structure line_locals_t where
  adx : Int
  ady : Int
  sx : Int
  sy : Int
  total_steps : Int
  depth_enabled : Bool
  fog_enabled : Bool
  blend_enabled : Bool
  alpha_test_enabled : Bool
  scissor_enabled : Bool
  line_width : Int
  half_width : Int
  expand_x : Int
  expand_y : Int
  tex : Option texture_t

/-- The variables `cur_x`, `cur_y`, `err` and `step` of `draw_line_full`. -/
structure line_cursor_t where
  cur_x : Int
  cur_y : Int
  err : Int
  step : Int
deriving DecidableEq

/-- The part of `draw_line_full` before the loop. The `int32_t` differences
are taken not to overflow (the endpoints are screen coordinates). -/
def draw_line_full_locals (c : GLState) (x0 y0 x1 y1 : Int) : line_locals_t :=
  let dx := x1 - x0
  let dy := y1 - y0
  let adx := if dx < 0 then -dx else dx
  let ady := if dy < 0 then -dy else dy
  let sx : Int := if dx < 0 then -1 else 1
  let sy : Int := if dy < 0 then -1 else 1
  let total_steps := if adx > ady then adx else ady
  let total_steps := if total_steps = 0 then 1 else total_steps
  let texture_enabled := c.flags &&& FLAG_TEXTURE_2D ≠ 0
  let line_width := float_to_int (c.line_width + 1 / 2)
  let line_width := if line_width < 1 then 1 else line_width
  { adx := adx
    ady := ady
    sx := sx
    sy := sy
    total_steps := total_steps
    depth_enabled := decide (c.flags &&& FLAG_DEPTH_TEST ≠ 0)
    fog_enabled := decide (c.flags &&& FLAG_FOG ≠ 0)
    blend_enabled := decide (c.flags &&& FLAG_BLEND ≠ 0)
    alpha_test_enabled := decide (c.flags &&& FLAG_ALPHA_TEST ≠ 0)
    scissor_enabled := decide (c.flags &&& FLAG_SCISSOR_TEST ≠ 0)
    line_width := line_width
    half_width := Int.tdiv line_width 2
    expand_x := if adx > ady then 0 else 1
    expand_y := if adx > ady then 1 else 0
    tex := if texture_enabled ∧ c.bound_texture_2d ≠ 0 then
        texture_get c.textures c.bound_texture_2d
      else none }

/-- The interpolation parameter `t = (float)step / (float)total_steps`. -/
def line_t (L : line_locals_t) (k : line_cursor_t) : ℚ :=
  (k.step : ℚ) / (L.total_steps : ℚ)

/-- The part of the loop body of `draw_line_full` that computes the fragment
color: interpolation, texturing, alpha test and fog. `none` when the alpha test
fails, where the body executes `continue`. -/
def draw_line_full_fragment (lm : LibM) (c : GLState) (L : line_locals_t) (c0 c1 : color_t)
    (ez0 ez1 : ℚ) (uv0 uv1 : vec2_t) (t : ℚ) : Option color_t :=
  let col := color_lerp c0 c1 t
  let tex : Option texture_t :=
    match L.tex with
    | some tex => if tex.pixels.isSome then some tex else none
    | none => none
  let shaded : Option color_t :=
    match tex with
    | some tex =>
      let u := uv0.x + t * (uv1.x - uv0.x)
      let v := uv0.y + t * (uv1.y - uv0.y)
      let texel := texture_sample tex u v
      let tex_color := color_from_rgba32 texel
      if L.alpha_test_enabled = true ∧ ¬alpha_test c.alpha_func tex_color.a c.alpha_ref then
        none
      else some (color_mul col tex_color)
    | none =>
      if L.alpha_test_enabled = true then
        if ¬alpha_test c.alpha_func col.a c.alpha_ref then none else some col
      else some col
  match shaded with
  | none => none
  | some col =>
    if L.fog_enabled = true then
      let fog_coord := -(ez0 + t * (ez1 - ez0))
      some (color_lerp_rgb c.fog_color col (fog_factor lm c fog_coord))
    else some col

/-- The part of the loop body of `draw_line_full` that draws the fragment with
the line width. -/
def draw_line_full_plot (c : GLState) (L : line_locals_t) (cur_x cur_y : Int) (depth : ℚ)
    (col : color_t) : GLState :=
  if L.line_width = 1 then
    if cur_x ≥ 0 ∧ cur_x < c.framebuffer.width ∧ cur_y ≥ 0 ∧ cur_y < c.framebuffer.height then
      write_line_pixel c cur_x cur_y depth col L.depth_enabled L.blend_enabled L.scissor_enabled
    else c
  else
    for_range (-L.half_width) (L.line_width - L.half_width)
      (fun w c =>
        write_line_pixel c (cur_x + w * L.expand_x) (cur_y + w * L.expand_y) depth col
          L.depth_enabled L.blend_enabled L.scissor_enabled) c

/-- The end of the loop body of `draw_line_full`: the Bresenham step. -/
def line_advance (L : line_locals_t) (k : line_cursor_t) : line_cursor_t :=
  let e2 := k.err * 2
  let k1 : line_cursor_t :=
    if e2 > -L.ady then { k with err := k.err - L.ady, cur_x := k.cur_x + L.sx } else k
  let k2 : line_cursor_t :=
    if e2 < L.adx then { k1 with err := k1.err + L.adx, cur_y := k1.cur_y + L.sy } else k1
  { k2 with step := k2.step + 1 }

/-- The loop `for (;;)` of `draw_line_full`, run for at most `fuel` passes:
the context it leaves together with the cursor at the start of each pass, in
order; `none` when the loop has not left after `fuel` passes. -/
def draw_line_full_loop (lm : LibM) (x1 y1 : Int) (z0 z1 : ℚ) (c0 c1 : color_t)
    (ez0 ez1 : ℚ) (uv0 uv1 : vec2_t) (L : line_locals_t) :
    Nat → GLState → line_cursor_t → Option (GLState × List line_cursor_t)
  | 0, _, _ => none
  | fuel + 1, c, k =>
    let t := line_t L k
    let z := z0 + t * (z1 - z0)
    let depth := (z + 1) * (1 / 2) * (c.depth_far - c.depth_near) + c.depth_near
    match draw_line_full_fragment lm c L c0 c1 ez0 ez1 uv0 uv1 t with
    | none =>
      (draw_line_full_loop lm x1 y1 z0 z1 c0 c1 ez0 ez1 uv0 uv1 L fuel c k).map
        fun r => (r.1, k :: r.2)
    | some col =>
      let c := draw_line_full_plot c L k.cur_x k.cur_y depth col
      if k.cur_x = x1 ∧ k.cur_y = y1 then some (c, [k])
      else
        (draw_line_full_loop lm x1 y1 z0 z1 c0 c1 ez0 ez1 uv0 uv1 L fuel c
          (line_advance L k)).map fun r => (r.1, k :: r.2)

/-- The function `draw_line_full` with the passes of its loop: the context it
leaves and the cursor at the start of each pass. -/
def draw_line_full_trace (lm : LibM) (fuel : Nat) (c : GLState) (x0 y0 : Int) (z0 : ℚ)
    (x1 y1 : Int) (z1 : ℚ) (c0 c1 : color_t) (ez0 ez1 : ℚ) (uv0 uv1 : vec2_t) :
    Option (GLState × List line_cursor_t) :=
  let L := draw_line_full_locals c x0 y0 x1 y1
  draw_line_full_loop lm x1 y1 z0 z1 c0 c1 ez0 ez1 uv0 uv1 L fuel c
    { cur_x := x0, cur_y := y0, err := L.adx - L.ady, step := 0 }

/-- The line rasterizer `draw_line_full` of raster.c with its loop run for at
most `fuel` passes; `none` when the loop has not left by then. -/
def draw_line_full (lm : LibM) (fuel : Nat) : draw_line_t :=
  fun c x0 y0 z0 x1 y1 z1 c0 c1 ez0 ez1 uv0 uv1 =>
    (draw_line_full_trace lm fuel c x0 y0 z0 x1 y1 z1 c0 c1 ez0 ez1 uv0 uv1).map Prod.fst

abbrev MYTGL_MAX_TEXTURE_SIZE : Int := 2048

def rgb_bytes_to_rgba32 (r g b : Nat) : Nat :=
  to_uint32 ((0xFF <<< 24) ||| (b <<< 16) ||| (g <<< 8) ||| r)

def luminance_to_rgba32 (l : Nat) : Nat :=
  to_uint32 ((0xFF <<< 24) ||| (l <<< 16) ||| (l <<< 8) ||| l)

def luminance_alpha_to_rgba32 (l a : Nat) : Nat :=
  to_uint32 ((a <<< 24) ||| (l <<< 16) ||| (l <<< 8) ||| l)

def texture_init_slot (tex : texture_t) : texture_t :=
  { tex with
    width := 0
    height := 0
    pixels := none
    mip1_width := 0
    mip1_height := 0
    mip1_pixels := none
    min_filter := GL_NEAREST
    mag_filter := GL_NEAREST
    wrap_s := GL_REPEAT
    wrap_t := GL_REPEAT
    allocated := true }

/-- The part of `texture_free` that acts on the slot `store->textures[id - 1]`. -/
def texture_free_slot (tex : texture_t) : texture_t :=
  if ¬tex.allocated then tex
  else
    { tex with
      pixels := none
      mip1_pixels := none
      width := 0
      height := 0
      mip1_width := 0
      mip1_height := 0
      allocated := false }

def texture_free (store : texture_store_t) (id : Nat) : texture_store_t :=
  if id = 0 ∨ id > store.textures.length then store
  else
    match store.textures[id - 1]? with
    | none => store
    | some tex => texture_put store id (texture_free_slot tex)

def texture_invalidate_mipmap (tex : texture_t) : texture_t :=
  { tex with mip1_pixels := none, mip1_width := 0, mip1_height := 0 }

/-- The body the four upload functions share; `texel i` is the converted
element `i` of the caller's data. `alloc_ok` tells whether the allocator
delivers the new base level. -/
def texture_upload (alloc_ok : Bool) (tex : texture_t) (width height : Int)
    (texel : Nat → Nat) : Int × texture_t :=
  if width ≤ 0 ∨ height ≤ 0 then (-1, tex)
  else if width > MYTGL_MAX_TEXTURE_SIZE ∨ height > MYTGL_MAX_TEXTURE_SIZE then (-1, tex)
  else
    let pixel_count := Int.toNat (width * height)
    if ¬alloc_ok then (-1, tex)
    else
      let tex := texture_invalidate_mipmap tex
      (0, { tex with
              pixels := some ((List.range pixel_count).map texel)
              width := width
              height := height })

/-- The function `texture_upload_rgba`; `data` is the caller's array of
`uint8_t`. -/
def texture_upload_rgba (alloc_ok : Bool) (tex : texture_t) (width height : Int)
    (data : Nat → Nat) : Int × texture_t :=
  texture_upload alloc_ok tex width height fun i =>
    rgba_bytes_to_rgba32 (data (i * 4 + 0)) (data (i * 4 + 1)) (data (i * 4 + 2))
      (data (i * 4 + 3))

def texture_upload_rgb (alloc_ok : Bool) (tex : texture_t) (width height : Int)
    (data : Nat → Nat) : Int × texture_t :=
  texture_upload alloc_ok tex width height fun i =>
    rgb_bytes_to_rgba32 (data (i * 3 + 0)) (data (i * 3 + 1)) (data (i * 3 + 2))

def texture_upload_luminance (alloc_ok : Bool) (tex : texture_t) (width height : Int)
    (data : Nat → Nat) : Int × texture_t :=
  texture_upload alloc_ok tex width height fun i => luminance_to_rgba32 (data i)

def texture_upload_luminance_alpha (alloc_ok : Bool) (tex : texture_t) (width height : Int)
    (data : Nat → Nat) : Int × texture_t :=
  texture_upload alloc_ok tex width height fun i =>
    luminance_alpha_to_rgba32 (data (i * 2 + 0)) (data (i * 2 + 1))

def texture_clear (tex : texture_t) : texture_t :=
  { tex with
    pixels := none
    mip1_pixels := none
    width := 0
    height := 0
    mip1_width := 0
    mip1_height := 0 }

/-- The four upload formats. -/
inductive upload_format where
  | rgba
  | rgb
  | luminance
  | luminance_alpha

/-- The upload function of a format. -/
def upload_format.upload (f : upload_format) (alloc_ok : Bool) (tex : texture_t)
    (width height : Int) (data : Nat → Nat) : Int × texture_t :=
  match f with
  | .rgba => texture_upload_rgba alloc_ok tex width height data
  | .rgb => texture_upload_rgb alloc_ok tex width height data
  | .luminance => texture_upload_luminance alloc_ok tex width height data
  | .luminance_alpha => texture_upload_luminance_alpha alloc_ok tex width height data

/-- An operation of textures.c on one texture slot: the slot initialisation of
`texture_alloc`, an upload, the generation of mip level 1, a sample (which may
generate the level), the release of `texture_free`, and `texture_clear`. -/
inductive texture_op where
  | init_slot
  | upload (f : upload_format) (alloc_ok : Bool) (width height : Int) (data : Nat → Nat)
  | generate_mip1 (alloc_ok : Bool)
  | sample_lod (alloc_ok : Bool) (u v lod : ℚ)
  | free
  | clear

/-- The texture slot an operation leaves. -/
def texture_op.run (op : texture_op) (tex : texture_t) : texture_t :=
  match op with
  | .init_slot => texture_init_slot tex
  | .upload f alloc_ok width height data => (f.upload alloc_ok tex width height data).2
  | .generate_mip1 alloc_ok => (texture_generate_mip1 alloc_ok tex).2
  | .sample_lod alloc_ok u v lod => (texture_sample_lod alloc_ok tex u v lod).2
  | .free => texture_free_slot tex
  | .clear => texture_clear tex

/-- The texture slot a sequence of operations leaves. -/
def texture_ops_run (ops : List texture_op) (tex : texture_t) : texture_t :=
  ops.foldl (fun t op => op.run t) tex

/-- A 2 x 2 luminance image uploaded into a fresh slot, then sampled at a level
of detail that needs mip level 1. -/
def mip_test_ops : List texture_op :=
  [ .upload .luminance true 2 2 (fun i => 10 * i),
    .upload .rgba true 0 2 (fun _ => 0),
    .generate_mip1 true ]

/-! ## clipping.h: properties of the passes -/

/-- The six clip planes, distance function and plane id, in the order
`clip_triangle` applies them. -/
def clip_planes : List ((vec4_t → ℚ) × Nat) :=
  [(clip_near, PLANE_NEAR), (clip_far, PLANE_FAR), (clip_left, PLANE_LEFT),
    (clip_right, PLANE_RIGHT), (clip_bottom, PLANE_BOTTOM), (clip_top, PLANE_TOP)]

/-- The vertices one pass of the loop of `clip_polygon_plane_id` appends to
the output, for the previous vertex `prev` at distance `prev_dist` and the
current vertex `curr`. -/
def clip_emitted (plane_func : vec4_t → ℚ) (plane_id : Nat) (prev : vertex_t) (prev_dist : ℚ)
    (curr : vertex_t) : List vertex_t :=
  let curr_dist := plane_func curr.position
  if prev_dist ≥ 0 then
    if curr_dist ≥ 0 then [curr]
    else if |prev_dist - curr_dist| > 1 / 10 ^ 10 then
      [snap_to_plane (vertex_lerp prev curr (prev_dist / (prev_dist - curr_dist))) plane_id]
    else []
  else
    if curr_dist ≥ 0 then
      (if |prev_dist - curr_dist| > 1 / 10 ^ 10 then
        [snap_to_plane (vertex_lerp prev curr (prev_dist / (prev_dist - curr_dist))) plane_id]
      else []) ++ [curr]
    else []

/-- A function of the clip-space position that interpolates linearly. -/
def plane_linear (g : vec4_t → ℚ) : Prop :=
  ∀ (a b : vec4_t) (t : ℚ), g (vec4_lerp a b t) = g a + t * (g b - g a)

/-- The vertex `v` of the output of a pass over `inp` is a vertex of `inp` that
is inside the plane, or the intersection of an edge of `inp` with the plane. -/
def clip_provenance (plane_func : vec4_t → ℚ) (plane_id : Nat) (inp : List vertex_t)
    (v : vertex_t) : Prop :=
  (v ∈ inp ∧ plane_func v.position ≥ 0) ∨
  ∃ p ∈ inp, ∃ q ∈ inp, ∃ t : ℚ, 0 ≤ t ∧ t ≤ 1 ∧
    t = plane_func p.position / (plane_func p.position - plane_func q.position) ∧
    v = snap_to_plane (vertex_lerp p q t) plane_id ∧ v = vertex_lerp p q t ∧
    plane_func v.position = 0

/-! ## clipping.h: size of the output -/

abbrev MAX_CLIP_VERTS : Nat := 12

/-- The number of changes of value along the list `a :: l`. -/
def alt_from : Bool → List Bool → Nat
  | _, [] => 0
  | a, b :: l => (if a = b then 0 else 1) + alt_from b l

/-- The last element of the list `a :: l`. -/
def last_from : Bool → List Bool → Bool
  | a, [] => a
  | _, b :: l => last_from b l

/-- The number of changes of value along a list. -/
def alternations : List Bool → Nat
  | [] => 0
  | a :: l => alt_from a l

/-- The side of the half-space `g >= 0` a vertex lies on. -/
def side (g : vec4_t → ℚ) (v : vertex_t) : Bool := decide (g v.position ≥ 0)

/-- Along the polygon no linear function of the position changes sign more
than twice: the property of a convex polygon that bounds the number of edges a
plane crosses. -/
def sign_changes_bounded (l : List vertex_t) : Prop :=
  ∀ g : vec4_t → ℚ, plane_linear g → alternations (l.map (side g)) ≤ 2

/-- The polygon after the first `k` plane passes of `clip_triangle`. -/
def clip_triangle_pass (tri : List vertex_t) : Nat → List vertex_t
  | 0 => tri
  | k + 1 =>
    match clip_planes[k]? with
    | some pl => clip_polygon_plane_id (clip_triangle_pass tri k) pl.1 pl.2
    | none => clip_triangle_pass tri k

/-! ## clipping.h: line clipping -/

abbrev OUTCODE_INSIDE : Nat := 0
abbrev OUTCODE_LEFT : Nat := 1
abbrev OUTCODE_RIGHT : Nat := 2
abbrev OUTCODE_BOTTOM : Nat := 4
abbrev OUTCODE_TOP : Nat := 8
abbrev OUTCODE_NEAR : Nat := 16
abbrev OUTCODE_FAR : Nat := 32

def compute_outcode (v : vec4_t) : Nat :=
  let code := OUTCODE_INSIDE
  let code :=
    if v.x < -v.w then code ||| OUTCODE_LEFT
    else if v.x > v.w then code ||| OUTCODE_RIGHT
    else code
  let code :=
    if v.y < -v.w then code ||| OUTCODE_BOTTOM
    else if v.y > v.w then code ||| OUTCODE_TOP
    else code
  let code :=
    if v.z < -v.w then code ||| OUTCODE_NEAR
    else if v.z > v.w then code ||| OUTCODE_FAR
    else code
  code

/-- The values `d0`, `d1` and `plane_id` the loop body of `clip_line` sets for
the outcode `code_out`; no plane id stands for the initial value -1. -/
def clip_line_plane (code_out : Nat) (p0 p1 : vec4_t) : ℚ × ℚ × Option Nat :=
  if code_out &&& OUTCODE_LEFT ≠ 0 then (p0.x + p0.w, p1.x + p1.w, some PLANE_LEFT)
  else if code_out &&& OUTCODE_RIGHT ≠ 0 then (p0.w - p0.x, p1.w - p1.x, some PLANE_RIGHT)
  else if code_out &&& OUTCODE_BOTTOM ≠ 0 then (p0.y + p0.w, p1.y + p1.w, some PLANE_BOTTOM)
  else if code_out &&& OUTCODE_TOP ≠ 0 then (p0.w - p0.y, p1.w - p1.y, some PLANE_TOP)
  else if code_out &&& OUTCODE_NEAR ≠ 0 then (p0.z + p0.w, p1.z + p1.w, some PLANE_NEAR)
  else if code_out &&& OUTCODE_FAR ≠ 0 then (p0.w - p0.z, p1.w - p1.z, some PLANE_FAR)
  else (0, 0, none)

/-- The call `snap_to_plane(&clipped, plane_id)` of `clip_line`; the value -1
of `plane_id` selects no case of the switch. -/
def clip_line_snap (v : vertex_t) (plane_id : Option Nat) : vertex_t :=
  match plane_id with
  | some id => snap_to_plane v id
  | none => v

/-- The loop `while (1)` of `clip_line`, run for at most `fuel` passes: the
return value and the endpoints it leaves; `none` when the loop has not left
after `fuel` passes. -/
def clip_line_loop : Nat → vertex_t → vertex_t → Nat → Nat → Option (Int × vertex_t × vertex_t)
  | 0, _, _, _, _ => none
  | fuel + 1, v0, v1, code0, code1 =>
    if code0 ||| code1 = 0 then some (1, v0, v1)
    else if code0 &&& code1 ≠ 0 then some (0, v0, v1)
    else
      let code_out := if code0 ≠ 0 then code0 else code1
      let pl := clip_line_plane code_out v0.position v1.position
      let d0 := pl.1
      let d1 := pl.2.1
      let denom := d0 - d1
      if |denom| < 1 / 10 ^ 10 then some (0, v0, v1)
      else
        let t := d0 / denom
        let clipped := clip_line_snap (vertex_lerp v0 v1 t) pl.2.2
        if code_out = code0 then
          clip_line_loop fuel clipped v1 (compute_outcode clipped.position) code1
        else
          clip_line_loop fuel v0 clipped code0 (compute_outcode clipped.position)

def clip_line (fuel : Nat) (v0 v1 : vertex_t) : Option (Int × vertex_t × vertex_t) :=
  clip_line_loop fuel v0 v1 (compute_outcode v0.position) (compute_outcode v1.position)

/-- A vertex at the clip-space position `(x, 0, 0, w)`. -/
def line_test_vertex (x w : ℚ) : vertex_t :=
  { test_vertex 0 0 with position := ⟨x, 0, 0, w⟩ }

/-- The local `det` of `mat4_normal_matrix`: the determinant of the upper-left
3x3 block, expanded along the entries `m[0]`, `m[1]`, `m[2]`. -/
def mat4_normal_matrix_det (m : mat4_t) : ℚ :=
  let a := m 0
  let b := m 1
  let c := m 2
  let d := m 4
  let e := m 5
  let f := m 6
  let g := m 8
  let h := m 9
  let i := m 10
  a * (e * i - f * h) - b * (d * i - f * g) + c * (d * h - e * g)

/-- The upper-left 3x3 block of a column-major `mat4_t`: the entry in row `r`
and column `c` is `m[c * 4 + r]`, the layout `mat4_mul_vec4` reads. -/
def mat4_upper3 (m : mat4_t) : Matrix (Fin 3) (Fin 3) ℚ :=
  fun r c => m ⟨c.val * 4 + r.val, by omega⟩

/-- The matrix `mat4_scale(2, 3, 4)`. -/
def scale_234 : mat4_t :=
  ![2, 0, 0, 0,
    0, 3, 0, 0,
    0, 0, 4, 0,
    0, 0, 0, 1]

/-- The vector `vec3(n4.x, n4.y, n4.z)` for `n4 = mat4_mul_vec4(m, vec4(v.x,
v.y, v.z, 0))`, the way `emit_vertex` applies the normal matrix. -/
def mat4_mul_dir (m : mat4_t) (v : vec3_t) : vec3_t :=
  let n4 := mat4_mul_vec4 m (vec4 v.x v.y v.z 0)
  vec3 n4.x n4.y n4.z

/-! ## The alpha-test state -/

/-- The context `c` with the flag word `fl`, the alpha function `f` and the
alpha reference `r`. -/
def with_alpha_state (c : GLState) (fl f : Nat) (r : ℚ) : GLState :=
  { c with flags := fl, alpha_func := f, alpha_ref := r }

/-- Two contexts that differ at most in the state of the alpha test: the bit
`FLAG_ALPHA_TEST` of the flag word, `alpha_func` and `alpha_ref`. -/
def alpha_state_variant (c s : GLState) : Prop :=
  ∃ (fl f : Nat) (r : ℚ),
    fl ||| FLAG_ALPHA_TEST = c.flags ||| FLAG_ALPHA_TEST ∧ s = with_alpha_state c fl f r

/-- The context of `test_context` with the alpha test enabled and
`glAlphaFunc(GL_NEVER, 0)`. -/
def alpha_never_test_context : GLState :=
  with_alpha_state test_context (test_context.flags ||| FLAG_ALPHA_TEST) GL_NEVER 0

/-- The relation the pixel loop of `rasterize_triangle_smooth` keeps between
its runs from `c` and from `with_alpha_state c fl f r` when no texture is
sampled. -/
def alpha_sim (c : GLState) (fl f : Nat) (r : ℚ) (s t : GLState) : Prop :=
  t = with_alpha_state s fl f r ∧ s.flags = c.flags ∧ rasterize_triangle_smooth_tex s = none

/-! ## The stencil state -/

/-- The stencil state of a context: the flag word, whose bit
`FLAG_STENCIL_TEST` enables the test, and the values `glStencilFunc`,
`glStencilOp` and `glStencilMask` set. -/
structure stencil_state_t where
  flags : Nat
  func : Nat
  ref : Int
  mask : Nat
  fail : Nat
  zfail : Nat
  zpass : Nat
  writemask : Nat

/-- The context `c` with the stencil state `p`. -/
def with_stencil_state (p : stencil_state_t) (c : GLState) : GLState :=
  { c with
    flags := p.flags
    stencil_func := p.func
    stencil_ref := p.ref
    stencil_mask := p.mask
    stencil_fail := p.fail
    stencil_zfail := p.zfail
    stencil_zpass := p.zpass
    stencil_writemask := p.writemask }

/-- Two contexts that differ at most in the stencil state: the bit
`FLAG_STENCIL_TEST` of the flag word, the stencil function, reference and
mask, the three stencil operations and the stencil write mask. -/
def stencil_state_variant (c s : GLState) : Prop :=
  ∃ p : stencil_state_t,
    p.flags ||| FLAG_STENCIL_TEST = c.flags ||| FLAG_STENCIL_TEST ∧ s = with_stencil_state p c

/-- The context of `test_context` after `glEnable(GL_STENCIL_TEST)`,
`glStencilFunc(GL_NEVER, 1, 0xFF)` and `glStencilOp(GL_REPLACE, GL_KEEP,
GL_KEEP)`. -/
def stencil_never_context : GLState :=
  with_stencil_state
    { flags := test_context.flags ||| FLAG_STENCIL_TEST, func := GL_NEVER, ref := 1, mask := 0xFF,
      fail := GL_REPLACE, zfail := GL_KEEP, zpass := GL_KEEP, writemask := 0xFF }
    test_context

/-! ## raster.c: points -/

/-- The variables `flush_points` sets before its loop over the vertices and
does not change in it. -/
structure point_locals_t where
  depth_enabled : Bool
  fog_enabled : Bool
  blend_enabled : Bool
  alpha_test_enabled : Bool
  scissor_enabled : Bool
  point_size : Int
  half : Int
  tex : Option texture_t

def flush_points_locals (c : GLState) : point_locals_t :=
  let texture_enabled := c.flags &&& FLAG_TEXTURE_2D ≠ 0
  let point_size := float_to_int (c.point_size + 1 / 2)
  let point_size := if point_size < 1 then 1 else point_size
  { depth_enabled := decide (c.flags &&& FLAG_DEPTH_TEST ≠ 0)
    fog_enabled := decide (c.flags &&& FLAG_FOG ≠ 0)
    blend_enabled := decide (c.flags &&& FLAG_BLEND ≠ 0)
    alpha_test_enabled := decide (c.flags &&& FLAG_ALPHA_TEST ≠ 0)
    scissor_enabled := decide (c.flags &&& FLAG_SCISSOR_TEST ≠ 0)
    point_size := point_size
    half := Int.tdiv point_size 2
    tex := if texture_enabled ∧ c.bound_texture_2d ≠ 0 then
        texture_get c.textures c.bound_texture_2d
      else none }

/-- The part of the loop body of `flush_points` that computes the color of the
point: texturing, alpha test and fog. `none` when the alpha test fails, where
the body executes `continue`. -/
def flush_points_fragment (lm : LibM) (c : GLState) (P : point_locals_t) (v : vertex_t) :
    Option color_t :=
  let col := v.color
  let tex : Option texture_t :=
    match P.tex with
    | some tex => if tex.pixels.isSome then some tex else none
    | none => none
  let shaded : Option color_t :=
    match tex with
    | some tex =>
      let u := v.texcoord.x
      let v := v.texcoord.y
      let texel := texture_sample tex u v
      let tex_color := color_from_rgba32 texel
      if P.alpha_test_enabled = true ∧ ¬alpha_test c.alpha_func tex_color.a c.alpha_ref then
        none
      else some (color_mul col tex_color)
    | none =>
      if P.alpha_test_enabled = true then
        if ¬alpha_test c.alpha_func col.a c.alpha_ref then none else some col
      else some col
  match shaded with
  | none => none
  | some col =>
    if P.fog_enabled = true then
      let fog_coord := -v.eye_z
      some (color_lerp_rgb c.fog_color col (fog_factor lm c fog_coord))
    else some col

/-- The body of the two pixel loops of `flush_points` at pixel `(px, py)`. -/
def flush_points_pixel (c : GLState) (P : point_locals_t) (depth : ℚ) (col : color_t)
    (py px : Int) : GLState :=
  let fb := c.framebuffer
  if px < 0 ∨ px ≥ fb.width ∨ py < 0 ∨ py ≥ fb.height then c
  else if P.scissor_enabled = true ∧
      (px < c.scissor_x ∨ px ≥ c.scissor_x + c.scissor_w ∨
        py < c.scissor_y ∨ py ≥ c.scissor_y + c.scissor_h) then c
  else if P.depth_enabled = true ∧
      ¬depth_test c.depth_func depth (framebuffer_getdepth fb px py) then c
  else
    let final_color :=
      if P.blend_enabled = true then
        blend_colors c col (color_from_rgba32 (framebuffer_getpixel fb px py))
      else col
    let fb := if P.depth_enabled = true ∧ c.depth_mask then framebuffer_putdepth fb px py depth
      else fb
    { c with framebuffer := write_pixel_masked { c with framebuffer := fb } px py final_color }

/-- The body of the loop of `flush_points` for the vertex `v`. -/
def flush_points_vertex (lm : LibM) (P : point_locals_t) (c : GLState) (v : vertex_t) :
    GLState :=
  let pos := v.position
  if pos.x < -pos.w ∨ pos.x > pos.w ∨ pos.y < -pos.w ∨ pos.y > pos.w ∨
      pos.z < -pos.w ∨ pos.z > pos.w ∨ pos.w ≤ 0 then c
  else
    let ndc_x := pos.x / pos.w
    let ndc_y := pos.y / pos.w
    let ndc_z := pos.z / pos.w
    let p := ndc_to_screen c ndc_x ndc_y
    let depth := (ndc_z + 1) * (1 / 2) * (c.depth_far - c.depth_near) + c.depth_near
    match flush_points_fragment lm c P v with
    | none => c
    | some col =>
      let x_start := p.1 - P.half
      let x_end := x_start + P.point_size
      let y_start := p.2 - P.half
      let y_end := y_start + P.point_size
      for_range y_start y_end (fun py c =>
        for_range x_start x_end (fun px c => flush_points_pixel c P depth col py px) c) c

/-- The context after `flush_points`. -/
def flush_points (lm : LibM) (c : GLState) : GLState :=
  c.vertices.foldl (flush_points_vertex lm (flush_points_locals c)) c

/-- The context of `test_context` after `glEnable(GL_FOG)`,
`glFogi(GL_FOG_MODE, GL_LINEAR)`, `glFogf(GL_FOG_START, 0)` and
`glFogf(GL_FOG_END, 10)`. -/
def fog_linear_context : GLState :=
  { test_context with flags := FLAG_FOG, fog_mode := GL_LINEAR, fog_start := 0, fog_end := 10 }

/-- The vertex `emit_vertex` builds in `fog_linear_context` for
`glVertex3f(0, 0, -5)`, with the clip-space position set to `(0, 0, 0, 1)`. -/
def fog_test_vertex : vertex_t :=
  { emit_vertex_build test_platform.lm fog_linear_context 0 0 (-5) 1 with
    position := ⟨0, 0, 0, 1⟩ }

/-- The arguments of `rasterize_triangle_smooth` for `fog_test_vertex` at the
screen position `(x, y)`. -/
def fog_raster_vertex (x y : Int) : raster_vertex_t := raster_vertex (x, y) fog_test_vertex

/-! ## raster.c: texture coordinates of a fragment -/

/-- The texture coordinates `(u, v)` at which the pixel loop of
`rasterize_triangle_smooth` samples the texture, at the barycentric
coordinates `(b0, b1, b2)`. -/
def rasterize_triangle_smooth_uv (c : GLState) (v0 v1 v2 : raster_vertex_t) (b0 b1 b2 : ℚ) :
    ℚ × ℚ :=
  let u0_w := v0.uv.x * v0.w_inv
  let v0_w := v0.uv.y * v0.w_inv
  let u1_w := v1.uv.x * v1.w_inv
  let v1_w := v1.uv.y * v1.w_inv
  let u2_w := v2.uv.x * v2.w_inv
  let v2_w := v2.uv.y * v2.w_inv
  if c.perspective_correction_hint ≠ GL_FASTEST then
    let u_over_w := b0 * u0_w + b1 * u1_w + b2 * u2_w
    let v_over_w := b0 * v0_w + b1 * v1_w + b2 * v2_w
    let one_over_w := b0 * v0.w_inv + b1 * v1.w_inv + b2 * v2.w_inv
    let w := 1 / one_over_w
    (u_over_w * w, v_over_w * w)
  else
    (b0 * v0.uv.x + b1 * v1.uv.x + b2 * v2.uv.x, b0 * v0.uv.y + b1 * v1.uv.y + b2 * v2.uv.y)

/-- The arguments of `rasterize_triangle_smooth` for a vertex with the given
`1/w` and the texture coordinates `(u, v)`. -/
def uv_raster_vertex (w_inv u v : ℚ) : raster_vertex_t :=
  { test_raster_vertex 0 0 with w_inv := w_inv, uv := ⟨u, v⟩ }

/-- A call a flush function makes into the pipeline:
`render_triangle(ctx, &verts[i], &verts[j], &verts[k])` or
`draw_line_segment(ctx, &verts[i], &verts[j])`. -/
inductive pipeline_call where
  | triangle (i j k : Nat)
  | line (i j : Nat)
deriving DecidableEq

/-- The calls of the loop `for (i = start; i + off < count; i += step) body(i)`
from the index `i` on, in order. The loop runs for at most `fuel` passes; a
loop with `step ≥ 1` needs at most `count` passes. -/
def index_loop (off step count : Nat) (body : Nat → List pipeline_call) :
    Nat → Nat → List pipeline_call
  | 0, _ => []
  | fuel + 1, i =>
    if i + off < count then body i ++ index_loop off step count body fuel (i + step) else []

def flush_lines_calls (count : Nat) : List pipeline_call :=
  index_loop 1 2 count (fun i => [.line i (i + 1)]) count 0

def flush_triangles_calls (count : Nat) : List pipeline_call :=
  index_loop 2 3 count (fun i => [.triangle i (i + 1) (i + 2)]) count 0

def flush_quads_calls (count : Nat) : List pipeline_call :=
  index_loop 3 4 count
    (fun i => [.triangle i (i + 1) (i + 2), .triangle i (i + 2) (i + 3)]) count 0

def flush_triangle_strip_calls (count : Nat) : List pipeline_call :=
  if count < 3 then []
  else
    index_loop 2 1 count
      (fun i => if i % 2 = 0 then [.triangle i (i + 1) (i + 2)]
        else [.triangle (i + 1) i (i + 2)]) count 0

def flush_triangle_fan_calls (count : Nat) : List pipeline_call :=
  if count < 3 then []
  else index_loop 1 1 count (fun i => [.triangle 0 i (i + 1)]) count 1

def flush_line_strip_calls (count : Nat) : List pipeline_call :=
  if count < 2 then []
  else index_loop 1 1 count (fun i => [.line i (i + 1)]) count 0

def flush_line_loop_calls (count : Nat) : List pipeline_call :=
  if count < 2 then []
  else
    index_loop 1 1 count (fun i => [.line i (i + 1)]) count 0
      ++ (if count ≥ 2 then [.line (count - 1) 0] else [])

def flush_polygon_calls (count : Nat) : List pipeline_call :=
  if count < 3 then []
  else index_loop 1 1 count (fun i => [.triangle 0 i (i + 1)]) count 1

def flush_quad_strip_calls (count : Nat) : List pipeline_call :=
  if count < 4 then []
  else
    index_loop 3 2 count
      (fun i => [.triangle i (i + 1) (i + 3), .triangle i (i + 3) (i + 2)]) count 0

/-- The calls into the triangle and line pipeline that the
`switch (ctx->primitive_mode)` of `glEnd` leads to for `count` buffered
vertices; `flush_points` makes none. -/
def flush_primitive_calls (mode count : Nat) : List pipeline_call :=
  if mode = GL_POINTS then []
  else if mode = GL_LINES then flush_lines_calls count
  else if mode = GL_LINE_STRIP then flush_line_strip_calls count
  else if mode = GL_LINE_LOOP then flush_line_loop_calls count
  else if mode = GL_TRIANGLES then flush_triangles_calls count
  else if mode = GL_TRIANGLE_STRIP then flush_triangle_strip_calls count
  else if mode = GL_TRIANGLE_FAN then flush_triangle_fan_calls count
  else if mode = GL_QUADS then flush_quads_calls count
  else if mode = GL_QUAD_STRIP then flush_quad_strip_calls count
  else if mode = GL_POLYGON then flush_polygon_calls count
  else []

/-- The emission table of the primitive assembler for `n` buffered vertices,
as the specification gives it. -/
def emission_table (mode n : Nat) : List pipeline_call :=
  if mode = GL_TRIANGLES then
    (List.range (n / 3)).map (fun k => .triangle (3 * k) (3 * k + 1) (3 * k + 2))
  else if mode = GL_TRIANGLE_STRIP then
    (List.range (n - 2)).map (fun i =>
      if i % 2 = 0 then .triangle i (i + 1) (i + 2) else .triangle (i + 1) i (i + 2))
  else if mode = GL_TRIANGLE_FAN ∨ mode = GL_POLYGON then
    (List.range (n - 2)).map (fun j => .triangle 0 (j + 1) (j + 2))
  else if mode = GL_QUADS then
    (List.range (n / 4)).flatMap (fun k =>
      [.triangle (4 * k) (4 * k + 1) (4 * k + 2), .triangle (4 * k) (4 * k + 2) (4 * k + 3)])
  else if mode = GL_QUAD_STRIP then
    ((List.range n).filter (fun i => i % 2 = 0 ∧ i + 3 < n)).flatMap (fun i =>
      [.triangle i (i + 1) (i + 3), .triangle i (i + 3) (i + 2)])
  else if mode = GL_LINES then
    (List.range (n / 2)).map (fun k => .line (2 * k) (2 * k + 1))
  else if mode = GL_LINE_STRIP then
    (List.range (n - 1)).map (fun i => .line i (i + 1))
  else if mode = GL_LINE_LOOP then
    (List.range (n - 1)).map (fun i => .line i (i + 1))
      ++ (if 2 ≤ n then [.line (n - 1) 0] else [])
  else []

/-- The function `draw_line_segment`: the context it leaves, `none` when
`clip_line` or `draw_line_full` has not returned after `fuel` passes of its
loop. -/
def draw_line_segment (lm : LibM) (fuel : Nat) (c : GLState) (src0 src1 : vertex_t) :
    Option GLState :=
  match clip_line fuel src0 src1 with
  | none => none
  | some (r, v0, v1) =>
    if r = 0 then some c
    else
      let d0 : ℚ × ℚ × ℚ :=
        if |v0.position.w| ≥ 1 / 10 ^ 6 then
          let inv_w0 := 1 / v0.position.w
          (v0.position.x * inv_w0, v0.position.y * inv_w0, v0.position.z * inv_w0)
        else (0, 0, 0)
      let d1 : ℚ × ℚ × ℚ :=
        if |v1.position.w| ≥ 1 / 10 ^ 6 then
          let inv_w1 := 1 / v1.position.w
          (v1.position.x * inv_w1, v1.position.y * inv_w1, v1.position.z * inv_w1)
        else (0, 0, 0)
      let p0 := ndc_to_screen c d0.1 d0.2.1
      let p1 := ndc_to_screen c d1.1 d1.2.1
      draw_line_full lm fuel c p0.1 p0.2 d0.2.2 p1.1 p1.2 d1.2.2 v0.color v1.color
        v0.eye_z v1.eye_z v0.texcoord v1.texcoord

/-- The context a call into the pipeline leaves, for the vertex array `verts`;
`none` when the call does not return or reads outside the array. -/
def pipeline_call.run (lm : LibM) (alloc_ok : Bool) (fuel : Nat) (verts : List vertex_t)
    (c : GLState) : pipeline_call → Option GLState
  | .triangle i j k =>
    match verts[i]?, verts[j]?, verts[k]? with
    | some a, some b, some d => render_triangle lm alloc_ok (draw_line_full lm fuel) c a b d
    | _, _, _ => none
  | .line i j =>
    match verts[i]?, verts[j]? with
    | some a, some b => draw_line_segment lm fuel c a b
    | _, _ => none

/-- The context after the `switch (ctx->primitive_mode)` of `glEnd` with the
flush functions of raster.c, `none` when a line does not return. -/
def flush_primitive_run (lm : LibM) (alloc_ok : Bool) (fuel : Nat) (c : GLState) :
    Option GLState :=
  if c.primitive_mode = GL_POINTS then some (flush_points lm c)
  else
    (flush_primitive_calls c.primitive_mode c.vertices.length).foldlM
      (fun s t => t.run lm alloc_ok fuel c.vertices s) c

/-- The indices of a call. -/
def pipeline_call.indices : pipeline_call → List Nat
  | .triangle i j k => [i, j, k]
  | .line i j => [i, j]

/-! ## vbo.c, gl_api.c: vertex arrays and buffer objects -/

abbrev GL_UNSIGNED_SHORT : Nat := 0x1403
abbrev GL_UNSIGNED_INT : Nat := 0x1405
abbrev GL_FLOAT : Nat := 0x1406

abbrev CLIENT_VERTEX_ARRAY : Nat := 1 <<< 0
abbrev CLIENT_COLOR_ARRAY : Nat := 1 <<< 1
abbrev CLIENT_TEXTURE_COORD_ARRAY : Nat := 1 <<< 2
abbrev CLIENT_NORMAL_ARRAY : Nat := 1 <<< 3

/-- A buffer object. `data` holds the bytes of the allocation of `size`
bytes, `none` for NULL. -/
structure buffer_t where
  data : Option (List Nat)
  size : Int
  usage : Nat
  allocated : Bool

/-- The buffer store: `buffers[0 .. count)`. -/
structure buffer_store_t where
  buffers : List buffer_t

def buffer_get (store : buffer_store_t) (id : Nat) : Option buffer_t :=
  if id = 0 ∨ id > store.buffers.length then none
  else
    match store.buffers[id - 1]? with
    | some buf => if !buf.allocated then none else some buf
    | none => none

/-- A vertex array descriptor; `pointer` is the client address or, with a
buffer bound, the byte offset. -/
structure array_pointer_t where
  size : Int
  type : Nat
  stride : Int
  pointer : Nat

/-- The fields of the context that describe the vertex arrays and hold the
buffer objects. The draw calls read them and leave them as they are. -/
structure vertex_arrays_t where
  vertex_pointer : array_pointer_t
  color_pointer : array_pointer_t
  texcoord_pointer : array_pointer_t
  normal_pointer : array_pointer_t
  buffers : buffer_store_t

/-- The memory of the client: the byte at an address, `none` where the address
is outside every object, and the value of a `GLfloat` stored as four bytes. -/
structure client_memory_t where
  byte : Nat → Option Nat
  float_of_bytes : Nat → Nat → Nat → Nat → ℚ

/-- A base address of array data: NULL, an address in client memory, or an
offset into the data of a buffer object. -/
inductive array_base_t where
  | null
  | client (addr : Nat)
  | buffer (bytes : List Nat) (offset : Nat)
deriving DecidableEq

/-- The byte at `base + k`; `none` for a read outside the object the base
points into. -/
def array_base_t.read (mem : client_memory_t) : array_base_t → Nat → Option Nat
  | .null, _ => none
  | .client addr, k => mem.byte (addr + k)
  | .buffer bytes offset, k => bytes[offset + k]?

def get_array_pointer (va : vertex_arrays_t) (c : GLState) (arr : array_pointer_t) :
    array_base_t :=
  if c.bound_array_buffer ≠ 0 then
    match buffer_get va.buffers c.bound_array_buffer with
    | some buf =>
      match buf.data with
      | some bytes => .buffer bytes arr.pointer
      | none => .null
    | none => .null
  else if arr.pointer = 0 then .null
  else .client arr.pointer

/-- The values `get_array_element` stores in `out[0 .. default_count)`; `none`
when a read falls outside the object the base points into. -/
def get_array_element (mem : client_memory_t) (arr : array_pointer_t) (base : array_base_t)
    (index : Int) (default_count : Nat) : Option (List ℚ) :=
  if base = .null ∨ index < 0 then
    some ((List.range default_count).map (fun (i : Nat) => if i < 3 then (0 : ℚ) else 1))
  else
    let stride :=
      if arr.stride = 0 then
        let comp_size : Int := if arr.type = GL_FLOAT then 4 else 1
        arr.size * comp_size
      else arr.stride
    if stride ≤ 0 then
      some ((List.range default_count).map (fun (i : Nat) => if i < 3 then (0 : ℚ) else 1))
    else
      let ptr := Int.toNat (index * stride)
      (List.range default_count).mapM (fun (i : Nat) =>
        if (i : Int) < arr.size then
          if arr.type = GL_FLOAT then
            match base.read mem (ptr + 4 * i), base.read mem (ptr + 4 * i + 1),
              base.read mem (ptr + 4 * i + 2), base.read mem (ptr + 4 * i + 3) with
            | some b0, some b1, some b2, some b3 => some (mem.float_of_bytes b0 b1 b2 b3)
            | _, _, _, _ => none
          else if arr.type = GL_UNSIGNED_BYTE then
            match base.read mem (ptr + i) with
            | some b => some ((b : ℚ) / 255)
            | none => none
          else none
        else some (if i = 3 then (1 : ℚ) else 0))

/-- The four base addresses a draw call computes before its loop. -/
structure array_bases_t where
  vertex_base : array_base_t
  color_base : array_base_t
  texcoord_base : array_base_t
  normal_base : array_base_t

def draw_array_bases (va : vertex_arrays_t) (c : GLState) : array_bases_t :=
  { vertex_base := get_array_pointer va c va.vertex_pointer
    color_base :=
      if c.client_state &&& CLIENT_COLOR_ARRAY ≠ 0 then get_array_pointer va c va.color_pointer
      else .null
    texcoord_base :=
      if c.client_state &&& CLIENT_TEXTURE_COORD_ARRAY ≠ 0 then
        get_array_pointer va c va.texcoord_pointer
      else .null
    normal_base :=
      if c.client_state &&& CLIENT_NORMAL_ARRAY ≠ 0 then
        get_array_pointer va c va.normal_pointer
      else .null }

/-- The part of the loop body of `glDrawArrays` and `glDrawElements` that
reads the color of element `idx` and calls `glColor4f`, when the color array
is enabled. -/
def draw_array_color (va : vertex_arrays_t) (mem : client_memory_t) (B : array_bases_t)
    (c : GLState) (idx : Int) : Option GLState :=
  if B.color_base ≠ .null then
    match get_array_element mem va.color_pointer B.color_base idx 4 with
    | none => none
    | some k => some (glColor4f c (k.getD 0 0) (k.getD 1 0) (k.getD 2 0) (k.getD 3 0))
  else some c

/-- The part of the loop body that reads the texture coordinates of element
`idx` and calls `glTexCoord2f`, when the array is enabled. -/
def draw_array_texcoord (va : vertex_arrays_t) (mem : client_memory_t) (B : array_bases_t)
    (c : GLState) (idx : Int) : Option GLState :=
  if B.texcoord_base ≠ .null then
    match get_array_element mem va.texcoord_pointer B.texcoord_base idx 2 with
    | none => none
    | some t => some (glTexCoord2f c (t.getD 0 0) (t.getD 1 0))
  else some c

/-- The part of the loop body that reads the normal of element `idx` and calls
`glNormal3f`, when the normal array is enabled. -/
def draw_array_normal (va : vertex_arrays_t) (mem : client_memory_t) (B : array_bases_t)
    (c : GLState) (idx : Int) : Option GLState :=
  if B.normal_base ≠ .null then
    match get_array_element mem va.normal_pointer B.normal_base idx 3 with
    | none => none
    | some n => some (glNormal3f c (n.getD 0 0) (n.getD 1 0) (n.getD 2 0))
  else some c

/-- The part of the loop body of `glDrawArrays` and `glDrawElements` after the
index `idx` is known: the reads of the attributes and the calls of
`glColor4f`, `glTexCoord2f`, `glNormal3f` and `glVertex2f` or `glVertex3f`. -/
def draw_array_vertex (pf : Platform) (va : vertex_arrays_t) (mem : client_memory_t)
    (B : array_bases_t) (c : GLState) (idx : Int) : Option GLState :=
  match get_array_element mem va.vertex_pointer B.vertex_base idx 4 with
  | none => none
  | some v =>
    (draw_array_color va mem B c idx).bind fun c =>
    (draw_array_texcoord va mem B c idx).bind fun c =>
    (draw_array_normal va mem B c idx).bind fun c =>
    if va.vertex_pointer.size = 2 then some (glVertex2f pf.lm c (v.getD 0 0) (v.getD 1 0))
    else some (glVertex3f pf.lm c (v.getD 0 0) (v.getD 1 0) (v.getD 2 0))

/-- The context after `glDrawArrays(mode, first, count)`; `none` when a read
falls outside the object it is made in. -/
def glDrawArrays (pf : Platform) (va : vertex_arrays_t) (mem : client_memory_t) (c : GLState)
    (mode : Nat) (first count : Int) : Option GLState :=
  if count < 0 then some (gl_set_error c GL_INVALID_VALUE)
  else
    let B := draw_array_bases va c
    if c.client_state &&& CLIENT_VERTEX_ARRAY = 0 ∨ B.vertex_base = .null then some c
    else
      let c := glBegin c mode
      match (List.range (Int.toNat count)).foldlM
          (fun c (i : Nat) => draw_array_vertex pf va mem B c (wrap_int32 (first + i))) c with
      | none => none
      | some c => some (glEnd pf.rs c)

/-- The size in bytes of an index of type `type`. -/
def index_size (type : Nat) : Nat :=
  if type = GL_UNSIGNED_SHORT then 2 else if type = GL_UNSIGNED_INT then 4 else 1

/-- The index `((const T *)index_data)[i]`, stored with the least significant
byte first; `none` when one of its bytes lies outside the object. -/
def read_index (mem : client_memory_t) (index_data : array_base_t) (type i : Nat) :
    Option Nat :=
  ((List.range (index_size type)).mapM
    (fun k => index_data.read mem (i * index_size type + k))).map
    (fun bytes => (List.range bytes.length).foldl
      (fun v k => v + bytes.getD k 0 * 256 ^ k) 0)

/-- What the part of `glDrawElements` that handles the element array buffer
does: it latches an error and returns, returns without an error, or goes on
with a value of `index_data`. -/
inductive index_data_t where
  | rejected (error : Nat)
  | returned
  | base (index_data : array_base_t)
deriving DecidableEq

def glDrawElements_index_data (va : vertex_arrays_t) (c : GLState) (indices : Nat) :
    index_data_t :=
  if c.bound_element_buffer ≠ 0 then
    match buffer_get va.buffers c.bound_element_buffer with
    | some buf =>
      match buf.data with
      | some bytes =>
        if (indices : Int) ≥ buf.size then .rejected GL_INVALID_VALUE
        else .base (.buffer bytes indices)
      | none => .returned
    | none => .returned
  else if indices = 0 then .base .null
  else .base (.client indices)

/-- The context after `glDrawElements(mode, count, type, indices)`; `none` when
a read falls outside the object it is made in. -/
def glDrawElements (pf : Platform) (va : vertex_arrays_t) (mem : client_memory_t)
    (c : GLState) (mode : Nat) (count : Int) (type indices : Nat) : Option GLState :=
  if count < 0 then some (gl_set_error c GL_INVALID_VALUE)
  else if type ≠ GL_UNSIGNED_BYTE ∧ type ≠ GL_UNSIGNED_SHORT ∧ type ≠ GL_UNSIGNED_INT then
    some (gl_set_error c GL_INVALID_ENUM)
  else
    let B := draw_array_bases va c
    match glDrawElements_index_data va c indices with
    | .rejected e => some (gl_set_error c e)
    | .returned => some c
    | .base index_data =>
      if c.client_state &&& CLIENT_VERTEX_ARRAY = 0 ∨ B.vertex_base = .null ∨
          index_data = .null then some c
      else
        let c := glBegin c mode
        match (List.range (Int.toNat count)).foldlM
            (fun c (i : Nat) =>
              match read_index mem index_data type i with
              | none => none
              | some idx => draw_array_vertex pf va mem B c (wrap_int32 idx)) c with
        | none => none
        | some c => some (glEnd pf.rs c)

/-- A descriptor of three tightly packed floats per element at `pointer`. -/
def float3_pointer (pointer : Nat) : array_pointer_t :=
  { size := 3, type := GL_FLOAT, stride := 0, pointer := pointer }

/-- Vertex arrays with the positions at `pointer` and one buffer object that
holds `bytes`. -/
def test_vertex_arrays (pointer : Nat) (bytes : List Nat) : vertex_arrays_t :=
  { vertex_pointer := float3_pointer pointer
    color_pointer := float3_pointer 0
    texcoord_pointer := float3_pointer 0
    normal_pointer := float3_pointer 0
    buffers :=
      { buffers := [{ data := some bytes, size := bytes.length, usage := 0, allocated := true }] } }

/-- A client memory readable at every address, with the byte `b` everywhere. -/
def test_client_memory (b : Nat) : client_memory_t :=
  { byte := fun _ => some b, float_of_bytes := fun _ _ _ _ => 0 }

/-- The context of `test_context` after `glEnableClientState(GL_VERTEX_ARRAY)`
with buffer 1 bound to `GL_ELEMENT_ARRAY_BUFFER`. -/
def element_buffer_context : GLState :=
  { test_context with client_state := CLIENT_VERTEX_ARRAY, bound_element_buffer := 1 }

/-- The context of `test_context` after `glEnableClientState(GL_VERTEX_ARRAY)`
with buffer 1 bound to `GL_ARRAY_BUFFER`. -/
def array_buffer_context : GLState :=
  { test_context with client_state := CLIENT_VERTEX_ARRAY, bound_array_buffer := 1 }

/-! ## The in-flight vertex buffer -/

/-- The part of the context a bracket is made of: the in-flight vertices, the
inside-begin-end bit of the flag word and the index of the list being
recorded. -/
def bracket_state (c : GLState) : List vertex_t × Nat × Nat :=
  (c.vertices, c.flags &&& FLAG_INSIDE_BEGIN_END, c.list_index)

/-- The invariant of the vertex buffer: with the inside-begin-end flag clear
the buffer is empty. -/
def buffer_idle (c : GLState) : Prop :=
  c.flags &&& FLAG_INSIDE_BEGIN_END = 0 → c.vertices = []

/-- The recordable calls other than `glBegin`, `glEnd`, `glVertex2f`,
`glVertex3f` and `glCallList`. -/
def recordable_call.is_plain (k : recordable_call) : Bool :=
  match k with
  | .glBegin _ => false
  | .glEnd => false
  | .glVertex2f _ _ => false
  | .glVertex3f _ _ _ => false
  | .glCallList _ => false
  | _ => true

/-- A front-end call of the vertex path: a recordable call or `glDrawArrays`. -/
inductive buffer_call where
  | recordable (k : recordable_call)
  | glDrawArrays (mode : Nat) (first count : Int)

/-- The context a call of the vertex path leaves, `none` for a read outside
the arrays. -/
def buffer_call.run (pf : Platform) (fuel : Nat) (va : vertex_arrays_t) (mem : client_memory_t)
    (k : buffer_call) (c : GLState) : Option GLState :=
  match k with
  | .recordable k => k.run pf fuel c
  | .glDrawArrays mode first count => MyTinyGL.glDrawArrays pf va mem c mode first count

/-- The context a sequence of calls of the vertex path leaves. -/
def run_buffer_calls (pf : Platform) (fuel : Nat) (va : vertex_arrays_t) (mem : client_memory_t)
    (calls : List buffer_call) (c : GLState) : Option GLState :=
  calls.foldlM (fun c k => k.run pf fuel va mem c) c

/-- The call `k` submits no vertex with the inside-begin-end flag clear:
`glVertex2f` and `glVertex3f` are called with the flag set, `glDrawArrays` with
the flag set or a valid mode, and no list is called. -/
def buffer_call.submits_inside (k : buffer_call) (c : GLState) : Bool :=
  match k with
  | .recordable (.glVertex2f _ _) => decide (c.flags &&& FLAG_INSIDE_BEGIN_END ≠ 0)
  | .recordable (.glVertex3f _ _ _) => decide (c.flags &&& FLAG_INSIDE_BEGIN_END ≠ 0)
  | .recordable (.glCallList _) => false
  | .recordable _ => true
  | .glDrawArrays mode _ _ => decide (c.flags &&& FLAG_INSIDE_BEGIN_END ≠ 0 ∨ mode ≤ GL_POLYGON)

/-- Every call of the sequence, run from `c`, submits its vertices with the
inside-begin-end flag set. -/
def submits_inside (pf : Platform) (fuel : Nat) (va : vertex_arrays_t) (mem : client_memory_t) :
    List buffer_call → GLState → Bool
  | [], _ => true
  | k :: ks, c =>
    k.submits_inside c &&
      match k.run pf fuel va mem c with
      | some s => submits_inside pf fuel va mem ks s
      | none => true

/-- The context of `test_context` after `glEnableClientState(GL_VERTEX_ARRAY)`. -/
def vertex_array_context : GLState :=
  { test_context with client_state := CLIENT_VERTEX_ARRAY }

/-- A bracket of three vertices followed by `glDrawArrays(GL_TRIANGLES, 0, 3)`. -/
def bracket_test_calls : List buffer_call :=
  [.recordable (.glBegin GL_TRIANGLES), .recordable (.glVertex3f 0 0 0),
    .recordable (.glVertex3f 1 0 0), .recordable (.glColor3f 1 0 0),
    .recordable (.glVertex3f 0 1 0), .recordable .glEnd, .glDrawArrays GL_TRIANGLES 0 3]

/-- A vertex submitted before a bracket of two vertices. -/
def stale_vertex_calls : List buffer_call :=
  [.recordable (.glVertex3f 0 0 0), .recordable (.glBegin GL_TRIANGLES),
    .recordable (.glVertex3f 1 0 0), .recordable (.glVertex3f 0 1 0)]

/-! # Properties -/

/-! ## Packed pixels -/

theorem and_0xFF (x : Nat) : x &&& 0xFF = x % 256 := by
  have h := Nat.and_pow_two_sub_one_eq_mod x 8
  simpa using h

theorem shiftLeft_lor (a b i : Nat) (h : b < 2 ^ i) : a <<< i ||| b = 2 ^ i * a + b := by
  rw [Nat.mul_add_lt_is_or h, Nat.shiftLeft_eq, Nat.mul_comm]

theorem pack_bytes (r g b a : Nat) (hr : r < 256) (hg : g < 256) (hb : b < 256)
    (ha : a < 256) :
    to_uint32 ((a <<< 24) ||| (b <<< 16) ||| (g <<< 8) ||| r)
      = r + 2 ^ 8 * g + 2 ^ 16 * b + 2 ^ 24 * a := by
  unfold to_uint32
  rw [Nat.lor_assoc, Nat.lor_assoc, shiftLeft_lor g r 8 (by omega),
    shiftLeft_lor b _ 16 (by omega), shiftLeft_lor a _ 24 (by omega)]
  omega

theorem float_to_uint8_lt (f : ℚ) : float_to_uint8 f < 256 := by
  unfold float_to_uint8; omega

theorem float_to_uint8_byte (n : Nat) (hn : n < 256) :
    float_to_uint8 (clamp01 ((n : ℚ) / 255) * 255) = n := by
  have h0 : (0 : ℚ) ≤ (n : ℚ) / 255 := by positivity
  have h1 : (n : ℚ) / 255 ≤ 1 := by
    rw [div_le_one (by norm_num)]
    exact_mod_cast (by omega : n ≤ 255)
  have hc : clamp01 ((n : ℚ) / 255) = (n : ℚ) / 255 := by
    unfold clamp01
    rw [if_neg (not_lt.mpr h0), if_neg (not_lt.mpr h1)]
  have hm : (n : ℚ) / 255 * 255 = (n : ℚ) := by field_simp
  unfold float_to_uint8
  rw [hc, hm, Int.floor_natCast, Int.toNat_natCast]
  omega

/-- The four 8-bit channels of a packed color, read back by shift and mask. -/
theorem color_to_rgba32_channels (c : color_t) :
    color_to_rgba32 c &&& 0xFF = float_to_uint8 (clamp01 c.r * 255) ∧
    (color_to_rgba32 c >>> 8) &&& 0xFF = float_to_uint8 (clamp01 c.g * 255) ∧
    (color_to_rgba32 c >>> 16) &&& 0xFF = float_to_uint8 (clamp01 c.b * 255) ∧
    (color_to_rgba32 c >>> 24) &&& 0xFF = float_to_uint8 (clamp01 c.a * 255) := by
  have hr := float_to_uint8_lt (clamp01 c.r * 255)
  have hg := float_to_uint8_lt (clamp01 c.g * 255)
  have hb := float_to_uint8_lt (clamp01 c.b * 255)
  have ha := float_to_uint8_lt (clamp01 c.a * 255)
  have hp : color_to_rgba32 c = _ := pack_bytes _ _ _ _ hr hg hb ha
  rw [hp]
  simp only [and_0xFF, Nat.shiftRight_eq_div_pow]
  refine ⟨?_, ?_, ?_, ?_⟩ <;> omega

theorem uint32_channels_sum (p : Nat) (hp : p < 2 ^ 32) :
    (p &&& 0xFF) + 2 ^ 8 * ((p >>> 8) &&& 0xFF) + 2 ^ 16 * ((p >>> 16) &&& 0xFF)
      + 2 ^ 24 * ((p >>> 24) &&& 0xFF) = p := by
  simp only [and_0xFF, Nat.shiftRight_eq_div_pow]
  omega

/-- C8. Packed pixel layout: for bytes `r`, `g`, `b`, `a`,
`rgba_bytes_to_rgba32` is `r + 2^8 g + 2^16 b + 2^24 a`; the shift-and-mask
unpacking of `glReadPixels` and of `color_from_rgba32` recovers the four
bytes; and in exact arithmetic `color_to_rgba32 (color_from_rgba32 p) = p`
for every 32-bit pixel `p`. -/
theorem packed_pixel_layout (r g b a p : Nat) (hr : r < 256) (hg : g < 256) (hb : b < 256)
    (ha : a < 256) (hp : p < 2 ^ 32) :
    rgba_bytes_to_rgba32 r g b a = r + 2 ^ 8 * g + 2 ^ 16 * b + 2 ^ 24 * a ∧
    glReadPixels_unpack (rgba_bytes_to_rgba32 r g b a) = (r, g, b, a) ∧
    color_from_rgba32 (rgba_bytes_to_rgba32 r g b a)
      = color ((r : ℚ) / 255) ((g : ℚ) / 255) ((b : ℚ) / 255) ((a : ℚ) / 255) ∧
    color_to_rgba32 (color_from_rgba32 p) = p := by
  have hpk : rgba_bytes_to_rgba32 r g b a = r + 2 ^ 8 * g + 2 ^ 16 * b + 2 ^ 24 * a :=
    pack_bytes r g b a hr hg hb ha
  have h0 : (r + 2 ^ 8 * g + 2 ^ 16 * b + 2 ^ 24 * a) &&& 0xFF = r := by
    rw [and_0xFF]; omega
  have h1 : ((r + 2 ^ 8 * g + 2 ^ 16 * b + 2 ^ 24 * a) >>> 8) &&& 0xFF = g := by
    rw [and_0xFF, Nat.shiftRight_eq_div_pow]; omega
  have h2 : ((r + 2 ^ 8 * g + 2 ^ 16 * b + 2 ^ 24 * a) >>> 16) &&& 0xFF = b := by
    rw [and_0xFF, Nat.shiftRight_eq_div_pow]; omega
  have h3 : ((r + 2 ^ 8 * g + 2 ^ 16 * b + 2 ^ 24 * a) >>> 24) &&& 0xFF = a := by
    rw [and_0xFF, Nat.shiftRight_eq_div_pow]; omega
  refine ⟨hpk, ?_, ?_, ?_⟩
  · simp only [glReadPixels_unpack, hpk, h0, h1, h2, h3]
  · simp only [color_from_rgba32, color, hpk, h0, h1, h2, h3]
  · have b0 : p &&& 0xFF < 256 := by rw [and_0xFF]; omega
    have b1 : (p >>> 8) &&& 0xFF < 256 := by rw [and_0xFF]; omega
    have b2 : (p >>> 16) &&& 0xFF < 256 := by rw [and_0xFF]; omega
    have b3 : (p >>> 24) &&& 0xFF < 256 := by rw [and_0xFF]; omega
    simp only [color_to_rgba32, color_from_rgba32, float_to_uint8_byte _ b0,
      float_to_uint8_byte _ b1, float_to_uint8_byte _ b2, float_to_uint8_byte _ b3]
    rw [pack_bytes _ _ _ _ b0 b1 b2 b3]
    exact uint32_channels_sum p hp

/-- C8, at the pixel `0xFF0000FF` and the bytes `(255, 0, 0, 255)`. -/
theorem packed_pixel_layout_witness :
    (255 < 256 ∧ 0 < 256 ∧ 0xFF0000FF < 2 ^ 32) ∧
    rgba_bytes_to_rgba32 255 0 0 255 = 255 + 2 ^ 8 * 0 + 2 ^ 16 * 0 + 2 ^ 24 * 255 ∧
    glReadPixels_unpack (rgba_bytes_to_rgba32 255 0 0 255) = (255, 0, 0, 255) ∧
    color_from_rgba32 (rgba_bytes_to_rgba32 255 0 0 255)
      = color (((255 : Nat) : ℚ) / 255) (((0 : Nat) : ℚ) / 255) (((0 : Nat) : ℚ) / 255)
          (((255 : Nat) : ℚ) / 255) ∧
    color_to_rgba32 (color_from_rgba32 0xFF0000FF) = 0xFF0000FF :=
  ⟨by decide, packed_pixel_layout 255 0 0 255 0xFF0000FF (by decide) (by decide) (by decide)
    (by decide) (by decide)⟩

/-! ## Color mask -/

theorem framebuffer_putpixel_color (fb : framebuffer_t) (x y : Int) (p : Nat) (i : Nat) :
    (framebuffer_putpixel fb x y p).color i = fb.color i ∨
    ((framebuffer_putpixel fb x y p).color i = p ∧ fb.color i = framebuffer_getpixel fb x y) := by
  unfold framebuffer_putpixel framebuffer_getpixel
  by_cases hb : x < 0 ∨ x ≥ fb.width ∨ y < 0 ∨ y ≥ fb.height
  · left; rw [if_pos hb]
  · rw [if_neg hb, if_neg hb]
    by_cases hi : i = fb_index fb x y
    · right; subst hi; simp
    · left; simp [Function.update_noteq hi]

/-- C10. Color mask on fragment writes: after `write_pixel_masked`, every
channel whose color-mask flag is false is unchanged in every pixel of the color
plane (exact arithmetic for the read-modify-write path), and with all four
flags false the framebuffer is unchanged. -/
theorem write_pixel_masked_keeps_masked_channels (c : GLState) (x y : Int) (col : color_t)
    (i : Nat) :
    (c.color_mask_r = false →
      (write_pixel_masked c x y col).color i &&& 0xFF = c.framebuffer.color i &&& 0xFF) ∧
    (c.color_mask_g = false →
      ((write_pixel_masked c x y col).color i >>> 8) &&& 0xFF
        = (c.framebuffer.color i >>> 8) &&& 0xFF) ∧
    (c.color_mask_b = false →
      ((write_pixel_masked c x y col).color i >>> 16) &&& 0xFF
        = (c.framebuffer.color i >>> 16) &&& 0xFF) ∧
    (c.color_mask_a = false →
      ((write_pixel_masked c x y col).color i >>> 24) &&& 0xFF
        = (c.framebuffer.color i >>> 24) &&& 0xFF) ∧
    (c.color_mask_r = false → c.color_mask_g = false → c.color_mask_b = false →
      c.color_mask_a = false → write_pixel_masked c x y col = c.framebuffer) := by
  have b0 : ∀ p : Nat, p &&& 0xFF < 256 := fun p => by rw [and_0xFF]; omega
  have key : ∀ d : color_t,
      (framebuffer_putpixel c.framebuffer x y (color_to_rgba32 d)).color i = c.framebuffer.color i ∨
      ((framebuffer_putpixel c.framebuffer x y (color_to_rgba32 d)).color i = color_to_rgba32 d ∧
        c.framebuffer.color i = framebuffer_getpixel c.framebuffer x y) :=
    fun d => framebuffer_putpixel_color _ _ _ _ _
  rcases hr : c.color_mask_r <;> rcases hg : c.color_mask_g <;> rcases hb : c.color_mask_b <;>
    rcases ha : c.color_mask_a <;>
    simp only [write_pixel_masked, hr, hg, hb, ha] <;> simp <;>
    (try refine ⟨?_, ?_⟩) <;> (try refine ⟨?_, ?_⟩) <;>
    (rcases key _ with h | ⟨h, h'⟩
     · rw [h]
     · rw [h, h']
       simp only [color_to_rgba32_channels, color_from_rgba32, float_to_uint8_byte _ (b0 _)])


/-- C10 at the context `gl_create_context(4, 4)` returns with the red channel
masked off, for a red fragment written to pixel `(0, 0)`. -/
theorem write_pixel_masked_keeps_masked_channels_witness :
    ({ test_context with color_mask_r := false } : GLState).color_mask_r = false ∧
    (write_pixel_masked { test_context with color_mask_r := false } 0 0 (color 1 0 0 1)).color 0
        &&& 0xFF
      = ({ test_context with color_mask_r := false } : GLState).framebuffer.color 0 &&& 0xFF :=
  ⟨rfl, (write_pixel_masked_keeps_masked_channels { test_context with color_mask_r := false }
    0 0 (color 1 0 0 1) 0).1 rfl⟩

/-! ## Error latch -/

theorem gl_set_error_error (c : GLState) (e : Nat) :
    (gl_set_error c e).error = if c.error = GL_NO_ERROR then e else c.error := by
  unfold gl_set_error
  split_ifs <;> rfl

theorem gl_set_error_latched (c : GLState) (e : Nat) (h : c.error ≠ GL_NO_ERROR) :
    gl_set_error c e = c := by
  unfold gl_set_error
  rw [if_neg h]

theorem list_record_error (c : GLState) (cmd : list_command_t) :
    (list_record c cmd).1.error = c.error := by
  unfold list_record record_cmd
  split_ifs
  · rfl
  · dsimp only
    split <;> rfl

theorem list_record_idle (c : GLState) (cmd : list_command_t) (h : c.list_index = 0) :
    list_record c cmd = (c, false) := by
  unfold list_record
  rw [if_pos h]

theorem unless_recorded_idle (c : GLState) (cmd : list_command_t) (body : GLState → GLState)
    (h : c.list_index = 0) : unless_recorded (list_record c cmd) body = body c := by
  rw [list_record_idle c cmd h]
  rfl

theorem unless_recorded_latched (c : GLState) (cmd : list_command_t) (body : GLState → GLState)
    (hb : ∀ c1 : GLState, c1.error ≠ GL_NO_ERROR → (body c1).error = c1.error)
    (h : c.error ≠ GL_NO_ERROR) :
    (unless_recorded (list_record c cmd) body).error = c.error := by
  have h1 := list_record_error c cmd
  unfold unless_recorded
  split_ifs
  · exact h1
  · rw [hb _ (by rw [h1]; exact h), h1]

theorem current_matrix_store_error (c : GLState) (m : Fin 16 → ℚ) :
    (current_matrix_store c m).error = c.error := by
  unfold current_matrix_store
  split_ifs <;> rfl

theorem current_stack_depth_store_error (c : GLState) (d : Int) :
    (current_stack_depth_store c d).error = c.error := by
  unfold current_stack_depth_store
  split_ifs <;> rfl

theorem flush_primitive_error (rs : Rasterizer) (c : GLState) :
    (flush_primitive rs c).error = c.error := by
  simp only [flush_primitive, apply_ite GLState.error, ite_self]

theorem glEnable_latched (c : GLState) (cap : Nat) (h : c.error ≠ GL_NO_ERROR) :
    (glEnable c cap).error = c.error := by
  refine unless_recorded_latched c _ _ (fun c1 h1 => ?_) h
  dsimp only
  split_ifs
  · rfl
  · rfl
  · rw [gl_set_error_latched _ _ h1]

theorem glDisable_latched (c : GLState) (cap : Nat) (h : c.error ≠ GL_NO_ERROR) :
    (glDisable c cap).error = c.error := by
  refine unless_recorded_latched c _ _ (fun c1 h1 => ?_) h
  dsimp only
  split_ifs
  · rfl
  · rfl
  · rw [gl_set_error_latched _ _ h1]

theorem glIsEnabled_latched (c : GLState) (cap : Nat) (h : c.error ≠ GL_NO_ERROR) :
    (glIsEnabled c cap).2 = c := by
  simp only [glIsEnabled, apply_ite Prod.snd, gl_set_error_latched _ _ h, ite_self]

theorem glGetIntegerv_latched (q : QueryTable) (c : GLState) (pname : Nat)
    (h : c.error ≠ GL_NO_ERROR) : glGetIntegerv q c pname = c := by
  unfold glGetIntegerv
  split_ifs <;> first | rfl | exact gl_set_error_latched _ _ h

theorem glGetFloatv_latched (q : QueryTable) (c : GLState) (pname : Nat)
    (h : c.error ≠ GL_NO_ERROR) : (glGetFloatv q c pname).error = c.error := by
  unfold glGetFloatv
  dsimp only
  split_ifs
  · rfl
  · rfl
  · rw [gl_set_error_error, if_neg h]

theorem glGetBooleanv_latched (q : QueryTable) (c : GLState) (pname : Nat)
    (h : c.error ≠ GL_NO_ERROR) : (glGetBooleanv q c pname).2 = c := by
  simp only [glGetBooleanv, apply_ite Prod.snd, glGetIntegerv_latched _ _ _ h, ite_self]

theorem glClear_error (c : GLState) (mask : Nat) : (glClear c mask).error = c.error := rfl

theorem matrix_op_latched (c : GLState) (cmd : list_command_t) (m : GLState → Fin 16 → ℚ)
    (h : c.error ≠ GL_NO_ERROR) :
    (unless_recorded (list_record c cmd) fun c => current_matrix_store c (m c)).error
      = c.error :=
  unless_recorded_latched c _ _ (fun c1 _ => current_matrix_store_error c1 _) h

theorem glPushMatrix_latched (c : GLState) (h : c.error ≠ GL_NO_ERROR) :
    (glPushMatrix c).error = c.error := by
  refine unless_recorded_latched c _ _ (fun c1 h1 => ?_) h
  dsimp only
  split_ifs
  · rw [gl_set_error_latched _ _ h1]
  · rw [current_matrix_store_error, current_stack_depth_store_error]

theorem glPopMatrix_latched (c : GLState) (h : c.error ≠ GL_NO_ERROR) :
    (glPopMatrix c).error = c.error := by
  refine unless_recorded_latched c _ _ (fun c1 h1 => ?_) h
  dsimp only
  split_ifs
  · rw [gl_set_error_latched _ _ h1]
  · rw [current_stack_depth_store_error]

theorem glBegin_latched (c : GLState) (mode : Nat) (h : c.error ≠ GL_NO_ERROR) :
    (glBegin c mode).error = c.error := by
  refine unless_recorded_latched c _ _ (fun c1 h1 => ?_) h
  dsimp only
  split_ifs
  · rw [gl_set_error_latched _ _ h1]
  · rw [gl_set_error_latched _ _ h1]
  · rfl

theorem glEnd_latched (rs : Rasterizer) (c : GLState) (h : c.error ≠ GL_NO_ERROR) :
    (glEnd rs c).error = c.error := by
  refine unless_recorded_latched c _ _ (fun c1 h1 => ?_) h
  dsimp only
  split_ifs
  · rw [gl_set_error_latched _ _ h1]
  · show (flush_primitive rs _).error = _
    rw [flush_primitive_error]

/-- A front-end call leaves a latched error code in place. -/
theorem front_end_call_keeps_latched (pf : Platform) (k : front_end_call) (c : GLState)
    (h : c.error ≠ GL_NO_ERROR) : (k.run pf c).error = c.error := by
  cases k with
  | glEnable cap => exact glEnable_latched c cap h
  | glDisable cap => exact glDisable_latched c cap h
  | glIsEnabled cap => exact congrArg GLState.error (glIsEnabled_latched c cap h)
  | glGetIntegerv pname => exact congrArg GLState.error (glGetIntegerv_latched _ c pname h)
  | glGetFloatv pname => exact glGetFloatv_latched _ c pname h
  | glGetBooleanv pname => exact congrArg GLState.error (glGetBooleanv_latched _ c pname h)
  | glClear mask => rfl
  | glMatrixMode mode => exact unless_recorded_latched c _ _ (fun _ _ => rfl) h
  | glLoadIdentity => exact matrix_op_latched c _ _ h
  | glPushMatrix => exact glPushMatrix_latched c h
  | glPopMatrix => exact glPopMatrix_latched c h
  | glOrtho l r b t n f => exact matrix_op_latched c _ _ h
  | glFrustum l r b t n f => exact matrix_op_latched c _ _ h
  | glTranslatef x y z => exact matrix_op_latched c _ _ h
  | glRotatef a x y z => exact matrix_op_latched c _ _ h
  | glScalef x y z => exact matrix_op_latched c _ _ h
  | glMultMatrixf m => exact matrix_op_latched c _ _ h
  | glLoadMatrixf m => exact matrix_op_latched c _ _ h
  | glBegin mode => exact glBegin_latched c mode h
  | glEnd => exact glEnd_latched _ c h

theorem run_calls_keeps_latched (pf : Platform) (calls : List front_end_call) (c : GLState)
    (h : c.error ≠ GL_NO_ERROR) : (run_calls pf calls c).error = c.error := by
  induction calls generalizing c with
  | nil => rfl
  | cons k ks ih =>
    have hk := front_end_call_keeps_latched pf k c h
    show (run_calls pf ks (k.run pf c)).error = c.error
    rw [ih _ (by rw [hk]; exact h), hk]

theorem clear_latch_of_clear (c : GLState) (h : c.error = GL_NO_ERROR) :
    { c with error := GL_NO_ERROR } = c := by
  cases c
  simp only at h
  subst h
  rfl

theorem run_calls_first_error (pf : Platform) (calls : List front_end_call) (c : GLState)
    (h : c.error = GL_NO_ERROR) : (run_calls pf calls c).error = first_error pf calls c := by
  induction calls generalizing c with
  | nil => exact h
  | cons k ks ih =>
    have hd : detected_error pf k c = (k.run pf c).error := by
      unfold detected_error
      rw [clear_latch_of_clear c h]
    show (run_calls pf ks (k.run pf c)).error = first_error pf (k :: ks) c
    unfold first_error
    rw [hd]
    by_cases hk : (k.run pf c).error = GL_NO_ERROR
    · rw [if_neg (not_not.mpr hk)]
      exact ih _ hk
    · rw [if_pos hk]
      exact run_calls_keeps_latched pf ks _ hk

/-- C1. Error latch: `gl_set_error` stores its code when the latch is clear and
leaves a latched code in place; `glGetError` returns the latch and clears it;
so for every context and every sequence of front-end calls made after one
`glGetError`, the next `glGetError` returns the first error detected in
between (`GL_NO_ERROR` if none), and a `glGetError` right after it returns
`GL_NO_ERROR`. -/
theorem error_latch_first_wins (pf : Platform) (c : GLState) (calls : List front_end_call) (e : Nat) :
    (gl_set_error c e).error = (if c.error = GL_NO_ERROR then e else c.error) ∧
    (glGetError c).1 = c.error ∧
    (glGetError c).2.error = GL_NO_ERROR ∧
    (glGetError (run_calls pf calls (glGetError c).2)).1
      = first_error pf calls (glGetError c).2 ∧
    (glGetError (glGetError (run_calls pf calls (glGetError c).2)).2).1 = GL_NO_ERROR :=
  ⟨gl_set_error_error c e, rfl, rfl, run_calls_first_error pf calls _ rfl, rfl⟩


/-! ## Flag bits -/

theorem or_and_self_ne_zero (f F : Nat) (hF : F ≠ 0) : (f ||| F) &&& F ≠ 0 := by
  obtain ⟨i, hi⟩ := Nat.ne_zero_implies_bit_true hF
  intro h
  have h1 : ((f ||| F) &&& F).testBit i = true := by
    rw [Nat.testBit_and, Nat.testBit_or, hi]; simp
  rw [h, Nat.zero_testBit] at h1
  exact Bool.noConfusion h1

theorem or_and_other (f F G : Nat) (h : F &&& G = 0) : (f ||| F) &&& G = f &&& G := by
  rw [Nat.and_distrib_right, h, Nat.or_zero]

theorem and_not_and_self (f F : Nat) (h : bit_not32 F &&& F = 0) :
    (f &&& bit_not32 F) &&& F = 0 := by
  rw [Nat.and_assoc, h, Nat.and_zero]

theorem and_not_and_other (f F G : Nat) (h : bit_not32 F &&& G = G) :
    (f &&& bit_not32 F) &&& G = f &&& G := by
  rw [Nat.and_assoc, h]

/-! ## Begin/end bracket -/

/-- C2. Begin/end bracket, no list being recorded: `glBegin` with a valid
topology leaves the inside-begin-end flag set (and, when the flag was clear,
stores the topology); `glEnd` leaves it clear; `glBegin` while the flag is set
only latches `GL_INVALID_OPERATION` (flag, primitive mode and buffered vertices
unchanged); `glEnd` while the flag is clear only latches
`GL_INVALID_OPERATION`. -/
theorem begin_end_bracket (rs : Rasterizer) (c : GLState) (mode : Nat)
    (hrec : c.list_index = 0) :
    (mode ≤ GL_POLYGON → (glBegin c mode).flags &&& FLAG_INSIDE_BEGIN_END ≠ 0) ∧
    (mode ≤ GL_POLYGON → c.flags &&& FLAG_INSIDE_BEGIN_END = 0 →
      (glBegin c mode).primitive_mode = mode ∧ (glBegin c mode).error = c.error) ∧
    (glEnd rs c).flags &&& FLAG_INSIDE_BEGIN_END = 0 ∧
    (c.flags &&& FLAG_INSIDE_BEGIN_END ≠ 0 →
      glBegin c mode = gl_set_error c GL_INVALID_OPERATION ∧
      (glBegin c mode).flags = c.flags ∧
      (glBegin c mode).primitive_mode = c.primitive_mode ∧
      (glBegin c mode).vertices = c.vertices ∧
      (glBegin c mode).error
        = if c.error = GL_NO_ERROR then GL_INVALID_OPERATION else c.error) ∧
    (c.flags &&& FLAG_INSIDE_BEGIN_END = 0 →
      glEnd rs c = gl_set_error c GL_INVALID_OPERATION ∧
      (glEnd rs c).error
        = if c.error = GL_NO_ERROR then GL_INVALID_OPERATION else c.error) := by
  have hB : glBegin c mode =
      if c.flags &&& FLAG_INSIDE_BEGIN_END ≠ 0 then gl_set_error c GL_INVALID_OPERATION
      else if mode > GL_POLYGON then gl_set_error c GL_INVALID_ENUM
      else { c with primitive_mode := mode, flags := c.flags ||| FLAG_INSIDE_BEGIN_END } :=
    unless_recorded_idle c _ _ hrec
  have hE : glEnd rs c =
      if c.flags &&& FLAG_INSIDE_BEGIN_END = 0 then gl_set_error c GL_INVALID_OPERATION
      else vertex_buffer_clear (flush_primitive rs
        { c with flags := c.flags &&& bit_not32 FLAG_INSIDE_BEGIN_END }) :=
    unless_recorded_idle c _ _ hrec
  have hflags : ∀ e, (gl_set_error c e).flags = c.flags := fun e => by
    unfold gl_set_error; split_ifs <;> rfl
  have hfl : ∀ c1 : GLState, (flush_primitive rs c1).flags = c1.flags := fun c1 => by
    simp only [flush_primitive, apply_ite GLState.flags, ite_self]
  refine ⟨fun hm => ?_, fun hm h0 => ?_, ?_, fun h1 => ?_, fun h0 => ?_⟩
  · rw [hB]
    by_cases h1 : c.flags &&& FLAG_INSIDE_BEGIN_END ≠ 0
    · rw [if_pos h1, hflags]; exact h1
    · rw [if_neg h1, if_neg (by omega)]
      exact or_and_self_ne_zero _ _ (by decide)
  · rw [hB, if_neg (not_not.mpr h0), if_neg (by omega)]
    exact ⟨rfl, rfl⟩
  · rw [hE]
    by_cases h0 : c.flags &&& FLAG_INSIDE_BEGIN_END = 0
    · rw [if_pos h0, hflags]; exact h0
    · rw [if_neg h0]
      show (flush_primitive rs _).flags &&& FLAG_INSIDE_BEGIN_END = 0
      rw [hfl]
      exact and_not_and_self _ _ (by decide)
  · rw [hB, if_pos h1]
    refine ⟨rfl, hflags _, ?_, ?_, gl_set_error_error _ _⟩
    · unfold gl_set_error; split_ifs <;> rfl
    · unfold gl_set_error; split_ifs <;> rfl
  · rw [hE, if_pos h0]
    exact ⟨rfl, gl_set_error_error _ _⟩

/-- C2 at the context `gl_create_context(4, 4)` returns and the topology
`GL_TRIANGLES`. -/
theorem begin_end_bracket_witness :
    test_context.list_index = 0 ∧
    GL_TRIANGLES ≤ GL_POLYGON ∧
    (glBegin test_context GL_TRIANGLES).flags &&& FLAG_INSIDE_BEGIN_END ≠ 0 :=
  ⟨rfl, by decide,
    (begin_end_bracket test_platform.rs
      test_context GL_TRIANGLES rfl).1 (by decide)⟩


/-! ## Matrix stacks -/

theorem glPushMatrix_idle (c : GLState) (hrec : c.list_index = 0) :
    glPushMatrix c =
      if current_stack_depth c ≥ MAX_MATRIX_STACK_DEPTH - 1 then gl_set_error c GL_STACK_OVERFLOW
      else current_matrix_store (current_stack_depth_store c (current_stack_depth c + 1))
        (mat4_to_array (mat4_from_array (current_matrix c))) :=
  unless_recorded_idle c _ _ hrec

theorem glPopMatrix_idle (c : GLState) (hrec : c.list_index = 0) :
    glPopMatrix c =
      if current_stack_depth c ≤ 0 then gl_set_error c GL_STACK_UNDERFLOW
      else current_stack_depth_store c (current_stack_depth c - 1) :=
  unless_recorded_idle c _ _ hrec

/-- On a context fresh from `gl_create_context`, `k ≤ 23` pushes leave the
modelview stack at depth index `k` with no error and no list being recorded. -/
theorem fresh_pushes (c : GLState) (k : Nat) (hk : k ≤ 23)
    (hmode : c.matrix_mode = GL_MODELVIEW) (hdepth : c.modelview_stack_depth = 0)
    (herr : c.error = GL_NO_ERROR) (hrec : c.list_index = 0) :
    (glPushMatrix^[k] c).matrix_mode = GL_MODELVIEW ∧
    (glPushMatrix^[k] c).modelview_stack_depth = k ∧
    (glPushMatrix^[k] c).error = GL_NO_ERROR ∧
    (glPushMatrix^[k] c).list_index = 0 := by
  induction k with
  | zero => exact ⟨hmode, hdepth, herr, hrec⟩
  | succ n ih =>
    obtain ⟨h1, h2, h3, h4⟩ := ih (by omega)
    have hd : current_stack_depth (glPushMatrix^[n] c) = n := by
      unfold current_stack_depth; rw [if_pos h1, h2]
    rw [Function.iterate_succ_apply', glPushMatrix_idle _ h4, hd,
      if_neg (by simp only [MAX_MATRIX_STACK_DEPTH]; omega)]
    unfold current_stack_depth_store
    rw [if_pos h1]
    unfold current_matrix_store
    rw [if_pos h1]
    exact ⟨h1, by push_cast; rfl, h3, h4⟩

/-- C3. Matrix stack limits, no list being recorded, for each of the three
stacks: `glPushMatrix` on a stack holding 24 matrices (depth index 23) only
latches `GL_STACK_OVERFLOW`, `glPopMatrix` on a stack holding one matrix (depth
index 0) only latches `GL_STACK_UNDERFLOW`; depths and stored matrices are
unchanged.  From a fresh context 23 consecutive `glPushMatrix` succeed and the
24th overflows. -/
theorem matrix_stack_limits (c : GLState) (mode : Nat) (hrec : c.list_index = 0)
    (hmode : mode = GL_MODELVIEW ∨ mode = GL_PROJECTION ∨ mode = GL_TEXTURE)
    (hsel : c.matrix_mode = mode) :
    (current_stack_depth c = 23 →
      glPushMatrix c = gl_set_error c GL_STACK_OVERFLOW ∧
      (glPushMatrix c).error = (if c.error = GL_NO_ERROR then GL_STACK_OVERFLOW else c.error) ∧
      current_stack_depth (glPushMatrix c) = 23 ∧
      (glPushMatrix c).modelview_matrix = c.modelview_matrix ∧
      (glPushMatrix c).projection_matrix = c.projection_matrix ∧
      (glPushMatrix c).texture_matrix = c.texture_matrix) ∧
    (current_stack_depth c = 0 →
      glPopMatrix c = gl_set_error c GL_STACK_UNDERFLOW ∧
      (glPopMatrix c).error = (if c.error = GL_NO_ERROR then GL_STACK_UNDERFLOW else c.error) ∧
      current_stack_depth (glPopMatrix c) = 0 ∧
      (glPopMatrix c).modelview_matrix = c.modelview_matrix ∧
      (glPopMatrix c).projection_matrix = c.projection_matrix ∧
      (glPopMatrix c).texture_matrix = c.texture_matrix) ∧
    (current_stack_depth c =
      if mode = GL_MODELVIEW then c.modelview_stack_depth
      else if mode = GL_PROJECTION then c.projection_stack_depth
      else c.texture_stack_depth) ∧
    (∀ (color0 : Nat → Nat) (depth0 : Nat → ℚ) (stencil0 : Nat → Nat) (w h : Int)
        (fresh : GLState),
      gl_create_context color0 depth0 stencil0 w h = some fresh →
      (∀ k : Nat, k ≤ 23 →
        (glPushMatrix^[k] fresh).error = GL_NO_ERROR ∧
        (glPushMatrix^[k] fresh).modelview_stack_depth = k) ∧
      (glPushMatrix^[24] fresh).error = GL_STACK_OVERFLOW ∧
      (glPushMatrix^[24] fresh).modelview_stack_depth = 23) := by
  have hframe : ∀ e, current_stack_depth (gl_set_error c e) = current_stack_depth c ∧
      (gl_set_error c e).modelview_matrix = c.modelview_matrix ∧
      (gl_set_error c e).projection_matrix = c.projection_matrix ∧
      (gl_set_error c e).texture_matrix = c.texture_matrix := fun e => by
    unfold gl_set_error
    split_ifs
    · exact ⟨rfl, rfl, rfl, rfl⟩
    · exact ⟨rfl, rfl, rfl, rfl⟩
  refine ⟨fun h23 => ?_, fun h0 => ?_, ?_, ?_⟩
  · have hp : glPushMatrix c = gl_set_error c GL_STACK_OVERFLOW := by
      rw [glPushMatrix_idle c hrec, if_pos (by rw [h23]; decide)]
    rw [hp]
    obtain ⟨f1, f2, f3, f4⟩ := hframe GL_STACK_OVERFLOW
    exact ⟨rfl, gl_set_error_error _ _, f1.trans h23, f2, f3, f4⟩
  · have hp : glPopMatrix c = gl_set_error c GL_STACK_UNDERFLOW := by
      rw [glPopMatrix_idle c hrec, if_pos (by rw [h0])]
    rw [hp]
    obtain ⟨f1, f2, f3, f4⟩ := hframe GL_STACK_UNDERFLOW
    exact ⟨rfl, gl_set_error_error _ _, f1.trans h0, f2, f3, f4⟩
  · unfold current_stack_depth
    rw [hsel]
    rcases hmode with h | h | h <;> subst h <;> rfl
  · intro color0 depth0 stencil0 w h fresh hfresh
    have hinit : fresh.matrix_mode = GL_MODELVIEW ∧ fresh.modelview_stack_depth = 0 ∧
        fresh.error = GL_NO_ERROR ∧ fresh.list_index = 0 := by
      unfold gl_create_context at hfresh
      split at hfresh
      · exact Option.noConfusion hfresh
      · injection hfresh with hfresh
        subst hfresh
        exact ⟨rfl, rfl, rfl, rfl⟩
    obtain ⟨i1, i2, i3, i4⟩ := hinit
    refine ⟨fun k hk => ?_, ?_⟩
    · obtain ⟨_, h2, h3, _⟩ := fresh_pushes fresh k hk i1 i2 i3 i4
      exact ⟨h3, h2⟩
    · obtain ⟨h1, h2, h3, h4⟩ := fresh_pushes fresh 23 (le_refl _) i1 i2 i3 i4
      have hd : current_stack_depth (glPushMatrix^[23] fresh) = 23 := by
        unfold current_stack_depth; rw [if_pos h1, h2]; rfl
      have hs : (glPushMatrix^[24] fresh)
          = gl_set_error (glPushMatrix^[23] fresh) GL_STACK_OVERFLOW := by
        rw [Function.iterate_succ_apply', glPushMatrix_idle _ h4, if_pos (by rw [hd]; decide)]
      have hdm : ∀ (c1 : GLState) (e : Nat),
          (gl_set_error c1 e).modelview_stack_depth = c1.modelview_stack_depth := fun c1 e => by
        unfold gl_set_error; split_ifs <;> rfl
      rw [hs, gl_set_error_error, if_pos h3, hdm, h2]
      exact ⟨rfl, rfl⟩

/-- C3 at the context `gl_create_context(4, 4)` returns, whose modelview stack
holds one matrix. -/
theorem matrix_stack_limits_witness :
    test_context.list_index = 0 ∧
    (GL_MODELVIEW = GL_MODELVIEW ∨ GL_MODELVIEW = GL_PROJECTION ∨ GL_MODELVIEW = GL_TEXTURE) ∧
    test_context.matrix_mode = GL_MODELVIEW ∧
    current_stack_depth test_context = 0 ∧
    glPopMatrix test_context = gl_set_error test_context GL_STACK_UNDERFLOW :=
  ⟨rfl, Or.inl rfl, rfl, rfl,
    ((matrix_stack_limits test_context GL_MODELVIEW rfl (Or.inl rfl) rfl).2.1 rfl).1⟩


/-! ## Matrix algebra -/

theorem vec16_at_0 (m0 m1 m2 m3 m4 m5 m6 m7 m8 m9 m10 m11 m12 m13 m14 m15 : ℚ) :
    (![m0, m1, m2, m3, m4, m5, m6, m7, m8, m9, m10, m11, m12, m13, m14, m15] : Fin 16 → ℚ) 0 = m0 := rfl

theorem vec16_at_1 (m0 m1 m2 m3 m4 m5 m6 m7 m8 m9 m10 m11 m12 m13 m14 m15 : ℚ) :
    (![m0, m1, m2, m3, m4, m5, m6, m7, m8, m9, m10, m11, m12, m13, m14, m15] : Fin 16 → ℚ) 1 = m1 := rfl

theorem vec16_at_2 (m0 m1 m2 m3 m4 m5 m6 m7 m8 m9 m10 m11 m12 m13 m14 m15 : ℚ) :
    (![m0, m1, m2, m3, m4, m5, m6, m7, m8, m9, m10, m11, m12, m13, m14, m15] : Fin 16 → ℚ) 2 = m2 := rfl

theorem vec16_at_3 (m0 m1 m2 m3 m4 m5 m6 m7 m8 m9 m10 m11 m12 m13 m14 m15 : ℚ) :
    (![m0, m1, m2, m3, m4, m5, m6, m7, m8, m9, m10, m11, m12, m13, m14, m15] : Fin 16 → ℚ) 3 = m3 := rfl

theorem vec16_at_4 (m0 m1 m2 m3 m4 m5 m6 m7 m8 m9 m10 m11 m12 m13 m14 m15 : ℚ) :
    (![m0, m1, m2, m3, m4, m5, m6, m7, m8, m9, m10, m11, m12, m13, m14, m15] : Fin 16 → ℚ) 4 = m4 := rfl

theorem vec16_at_5 (m0 m1 m2 m3 m4 m5 m6 m7 m8 m9 m10 m11 m12 m13 m14 m15 : ℚ) :
    (![m0, m1, m2, m3, m4, m5, m6, m7, m8, m9, m10, m11, m12, m13, m14, m15] : Fin 16 → ℚ) 5 = m5 := rfl

theorem vec16_at_6 (m0 m1 m2 m3 m4 m5 m6 m7 m8 m9 m10 m11 m12 m13 m14 m15 : ℚ) :
    (![m0, m1, m2, m3, m4, m5, m6, m7, m8, m9, m10, m11, m12, m13, m14, m15] : Fin 16 → ℚ) 6 = m6 := rfl

theorem vec16_at_7 (m0 m1 m2 m3 m4 m5 m6 m7 m8 m9 m10 m11 m12 m13 m14 m15 : ℚ) :
    (![m0, m1, m2, m3, m4, m5, m6, m7, m8, m9, m10, m11, m12, m13, m14, m15] : Fin 16 → ℚ) 7 = m7 := rfl

theorem vec16_at_8 (m0 m1 m2 m3 m4 m5 m6 m7 m8 m9 m10 m11 m12 m13 m14 m15 : ℚ) :
    (![m0, m1, m2, m3, m4, m5, m6, m7, m8, m9, m10, m11, m12, m13, m14, m15] : Fin 16 → ℚ) 8 = m8 := rfl

theorem vec16_at_9 (m0 m1 m2 m3 m4 m5 m6 m7 m8 m9 m10 m11 m12 m13 m14 m15 : ℚ) :
    (![m0, m1, m2, m3, m4, m5, m6, m7, m8, m9, m10, m11, m12, m13, m14, m15] : Fin 16 → ℚ) 9 = m9 := rfl

theorem vec16_at_10 (m0 m1 m2 m3 m4 m5 m6 m7 m8 m9 m10 m11 m12 m13 m14 m15 : ℚ) :
    (![m0, m1, m2, m3, m4, m5, m6, m7, m8, m9, m10, m11, m12, m13, m14, m15] : Fin 16 → ℚ) 10 = m10 := rfl

theorem vec16_at_11 (m0 m1 m2 m3 m4 m5 m6 m7 m8 m9 m10 m11 m12 m13 m14 m15 : ℚ) :
    (![m0, m1, m2, m3, m4, m5, m6, m7, m8, m9, m10, m11, m12, m13, m14, m15] : Fin 16 → ℚ) 11 = m11 := rfl

theorem vec16_at_12 (m0 m1 m2 m3 m4 m5 m6 m7 m8 m9 m10 m11 m12 m13 m14 m15 : ℚ) :
    (![m0, m1, m2, m3, m4, m5, m6, m7, m8, m9, m10, m11, m12, m13, m14, m15] : Fin 16 → ℚ) 12 = m12 := rfl

theorem vec16_at_13 (m0 m1 m2 m3 m4 m5 m6 m7 m8 m9 m10 m11 m12 m13 m14 m15 : ℚ) :
    (![m0, m1, m2, m3, m4, m5, m6, m7, m8, m9, m10, m11, m12, m13, m14, m15] : Fin 16 → ℚ) 13 = m13 := rfl

theorem vec16_at_14 (m0 m1 m2 m3 m4 m5 m6 m7 m8 m9 m10 m11 m12 m13 m14 m15 : ℚ) :
    (![m0, m1, m2, m3, m4, m5, m6, m7, m8, m9, m10, m11, m12, m13, m14, m15] : Fin 16 → ℚ) 14 = m14 := rfl

theorem vec16_at_15 (m0 m1 m2 m3 m4 m5 m6 m7 m8 m9 m10 m11 m12 m13 m14 m15 : ℚ) :
    (![m0, m1, m2, m3, m4, m5, m6, m7, m8, m9, m10, m11, m12, m13, m14, m15] : Fin 16 → ℚ) 15 = m15 := rfl

theorem mat4_mul_vec4_mul (T M : mat4_t) (v : vec4_t) :
    mat4_mul_vec4 (mat4_mul T M) v = mat4_mul_vec4 T (mat4_mul_vec4 M v) := by
  simp [mat4_mul_vec4, mat4_mul]
  refine ⟨?_, ?_, ?_, ?_⟩ <;> ring

theorem mat4_mul_identity_left (M : mat4_t) : mat4_mul mat4_identity M = M := by
  funext k
  fin_cases k <;> simp [mat4_mul, mat4_identity, vec16_at_0, vec16_at_1, vec16_at_2, vec16_at_3, vec16_at_4, vec16_at_5, vec16_at_6, vec16_at_7, vec16_at_8, vec16_at_9, vec16_at_10, vec16_at_11, vec16_at_12, vec16_at_13, vec16_at_14, vec16_at_15]

theorem mat4_mul_identity_right (M : mat4_t) : mat4_mul M mat4_identity = M := by
  funext k
  fin_cases k <;> simp [mat4_mul, mat4_identity, vec16_at_0, vec16_at_1, vec16_at_2, vec16_at_3, vec16_at_4, vec16_at_5, vec16_at_6, vec16_at_7, vec16_at_8, vec16_at_9, vec16_at_10, vec16_at_11, vec16_at_12, vec16_at_13, vec16_at_14, vec16_at_15]


/-! ## Transform composition -/

theorem current_matrix_eq (c : GLState) :
    current_matrix c = current_stack c (current_stack_depth c) := by
  unfold current_matrix current_stack current_stack_depth
  split_ifs <;> rfl

theorem current_matrix_store_frame (c : GLState) (m : Fin 16 → ℚ) :
    (current_matrix_store c m).list_index = c.list_index ∧
    (current_matrix_store c m).matrix_mode = c.matrix_mode ∧
    current_stack_depth (current_matrix_store c m) = current_stack_depth c ∧
    current_stack (current_matrix_store c m)
      = Function.update (current_stack c) (current_stack_depth c) m := by
  unfold current_matrix_store current_stack_depth current_stack
  by_cases h1 : c.matrix_mode = GL_MODELVIEW
  · simp only [if_pos h1]; first | exact ⟨trivial, trivial, trivial, rfl⟩ | trivial
  · by_cases h2 : c.matrix_mode = GL_PROJECTION
    · simp only [if_neg h1, if_pos h2]; first | exact ⟨trivial, trivial, trivial, rfl⟩ | trivial
    · by_cases h3 : c.matrix_mode = GL_TEXTURE
      · simp only [if_neg h1, if_neg h2, if_pos h3]; first | exact ⟨trivial, trivial, trivial, rfl⟩ | trivial
      · simp only [if_neg h1, if_neg h2, if_neg h3]; first | exact ⟨trivial, trivial, trivial, rfl⟩ | trivial

theorem current_stack_depth_store_frame (c : GLState) (d : Int) :
    (current_stack_depth_store c d).list_index = c.list_index ∧
    (current_stack_depth_store c d).matrix_mode = c.matrix_mode ∧
    current_stack_depth (current_stack_depth_store c d) = d ∧
    current_stack (current_stack_depth_store c d) = current_stack c := by
  unfold current_stack_depth_store current_stack_depth current_stack
  by_cases h1 : c.matrix_mode = GL_MODELVIEW
  · simp only [if_pos h1]; first | exact ⟨trivial, trivial, trivial, rfl⟩ | trivial
  · by_cases h2 : c.matrix_mode = GL_PROJECTION
    · simp only [if_neg h1, if_pos h2]; first | exact ⟨trivial, trivial, trivial, rfl⟩ | trivial
    · by_cases h3 : c.matrix_mode = GL_TEXTURE
      · simp only [if_neg h1, if_neg h2, if_pos h3]; first | exact ⟨trivial, trivial, trivial, rfl⟩ | trivial
      · simp only [if_neg h1, if_neg h2, if_neg h3]; first | exact ⟨trivial, trivial, trivial, rfl⟩ | trivial

theorem current_matrix_store_top (c : GLState) (m : Fin 16 → ℚ) :
    current_matrix (current_matrix_store c m) = m := by
  obtain ⟨_, _, h3, h4⟩ := current_matrix_store_frame c m
  rw [current_matrix_eq, h3, h4, Function.update_same]

/-- C5. Right-composition of transforms in exact arithmetic, no list being
recorded: `glMultMatrixf`, `glTranslatef`, `glScalef`, `glRotatef`, `glOrtho`
and `glFrustum` replace the top `T` of the current stack by `mat4_mul T M` with
their matrix `M` and leave the depth; `mat4_mul_vec4 (mat4_mul T M) v =
mat4_mul_vec4 T (mat4_mul_vec4 M v)`, so the transform specified last is
applied first; `mat4_identity` is a two-sided unit of `mat4_mul`. -/
theorem right_composition (lm : LibM) (c : GLState) (M : Fin 16 → ℚ) (T : mat4_t) (v : vec4_t)
    (x y z angle left right bottom top near far : ℚ) (hrec : c.list_index = 0) :
    (current_matrix (glMultMatrixf c M) = mat4_mul (current_matrix c) M ∧
      current_stack_depth (glMultMatrixf c M) = current_stack_depth c) ∧
    (current_matrix (glTranslatef c x y z) = mat4_mul (current_matrix c) (mat4_translate x y z) ∧
      current_stack_depth (glTranslatef c x y z) = current_stack_depth c) ∧
    (current_matrix (glScalef c x y z) = mat4_mul (current_matrix c) (mat4_scale x y z) ∧
      current_stack_depth (glScalef c x y z) = current_stack_depth c) ∧
    (current_matrix (glRotatef lm c angle x y z)
        = mat4_mul (current_matrix c) (mat4_rotate lm angle x y z) ∧
      current_stack_depth (glRotatef lm c angle x y z) = current_stack_depth c) ∧
    (current_matrix (glOrtho c left right bottom top near far)
        = mat4_mul (current_matrix c) (mat4_ortho left right bottom top near far) ∧
      current_stack_depth (glOrtho c left right bottom top near far) = current_stack_depth c) ∧
    (current_matrix (glFrustum c left right bottom top near far)
        = mat4_mul (current_matrix c) (mat4_frustum left right bottom top near far) ∧
      current_stack_depth (glFrustum c left right bottom top near far)
        = current_stack_depth c) ∧
    mat4_mul_vec4 (mat4_mul T M) v = mat4_mul_vec4 T (mat4_mul_vec4 M v) ∧
    mat4_mul mat4_identity M = M ∧
    mat4_mul M mat4_identity = M := by
  have key : ∀ (cmd : list_command_t) (m : GLState → Fin 16 → ℚ),
      current_matrix (unless_recorded (list_record c cmd) fun c => current_matrix_store c (m c))
        = m c ∧
      current_stack_depth
        (unless_recorded (list_record c cmd) fun c => current_matrix_store c (m c))
        = current_stack_depth c := fun cmd m => by
    rw [unless_recorded_idle c cmd _ hrec]
    exact ⟨current_matrix_store_top c _, (current_matrix_store_frame c _).2.2.1⟩
  exact ⟨key _ _, key _ _, key _ _, key _ _, key _ _, key _ _, mat4_mul_vec4_mul T M v,
    mat4_mul_identity_left M, mat4_mul_identity_right M⟩

/-- C5 at the context `gl_create_context(4, 4)` returns. -/
theorem right_composition_witness :
    test_context.list_index = 0 ∧
    current_matrix (glTranslatef test_context 1 2 3)
      = mat4_mul (current_matrix test_context) (mat4_translate 1 2 3) :=
  ⟨rfl, (right_composition test_platform.lm test_context mat4_identity mat4_identity
    (vec4 0 0 0 1) 1 2 3 0 0 0 0 0 0 0 rfl).2.1.1⟩


/-! ## Push and pop -/

/-- A matrix mutator stores a matrix through `current_matrix()`. -/
theorem mutator_run (c : GLState) (cmd : list_command_t)
    (m : GLState → Fin 16 → ℚ) (d0 : Int) (n : Nat) (S : Int → Fin 16 → ℚ) (mode : Nat)
    (h : c.list_index = 0 ∧ c.matrix_mode = mode ∧ current_stack_depth c = d0 + 1 + n ∧
      ∀ j : Int, j ≤ d0 → current_stack c j = S j) :
    let c1 := unless_recorded (list_record c cmd) fun c => current_matrix_store c (m c)
    c1.list_index = 0 ∧ c1.matrix_mode = mode ∧ current_stack_depth c1 = d0 + 1 + n ∧
      ∀ j : Int, j ≤ d0 → current_stack c1 j = S j := by
  obtain ⟨h1, h2, h3, h4⟩ := h
  intro c1
  have hc1 : c1 = current_matrix_store c (m c) := unless_recorded_idle c cmd _ h1
  obtain ⟨f1, f2, f3, f4⟩ := current_matrix_store_frame c (m c)
  rw [hc1]
  refine ⟨f1.trans h1, f2.trans h2, f3.trans h3, fun j hj => ?_⟩
  rw [f4, Function.update_noteq (by omega), h4 j hj]

/-- Between a successful `glPushMatrix` and its `glPopMatrix`, a balanced
sequence of mutations leaves the depth and every stack entry below the pushed
one as they were. -/
theorem balanced_mutations_frame (pf : Platform) (d0 : Int) (hd0 : 0 ≤ d0)
    (S : Int → Fin 16 → ℚ) (mode : Nat) (ops : List front_end_call) :
    ∀ (n : Nat) (c : GLState),
      (c.list_index = 0 ∧ c.matrix_mode = mode ∧ current_stack_depth c = d0 + 1 + n ∧
        ∀ j : Int, j ≤ d0 → current_stack c j = S j) →
      balanced_mutations (d0 + 1) n ops = true →
      ((run_calls pf ops c).list_index = 0 ∧ (run_calls pf ops c).matrix_mode = mode ∧
        current_stack_depth (run_calls pf ops c) = d0 + 1 ∧
        ∀ j : Int, j ≤ d0 → current_stack (run_calls pf ops c) j = S j) := by
  induction ops with
  | nil =>
    intro n c h hb
    simp only [balanced_mutations, decide_eq_true_eq] at hb
    subst hb
    simpa using h
  | cons k ks ih =>
    intro n c h hb
    show (_ : GLState).list_index = 0 ∧ _
    have hrun : run_calls pf (k :: ks) c = run_calls pf ks (k.run pf c) := rfl
    rw [hrun]
    cases k with
    | glPushMatrix =>
      simp only [balanced_mutations, Bool.and_eq_true, decide_eq_true_eq] at hb
      obtain ⟨hroom, hb⟩ := hb
      obtain ⟨h1, h2, h3, h4⟩ := h
      refine ih (n + 1) _ ?_ hb
      have hp : front_end_call.glPushMatrix.run pf c = glPushMatrix c := rfl
      rw [hp, glPushMatrix_idle c h1, if_neg (by rw [h3]; omega)]
      obtain ⟨g1, g2, g3, g4⟩ := current_stack_depth_store_frame c (current_stack_depth c + 1)
      obtain ⟨f1, f2, f3, f4⟩ := current_matrix_store_frame
        (current_stack_depth_store c (current_stack_depth c + 1))
        (mat4_to_array (mat4_from_array (current_matrix c)))
      refine ⟨f1.trans (g1.trans h1), f2.trans (g2.trans h2), ?_, fun j hj => ?_⟩
      · rw [f3, g3, h3]; push_cast; ring
      · rw [f4, g3, g4, Function.update_noteq (by omega), h4 j hj]
    | glPopMatrix =>
      simp only [balanced_mutations, Bool.and_eq_true, decide_eq_true_eq] at hb
      obtain ⟨hn, hb⟩ := hb
      obtain ⟨h1, h2, h3, h4⟩ := h
      refine ih (n - 1) _ ?_ hb
      have hp : front_end_call.glPopMatrix.run pf c = glPopMatrix c := rfl
      rw [hp, glPopMatrix_idle c h1, if_neg (by rw [h3]; omega)]
      obtain ⟨g1, g2, g3, g4⟩ := current_stack_depth_store_frame c (current_stack_depth c - 1)
      refine ⟨g1.trans h1, g2.trans h2, ?_, fun j hj => ?_⟩
      · rw [g3, h3]; omega
      · rw [g4, h4 j hj]
    | glLoadIdentity => exact ih n _ (mutator_run c _ _ d0 n S mode h) hb
    | glLoadMatrixf m => exact ih n _ (mutator_run c _ _ d0 n S mode h) hb
    | glMultMatrixf m => exact ih n _ (mutator_run c _ _ d0 n S mode h) hb
    | glTranslatef x y z => exact ih n _ (mutator_run c _ _ d0 n S mode h) hb
    | glRotatef a x y z => exact ih n _ (mutator_run c _ _ d0 n S mode h) hb
    | glScalef x y z => exact ih n _ (mutator_run c _ _ d0 n S mode h) hb
    | glOrtho l r b t n1 f => exact ih n _ (mutator_run c _ _ d0 n S mode h) hb
    | glFrustum l r b t n1 f => exact ih n _ (mutator_run c _ _ d0 n S mode h) hb
    | glEnable cap => exact Bool.noConfusion hb
    | glDisable cap => exact Bool.noConfusion hb
    | glIsEnabled cap => exact Bool.noConfusion hb
    | glGetIntegerv pname => exact Bool.noConfusion hb
    | glGetFloatv pname => exact Bool.noConfusion hb
    | glGetBooleanv pname => exact Bool.noConfusion hb
    | glClear mask => exact Bool.noConfusion hb
    | glMatrixMode mode1 => exact Bool.noConfusion hb
    | glBegin mode1 => exact Bool.noConfusion hb
    | glEnd => exact Bool.noConfusion hb

/-- C4, as stated, fails on a full stack: with 24 matrices on the modelview
stack (depth index 23) `glPushMatrix` overflows and pushes nothing, and the
`glPopMatrix` that follows an empty mutation sequence pops a matrix that was
there before: the depth index ends at 22. -/
theorem push_pop_on_full_stack :
    ({ test_context with modelview_stack_depth := 23 } : GLState).list_index = 0 ∧
    current_stack_depth { test_context with modelview_stack_depth := 23 } = 23 ∧
    current_stack_depth (glPopMatrix (run_calls test_platform []
      (glPushMatrix { test_context with modelview_stack_depth := 23 }))) = 22 ∧
    ¬ (current_stack_depth (glPopMatrix (run_calls test_platform []
        (glPushMatrix { test_context with modelview_stack_depth := 23 })))
      = current_stack_depth { test_context with modelview_stack_depth := 23 }) := by
  refine ⟨rfl, rfl, ?_, ?_⟩
  · decide
  · decide

/-- C4, amended. Push and pop are inverses when every push finds room: with no
list being recorded, the selected stack holding between 1 and 23 matrices, and
a sequence of matrix mutators and balanced nested push/pop in which no nested
`glPushMatrix` meets a full stack, `glPushMatrix; mutations; glPopMatrix`
leaves the top matrix and the depth of the selected stack equal to their
values before the push, and every entry of that stack up to the old top as it
was. -/
theorem push_pop_inverse (pf : Platform) (c : GLState) (ops : List front_end_call)
    (hrec : c.list_index = 0) (hlow : 0 ≤ current_stack_depth c)
    (hroom : current_stack_depth c < MAX_MATRIX_STACK_DEPTH - 1)
    (hbal : balanced_mutations (current_stack_depth c + 1) 0 ops = true) :
    current_matrix (glPopMatrix (run_calls pf ops (glPushMatrix c))) = current_matrix c ∧
    current_stack_depth (glPopMatrix (run_calls pf ops (glPushMatrix c)))
      = current_stack_depth c ∧
    ∀ j : Int, j ≤ current_stack_depth c →
      current_stack (glPopMatrix (run_calls pf ops (glPushMatrix c))) j = current_stack c j := by
  have hpush : c.list_index = 0 ∧ (glPushMatrix c).list_index = 0 ∧
      (glPushMatrix c).matrix_mode = c.matrix_mode ∧
      current_stack_depth (glPushMatrix c) = current_stack_depth c + 1 + (0 : Nat) ∧
      ∀ j : Int, j ≤ current_stack_depth c →
        current_stack (glPushMatrix c) j = current_stack c j := by
    rw [glPushMatrix_idle c hrec, if_neg (by omega)]
    obtain ⟨g1, g2, g3, g4⟩ := current_stack_depth_store_frame c (current_stack_depth c + 1)
    obtain ⟨f1, f2, f3, f4⟩ := current_matrix_store_frame
      (current_stack_depth_store c (current_stack_depth c + 1))
      (mat4_to_array (mat4_from_array (current_matrix c)))
    refine ⟨hrec, f1.trans (g1.trans hrec), f2.trans g2, ?_, fun j hj => ?_⟩
    · rw [f3, g3]; simp
    · rw [f4, g3, g4, Function.update_noteq (by omega)]
  obtain ⟨_, p1, p2, p3, p4⟩ := hpush
  obtain ⟨r1, r2, r3, r4⟩ := balanced_mutations_frame pf (current_stack_depth c) hlow
    (current_stack c) c.matrix_mode ops 0 (glPushMatrix c) ⟨p1, p2, p3, p4⟩ hbal
  have hpop : glPopMatrix (run_calls pf ops (glPushMatrix c))
      = current_stack_depth_store (run_calls pf ops (glPushMatrix c)) (current_stack_depth c) := by
    rw [glPopMatrix_idle _ r1, if_neg (by rw [r3]; omega), r3]
    congr 1
    omega
  obtain ⟨g1, g2, g3, g4⟩ := current_stack_depth_store_frame
    (run_calls pf ops (glPushMatrix c)) (current_stack_depth c)
  rw [hpop]
  refine ⟨?_, g3, fun j hj => ?_⟩
  · rw [current_matrix_eq, g3, g4, r4 _ (le_refl _), current_matrix_eq]
  · rw [g4, r4 j hj]

/-- C4, amended, at the context `gl_create_context(4, 4)` returns, with a
translation and a nested push, scale, pop between the push and the pop. -/
theorem push_pop_inverse_witness :
    test_context.list_index = 0 ∧
    0 ≤ current_stack_depth test_context ∧
    current_stack_depth test_context < MAX_MATRIX_STACK_DEPTH - 1 ∧
    balanced_mutations (current_stack_depth test_context + 1) 0
      [.glTranslatef 1 2 3, .glPushMatrix, .glScalef 2 2 2, .glPopMatrix] = true ∧
    current_matrix (glPopMatrix (run_calls test_platform
      [.glTranslatef 1 2 3, .glPushMatrix, .glScalef 2 2 2, .glPopMatrix]
      (glPushMatrix test_context))) = current_matrix test_context :=
  ⟨rfl, by decide, by decide, by decide,
    (push_pop_inverse test_platform test_context
      [.glTranslatef 1 2 3, .glPushMatrix, .glScalef 2 2 2, .glPopMatrix]
      rfl (by decide) (by decide) (by decide)).1⟩


/-! ## Enable state -/

/-- The state `glIsEnabled` and `glGetBooleanv` report for a supported capability. -/
theorem enable_queries (q : QueryTable) (c : GLState) (cap : Nat) (h : supported_cap cap) :
    glIsEnabled c cap =
      (if cap_to_flag cap ≠ 0 then flag_set c (cap_to_flag cap)
        else (c.lights (cap - GL_LIGHT0)).enabled, c) ∧
    glGetBooleanv q c cap =
      ([if cap_to_flag cap ≠ 0 then flag_set c (cap_to_flag cap)
        else (c.lights (cap - GL_LIGHT0)).enabled], c) := by
  rcases h with h | ⟨h1, h2⟩
  · rcases h with h | h | h | h | h | h | h | h | h | h | h <;> subst h <;> exact ⟨rfl, rfl⟩
  · have h1 : 16384 ≤ cap := h1
    have h2 : cap ≤ 16391 := h2
    interval_cases cap <;> exact ⟨rfl, rfl⟩

theorem flag_cap_bits (cap other : Nat) (hc : flag_cap cap) (ho : flag_cap other)
    (hne : other ≠ cap) :
    cap_to_flag cap &&& cap_to_flag other = 0 ∧
    bit_not32 (cap_to_flag cap) &&& cap_to_flag other = cap_to_flag other := by
  rcases hc with h | h | h | h | h | h | h | h | h | h | h <;> subst h <;>
    rcases ho with h | h | h | h | h | h | h | h | h | h | h <;> subst h <;>
    first
      | exact absurd rfl hne
      | exact ⟨by decide, by decide⟩

theorem flag_cap_bit (cap : Nat) (hc : flag_cap cap) :
    cap_to_flag cap ≠ 0 ∧
    bit_not32 (cap_to_flag cap) &&& cap_to_flag cap = 0 ∧
    cap_to_flag cap &&& FLAG_INSIDE_BEGIN_END = 0 ∧
    bit_not32 (cap_to_flag cap) &&& FLAG_INSIDE_BEGIN_END = FLAG_INSIDE_BEGIN_END := by
  rcases hc with h | h | h | h | h | h | h | h | h | h | h <;> subst h <;>
    exact ⟨by decide, by decide, by decide, by decide⟩

theorem light_cap_flag (cap : Nat) (h : GL_LIGHT0 ≤ cap ∧ cap ≤ GL_LIGHT7) :
    cap_to_flag cap = 0 := by
  obtain ⟨h1, h2⟩ := h
  have h1 : 16384 ≤ cap := h1
  have h2 : cap ≤ 16391 := h2
  interval_cases cap <;> rfl

/-- The context `glEnable` / `glDisable` leave for a supported capability. -/
theorem enable_effect (c : GLState) (cap : Nat) (hrec : c.list_index = 0)
    (h : supported_cap cap) :
    glEnable c cap =
      (if cap_to_flag cap ≠ 0 then { c with flags := c.flags ||| cap_to_flag cap }
       else set_light_enabled c (cap - GL_LIGHT0) GL_TRUE) ∧
    glDisable c cap =
      (if cap_to_flag cap ≠ 0 then { c with flags := c.flags &&& bit_not32 (cap_to_flag cap) }
       else set_light_enabled c (cap - GL_LIGHT0) GL_FALSE) := by
  have hE : glEnable c cap =
      if cap_to_flag cap ≠ 0 then { c with flags := c.flags ||| cap_to_flag cap }
      else if cap ≥ GL_LIGHT0 ∧ cap ≤ GL_LIGHT7 then
        set_light_enabled c (cap - GL_LIGHT0) GL_TRUE
      else gl_set_error c GL_INVALID_ENUM := unless_recorded_idle c _ _ hrec
  have hD : glDisable c cap =
      if cap_to_flag cap ≠ 0 then { c with flags := c.flags &&& bit_not32 (cap_to_flag cap) }
      else if cap ≥ GL_LIGHT0 ∧ cap ≤ GL_LIGHT7 then
        set_light_enabled c (cap - GL_LIGHT0) GL_FALSE
      else gl_set_error c GL_INVALID_ENUM := unless_recorded_idle c _ _ hrec
  rw [hE, hD]
  rcases h with h | h
  · simp only [if_pos (flag_cap_bit cap h).1, and_self]
  · have h0 := light_cap_flag cap h
    simp only [if_neg (not_not.mpr h0), if_pos h, and_self]

/-- The reported state of capability `k` in terms of the flag word and the
light array. -/
theorem reported_state (flags : Nat) (lights : Nat → light_t) (c : GLState) (k : Nat)
    (hf : c.flags = flags) (hl : c.lights = lights) :
    (if cap_to_flag k ≠ 0 then flag_set c (cap_to_flag k)
      else (c.lights (k - GL_LIGHT0)).enabled)
    = (if cap_to_flag k ≠ 0 then decide (flags &&& cap_to_flag k ≠ 0)
      else (lights (k - GL_LIGHT0)).enabled) := by
  subst hf; subst hl; rfl

/-- C6. Enable state: for every supported capability and every context with no
list being recorded, after `glEnable(cap)` both `glIsEnabled(cap)` and
`glGetBooleanv(cap)` report true, after `glDisable(cap)` both report false, the
reported state of every other supported capability and the inside-begin-end
flag are unchanged, and no error is latched by the call or by the queries. -/
theorem enable_state (q : QueryTable) (c : GLState) (cap other : Nat)
    (hrec : c.list_index = 0) (hcap : supported_cap cap) (hother : supported_cap other)
    (hne : other ≠ cap) :
    (glIsEnabled (glEnable c cap) cap = (true, glEnable c cap) ∧
      glGetBooleanv q (glEnable c cap) cap = ([true], glEnable c cap)) ∧
    (glIsEnabled (glDisable c cap) cap = (false, glDisable c cap) ∧
      glGetBooleanv q (glDisable c cap) cap = ([false], glDisable c cap)) ∧
    ((glIsEnabled (glEnable c cap) other).1 = (glIsEnabled c other).1 ∧
      (glGetBooleanv q (glEnable c cap) other).1 = (glGetBooleanv q c other).1) ∧
    ((glIsEnabled (glDisable c cap) other).1 = (glIsEnabled c other).1 ∧
      (glGetBooleanv q (glDisable c cap) other).1 = (glGetBooleanv q c other).1) ∧
    ((glEnable c cap).flags &&& FLAG_INSIDE_BEGIN_END = c.flags &&& FLAG_INSIDE_BEGIN_END ∧
      (glDisable c cap).flags &&& FLAG_INSIDE_BEGIN_END = c.flags &&& FLAG_INSIDE_BEGIN_END) ∧
    ((glEnable c cap).error = c.error ∧ (glDisable c cap).error = c.error) := by
  obtain ⟨hE, hD⟩ := enable_effect c cap hrec hcap
  -- the flag word and the light array after the two calls
  have hstate :
      ((glEnable c cap).flags = (if cap_to_flag cap ≠ 0 then c.flags ||| cap_to_flag cap
          else c.flags) ∧
        (glEnable c cap).lights = (if cap_to_flag cap ≠ 0 then c.lights
          else Function.update c.lights (cap - GL_LIGHT0)
            { c.lights (cap - GL_LIGHT0) with enabled := true }) ∧
        (glEnable c cap).error = c.error) ∧
      ((glDisable c cap).flags = (if cap_to_flag cap ≠ 0 then
          c.flags &&& bit_not32 (cap_to_flag cap) else c.flags) ∧
        (glDisable c cap).lights = (if cap_to_flag cap ≠ 0 then c.lights
          else Function.update c.lights (cap - GL_LIGHT0)
            { c.lights (cap - GL_LIGHT0) with enabled := false }) ∧
        (glDisable c cap).error = c.error) := by
    rw [hE, hD]
    by_cases hf : cap_to_flag cap ≠ 0
    · simp only [if_pos hf, and_self]
    · simp only [if_neg hf, set_light_enabled, and_self]
  obtain ⟨⟨ef, el, ee⟩, ⟨df, dl, de⟩⟩ := hstate
  have qE := enable_queries q (glEnable c cap)
  have qD := enable_queries q (glDisable c cap)
  have q0 := enable_queries q c other hother
  have rE := fun k => reported_state _ _ (glEnable c cap) k ef el
  have rD := fun k => reported_state _ _ (glDisable c cap) k df dl
  have r0 := reported_state _ _ c other rfl rfl
  -- the reported state of `cap` itself
  have selfE : (if cap_to_flag cap ≠ 0 then flag_set (glEnable c cap) (cap_to_flag cap)
      else ((glEnable c cap).lights (cap - GL_LIGHT0)).enabled) = true := by
    rw [rE]
    by_cases hf : cap_to_flag cap ≠ 0
    · simp only [if_pos hf]
      exact decide_eq_true (or_and_self_ne_zero _ _ hf)
    · simp only [if_neg hf, Function.update_same]
  have selfD : (if cap_to_flag cap ≠ 0 then flag_set (glDisable c cap) (cap_to_flag cap)
      else ((glDisable c cap).lights (cap - GL_LIGHT0)).enabled) = false := by
    rw [rD]
    by_cases hf : cap_to_flag cap ≠ 0
    · simp only [if_pos hf]
      rcases hcap with hc | hc
      · rw [and_not_and_self _ _ (flag_cap_bit cap hc).2.1]; rfl
      · exact absurd (light_cap_flag cap hc) hf
    · simp only [if_neg hf, Function.update_same]
  -- the reported state of another capability
  have otherED :
      (if cap_to_flag other ≠ 0 then flag_set (glEnable c cap) (cap_to_flag other)
        else ((glEnable c cap).lights (other - GL_LIGHT0)).enabled)
      = (if cap_to_flag other ≠ 0 then flag_set c (cap_to_flag other)
        else (c.lights (other - GL_LIGHT0)).enabled) ∧
      (if cap_to_flag other ≠ 0 then flag_set (glDisable c cap) (cap_to_flag other)
        else ((glDisable c cap).lights (other - GL_LIGHT0)).enabled)
      = (if cap_to_flag other ≠ 0 then flag_set c (cap_to_flag other)
        else (c.lights (other - GL_LIGHT0)).enabled) := by
    rw [rE, rD, r0]
    rcases hcap with hc | hc <;> rcases hother with ho | ho
    · have b := flag_cap_bits cap other hc ho hne
      simp only [if_pos (flag_cap_bit cap hc).1, if_pos (flag_cap_bit other ho).1,
        or_and_other _ _ _ b.1, and_not_and_other _ _ _ b.2, and_self]
    · have h0 := light_cap_flag other ho
      simp only [if_pos (flag_cap_bit cap hc).1, if_neg (not_not.mpr h0), and_self]
    · have h0 := light_cap_flag cap hc
      simp only [if_neg (not_not.mpr h0), if_pos (flag_cap_bit other ho).1, and_self]
    · have h0 := light_cap_flag cap hc
      have h1 := light_cap_flag other ho
      have hidx : other - GL_LIGHT0 ≠ cap - GL_LIGHT0 := by
        have a1 : 16384 ≤ cap := hc.1
        have a2 : 16384 ≤ other := ho.1
        show other - 16384 ≠ cap - 16384
        omega
      simp only [if_neg (not_not.mpr h0), if_neg (not_not.mpr h1),
        Function.update_noteq hidx, and_self]
  have insideED : (glEnable c cap).flags &&& FLAG_INSIDE_BEGIN_END
        = c.flags &&& FLAG_INSIDE_BEGIN_END ∧
      (glDisable c cap).flags &&& FLAG_INSIDE_BEGIN_END = c.flags &&& FLAG_INSIDE_BEGIN_END := by
    rw [ef, df]
    rcases hcap with hc | hc
    · obtain ⟨b0, _, b2, b3⟩ := flag_cap_bit cap hc
      simp only [if_pos b0]
      exact ⟨or_and_other _ _ _ b2, and_not_and_other _ _ _ b3⟩
    · have h0 := light_cap_flag cap hc
      simp only [if_neg (not_not.mpr h0), and_self]
  refine ⟨⟨?_, ?_⟩, ⟨?_, ?_⟩, ⟨?_, ?_⟩, ⟨?_, ?_⟩, insideED, ee, de⟩
  · rw [(qE cap hcap).1, selfE]
  · rw [(qE cap hcap).2, selfE]
  · rw [(qD cap hcap).1, selfD]
  · rw [(qD cap hcap).2, selfD]
  · rw [(qE other hother).1, q0.1]; exact otherED.1
  · rw [(qE other hother).2, q0.2]; exact congrArg (fun b => [b]) otherED.1
  · rw [(qD other hother).1, q0.1]; exact otherED.2
  · rw [(qD other hother).2, q0.2]; exact congrArg (fun b => [b]) otherED.2

/-- C6 at the context `gl_create_context(4, 4)` returns, for `GL_BLEND` and the
other capability `GL_LIGHT0 + 3`. -/
theorem enable_state_witness :
    test_context.list_index = 0 ∧ supported_cap GL_BLEND ∧ supported_cap (GL_LIGHT0 + 3) ∧
    GL_LIGHT0 + 3 ≠ GL_BLEND ∧
    glIsEnabled (glEnable test_context GL_BLEND) GL_BLEND
      = (true, glEnable test_context GL_BLEND) :=
  ⟨rfl, by decide, by decide, by decide,
    (enable_state test_platform.q test_context GL_BLEND (GL_LIGHT0 + 3) rfl (by decide)
      (by decide) (by decide)).1.1⟩


/-! ## glClear -/

theorem for_range_eq_foldl {σ : Type} (lo hi : Int) (body : Int → σ → σ) (s : σ) :
    for_range lo hi body s
      = (List.map (fun k : Nat => lo + (k : Int)) (List.range (Int.toNat (hi - lo)))).foldl
          (fun s i => body i s) s := by
  unfold for_range
  rw [List.foldl_map]

theorem mem_range_map (lo hi x : Int) :
    x ∈ List.map (fun k : Nat => lo + (k : Int)) (List.range (Int.toNat (hi - lo)))
      ↔ lo ≤ x ∧ x < hi := by
  simp only [List.mem_map, List.mem_range]
  constructor
  · rintro ⟨k, hk, rfl⟩
    omega
  · rintro ⟨h1, h2⟩
    exact ⟨Int.toNat (x - lo), by omega, by omega⟩

theorem foldl_update_hit {ι α : Type} (key : ι → Nat) (v : α) (i : Nat) :
    ∀ (l : List ι) (f0 : Nat → α), (∃ k ∈ l, key k = i) →
      (l.foldl (fun f k => Function.update f (key k) v) f0) i = v := by
  intro l
  induction l with
  | nil => intro f0 h; obtain ⟨k, hk, _⟩ := h; exact absurd hk (List.not_mem_nil k)
  | cons a l ih =>
    intro f0 h
    rw [List.foldl_cons]
    by_cases hl : ∃ k ∈ l, key k = i
    · exact ih _ hl
    · obtain ⟨k, hk, hki⟩ := h
      rcases List.mem_cons.mp hk with rfl | hk'
      · have hmiss : ∀ (l : List ι) (g : Nat → α), (¬ ∃ k ∈ l, key k = i) →
            (l.foldl (fun f k => Function.update f (key k) v) g) i = g i := by
          intro l
          induction l with
          | nil => intro g _; rfl
          | cons b l ih2 =>
            intro g hb
            rw [List.foldl_cons, ih2 _ (fun ⟨k, hk, e⟩ => hb ⟨k, List.mem_cons_of_mem _ hk, e⟩)]
            exact Function.update_noteq
              (fun e => hb ⟨b, List.mem_cons_self _ _, e.symm⟩) _ _
        rw [hmiss l _ hl, ← hki, Function.update_same]
      · exact absurd ⟨k, hk', hki⟩ hl

theorem foldl_update_miss {ι α : Type} (key : ι → Nat) (v : α) (i : Nat) :
    ∀ (l : List ι) (f0 : Nat → α), (¬ ∃ k ∈ l, key k = i) →
      (l.foldl (fun f k => Function.update f (key k) v) f0) i = f0 i := by
  intro l
  induction l with
  | nil => intro g _; rfl
  | cons b l ih2 =>
    intro g hb
    rw [List.foldl_cons, ih2 _ (fun ⟨k, hk, e⟩ => hb ⟨k, List.mem_cons_of_mem _ hk, e⟩)]
    exact Function.update_noteq (fun e => hb ⟨b, List.mem_cons_self _ _, e.symm⟩) _ _

/-- The double loop of `glClear` over one plane, the plane given by its getter
`get` and setter `set`: the framebuffer it leaves is the one it started from
with that plane replaced, the new plane holding `v` at the indices of the
region and the old value elsewhere. -/
theorem clear_loops {α : Type} (get : framebuffer_t → Nat → α)
    (set : framebuffer_t → (Nat → α) → framebuffer_t)
    (hw : ∀ fb f, (set fb f).width = fb.width)
    (hget : ∀ fb f, get (set fb f) = f)
    (hset : ∀ fb f g, set (set fb f) g = set fb g)
    (hid : ∀ fb, set fb (get fb) = fb)
    (v : α) (xs ys : List Int) (fb : framebuffer_t) :
    ∃ F : Nat → α,
      ys.foldl (fun fb y => xs.foldl (fun fb x =>
        set fb (Function.update (get fb) (fb_index fb x y) v)) fb) fb = set fb F ∧
      ∀ i, ((∃ p ∈ ys ×ˢ xs, Int.toNat (p.1 * fb.width + p.2) = i) → F i = v) ∧
        ((¬ ∃ p ∈ ys ×ˢ xs, Int.toNat (p.1 * fb.width + p.2) = i) → F i = get fb i) := by
  have hrow : ∀ (y : Int) (xs : List Int) (fb0 : framebuffer_t),
      xs.foldl (fun fb x => set fb (Function.update (get fb) (fb_index fb x y) v)) fb0
        = set fb0 (xs.foldl (fun f x =>
            Function.update f (Int.toNat (y * fb0.width + x)) v) (get fb0)) := by
    intro y xs
    induction xs with
    | nil => intro fb0; exact (hid fb0).symm
    | cons a xs ih =>
      intro fb0
      rw [List.foldl_cons, ih, List.foldl_cons, hset, hget, hw]
      rfl
  have hrows : ∀ (ys : List Int) (fb0 : framebuffer_t),
      ys.foldl (fun fb y => xs.foldl (fun fb x =>
        set fb (Function.update (get fb) (fb_index fb x y) v)) fb) fb0
        = set fb0 ((ys ×ˢ xs).foldl (fun f p =>
            Function.update f (Int.toNat (p.1 * fb0.width + p.2)) v) (get fb0)) := by
    intro ys
    induction ys with
    | nil => intro fb0; exact (hid fb0).symm
    | cons y ys ih =>
      intro fb0
      rw [List.foldl_cons, hrow, ih, hset, hget, hw]
      congr 1
      rw [List.product_cons, List.foldl_append, List.foldl_map]
  refine ⟨_, hrows ys fb, fun i => ⟨fun h => ?_, fun h => ?_⟩⟩
  · exact foldl_update_hit (fun p : Int × Int => Int.toNat (p.1 * fb.width + p.2)) v i _ _ h
  · exact foldl_update_miss (fun p : Int × Int => Int.toNat (p.1 * fb.width + p.2)) v i _ _ h

theorem fb_index_inj (w x y x1 y1 : Int) (hx : 0 ≤ x ∧ x < w) (hy : 0 ≤ y)
    (hx1 : 0 ≤ x1 ∧ x1 < w) (hy1 : 0 ≤ y1)
    (h : Int.toNat (y1 * w + x1) = Int.toNat (y * w + x)) : y1 = y ∧ x1 = x := by
  have hw : 0 < w := by omega
  have p1 : 0 ≤ y1 * w := mul_nonneg hy1 hw.le
  have p2 : 0 ≤ y * w := mul_nonneg hy hw.le
  have e : y1 * w + x1 = y * w + x := by omega
  have hyy : y1 = y := by
    rcases lt_trichotomy y1 y with hlt | heq | hgt
    · have : (y1 + 1) * w ≤ y * w := mul_le_mul_of_nonneg_right (by omega) hw.le
      nlinarith
    · exact heq
    · have : (y + 1) * w ≤ y1 * w := mul_le_mul_of_nonneg_right (by omega) hw.le
      nlinarith
  subst hyy
  exact ⟨rfl, by omega⟩

/-- The value a plane holds at pixel `(x, y)` after the double loop of `glClear`
over the region `[x0, x1) x [y0, y1)` that lies inside the framebuffer. -/
theorem clear_loops_at {α : Type} (get : framebuffer_t → Nat → α)
    (set : framebuffer_t → (Nat → α) → framebuffer_t)
    (hw : ∀ fb f, (set fb f).width = fb.width)
    (hget : ∀ fb f, get (set fb f) = f)
    (hset : ∀ fb f g, set (set fb f) g = set fb g)
    (hid : ∀ fb, set fb (get fb) = fb)
    (v : α) (x0 y0 x1 y1 : Int) (fb : framebuffer_t)
    (hx0 : 0 ≤ x0) (hy0 : 0 ≤ y0) (hx1 : x1 ≤ fb.width)
    (x y : Int) (hx : 0 ≤ x ∧ x < fb.width) (hy : 0 ≤ y) :
    ∃ F : Nat → α,
      for_range y0 y1 (fun y fb => for_range x0 x1 (fun x fb =>
        set fb (Function.update (get fb) (fb_index fb x y) v)) fb) fb = set fb F ∧
      ((x0 ≤ x ∧ x < x1 ∧ y0 ≤ y ∧ y < y1) → F (fb_index fb x y) = v) ∧
      ((¬ (x0 ≤ x ∧ x < x1 ∧ y0 ≤ y ∧ y < y1)) → F (fb_index fb x y) = get fb (fb_index fb x y)) := by
  obtain ⟨F, hF, hval⟩ := clear_loops get set hw hget hset hid v
    (List.map (fun k : Nat => x0 + (k : Int)) (List.range (Int.toNat (x1 - x0))))
    (List.map (fun k : Nat => y0 + (k : Int)) (List.range (Int.toNat (y1 - y0)))) fb
  refine ⟨F, ?_, fun hin => ?_, fun hout => ?_⟩
  · rw [for_range_eq_foldl, ← hF]
    congr 1
    funext fb1 y2
    rw [for_range_eq_foldl]
  · exact (hval _).1 ⟨(y, x), List.pair_mem_product.mpr
      ⟨(mem_range_map _ _ _).mpr ⟨hin.2.2.1, hin.2.2.2⟩,
        (mem_range_map _ _ _).mpr ⟨hin.1, hin.2.1⟩⟩, rfl⟩
  · refine (hval _).2 ?_
    rintro ⟨⟨y2, x2⟩, hmem, hidx⟩
    obtain ⟨hm1, hm2⟩ := List.pair_mem_product.mp hmem
    obtain ⟨m1, m2⟩ := (mem_range_map _ _ _).mp hm1
    obtain ⟨m3, m4⟩ := (mem_range_map _ _ _).mp hm2
    have := fb_index_inj fb.width x y x2 y2 hx hy ⟨by omega, by omega⟩ (by omega) hidx
    obtain ⟨rfl, rfl⟩ := this
    exact hout ⟨m3, m4, m1, m2⟩

theorem wrap_int32_of_fits (v : Int) (h : -2 ^ 31 ≤ v ∧ v < 2 ^ 31) : wrap_int32 v = v := by
  unfold wrap_int32
  omega

/-- The clear region lies inside the framebuffer and, among the pixels of the
framebuffer, holds those of the scissor box (all of them when the scissor test
is disabled). -/
theorem glClear_region_spec (c : GLState)
    (hs : c.flags &&& FLAG_SCISSOR_TEST ≠ 0 →
      (-2 ^ 31 ≤ c.scissor_x + c.scissor_w ∧ c.scissor_x + c.scissor_w < 2 ^ 31) ∧
      (-2 ^ 31 ≤ c.scissor_y + c.scissor_h ∧ c.scissor_y + c.scissor_h < 2 ^ 31)) :
    0 ≤ (glClear_region c).1 ∧ 0 ≤ (glClear_region c).2.1 ∧
    (glClear_region c).2.2.1 ≤ c.framebuffer.width ∧
    ∀ x y : Int, 0 ≤ x ∧ x < c.framebuffer.width → 0 ≤ y ∧ y < c.framebuffer.height →
      (((glClear_region c).1 ≤ x ∧ x < (glClear_region c).2.2.1 ∧
          (glClear_region c).2.1 ≤ y ∧ y < (glClear_region c).2.2.2) ↔
        (c.flags &&& FLAG_SCISSOR_TEST = 0 ∨
          (c.scissor_x ≤ x ∧ x < c.scissor_x + c.scissor_w ∧
            c.scissor_y ≤ y ∧ y < c.scissor_y + c.scissor_h))) := by
  unfold glClear_region
  by_cases hf : c.flags &&& FLAG_SCISSOR_TEST ≠ 0
  · obtain ⟨h1, h2⟩ := hs hf
    simp only [if_pos hf, wrap_int32_of_fits _ h1, wrap_int32_of_fits _ h2]
    refine ⟨by split_ifs <;> omega, by split_ifs <;> omega, by split_ifs <;> omega, ?_⟩
    intro x y hx hy
    constructor
    · intro h
      right
      split_ifs at h <;> omega
    · rintro (h | h)
      · exact absurd h hf
      · split_ifs <;> omega
  · simp only [if_neg hf]
    refine ⟨le_refl _, le_refl _, le_refl _, fun x y hx hy => ?_⟩
    constructor
    · intro _; left; exact not_not.mp hf
    · intro _; omega

theorem color_to_rgba32_red : color_to_rgba32 (color 1 0 0 1) = 0xFF0000FF := by
  have h1 : float_to_uint8 (clamp01 1 * 255) = 255 := by
    have := float_to_uint8_byte 255 (by decide)
    norm_num at this
    exact this
  have h0 : float_to_uint8 (clamp01 0 * 255) = 0 := by
    have := float_to_uint8_byte 0 (by decide)
    norm_num at this
    exact this
  simp only [color_to_rgba32, color, h1, h0]
  decide

/-- One plane step of `glClear`: under its mask bit the double loop over the
clear region, otherwise nothing.  The plane is given by its getter and setter. -/
theorem clear_plane_step {α : Type} (get : framebuffer_t → Nat → α)
    (set : framebuffer_t → (Nat → α) → framebuffer_t)
    (hw : ∀ fb f, (set fb f).width = fb.width)
    (hget : ∀ fb f, get (set fb f) = f)
    (hset : ∀ fb f g, set (set fb f) g = set fb g)
    (hid : ∀ fb, set fb (get fb) = fb)
    (bit : Prop) [Decidable bit] (v : α) (x0 y0 x1 y1 : Int) (fb : framebuffer_t)
    (hx0 : 0 ≤ x0) (hy0 : 0 ≤ y0) (hx1 : x1 ≤ fb.width)
    (x y : Int) (hx : 0 ≤ x ∧ x < fb.width) (hy : 0 ≤ y) :
    ∃ F : Nat → α,
      (if bit then
        for_range y0 y1 (fun y fb => for_range x0 x1 (fun x fb =>
          set fb (Function.update (get fb) (fb_index fb x y) v)) fb) fb
       else fb) = set fb F ∧
      (¬ bit → F = get fb) ∧
      F (fb_index fb x y)
        = if bit ∧ (x0 ≤ x ∧ x < x1 ∧ y0 ≤ y ∧ y < y1) then v else get fb (fb_index fb x y) := by
  by_cases hb : bit
  · obtain ⟨F, hF, hin, hout⟩ := clear_loops_at get set hw hget hset hid v x0 y0 x1 y1 fb
      hx0 hy0 hx1 x y hx hy
    refine ⟨F, by rw [if_pos hb]; exact hF, fun h => absurd hb h, ?_⟩
    by_cases hr : x0 ≤ x ∧ x < x1 ∧ y0 ≤ y ∧ y < y1
    · rw [if_pos ⟨hb, hr⟩]; exact hin hr
    · rw [if_neg (fun h => hr h.2)]; exact hout hr
  · refine ⟨get fb, by rw [if_neg hb]; exact (hid fb).symm, fun _ => rfl, ?_⟩
    rw [if_neg (fun h => hb h.1)]

/-- C7. `glClear`: for every pixel `(x, y)` of the framebuffer, each plane whose
bit is in the mask holds its clear value (`color_to_rgba32(clear_color)`,
`clear_depth`, `stencil_clear & 0xFF`) at `(x, y)` when the scissor test is
disabled or `(x, y)` lies in the scissor box, and its previous value otherwise;
planes whose bit is not in the mask are unchanged; the clear color `(1,0,0,1)`
packs to `0xFF0000FF`.  With the scissor test enabled the sums
`scissor_x + scissor_w` and `scissor_y + scissor_h` are taken to be
representable as `int` (signed overflow is undefined in C). -/
theorem glClear_planes (c : GLState) (mask : Nat) (x y : Int)
    (hx : 0 ≤ x ∧ x < c.framebuffer.width) (hy : 0 ≤ y ∧ y < c.framebuffer.height)
    (hs : c.flags &&& FLAG_SCISSOR_TEST ≠ 0 →
      (-2 ^ 31 ≤ c.scissor_x + c.scissor_w ∧ c.scissor_x + c.scissor_w < 2 ^ 31) ∧
      (-2 ^ 31 ≤ c.scissor_y + c.scissor_h ∧ c.scissor_y + c.scissor_h < 2 ^ 31)) :
    framebuffer_getpixel (glClear c mask).framebuffer x y
      = (if mask &&& GL_COLOR_BUFFER_BIT ≠ 0 ∧
            (c.flags &&& FLAG_SCISSOR_TEST = 0 ∨
              (c.scissor_x ≤ x ∧ x < c.scissor_x + c.scissor_w ∧
                c.scissor_y ≤ y ∧ y < c.scissor_y + c.scissor_h))
          then color_to_rgba32 c.clear_color else framebuffer_getpixel c.framebuffer x y) ∧
    framebuffer_getdepth (glClear c mask).framebuffer x y
      = (if mask &&& GL_DEPTH_BUFFER_BIT ≠ 0 ∧
            (c.flags &&& FLAG_SCISSOR_TEST = 0 ∨
              (c.scissor_x ≤ x ∧ x < c.scissor_x + c.scissor_w ∧
                c.scissor_y ≤ y ∧ y < c.scissor_y + c.scissor_h))
          then c.clear_depth else framebuffer_getdepth c.framebuffer x y) ∧
    framebuffer_getstencil (glClear c mask).framebuffer x y
      = (if mask &&& GL_STENCIL_BUFFER_BIT ≠ 0 ∧
            (c.flags &&& FLAG_SCISSOR_TEST = 0 ∨
              (c.scissor_x ≤ x ∧ x < c.scissor_x + c.scissor_w ∧
                c.scissor_y ≤ y ∧ y < c.scissor_y + c.scissor_h))
          then Int.toNat (c.stencil_clear % 256)
          else framebuffer_getstencil c.framebuffer x y) ∧
    (mask &&& GL_COLOR_BUFFER_BIT = 0 →
      (glClear c mask).framebuffer.color = c.framebuffer.color) ∧
    (mask &&& GL_DEPTH_BUFFER_BIT = 0 →
      (glClear c mask).framebuffer.depth = c.framebuffer.depth) ∧
    (mask &&& GL_STENCIL_BUFFER_BIT = 0 →
      (glClear c mask).framebuffer.stencil = c.framebuffer.stencil) ∧
    (glClear c mask).framebuffer.width = c.framebuffer.width ∧
    (glClear c mask).framebuffer.height = c.framebuffer.height ∧
    color_to_rgba32 (color 1 0 0 1) = 0xFF0000FF := by
  obtain ⟨r0, r1, r2, rin⟩ := glClear_region_spec c hs
  have rxy := rin x y hx hy
  -- color plane
  obtain ⟨FC, hFC, hCoff, hCat⟩ := clear_plane_step (fun fb => fb.color)
    (fun fb f => { fb with color := f }) (fun _ _ => rfl) (fun _ _ => rfl) (fun _ _ _ => rfl)
    (fun _ => rfl) (mask &&& GL_COLOR_BUFFER_BIT ≠ 0) (color_to_rgba32 c.clear_color)
    (glClear_region c).1 (glClear_region c).2.1 (glClear_region c).2.2.1
    (glClear_region c).2.2.2 c.framebuffer r0 r1 r2 x y hx hy.1
  -- depth plane
  obtain ⟨FD, hFD, hDoff, hDat⟩ := clear_plane_step (fun fb => fb.depth)
    (fun fb f => { fb with depth := f }) (fun _ _ => rfl) (fun _ _ => rfl) (fun _ _ _ => rfl)
    (fun _ => rfl) (mask &&& GL_DEPTH_BUFFER_BIT ≠ 0) c.clear_depth
    (glClear_region c).1 (glClear_region c).2.1 (glClear_region c).2.2.1
    (glClear_region c).2.2.2 { c.framebuffer with color := FC } r0 r1 r2 x y hx hy.1
  -- stencil plane
  obtain ⟨FS, hFS, hSoff, hSat⟩ := clear_plane_step (fun fb => fb.stencil)
    (fun fb f => { fb with stencil := f }) (fun _ _ => rfl) (fun _ _ => rfl) (fun _ _ _ => rfl)
    (fun _ => rfl) (mask &&& GL_STENCIL_BUFFER_BIT ≠ 0) (Int.toNat (c.stencil_clear % 256))
    (glClear_region c).1 (glClear_region c).2.1 (glClear_region c).2.2.1
    (glClear_region c).2.2.2 { c.framebuffer with color := FC, depth := FD } r0 r1 r2 x y hx hy.1
  have hfb : (glClear c mask).framebuffer
      = { c.framebuffer with color := FC, depth := FD, stencil := FS } := by
    show (if mask &&& GL_STENCIL_BUFFER_BIT ≠ 0 then _ else _) = _
    rw [hFC, hFD, hFS]
  have hb : ¬ (x < 0 ∨ x ≥ c.framebuffer.width ∨ y < 0 ∨ y ≥ c.framebuffer.height) := by omega
  have hidx : ∀ F1 F2 F3, fb_index
      ({ c.framebuffer with color := F1, depth := F2, stencil := F3 } : framebuffer_t) x y
        = fb_index c.framebuffer x y := fun _ _ _ => rfl
  rw [hfb]
  refine ⟨?_, ?_, ?_, fun h => ?_, fun h => ?_, fun h => ?_, rfl, rfl, color_to_rgba32_red⟩
  · unfold framebuffer_getpixel
    rw [if_neg hb, if_neg hb]
    show FC (fb_index c.framebuffer x y) = _
    rw [hCat]
    simp only [rxy]
  · unfold framebuffer_getdepth
    rw [if_neg hb, if_neg hb]
    show FD (fb_index c.framebuffer x y) = _
    have := hDat
    rw [show fb_index ({ c.framebuffer with color := FC } : framebuffer_t) x y
      = fb_index c.framebuffer x y from rfl] at this
    rw [this]
    simp only [rxy]
  · unfold framebuffer_getstencil
    rw [if_neg hb, if_neg hb]
    show FS (fb_index c.framebuffer x y) = _
    have := hSat
    rw [show fb_index ({ c.framebuffer with color := FC, depth := FD } : framebuffer_t) x y
      = fb_index c.framebuffer x y from rfl] at this
    rw [this]
    simp only [rxy]
  · exact hCoff (not_not.mpr h)
  · exact hDoff (not_not.mpr h)
  · exact hSoff (not_not.mpr h)

/-- C7 at the context `gl_create_context(4, 4)` returns with the clear color
`(1, 0, 0, 1)`, a color clear, and the pixel `(2, 3)`. -/
theorem glClear_planes_witness :
    (0 ≤ (2 : Int) ∧ (2 : Int) < test_context.framebuffer.width) ∧
    (0 ≤ (3 : Int) ∧ (3 : Int) < test_context.framebuffer.height) ∧
    framebuffer_getpixel
      (glClear { test_context with clear_color := color 1 0 0 1 } GL_COLOR_BUFFER_BIT).framebuffer
      2 3 = color_to_rgba32 (color 1 0 0 1) :=
  ⟨by decide, by decide,
    (glClear_planes { test_context with clear_color := color 1 0 0 1 } GL_COLOR_BUFFER_BIT 2 3
      (by decide) (by decide) (fun h => absurd h (by decide))).1.trans
      (if_pos ⟨by decide, Or.inl (by decide)⟩)⟩


/-! ## Depth ordering -/

theorem clamp01_idem (v : ℚ) : clamp01 (clamp01 v) = clamp01 v := by
  unfold clamp01
  split_ifs <;> first | rfl | linarith

theorem color_to_rgba32_clamp (col : color_t) :
    color_to_rgba32 (color_clamp col) = color_to_rgba32 col := by
  simp only [color_to_rgba32, color_clamp, clamp01_idem]

/-- The pixel-loop body with the depth test on (function less, depth writes
on), stencil test, alpha test and blending off and all color channels enabled:
a fragment nearer than the stored depth replaces depth and color, any other
fragment changes nothing. -/
theorem depth_less_step (c : GLState) (x y : Int) (d : ℚ) (sh : shaded_t)
    (hD : c.flags &&& FLAG_DEPTH_TEST ≠ 0) (hS : c.flags &&& FLAG_STENCIL_TEST = 0)
    (hA : c.flags &&& FLAG_ALPHA_TEST = 0) (hB : c.flags &&& FLAG_BLEND = 0)
    (hfunc : c.depth_func = GL_LESS) (hmask : c.depth_mask = true)
    (hcm : c.color_mask_r = true ∧ c.color_mask_g = true ∧ c.color_mask_b = true ∧
      c.color_mask_a = true) :
    rasterize_triangle_smooth_pixel c x y d sh =
      if d < framebuffer_getdepth c.framebuffer x y then
        framebuffer_putpixel (framebuffer_putdepth c.framebuffer x y d) x y
          (color_to_rgba32 sh.color)
      else c.framebuffer := by
  obtain ⟨m1, m2, m3, m4⟩ := hcm
  have hal : (match sh.tex_alpha with
      | some a => decide (c.flags &&& FLAG_ALPHA_TEST ≠ 0) && !alpha_test c.alpha_func a c.alpha_ref
      | none => false) = false := by
    cases sh.tex_alpha with
    | none => rfl
    | some a => simp only [hA, ne_eq, not_true_eq_false, decide_False, Bool.false_and]
  have hdt : ∀ stored, depth_test c.depth_func d stored = decide (d < stored) := fun stored => by
    rw [hfunc]; rfl
  unfold rasterize_triangle_smooth_pixel
  simp only [hS, hal, hdt, hmask, hB, ne_eq, not_true_eq_false, false_and, if_false,
    Bool.false_eq_true, hD, not_false_eq_true, true_and, and_true, decide_eq_true_eq,
    write_pixel_masked, m1, m2, m3, m4, and_self, if_true, color_to_rgba32_clamp]
  split_ifs <;> rfl

theorem put_get (fb : framebuffer_t) (x y : Int) (d : ℚ) (p : Nat)
    (hb : 0 ≤ x ∧ x < fb.width ∧ 0 ≤ y ∧ y < fb.height) :
    framebuffer_getpixel (framebuffer_putpixel (framebuffer_putdepth fb x y d) x y p) x y = p ∧
    framebuffer_getdepth (framebuffer_putpixel (framebuffer_putdepth fb x y d) x y p) x y = d := by
  have hn : ¬ (x < 0 ∨ x ≥ fb.width ∨ y < 0 ∨ y ≥ fb.height) := by omega
  unfold framebuffer_getpixel framebuffer_getdepth framebuffer_putpixel framebuffer_putdepth
  simp only [if_neg hn]
  constructor
  · show Function.update fb.color (fb_index fb x y) p (fb_index fb x y) = p
    rw [Function.update_same]
  · show Function.update fb.depth (fb_index fb x y) d (fb_index fb x y) = d
    rw [Function.update_same]

/-- With all four color-mask flags false the pixel-loop body leaves the color
plane alone. -/
theorem masked_pixel_keeps_color (c : GLState) (x y : Int) (d : ℚ) (sh : shaded_t)
    (hcm : c.color_mask_r = false ∧ c.color_mask_g = false ∧ c.color_mask_b = false ∧
      c.color_mask_a = false) :
    (rasterize_triangle_smooth_pixel c x y d sh).color = c.framebuffer.color := by
  obtain ⟨m1, m2, m3, m4⟩ := hcm
  have hs : ∀ (fb : framebuffer_t) (v w : Nat), (write_stencil_masked fb x y v w).color = fb.color := by
    intro fb v w
    unfold write_stencil_masked framebuffer_putstencil
    dsimp only
    split_ifs <;> rfl
  have hd : ∀ (fb : framebuffer_t), (framebuffer_putdepth fb x y d).color = fb.color := by
    intro fb
    unfold framebuffer_putdepth
    split_ifs <;> rfl
  unfold rasterize_triangle_smooth_pixel
  simp only [write_pixel_masked, m1, m2, m3, m4, Bool.false_eq_true, false_and, if_false,
    not_false_eq_true, and_self, if_true]
  split_ifs <;> simp only [hs, hd]

theorem put_dims (fb : framebuffer_t) (x y : Int) (d : ℚ) (p : Nat) :
    (framebuffer_putpixel (framebuffer_putdepth fb x y d) x y p).width = fb.width ∧
    (framebuffer_putpixel (framebuffer_putdepth fb x y d) x y p).height = fb.height := by
  unfold framebuffer_putpixel framebuffer_putdepth
  split_ifs <;> exact ⟨rfl, rfl⟩

/-- Two fragments at one pixel, the nearer one `(dn, shn)` and the farther one
`(df, shf)`, both nearer than the stored depth: in either order the pixel ends
with the nearer fragment's color and depth. -/
theorem depth_pair (c : GLState) (x y : Int) (dn df : ℚ) (shn shf : shaded_t)
    (hb : 0 ≤ x ∧ x < c.framebuffer.width ∧ 0 ≤ y ∧ y < c.framebuffer.height)
    (hD : c.flags &&& FLAG_DEPTH_TEST ≠ 0) (hS : c.flags &&& FLAG_STENCIL_TEST = 0)
    (hA : c.flags &&& FLAG_ALPHA_TEST = 0) (hB : c.flags &&& FLAG_BLEND = 0)
    (hfunc : c.depth_func = GL_LESS) (hmask : c.depth_mask = true)
    (hcm : c.color_mask_r = true ∧ c.color_mask_g = true ∧ c.color_mask_b = true ∧
      c.color_mask_a = true)
    (hnf : dn < df) (hn : dn < framebuffer_getdepth c.framebuffer x y)
    (hf : df < framebuffer_getdepth c.framebuffer x y) :
    (framebuffer_getpixel (rasterize_triangle_smooth_step
        (rasterize_triangle_smooth_step c x y dn shn) x y df shf).framebuffer x y
        = color_to_rgba32 shn.color ∧
      framebuffer_getdepth (rasterize_triangle_smooth_step
        (rasterize_triangle_smooth_step c x y dn shn) x y df shf).framebuffer x y = dn) ∧
    (framebuffer_getpixel (rasterize_triangle_smooth_step
        (rasterize_triangle_smooth_step c x y df shf) x y dn shn).framebuffer x y
        = color_to_rgba32 shn.color ∧
      framebuffer_getdepth (rasterize_triangle_smooth_step
        (rasterize_triangle_smooth_step c x y df shf) x y dn shn).framebuffer x y = dn) := by
  have s1 : ∀ (d : ℚ) (sh : shaded_t), d < framebuffer_getdepth c.framebuffer x y →
      (rasterize_triangle_smooth_step c x y d sh).framebuffer
        = framebuffer_putpixel (framebuffer_putdepth c.framebuffer x y d) x y
            (color_to_rgba32 sh.color) := fun d sh hd => by
    show rasterize_triangle_smooth_pixel c x y d sh = _
    rw [depth_less_step c x y d sh hD hS hA hB hfunc hmask hcm, if_pos hd]
  have s2 : ∀ (c1 : GLState) (d : ℚ) (sh : shaded_t),
      c1.flags = c.flags → c1.depth_func = c.depth_func → c1.depth_mask = c.depth_mask →
      c1.color_mask_r = c.color_mask_r → c1.color_mask_g = c.color_mask_g →
      c1.color_mask_b = c.color_mask_b → c1.color_mask_a = c.color_mask_a →
      (rasterize_triangle_smooth_step c1 x y d sh).framebuffer
        = if d < framebuffer_getdepth c1.framebuffer x y then
            framebuffer_putpixel (framebuffer_putdepth c1.framebuffer x y d) x y
              (color_to_rgba32 sh.color)
          else c1.framebuffer := fun c1 d sh e1 e2 e3 e4 e5 e6 e7 => by
    show rasterize_triangle_smooth_pixel c1 x y d sh = _
    exact depth_less_step c1 x y d sh (by rw [e1]; exact hD) (by rw [e1]; exact hS)
      (by rw [e1]; exact hA) (by rw [e1]; exact hB) (by rw [e2]; exact hfunc)
      (by rw [e3]; exact hmask) (by rw [e4, e5, e6, e7]; exact hcm)
  constructor
  · rw [s2 (rasterize_triangle_smooth_step c x y dn shn) df shf rfl rfl rfl rfl rfl rfl rfl,
      s1 dn shn hn]
    obtain ⟨g1, g2⟩ := put_get c.framebuffer x y dn (color_to_rgba32 shn.color) hb
    rw [g2, if_neg (not_lt.mpr hnf.le)]
    exact ⟨g1, g2⟩
  · rw [s2 (rasterize_triangle_smooth_step c x y df shf) dn shn rfl rfl rfl rfl rfl rfl rfl,
      s1 df shf hf]
    obtain ⟨g1, g2⟩ := put_get c.framebuffer x y df (color_to_rgba32 shf.color) hb
    obtain ⟨w1, w2⟩ := put_dims c.framebuffer x y df (color_to_rgba32 shf.color)
    rw [g2, if_pos hnf]
    exact put_get _ x y dn (color_to_rgba32 shn.color) (by rw [w1, w2]; exact hb)

/-- C9, as stated, fails when the color mask gates the write: depth test on
with function less and depth writes on, stencil test, alpha test and blending
off, all four color-mask flags false; a red fragment at depth 1/4 and a green
one at depth 1/2 written over the stored depth 1 leave the pixel at its old
value 0, in either order, not at the packed red `0xFF0000FF`. -/
theorem depth_order_masked_pixel :
    masked_test_context.flags &&& FLAG_DEPTH_TEST ≠ 0 ∧
    masked_test_context.flags &&& FLAG_STENCIL_TEST = 0 ∧
    masked_test_context.flags &&& FLAG_ALPHA_TEST = 0 ∧
    masked_test_context.flags &&& FLAG_BLEND = 0 ∧
    masked_test_context.depth_func = GL_LESS ∧
    masked_test_context.depth_mask = true ∧
    framebuffer_getdepth masked_test_context.framebuffer 0 0 = 1 ∧
    color_to_rgba32 (color 1 0 0 1) = 0xFF0000FF ∧
    framebuffer_getpixel (rasterize_triangle_smooth_step (rasterize_triangle_smooth_step
        masked_test_context
        0 0 (1 / 4) ⟨none, color 1 0 0 1⟩) 0 0 (1 / 2) ⟨none, color 0 1 0 1⟩).framebuffer 0 0 = 0 ∧
    framebuffer_getpixel (rasterize_triangle_smooth_step (rasterize_triangle_smooth_step
        masked_test_context
        0 0 (1 / 2) ⟨none, color 0 1 0 1⟩) 0 0 (1 / 4) ⟨none, color 1 0 0 1⟩).framebuffer 0 0 = 0 := by
  have key : ∀ (d1 d2 : ℚ) (s1 s2 : shaded_t),
      framebuffer_getpixel (rasterize_triangle_smooth_step (rasterize_triangle_smooth_step
        masked_test_context
        0 0 d1 s1) 0 0 d2 s2).framebuffer 0 0 = 0 := by
    intro d1 d2 s1 s2
    have c2 := masked_pixel_keeps_color (rasterize_triangle_smooth_step
        masked_test_context
        0 0 d1 s1) 0 0 d2 s2 ⟨rfl, rfl, rfl, rfl⟩
    have c1 := masked_pixel_keeps_color
        masked_test_context
        0 0 d1 s1 ⟨rfl, rfl, rfl, rfl⟩
    unfold framebuffer_getpixel
    show (if _ then 0 else (rasterize_triangle_smooth_pixel _ 0 0 d2 s2).color _) = 0
    rw [c2]
    show (if _ then 0 else (rasterize_triangle_smooth_pixel _ 0 0 d1 s1).color _) = 0
    rw [c1]
    split_ifs <;> rfl
  exact ⟨by decide, by decide, by decide, by decide, rfl, rfl, rfl, color_to_rgba32_red,
    key _ _ _ _, key _ _ _ _⟩

/-- C9, amended. Depth ordering is draw-order independent: with the depth test
enabled, function less, depth writes on, stencil test, alpha test and blending
off and all four color-mask flags true, if two triangle fragments with
different depths, both smaller than the stored depth, are written to the same
pixel in either order, then afterwards the pixel holds the packed color of the
fragment with the smaller depth and the depth plane holds `min d1 d2`. -/
theorem depth_order_independent (c : GLState) (x y : Int) (d1 d2 : ℚ) (sh1 sh2 : shaded_t)
    (hb : 0 ≤ x ∧ x < c.framebuffer.width ∧ 0 ≤ y ∧ y < c.framebuffer.height)
    (hD : c.flags &&& FLAG_DEPTH_TEST ≠ 0) (hS : c.flags &&& FLAG_STENCIL_TEST = 0)
    (hA : c.flags &&& FLAG_ALPHA_TEST = 0) (hB : c.flags &&& FLAG_BLEND = 0)
    (hfunc : c.depth_func = GL_LESS) (hmask : c.depth_mask = true)
    (hcm : c.color_mask_r = true ∧ c.color_mask_g = true ∧ c.color_mask_b = true ∧
      c.color_mask_a = true)
    (hne : d1 ≠ d2) (h1 : d1 < framebuffer_getdepth c.framebuffer x y)
    (h2 : d2 < framebuffer_getdepth c.framebuffer x y) :
    (framebuffer_getpixel (rasterize_triangle_smooth_step
        (rasterize_triangle_smooth_step c x y d1 sh1) x y d2 sh2).framebuffer x y
        = color_to_rgba32 (if d1 < d2 then sh1 else sh2).color ∧
      framebuffer_getdepth (rasterize_triangle_smooth_step
        (rasterize_triangle_smooth_step c x y d1 sh1) x y d2 sh2).framebuffer x y
        = min d1 d2) ∧
    (framebuffer_getpixel (rasterize_triangle_smooth_step
        (rasterize_triangle_smooth_step c x y d2 sh2) x y d1 sh1).framebuffer x y
        = color_to_rgba32 (if d1 < d2 then sh1 else sh2).color ∧
      framebuffer_getdepth (rasterize_triangle_smooth_step
        (rasterize_triangle_smooth_step c x y d2 sh2) x y d1 sh1).framebuffer x y
        = min d1 d2) := by
  rcases lt_or_gt_of_ne hne with hlt | hgt
  · obtain ⟨a, b⟩ := depth_pair c x y d1 d2 sh1 sh2 hb hD hS hA hB hfunc hmask hcm hlt h1 h2
    rw [if_pos hlt, min_eq_left hlt.le]
    exact ⟨a, b⟩
  · obtain ⟨a, b⟩ := depth_pair c x y d2 d1 sh2 sh1 hb hD hS hA hB hfunc hmask hcm hgt h2 h1
    rw [if_neg (not_lt.mpr hgt.le), min_eq_right hgt.le]
    exact ⟨b, a⟩

/-- C9, amended, at `depth_test_context`, the pixel `(0, 0)` with stored depth
1, and fragments at depths 1/4 (red) and 1/2 (green). -/
theorem depth_order_independent_witness :
    (0 ≤ (0 : Int) ∧ (0 : Int) < depth_test_context.framebuffer.width ∧
      0 ≤ (0 : Int) ∧ (0 : Int) < depth_test_context.framebuffer.height) ∧
    depth_test_context.flags &&& FLAG_DEPTH_TEST ≠ 0 ∧
    depth_test_context.flags &&& FLAG_STENCIL_TEST = 0 ∧
    depth_test_context.flags &&& FLAG_ALPHA_TEST = 0 ∧
    depth_test_context.flags &&& FLAG_BLEND = 0 ∧
    depth_test_context.depth_func = GL_LESS ∧
    depth_test_context.depth_mask = true ∧
    (depth_test_context.color_mask_r = true ∧ depth_test_context.color_mask_g = true ∧
      depth_test_context.color_mask_b = true ∧ depth_test_context.color_mask_a = true) ∧
    framebuffer_getdepth (rasterize_triangle_smooth_step
      (rasterize_triangle_smooth_step depth_test_context 0 0 (1 / 2) ⟨none, color 0 1 0 1⟩)
      0 0 (1 / 4) ⟨none, color 1 0 0 1⟩).framebuffer 0 0 = min (1 / 2) (1 / 4) :=
  ⟨by decide, by decide, by decide, by decide, by decide, rfl, rfl, ⟨rfl, rfl, rfl, rfl⟩,
    (depth_order_independent depth_test_context 0 0 (1 / 2) (1 / 4) ⟨none, color 0 1 0 1⟩
      ⟨none, color 1 0 0 1⟩ (by decide) (by decide) (by decide) (by decide) (by decide) rfl rfl
      ⟨rfl, rfl, rfl, rfl⟩ (by norm_num)
      (by rw [show framebuffer_getdepth depth_test_context.framebuffer 0 0 = 1 from rfl]
          norm_num)
      (by rw [show framebuffer_getdepth depth_test_context.framebuffer 0 0 = 1 from rfl]
          norm_num)).1.2⟩

/-! ## Blending -/

/-- Packing a channel in `[0, 1]` to 8 bits and unpacking it moves it by at
most one 8-bit step. -/
theorem quantize_channel (v : ℚ) (h0 : 0 ≤ v) (h1 : v ≤ 1) :
    |((float_to_uint8 (clamp01 v * 255) : Nat) : ℚ) / 255 - v| ≤ 1 / 255 := by
  have hc : clamp01 v = v := by
    unfold clamp01
    rw [if_neg (not_lt.mpr h0), if_neg (not_lt.mpr h1)]
  have hf0 : 0 ≤ ⌊v * 255⌋ := Int.floor_nonneg.mpr (by positivity)
  have hf1 : ⌊v * 255⌋ ≤ 255 := by
    have : ⌊v * 255⌋ ≤ ⌊(255 : ℚ)⌋ := Int.floor_mono (by linarith)
    simpa using this
  have hn : ((float_to_uint8 (v * 255) : Nat) : ℚ) = ((⌊v * 255⌋ : Int) : ℚ) := by
    unfold float_to_uint8
    obtain ⟨n, hn⟩ := Int.eq_ofNat_of_zero_le hf0
    rw [hn] at hf1 ⊢
    rw [Int.toNat_natCast, Nat.mod_eq_of_lt (by omega)]
    rfl
  rw [hc, hn]
  have l1 := Int.floor_le (v * 255)
  have l2 := Int.lt_floor_add_one (v * 255)
  rw [abs_le]
  constructor <;> rw [← sub_nonneg] <;> ring_nf <;> linarith

/-- The pixel-loop body with stencil, depth and alpha tests off, blending on
and all color channels enabled writes the packed blend of the fragment color
with the stored color. -/
theorem blend_step (c : GLState) (x y : Int) (d : ℚ) (sh : shaded_t)
    (hD : c.flags &&& FLAG_DEPTH_TEST = 0) (hS : c.flags &&& FLAG_STENCIL_TEST = 0)
    (hA : c.flags &&& FLAG_ALPHA_TEST = 0) (hB : c.flags &&& FLAG_BLEND ≠ 0)
    (hcm : c.color_mask_r = true ∧ c.color_mask_g = true ∧ c.color_mask_b = true ∧
      c.color_mask_a = true) :
    rasterize_triangle_smooth_pixel c x y d sh =
      framebuffer_putpixel c.framebuffer x y (color_to_rgba32
        (blend_colors c sh.color (color_from_rgba32 (framebuffer_getpixel c.framebuffer x y)))) := by
  obtain ⟨m1, m2, m3, m4⟩ := hcm
  unfold rasterize_triangle_smooth_pixel
  simp only [hS, hD, hB, ne_eq, not_true_eq_false, false_and, if_false,
    Bool.false_eq_true, not_false_eq_true, true_and, and_true,
    write_pixel_masked, m1, m2, m3, m4, and_self, if_true, color_to_rgba32_clamp]
  cases sh.tex_alpha <;> simp [hA]

theorem framebuffer_put_getpixel (fb : framebuffer_t) (x y : Int) (p : Nat)
    (hb : 0 ≤ x ∧ x < fb.width ∧ 0 ≤ y ∧ y < fb.height) :
    framebuffer_getpixel (framebuffer_putpixel fb x y p) x y = p := by
  have hn : ¬ (x < 0 ∨ x ≥ fb.width ∨ y < 0 ∨ y ≥ fb.height) := by omega
  unfold framebuffer_getpixel framebuffer_putpixel
  simp only [if_neg hn]
  show Function.update fb.color (fb_index fb x y) p (fb_index fb x y) = p
  rw [Function.update_same]

theorem blend_colors_src_alpha (c : GLState) (src dst : color_t)
    (hs : c.blend_src = GL_SRC_ALPHA) (hd : c.blend_dst = GL_ONE_MINUS_SRC_ALPHA) :
    blend_colors c src dst = color_clamp
      ⟨src.r * src.a + dst.r * (1 - src.a), src.g * src.a + dst.g * (1 - src.a),
        src.b * src.a + dst.b * (1 - src.a), src.a * src.a + dst.a * (1 - src.a)⟩ := by
  unfold blend_colors
  rw [hs, hd]
  rfl

theorem floor_255_half : float_to_uint8 (clamp01 (1 / 2) * 255) = 127 := by
  have hc : clamp01 (1 / 2) = 1 / 2 := by unfold clamp01; norm_num
  have hf : ⌊(1 / 2 : ℚ) * 255⌋ = 127 := by rw [Int.floor_eq_iff]; norm_num
  rw [hc, float_to_uint8, hf]; rfl

theorem floor_255_three_quarters : float_to_uint8 (clamp01 (3 / 4) * 255) = 191 := by
  have hc : clamp01 (3 / 4) = 3 / 4 := by unfold clamp01; norm_num
  have hf : ⌊(3 / 4 : ℚ) * 255⌋ = 191 := by rw [Int.floor_eq_iff]; norm_num
  rw [hc, float_to_uint8, hf]; rfl

theorem floor_255_zero : float_to_uint8 (clamp01 0 * 255) = 0 := by
  have hc : clamp01 0 = 0 := by unfold clamp01; norm_num
  rw [hc, float_to_uint8]; norm_num

/-- C11, as stated, fails in the alpha channel: the blend factor multiplies
all four channels.  At `blend_test_context` (blending on, factors src-alpha
and one-minus-src-alpha, stored pixel `(0, 0, 0, 1)`), the fragment color
`(1, 0, 0, 1/2)` leaves the pixel `0xBF00007F`, which unpacks to
`(127/255, 0, 0, 191/255)`: the alpha is `1/2 * 1/2 + 1 * (1 - 1/2) = 3/4`
up to quantization, further than one 8-bit step from 1. -/
theorem blend_alpha_follows_factor :
    blend_test_context.flags &&& FLAG_BLEND ≠ 0 ∧
    blend_test_context.blend_src = GL_SRC_ALPHA ∧
    blend_test_context.blend_dst = GL_ONE_MINUS_SRC_ALPHA ∧
    color_from_rgba32 (framebuffer_getpixel blend_test_context.framebuffer 0 0) = color 0 0 0 1 ∧
    framebuffer_getpixel (rasterize_triangle_smooth_pixel blend_test_context 0 0 0
      ⟨none, color 1 0 0 (1 / 2)⟩) 0 0 = 0xBF00007F ∧
    color_from_rgba32 0xBF00007F = color (127 / 255) 0 0 (191 / 255) ∧
    (1 : ℚ) / 255 < |191 / 255 - 1| := by
  have hdst : color_from_rgba32 (framebuffer_getpixel blend_test_context.framebuffer 0 0)
      = color 0 0 0 1 := by
    rw [show framebuffer_getpixel blend_test_context.framebuffer 0 0 = 0xFF000000 from rfl]
    simp only [color_from_rgba32, color]
    rw [show (0xFF000000 &&& 0xFF : Nat) = 0 from rfl,
      show ((0xFF000000 >>> 8) &&& 0xFF : Nat) = 0 from rfl,
      show ((0xFF000000 >>> 16) &&& 0xFF : Nat) = 0 from rfl,
      show ((0xFF000000 >>> 24) &&& 0xFF : Nat) = 255 from rfl]
    norm_num
  refine ⟨by decide, rfl, rfl, hdst, ?_, ?_, ?_⟩
  · rw [blend_step blend_test_context 0 0 0 _ (by decide) (by decide) (by decide) (by decide)
      ⟨rfl, rfl, rfl, rfl⟩, framebuffer_put_getpixel _ _ _ _ (by decide),
      blend_colors_src_alpha _ _ _ rfl rfl, hdst, color_to_rgba32_clamp]
    have e : (⟨1 * (1 / 2) + 0 * (1 - 1 / 2), 0 * (1 / 2) + 0 * (1 - 1 / 2),
        0 * (1 / 2) + 0 * (1 - 1 / 2), 1 / 2 * (1 / 2) + 1 * (1 - 1 / 2)⟩ : color_t)
        = ⟨1 / 2, 0, 0, 3 / 4⟩ := by norm_num
    simp only [color]
    rw [e]
    simp only [color_to_rgba32, floor_255_half, floor_255_three_quarters, floor_255_zero]
    rfl
  · simp only [color_from_rgba32, color]
    rw [show (0xBF00007F &&& 0xFF : Nat) = 127 from rfl,
      show ((0xBF00007F >>> 8) &&& 0xFF : Nat) = 0 from rfl,
      show ((0xBF00007F >>> 16) &&& 0xFF : Nat) = 0 from rfl,
      show ((0xBF00007F >>> 24) &&& 0xFF : Nat) = 191 from rfl]
    norm_num
  · rw [abs_of_neg (by norm_num)]; norm_num

theorem unpack_pack_channels (col : color_t) (h : 0 ≤ col.r ∧ col.r ≤ 1 ∧ 0 ≤ col.g ∧ col.g ≤ 1 ∧
    0 ≤ col.b ∧ col.b ≤ 1 ∧ 0 ≤ col.a ∧ col.a ≤ 1) :
    |(color_from_rgba32 (color_to_rgba32 col)).r - col.r| ≤ 1 / 255 ∧
    |(color_from_rgba32 (color_to_rgba32 col)).g - col.g| ≤ 1 / 255 ∧
    |(color_from_rgba32 (color_to_rgba32 col)).b - col.b| ≤ 1 / 255 ∧
    |(color_from_rgba32 (color_to_rgba32 col)).a - col.a| ≤ 1 / 255 := by
  obtain ⟨c0, c1, c2, c3⟩ := color_to_rgba32_channels col
  obtain ⟨r0, r1, g0, g1, b0, b1, a0, a1⟩ := h
  simp only [color_from_rgba32, c0, c1, c2, c3]
  exact ⟨quantize_channel _ r0 r1, quantize_channel _ g0 g1, quantize_channel _ b0 b1,
    quantize_channel _ a0 a1⟩

theorem clamp01_of_unit (v : ℚ) (h0 : 0 ≤ v) (h1 : v ≤ 1) : clamp01 v = v := by
  unfold clamp01
  rw [if_neg (not_lt.mpr h0), if_neg (not_lt.mpr h1)]

theorem color_from_rgba32_unit (p : Nat) :
    (0 ≤ (color_from_rgba32 p).r ∧ (color_from_rgba32 p).r ≤ 1) ∧
    (0 ≤ (color_from_rgba32 p).g ∧ (color_from_rgba32 p).g ≤ 1) ∧
    (0 ≤ (color_from_rgba32 p).b ∧ (color_from_rgba32 p).b ≤ 1) ∧
    (0 ≤ (color_from_rgba32 p).a ∧ (color_from_rgba32 p).a ≤ 1) := by
  have key : ∀ n : Nat, 0 ≤ ((n &&& 0xFF : Nat) : ℚ) / 255 ∧ ((n &&& 0xFF : Nat) : ℚ) / 255 ≤ 1 := by
    intro n
    refine ⟨by positivity, ?_⟩
    rw [div_le_one (by norm_num)]
    have : n &&& 0xFF ≤ 255 := by rw [and_0xFF]; omega
    exact_mod_cast this
  exact ⟨key _, key _, key _, key _⟩

theorem mix_unit (a s d : ℚ) (ha : 0 ≤ a ∧ a ≤ 1) (hs : 0 ≤ s ∧ s ≤ 1) (hd : 0 ≤ d ∧ d ≤ 1) :
    0 ≤ s * a + d * (1 - a) ∧ s * a + d * (1 - a) ≤ 1 := by
  obtain ⟨a0, a1⟩ := ha
  obtain ⟨s0, s1⟩ := hs
  obtain ⟨d0, d1⟩ := hd
  constructor
  · have := mul_nonneg s0 a0
    have := mul_nonneg d0 (sub_nonneg.mpr a1)
    linarith
  · have := mul_le_mul_of_nonneg_right s1 a0
    have := mul_le_mul_of_nonneg_right d1 (sub_nonneg.mpr a1)
    linarith

/-- C11, amended. Alpha blending over an opaque destination: with blending
enabled and factors src-alpha / one-minus-src-alpha (stencil, depth and alpha
tests off, all color channels enabled), writing a fragment color
`(r, g, b, a)` with components in `[0, 1]` over a stored pixel whose unpacked
alpha is 1 leaves a pixel that unpacks to `rgb = a * src + (1 - a) * dst` and
alpha `a * a + (1 - a)`, each within one 8-bit step `1 / 255`. -/
theorem blend_opaque_destination (c : GLState) (x y : Int) (depth : ℚ) (sh : shaded_t)
    (hb : 0 ≤ x ∧ x < c.framebuffer.width ∧ 0 ≤ y ∧ y < c.framebuffer.height)
    (hD : c.flags &&& FLAG_DEPTH_TEST = 0) (hS : c.flags &&& FLAG_STENCIL_TEST = 0)
    (hA : c.flags &&& FLAG_ALPHA_TEST = 0) (hB : c.flags &&& FLAG_BLEND ≠ 0)
    (hsf : c.blend_src = GL_SRC_ALPHA) (hdf : c.blend_dst = GL_ONE_MINUS_SRC_ALPHA)
    (hcm : c.color_mask_r = true ∧ c.color_mask_g = true ∧ c.color_mask_b = true ∧
      c.color_mask_a = true)
    (hr : 0 ≤ sh.color.r ∧ sh.color.r ≤ 1) (hg : 0 ≤ sh.color.g ∧ sh.color.g ≤ 1)
    (hbl : 0 ≤ sh.color.b ∧ sh.color.b ≤ 1) (ha : 0 ≤ sh.color.a ∧ sh.color.a ≤ 1)
    (hdst : (color_from_rgba32 (framebuffer_getpixel c.framebuffer x y)).a = 1) :
    |(color_from_rgba32 (framebuffer_getpixel
          (rasterize_triangle_smooth_pixel c x y depth sh) x y)).r
        - (sh.color.a * sh.color.r + (1 - sh.color.a)
            * (color_from_rgba32 (framebuffer_getpixel c.framebuffer x y)).r)| ≤ 1 / 255 ∧
    |(color_from_rgba32 (framebuffer_getpixel
          (rasterize_triangle_smooth_pixel c x y depth sh) x y)).g
        - (sh.color.a * sh.color.g + (1 - sh.color.a)
            * (color_from_rgba32 (framebuffer_getpixel c.framebuffer x y)).g)| ≤ 1 / 255 ∧
    |(color_from_rgba32 (framebuffer_getpixel
          (rasterize_triangle_smooth_pixel c x y depth sh) x y)).b
        - (sh.color.a * sh.color.b + (1 - sh.color.a)
            * (color_from_rgba32 (framebuffer_getpixel c.framebuffer x y)).b)| ≤ 1 / 255 ∧
    |(color_from_rgba32 (framebuffer_getpixel
          (rasterize_triangle_smooth_pixel c x y depth sh) x y)).a
        - (sh.color.a * sh.color.a + (1 - sh.color.a))| ≤ 1 / 255 := by
  obtain ⟨dr, dg, db, da⟩ := color_from_rgba32_unit (framebuffer_getpixel c.framebuffer x y)
  have ur := mix_unit _ _ _ ha hr dr
  have ug := mix_unit _ _ _ ha hg dg
  have ub := mix_unit _ _ _ ha hbl db
  have ua := mix_unit _ _ _ ha ha da
  rw [blend_step c x y depth sh hD hS hA hB hcm, framebuffer_put_getpixel _ _ _ _ hb,
    blend_colors_src_alpha _ _ _ hsf hdf, color_to_rgba32_clamp]
  obtain ⟨q0, q1, q2, q3⟩ := unpack_pack_channels
    ⟨sh.color.r * sh.color.a
        + (color_from_rgba32 (framebuffer_getpixel c.framebuffer x y)).r * (1 - sh.color.a),
      sh.color.g * sh.color.a
        + (color_from_rgba32 (framebuffer_getpixel c.framebuffer x y)).g * (1 - sh.color.a),
      sh.color.b * sh.color.a
        + (color_from_rgba32 (framebuffer_getpixel c.framebuffer x y)).b * (1 - sh.color.a),
      sh.color.a * sh.color.a
        + (color_from_rgba32 (framebuffer_getpixel c.framebuffer x y)).a * (1 - sh.color.a)⟩
    ⟨ur.1, ur.2, ug.1, ug.2, ub.1, ub.2, ua.1, ua.2⟩
  dsimp only at q0 q1 q2 q3
  refine ⟨?_, ?_, ?_, ?_⟩
  · rw [show sh.color.a * sh.color.r + (1 - sh.color.a)
        * (color_from_rgba32 (framebuffer_getpixel c.framebuffer x y)).r
      = sh.color.r * sh.color.a
        + (color_from_rgba32 (framebuffer_getpixel c.framebuffer x y)).r * (1 - sh.color.a)
      from by ring]
    exact q0
  · rw [show sh.color.a * sh.color.g + (1 - sh.color.a)
        * (color_from_rgba32 (framebuffer_getpixel c.framebuffer x y)).g
      = sh.color.g * sh.color.a
        + (color_from_rgba32 (framebuffer_getpixel c.framebuffer x y)).g * (1 - sh.color.a)
      from by ring]
    exact q1
  · rw [show sh.color.a * sh.color.b + (1 - sh.color.a)
        * (color_from_rgba32 (framebuffer_getpixel c.framebuffer x y)).b
      = sh.color.b * sh.color.a
        + (color_from_rgba32 (framebuffer_getpixel c.framebuffer x y)).b * (1 - sh.color.a)
      from by ring]
    exact q2
  · rw [show sh.color.a * sh.color.a + (1 - sh.color.a)
      = sh.color.a * sh.color.a
        + (color_from_rgba32 (framebuffer_getpixel c.framebuffer x y)).a * (1 - sh.color.a)
      from by rw [hdst]; ring]
    exact q3

/-- C11, amended, at `blend_test_context`, the pixel `(0, 0)` holding
`(0, 0, 0, 1)`, and the fragment color `(1, 0, 0, 1/2)`: the alpha left in the
pixel is within `1 / 255` of `1/2 * 1/2 + (1 - 1/2)`. -/
theorem blend_opaque_destination_witness :
    (0 ≤ (0 : Int) ∧ (0 : Int) < blend_test_context.framebuffer.width ∧
      0 ≤ (0 : Int) ∧ (0 : Int) < blend_test_context.framebuffer.height) ∧
    blend_test_context.flags &&& FLAG_DEPTH_TEST = 0 ∧
    blend_test_context.flags &&& FLAG_STENCIL_TEST = 0 ∧
    blend_test_context.flags &&& FLAG_ALPHA_TEST = 0 ∧
    blend_test_context.flags &&& FLAG_BLEND ≠ 0 ∧
    blend_test_context.blend_src = GL_SRC_ALPHA ∧
    blend_test_context.blend_dst = GL_ONE_MINUS_SRC_ALPHA ∧
    (blend_test_context.color_mask_r = true ∧ blend_test_context.color_mask_g = true ∧
      blend_test_context.color_mask_b = true ∧ blend_test_context.color_mask_a = true) ∧
    (color_from_rgba32 (framebuffer_getpixel blend_test_context.framebuffer 0 0)).a = 1 ∧
    |(color_from_rgba32 (framebuffer_getpixel
          (rasterize_triangle_smooth_pixel blend_test_context 0 0 0
            ⟨none, color 1 0 0 (1 / 2)⟩) 0 0)).a
        - ((color 1 0 0 (1 / 2)).a * (color 1 0 0 (1 / 2)).a + (1 - (color 1 0 0 (1 / 2)).a))|
      ≤ 1 / 255 :=
  have hdst : (color_from_rgba32 (framebuffer_getpixel blend_test_context.framebuffer 0 0)).a
      = 1 := by
    rw [show framebuffer_getpixel blend_test_context.framebuffer 0 0 = 0xFF000000 from rfl]
    simp only [color_from_rgba32]
    rw [show ((0xFF000000 >>> 24) &&& 0xFF : Nat) = 255 from rfl]
    norm_num
  ⟨by decide, by decide, by decide, by decide, by decide, rfl, rfl, ⟨rfl, rfl, rfl, rfl⟩, hdst,
    (blend_opaque_destination blend_test_context 0 0 0 ⟨none, color 1 0 0 (1 / 2)⟩ (by decide)
      (by decide) (by decide) (by decide) (by decide) rfl rfl ⟨rfl, rfl, rfl, rfl⟩
      (by simp only [color]; norm_num) (by simp only [color]; norm_num)
      (by simp only [color]; norm_num) (by simp only [color]; norm_num) hdst).2.2.2⟩

/-! ## Stencil -/

theorem framebuffer_put_getstencil (fb : framebuffer_t) (x y : Int) (s : Nat)
    (hb : 0 ≤ x ∧ x < fb.width ∧ 0 ≤ y ∧ y < fb.height) :
    framebuffer_getstencil (framebuffer_putstencil fb x y s) x y = s := by
  have hn : ¬ (x < 0 ∨ x ≥ fb.width ∨ y < 0 ∨ y ≥ fb.height) := by omega
  unfold framebuffer_getstencil framebuffer_putstencil
  simp only [if_neg hn]
  show Function.update fb.stencil (fb_index fb x y) s (fb_index fb x y) = s
  rw [Function.update_same]

/-- Under a write mask whose low eight bits are all set, the stencil plane
receives the low eight bits of the new value. -/
theorem write_stencil_full_mask (fb : framebuffer_t) (x y : Int) (v w : Nat)
    (hb : 0 ≤ x ∧ x < fb.width ∧ 0 ≤ y ∧ y < fb.height) (hw : w &&& 0xFF = 0xFF) :
    framebuffer_getstencil (write_stencil_masked fb x y v w) x y = v % 256 := by
  unfold write_stencil_masked
  dsimp only
  rw [framebuffer_put_getstencil _ _ _ _ hb, hw]
  rw [show (0xFF ^^^ 0xFF % 256 : Nat) = 0 from rfl, Nat.and_zero, Nat.zero_or,
    show (0xFF % 256 : Nat) = 0xFF from rfl, and_0xFF, Nat.mod_mod]

theorem stencil_replace_value (old : Nat) (ref : Int) :
    stencil_op GL_REPLACE old ref % 256 = int_to_uint32 ref % 256 := by
  have h : stencil_op GL_REPLACE old ref = Int.toNat (ref % 256) := by
    unfold stencil_op
    rw [if_neg (by decide), if_neg (by decide), if_pos rfl]
  rw [h]
  unfold int_to_uint32
  omega

/-- The stencil test with function equal compares `ref & mask` with
`val & mask` as 32-bit words. -/
theorem stencil_test_equal (ref : Int) (mask val : Nat) (hv : val < 256) :
    stencil_test GL_EQUAL ref mask val = decide (int_to_uint32 ref &&& mask = val &&& mask) := by
  have h : stencil_test GL_EQUAL ref mask val
      = decide (wrap_int32 ((int_to_uint32 ref &&& mask : Nat) : Int)
          = wrap_int32 ((val &&& mask : Nat) : Int)) := by
    unfold stencil_test
    rw [if_neg (by decide), if_neg (by decide), if_pos rfl]
  rw [h]
  have h1 : int_to_uint32 ref &&& mask < 2 ^ 32 := by
    have := @Nat.and_le_left (int_to_uint32 ref) mask
    have : int_to_uint32 ref < 2 ^ 32 := by unfold int_to_uint32; omega
    omega
  have h2 : val &&& mask < 2 ^ 32 := by
    have := @Nat.and_le_left val mask
    omega
  rw [decide_eq_decide]
  unfold wrap_int32
  constructor <;> intro e <;> omega

theorem and_mask_low_byte (u mask : Nat) : (u % 256) &&& mask = (u &&& mask) % 256 := by
  rw [← and_0xFF, ← and_0xFF, Nat.and_assoc, Nat.and_comm 0xFF mask, ← Nat.and_assoc]

/-- C12, as stated, fails for a reference value that does not fit the 8-bit
stencil plane: the replace op stores `ref & 0xFF`, the test compares the
whole `ref & mask`.  With `ref = 256`, compare mask and write mask
`0xFFFFFFFF`, the pixel `(0, 0)` of `test_context` receives 0 and the test
with function equal, the same `ref` and mask fails there. -/
theorem stencil_replace_wide_ref :
    framebuffer_getstencil (write_stencil_masked test_context.framebuffer 0 0
      (stencil_op GL_REPLACE (framebuffer_getstencil test_context.framebuffer 0 0) 256)
      0xFFFFFFFF) 0 0 = 0 ∧
    stencil_test GL_EQUAL 256 0xFFFFFFFF
      (framebuffer_getstencil (write_stencil_masked test_context.framebuffer 0 0
        (stencil_op GL_REPLACE (framebuffer_getstencil test_context.framebuffer 0 0) 256)
        0xFFFFFFFF) 0 0) = false := by
  have hv : framebuffer_getstencil (write_stencil_masked test_context.framebuffer 0 0
      (stencil_op GL_REPLACE (framebuffer_getstencil test_context.framebuffer 0 0) 256)
      0xFFFFFFFF) 0 0 = 0 := by
    rw [write_stencil_full_mask _ _ _ _ _ (by decide) (by decide), stencil_replace_value]
    decide
  refine ⟨hv, ?_⟩
  rw [hv, stencil_test_equal _ _ _ (by decide)]
  decide

/-- C12, amended. Stencil write-then-test: for every reference value `ref`
and every compare mask such that `ref & mask` (as a 32-bit word) is at most
`0xFF`, if a pixel's stencil value was written by the replace op with
reference `ref` under a write mask whose low eight bits are set, then the
stencil test with function equal, the same `ref` and that compare mask passes
at that pixel (and it passes only for such `ref` and mask); and the test
fails at a stencil value 0 when `ref & mask` is not 0. -/
theorem stencil_write_then_test (fb : framebuffer_t) (x y : Int) (ref : Int)
    (mask writemask : Nat)
    (hb : 0 ≤ x ∧ x < fb.width ∧ 0 ≤ y ∧ y < fb.height)
    (hw : writemask &&& 0xFF = 0xFF) :
    (int_to_uint32 ref &&& mask ≤ 0xFF →
      stencil_test GL_EQUAL ref mask
        (framebuffer_getstencil (write_stencil_masked fb x y
          (stencil_op GL_REPLACE (framebuffer_getstencil fb x y) ref) writemask) x y) = true) ∧
    (stencil_test GL_EQUAL ref mask
        (framebuffer_getstencil (write_stencil_masked fb x y
          (stencil_op GL_REPLACE (framebuffer_getstencil fb x y) ref) writemask) x y) = true →
      int_to_uint32 ref &&& mask ≤ 0xFF) ∧
    (int_to_uint32 ref &&& mask ≠ 0 → stencil_test GL_EQUAL ref mask 0 = false) := by
  have hv : framebuffer_getstencil (write_stencil_masked fb x y
      (stencil_op GL_REPLACE (framebuffer_getstencil fb x y) ref) writemask) x y
      = int_to_uint32 ref % 256 := by
    rw [write_stencil_full_mask _ _ _ _ _ hb hw, stencil_replace_value]
  rw [hv, stencil_test_equal _ _ _ (Nat.mod_lt _ (by decide)), and_mask_low_byte,
    stencil_test_equal _ _ _ (by decide), Nat.zero_and]
  simp only [decide_eq_true_eq, decide_eq_false_iff_not]
  refine ⟨fun h => ?_, fun h => ?_, fun h => h⟩ <;> omega

/-- C12, amended, at `test_context`, the pixel `(0, 0)`, `ref = 1` and the
masks `0xFFFFFFFF`. -/
theorem stencil_write_then_test_witness :
    (0 ≤ (0 : Int) ∧ (0 : Int) < test_context.framebuffer.width ∧
      0 ≤ (0 : Int) ∧ (0 : Int) < test_context.framebuffer.height) ∧
    (0xFFFFFFFF &&& 0xFF = 0xFF) ∧
    int_to_uint32 1 &&& 0xFFFFFFFF ≤ 0xFF ∧
    int_to_uint32 1 &&& 0xFFFFFFFF ≠ 0 ∧
    stencil_test GL_EQUAL 1 0xFFFFFFFF
      (framebuffer_getstencil (write_stencil_masked test_context.framebuffer 0 0
        (stencil_op GL_REPLACE (framebuffer_getstencil test_context.framebuffer 0 0) 1)
        0xFFFFFFFF) 0 0) = true ∧
    stencil_test GL_EQUAL 1 0xFFFFFFFF 0 = false :=
  ⟨by decide, by decide, by decide, by decide,
    (stencil_write_then_test test_context.framebuffer 0 0 1 0xFFFFFFFF 0xFFFFFFFF (by decide)
      (by decide)).1 (by decide),
    (stencil_write_then_test test_context.framebuffer 0 0 1 0xFFFFFFFF 0xFFFFFFFF (by decide)
      (by decide)).2.2 (by decide)⟩

/-! ## Allocation of list names -/

theorem find_free_range_loop_spec (n : Int) (hn : 0 < n) :
    ∀ (rest pre : List display_list_t) (cons start : Int),
      0 ≤ cons → cons < n → cons ≤ pre.length →
      (cons ≠ 0 → start = (pre.length : Int) - cons) →
      (∀ k : Nat, k < pre.length → (pre.length : Int) - cons ≤ k →
        ∃ l, pre[k]? = some l ∧ l.allocated = false) →
      (∀ j : Nat, (j : Int) < (pre.length : Int) - cons → ¬ free_run (pre ++ rest) n j) →
      (find_free_range_loop n rest pre.length cons start = -1 ∧
        ∀ j, ¬ free_run (pre ++ rest) n j) ∨
      (0 ≤ find_free_range_loop n rest pre.length cons start ∧
        free_run (pre ++ rest) n (Int.toNat (find_free_range_loop n rest pre.length cons start))) := by
  intro rest
  induction rest with
  | nil =>
    intro pre cons start h0 hlt hle hs hfree hno
    left
    refine ⟨rfl, ?_⟩
    intro j hj
    by_cases hjl : (j : Int) < (pre.length : Int) - cons
    · exact hno j hjl hj
    · obtain ⟨l, hl, _⟩ := hj (Int.toNat (n - 1)) (by omega)
      rw [List.append_nil, List.getElem?_eq_none (by omega)] at hl
      exact Option.noConfusion hl
  | cons l rest ih =>
    intro pre cons start h0 hlt hle hs hfree hno
    have key : pre ++ l :: rest = (pre ++ [l]) ++ rest := by simp
    have hlen : (pre ++ [l]).length = pre.length + 1 := by simp
    have hat : (pre ++ l :: rest)[pre.length]? = some l := by
      rw [List.getElem?_append_right (le_refl _)]
      simp
    by_cases ha : l.allocated = true
    · have hstep : find_free_range_loop n (l :: rest) pre.length cons start
          = find_free_range_loop n rest (pre.length + 1) 0 start := by
        simp [find_free_range_loop, ha]
      rw [hstep, key, ← hlen]
      refine ih (pre ++ [l]) 0 start (le_refl _) hn (by omega) (fun h => absurd rfl h)
        (fun k _ hk => by omega) ?_
      intro j hj
      rw [← key]
      by_cases hjl : (j : Int) < (pre.length : Int) - cons
      · exact hno j hjl
      · intro hrun
        obtain ⟨l1, hl1, hfr⟩ := hrun (pre.length - j) (by omega)
        rw [show j + (pre.length - j) = pre.length by omega, hat] at hl1
        rw [← Option.some.inj hl1, ha] at hfr
        exact Bool.noConfusion hfr
    · have ha2 : l.allocated = false := by simpa using ha
      by_cases hfull : cons + 1 ≥ n
      · have hstep : find_free_range_loop n (l :: rest) pre.length cons start
            = (pre.length : Int) - cons := by
          simp only [find_free_range_loop, ha2, Bool.not_false, if_true, if_pos hfull]
          by_cases hc0 : cons = 0
          · simp [hc0]
          · rw [if_neg hc0, hs hc0]
        rw [hstep]
        right
        refine ⟨by omega, ?_⟩
        intro k hk
        by_cases hkl : Int.toNat ((pre.length : Int) - cons) + k < pre.length
        · obtain ⟨l1, hl1, hfr⟩ := hfree _ hkl (by omega)
          exact ⟨l1, by rw [List.getElem?_append_left hkl]; exact hl1, hfr⟩
        · refine ⟨l, ?_, ha2⟩
          rw [show Int.toNat ((pre.length : Int) - cons) + k = pre.length by omega, hat]
      · have hstep : find_free_range_loop n (l :: rest) pre.length cons start
            = find_free_range_loop n rest (pre.length + 1) (cons + 1)
                (if cons = 0 then (pre.length : Int) else start) := by
          simp only [find_free_range_loop, ha2, Bool.not_false, if_true, if_neg hfull]
        rw [hstep, key, ← hlen]
        refine ih (pre ++ [l]) (cons + 1) _ (by omega) (by omega) (by rw [hlen]; omega) ?_ ?_ ?_
        · intro _
          rw [hlen]
          by_cases hc0 : cons = 0
          · rw [if_pos hc0, hc0]; push_cast; omega
          · rw [if_neg hc0, hs hc0]; push_cast; omega
        · intro k hk hk2
          rw [hlen] at hk hk2
          by_cases hkl : k < pre.length
          · obtain ⟨l1, hl1, hfr⟩ := hfree k hkl (by push_cast at hk2; omega)
            exact ⟨l1, by rw [List.getElem?_append_left hkl]; exact hl1, hfr⟩
          · refine ⟨l, ?_, ha2⟩
            rw [show k = pre.length by omega, List.getElem?_append_right (le_refl _)]
            simp
        · intro j hj
          rw [← key]
          exact hno j (by rw [hlen] at hj; push_cast at hj; omega)

theorem find_free_range_spec (store : list_store_t) (n : Int) (hn : 0 < n) :
    (find_free_range store n = -1 ∧ ∀ j, ¬ free_run store.lists n j) ∨
    (0 ≤ find_free_range store n ∧
      free_run store.lists n (Int.toNat (find_free_range store n))) := by
  unfold find_free_range
  by_cases h0 : store.lists.length = 0
  · rw [if_pos h0]
    left
    refine ⟨rfl, ?_⟩
    intro j hj
    obtain ⟨l, hl, _⟩ := hj 0 (by omega)
    rw [List.getElem?_eq_none (by omega)] at hl
    exact Option.noConfusion hl
  · rw [if_neg h0]
    have h := find_free_range_loop_spec n hn store.lists [] 0 (-1) (le_refl _) hn
      (by simp) (fun h => absurd rfl h) (fun k hk _ => by simp at hk)
      (fun j hj => by simp at hj; omega)
    simpa using h

theorem foldl_set_length {α : Type} (key : Nat → Nat) (v : α) :
    ∀ (m : Nat) (L : List α),
      ((List.range m).foldl (fun ls (k : Nat) => ls.set (key k) v) L).length = L.length := by
  intro m
  induction m with
  | zero => intro L; rfl
  | succ m ih =>
    intro L
    rw [List.range_succ, List.foldl_append, List.foldl_cons, List.foldl_nil, List.length_set, ih]

theorem foldl_set_getElem? {α : Type} (key : Nat → Nat) (v : α) :
    ∀ (m : Nat) (L : List α) (j : Nat),
      ((List.range m).foldl (fun ls (k : Nat) => ls.set (key k) v) L)[j]?
        = if (∃ k, k < m ∧ key k = j) ∧ j < L.length then some v else L[j]? := by
  intro m
  induction m with
  | zero => intro L j; simp
  | succ m ih =>
    intro L j
    rw [List.range_succ, List.foldl_append, List.foldl_cons, List.foldl_nil, List.getElem?_set,
      foldl_set_length, ih]
    have hex : (∃ k, k < m + 1 ∧ key k = j) ↔ (key m = j ∨ ∃ k, k < m ∧ key k = j) := by
      constructor
      · rintro ⟨k, hk1, hk2⟩
        rcases Nat.lt_succ_iff_lt_or_eq.mp hk1 with h | h
        · exact Or.inr ⟨k, h, hk2⟩
        · exact Or.inl (h ▸ hk2)
      · rintro (h | ⟨k, hk1, hk2⟩)
        · exact ⟨m, Nat.lt_succ_self m, h⟩
        · exact ⟨k, Nat.lt_succ_of_lt hk1, hk2⟩
    by_cases hm : key m = j
    · subst hm
      rw [if_pos rfl]
      by_cases hj : key m < L.length
      · rw [if_pos hj, if_pos ⟨⟨m, Nat.lt_succ_self m, rfl⟩, hj⟩]
      · rw [if_neg hj, if_neg (fun h => hj h.2), List.getElem?_eq_none (by omega)]
    · rw [if_neg hm]
      by_cases hP : (∃ k, k < m ∧ key k = j) ∧ j < L.length
      · rw [if_pos hP, if_pos ⟨hex.mpr (Or.inr hP.1), hP.2⟩]
      · rw [if_neg hP, if_neg (fun h => hP ⟨(hex.mp h.1).resolve_left hm, h.2⟩)]

theorem list_get_some (store : list_store_t) (id : Nat) (l : display_list_t) :
    list_get store id = some l ↔ 1 ≤ id ∧ store.lists[id - 1]? = some l ∧ l.allocated = true := by
  unfold list_get
  by_cases h : id = 0 ∨ id > store.lists.length
  · rw [if_pos h]
    constructor
    · intro e; exact Option.noConfusion e
    · rintro ⟨h1, h2, _⟩
      rcases h with h | h
      · omega
      · rw [List.getElem?_eq_none (by omega)] at h2
        exact Option.noConfusion h2
  · rw [if_neg h, List.get?_eq_getElem?]
    cases hs : store.lists[id - 1]? with
    | none =>
      constructor
      · intro e; exact Option.noConfusion e
      · rintro ⟨_, h2, _⟩; exact Option.noConfusion h2
    | some l1 =>
      cases ha : l1.allocated with
      | false =>
        simp only [ha, Bool.not_false, if_true]
        constructor
        · intro e; exact Option.noConfusion e
        · rintro ⟨_, h2, h3⟩
          rw [← Option.some.inj h2, ha] at h3
          exact Bool.noConfusion h3
      | true =>
        simp only [ha, Bool.not_true, Bool.false_eq_true, if_false]
        constructor
        · intro e
          rw [← Option.some.inj e]
          exact ⟨by omega, rfl, ha⟩
        · rintro ⟨_, h2, _⟩
          rw [Option.some.inj h2]

theorem list_get_none_of_free (store : list_store_t) (id : Nat) (l : display_list_t)
    (h : store.lists[id - 1]? = some l) (hf : l.allocated = false) : list_get store id = none := by
  cases hg : list_get store id with
  | none => rfl
  | some l1 =>
    obtain ⟨_, h2, h3⟩ := (list_get_some store id l1).mp hg
    rw [h] at h2
    rw [← Option.some.inj h2, hf] at h3
    exact Bool.noConfusion h3

theorem list_get_none_of_past (store : list_store_t) (id : Nat) (h : id > store.lists.length) :
    list_get store id = none := by
  unfold list_get
  rw [if_pos (Or.inr h)]

/-- C16. `list_alloc_range(store, n)` with `n > 0` on a store of at most 1024
slots either returns 0 and leaves the store unchanged, or returns
`first >= 1` such that the names `first .. first+n-1` were unallocated before
the call and afterwards each names an allocated, empty, not valid list, with
`first+n-1 <= 1024` and every previously allocated list unchanged; the store
keeps at most 1024 slots; and when the slot array can be grown the call
returns 0 only when no run of `n` free slots exists and `count + n > 1024`. -/
theorem list_alloc_range_atomic (grown : Bool) (store : list_store_t) (n : Int) (hn : 0 < n)
    (hc : store.lists.length ≤ GL_MAX_LISTS) :
    (((list_alloc_range grown store n).1 = 0 ∧ (list_alloc_range grown store n).2 = store) ∨
      (1 ≤ (list_alloc_range grown store n).1 ∧
        (∀ k : Nat, (k : Int) < n →
          list_get store ((list_alloc_range grown store n).1 + k) = none) ∧
        (∀ k : Nat, (k : Int) < n →
          list_get (list_alloc_range grown store n).2 ((list_alloc_range grown store n).1 + k)
            = some display_list_fresh) ∧
        ((list_alloc_range grown store n).1 : Int) + n - 1 ≤ GL_MAX_LISTS ∧
        (∀ id l, list_get store id = some l →
          list_get (list_alloc_range grown store n).2 id = some l))) ∧
    (list_alloc_range grown store n).2.lists.length ≤ GL_MAX_LISTS ∧
    (grown = true → (list_alloc_range grown store n).1 = 0 →
      (∀ j, ¬ free_run store.lists n j) ∧ (store.lists.length : Int) + n > GL_MAX_LISTS) := by
  have hn0 : ¬ n ≤ 0 := by omega
  have hM : GL_MAX_LISTS = 1024 := rfl
  rw [hM] at hc
  rcases find_free_range_spec store n hn with ⟨hf, hno⟩ | ⟨hf, hrun⟩
  · have hneg : ¬ find_free_range store n ≥ 0 := by rw [hf]; decide
    by_cases hfull : (store.lists.length : Int) + n > GL_MAX_LISTS
    · have hres : list_alloc_range grown store n = (0, store) := by
        unfold list_alloc_range
        simp only [if_neg hn0, if_neg hneg, if_pos hfull]
      rw [hres]
      exact ⟨Or.inl ⟨rfl, rfl⟩, by rw [hM]; exact hc, fun _ _ => ⟨hno, hfull⟩⟩
    · cases grown with
      | false =>
        have hres : list_alloc_range false store n = (0, store) := by
          unfold list_alloc_range
          simp only [if_neg hn0, if_neg hneg, if_neg hfull, Bool.not_false, if_true]
        rw [hres]
        exact ⟨Or.inl ⟨rfl, rfl⟩, by rw [hM]; exact hc, fun h => Bool.noConfusion h⟩
      | true =>
        have hres : list_alloc_range true store n = (store.lists.length + 1,
            { lists := store.lists ++ List.replicate (Int.toNat n) display_list_fresh }) := by
          unfold list_alloc_range
          simp only [if_neg hn0, if_neg hneg, if_neg hfull, Bool.not_true, Bool.false_eq_true,
            if_false, to_uint32]
          rw [Nat.mod_eq_of_lt (by omega)]
        rw [hres]
        dsimp only
        have hlen : (store.lists ++ List.replicate (Int.toNat n) display_list_fresh).length
            = store.lists.length + Int.toNat n := by simp
        refine ⟨Or.inr ⟨by omega, ?_, ?_, ?_, ?_⟩, ?_, ?_⟩
        · intro k _
          exact list_get_none_of_past _ _ (by omega)
        · intro k hk
          rw [list_get_some]
          refine ⟨by omega, ?_, rfl⟩
          rw [show store.lists.length + 1 + k - 1 = store.lists.length + k by omega,
            List.getElem?_append_right (by omega),
            List.getElem?_replicate_of_lt (by omega)]
        · rw [hM]; rw [hM] at hfull; push_cast at hfull ⊢; omega
        · intro id l hl
          obtain ⟨h1, h2, h3⟩ := (list_get_some store id l).mp hl
          rw [list_get_some]
          have hlt : id - 1 < store.lists.length := by
            by_contra hge
            rw [List.getElem?_eq_none (by omega)] at h2
            exact Option.noConfusion h2
          exact ⟨h1, by rw [List.getElem?_append_left hlt]; exact h2, h3⟩
        · rw [hlen, hM]; rw [hM] at hfull; push_cast at hfull; omega
        · intro _ h0
          exact absurd h0 (by omega)
  · obtain ⟨f, hfe⟩ := Int.eq_ofNat_of_zero_le hf
    rw [hfe, Int.toNat_natCast] at hrun
    have hbound : (f : Int) + n ≤ store.lists.length := by
      obtain ⟨l, hl, _⟩ := hrun (Int.toNat (n - 1)) (by omega)
      by_contra hgt
      rw [List.getElem?_eq_none (by omega)] at hl
      exact Option.noConfusion hl
    have hres : list_alloc_range grown store n = (f + 1,
        { lists := (List.range (Int.toNat n)).foldl
            (fun ls (k : Nat) => ls.set (f + k) display_list_fresh) store.lists }) := by
      unfold list_alloc_range
      simp only [if_neg hn0, hfe, for_range, sub_zero, zero_add]
      rw [if_pos (by omega)]
      have e1 : int_to_uint32 ((f : Int) + 1) = f + 1 := by
        unfold int_to_uint32
        omega
      have e2 : (fun (s : List display_list_t) (k : Nat) =>
            s.set (Int.toNat ((f : Int) + (k : Int))) display_list_fresh)
          = fun ls k => ls.set (f + k) display_list_fresh := by
        funext s k
        rw [show Int.toNat ((f : Int) + (k : Int)) = f + k by omega]
      rw [e1, e2]
    rw [hres]
    dsimp only
    refine ⟨Or.inr ⟨by omega, ?_, ?_, ?_, ?_⟩, ?_, ?_⟩
    · intro k hk
      obtain ⟨l, hl, hfr⟩ := hrun k hk
      exact list_get_none_of_free store _ l (by rw [show f + 1 + k - 1 = f + k by omega]; exact hl)
        hfr
    · intro k hk
      rw [list_get_some]
      refine ⟨by omega, ?_, rfl⟩
      dsimp only
      rw [show f + 1 + k - 1 = f + k by omega, foldl_set_getElem?,
        if_pos ⟨⟨k, by omega, rfl⟩, by omega⟩]
    · rw [hM]; push_cast; omega
    · intro id l hl
      obtain ⟨h1, h2, h3⟩ := (list_get_some store id l).mp hl
      rw [list_get_some]
      refine ⟨h1, ?_, h3⟩
      dsimp only
      rw [foldl_set_getElem?, if_neg]
      · exact h2
      · rintro ⟨⟨k, hk, hke⟩, _⟩
        obtain ⟨l1, hl1, hfr⟩ := hrun k (by omega)
        rw [hke, h2] at hl1
        rw [Option.some.inj hl1, hfr] at h3
        exact Bool.noConfusion h3
    · dsimp only
      rw [foldl_set_length, hM]
      exact hc
    · intro _ h0
      exact absurd h0 (by omega)

/-- C16, at `alloc_test_store` (list 1 allocated, lists 2 and 3 freed) and
`n = 2`: the names 2 and 3 are returned. -/
theorem list_alloc_range_atomic_witness :
    (0 : Int) < 2 ∧ alloc_test_store.lists.length ≤ GL_MAX_LISTS ∧
    (list_alloc_range true alloc_test_store 2).1 = 2 ∧
    (list_alloc_range true alloc_test_store 2).2.lists.length ≤ GL_MAX_LISTS :=
  ⟨by decide, by decide, by decide,
    (list_alloc_range_atomic true alloc_test_store 2 (by decide) (by decide)).2.1⟩

/-! ## Display lists: calls made while no list is recorded -/

/-- The body of a recordable entry point that does not look at the
display-list state runs alike under another display-list state. -/
theorem unless_recorded_blind (c : GLState) (L : list_store_t) (m d : Nat)
    (cmd : list_command_t) (body : GLState → GLState) (h : c.list_index = 0)
    (hb : body (with_list_state c L 0 m d) = with_list_state (body c) L 0 m d) :
    unless_recorded (list_record (with_list_state c L 0 m d) cmd) body
      = with_list_state (unless_recorded (list_record c cmd) body) L 0 m d := by
  rw [unless_recorded_idle _ _ _ rfl, unless_recorded_idle _ _ _ h, hb]

theorem emit_vertex_blind (lm : LibM) (c : GLState) (L : list_store_t) (m d : Nat)
    (x y z w : ℚ) :
    emit_vertex lm (with_list_state c L 0 m d) x y z w
      = with_list_state (emit_vertex lm c x y z w) L 0 m d := rfl

theorem glVertex2f_blind (lm : LibM) (c : GLState) (L : list_store_t) (m d : Nat) (x y : ℚ)
    (h : c.list_index = 0) :
    glVertex2f lm (with_list_state c L 0 m d) x y
      = with_list_state (glVertex2f lm c x y) L 0 m d := by
  unfold glVertex2f list_record_vertex
  exact unless_recorded_blind c L m d _ _ h (emit_vertex_blind _ _ _ _ _ _ _ _ _)

theorem glColor3f_blind (c : GLState) (L : list_store_t) (m d : Nat) (r g b : ℚ)
    (h : c.list_index = 0) :
    glColor3f (with_list_state c L 0 m d) r g b
      = with_list_state (glColor3f c r g b) L 0 m d := by
  unfold glColor3f list_record_color
  exact unless_recorded_blind c L m d _ _ h rfl

theorem glColor3ub_blind (c : GLState) (L : list_store_t) (m d : Nat) (r g b : Nat)
    (h : c.list_index = 0) :
    glColor3ub (with_list_state c L 0 m d) r g b
      = with_list_state (glColor3ub c r g b) L 0 m d := by
  unfold glColor3ub list_record_color
  exact unless_recorded_blind c L m d _ _ h rfl

theorem glColor4ub_blind (c : GLState) (L : list_store_t) (m d : Nat) (r g b a : Nat)
    (h : c.list_index = 0) :
    glColor4ub (with_list_state c L 0 m d) r g b a
      = with_list_state (glColor4ub c r g b a) L 0 m d := by
  unfold glColor4ub list_record_color
  exact unless_recorded_blind c L m d _ _ h rfl

theorem clamp_unit_one : clamp_unit 1 = 1 := by
  unfold clamp_unit
  norm_num

theorem clamp_unit_byte (n : Nat) : clamp_unit (((n % 256 : Nat) : ℚ) / 255) = ((n % 256 : Nat) : ℚ) / 255 := by
  have h0 : (0 : ℚ) ≤ ((n % 256 : Nat) : ℚ) / 255 := by positivity
  have h1 : ((n % 256 : Nat) : ℚ) / 255 ≤ 1 := by
    rw [div_le_one (by norm_num)]
    have : n % 256 ≤ 255 := by omega
    exact_mod_cast this
  unfold clamp_unit
  rw [if_neg (not_lt.mpr h0), if_neg (not_lt.mpr h1)]

theorem glColor3f_eq (c : GLState) (r g b : ℚ) :
    glColor3f c r g b = unless_recorded (list_record c (recordable_call.glColor3f r g b).command)
      fun c => { c with current_color := color (clamp_unit r) (clamp_unit g) (clamp_unit b) 1 } :=
  rfl

theorem glColor4f_eq (c : GLState) (r g b a : ℚ) :
    glColor4f c r g b a
      = unless_recorded (list_record c (recordable_call.glColor4f r g b a).command)
      fun c => { c with current_color := color (clamp_unit r) (clamp_unit g) (clamp_unit b) (clamp_unit a) } :=
  rfl

theorem glColor3ub_eq (c : GLState) (r g b : Nat) :
    glColor3ub c r g b
      = unless_recorded (list_record c (recordable_call.glColor3ub r g b).command)
      fun c => { c with current_color := color (((r % 256 : Nat) : ℚ) / 255) (((g % 256 : Nat) : ℚ) / 255) (((b % 256 : Nat) : ℚ) / 255) 1 } :=
  rfl

theorem glColor4ub_eq (c : GLState) (r g b a : Nat) :
    glColor4ub c r g b a
      = unless_recorded (list_record c (recordable_call.glColor4ub r g b a).command)
      fun c => { c with current_color := color (((r % 256 : Nat) : ℚ) / 255) (((g % 256 : Nat) : ℚ) / 255) (((b % 256 : Nat) : ℚ) / 255) (((a % 256 : Nat) : ℚ) / 255) } :=
  rfl

theorem gl_set_error_flags (c : GLState) (e : Nat) : (gl_set_error c e).flags = c.flags := by
  unfold gl_set_error
  split_ifs <;> rfl

theorem gl_set_error_fresh (c : GLState) (e : Nat) (h : c.error = GL_NO_ERROR) :
    (gl_set_error c e).error = e := by
  unfold gl_set_error
  rw [if_pos h]

/-- C14 fails in `GL_COMPILE_AND_EXECUTE` mode for the entry points that run
other recordable entry points after recording themselves.  On
`recording_test_context` (list 2 being recorded, empty so far),
`glLightf(GL_LIGHT0, GL_SPOT_EXPONENT, 2)` appends its own entry and, through
`glLightfv`, a second one; `glCallList(1)` appends its own entry and then the
entry of each command list 1 executes. -/
theorem compile_and_execute_records_twice :
    recording_test_context.list_index = 2 ∧
    recording_test_context.list_mode = GL_COMPILE_AND_EXECUTE ∧
    (list_get recording_test_context.lists 2).map display_list_t.commands = some [] ∧
    (list_get (glLightf recording_test_context GL_LIGHT0 GL_SPOT_EXPONENT 2).lists 2).map
        display_list_t.commands
      = some [.CMD_LIGHTF GL_LIGHT0 GL_SPOT_EXPONENT 2,
          .CMD_LIGHTFV GL_LIGHT0 GL_SPOT_EXPONENT (fun _ => 2)] ∧
    ((glCallList test_platform 2 recording_test_context 1).bind
        (fun c => list_get c.lists 2)).map display_list_t.commands
      = some [.CMD_CALL_LIST 1, .CMD_ENABLE GL_BLEND] :=
  ⟨rfl, rfl, rfl, rfl, rfl⟩

/-! ## Pixel transfer -/

/-- A fold whose steps all keep the invariant and leave the observation as it
is, leaves the observation as it is. -/
theorem foldl_keeps {σ β ι : Type} (body : ι → σ → σ) (Inv : σ → Prop) (obs : σ → β) :
    ∀ (l : List ι) (s : σ), Inv s →
      (∀ k ∈ l, ∀ s, Inv s → Inv (body k s) ∧ obs (body k s) = obs s) →
      Inv (l.foldl (fun s k => body k s) s) ∧ obs (l.foldl (fun s k => body k s) s) = obs s := by
  intro l
  induction l with
  | nil => intro s hs _; exact ⟨hs, rfl⟩
  | cons a l ih =>
    intro s hs h
    have ha := h a (List.mem_cons_self _ _) s hs
    have := ih (body a s) ha.1 (fun k hk => h k (List.mem_cons_of_mem _ hk))
    rw [List.foldl_cons]
    exact ⟨this.1, this.2.trans ha.2⟩

/-- A fold in which the step `k0` sets the observation to `v` and every other
step leaves it as it is, ends with the observation `v`. -/
theorem foldl_sets {σ β ι : Type} (body : ι → σ → σ) (Inv : σ → Prop) (obs : σ → β)
    (k0 : ι) (v : β) :
    ∀ (l : List ι) (s : σ), Inv s → k0 ∈ l →
      (∀ k ∈ l, ∀ s, Inv s → Inv (body k s)) →
      (∀ s, Inv s → obs (body k0 s) = v) →
      (∀ k ∈ l, k ≠ k0 → ∀ s, Inv s → obs (body k s) = obs s) →
      obs (l.foldl (fun s k => body k s) s) = v := by
  intro l
  induction l with
  | nil => intro s _ hk; exact absurd hk (List.not_mem_nil _)
  | cons a l ih =>
    intro s hs hk hinv hhit hmiss
    rw [List.foldl_cons]
    have hsa : Inv (body a s) := hinv a (List.mem_cons_self _ _) s hs
    by_cases hl : k0 ∈ l
    · exact ih (body a s) hsa hl (fun k hk => hinv k (List.mem_cons_of_mem _ hk)) hhit
        (fun k hk => hmiss k (List.mem_cons_of_mem _ hk))
    · have hak : a = k0 := by
        rcases List.mem_cons.mp hk with h | h
        · exact h.symm
        · exact absurd h hl
      subst hak
      have := foldl_keeps body Inv obs l (body a s) hsa (fun k hk s1 hs1 =>
        ⟨hinv k (List.mem_cons_of_mem _ hk) s1 hs1,
          hmiss k (List.mem_cons_of_mem _ hk) (fun e => hl (e ▸ hk)) s1 hs1⟩)
      exact this.2.trans (hhit s hs)

theorem for_range_keeps {σ β : Type} (lo hi : Int) (body : Int → σ → σ) (Inv : σ → Prop)
    (obs : σ → β) (s : σ) (hs : Inv s)
    (h : ∀ k, lo ≤ k → k < hi → ∀ s, Inv s → Inv (body k s) ∧ obs (body k s) = obs s) :
    Inv (for_range lo hi body s) ∧ obs (for_range lo hi body s) = obs s := by
  rw [for_range_eq_foldl]
  exact foldl_keeps body Inv obs _ s hs (fun k hk =>
    h k ((mem_range_map lo hi k).mp hk).1 ((mem_range_map lo hi k).mp hk).2)

theorem for_range_sets {σ β : Type} (lo hi : Int) (body : Int → σ → σ) (Inv : σ → Prop)
    (obs : σ → β) (k0 : Int) (v : β) (s : σ) (hs : Inv s) (hk : lo ≤ k0 ∧ k0 < hi)
    (hinv : ∀ k, lo ≤ k → k < hi → ∀ s, Inv s → Inv (body k s))
    (hhit : ∀ s, Inv s → obs (body k0 s) = v)
    (hmiss : ∀ k, lo ≤ k → k < hi → k ≠ k0 → ∀ s, Inv s → obs (body k s) = obs s) :
    obs (for_range lo hi body s) = v := by
  rw [for_range_eq_foldl]
  exact foldl_sets body Inv obs k0 v _ s hs ((mem_range_map lo hi k0).mpr hk)
    (fun k hk => hinv k ((mem_range_map lo hi k).mp hk).1 ((mem_range_map lo hi k).mp hk).2)
    hhit
    (fun k hk => hmiss k ((mem_range_map lo hi k).mp hk).1 ((mem_range_map lo hi k).mp hk).2)

/-- With the alpha test, the depth test and blending disabled, the body of the
column loop of `glDrawPixels` stores the packed source bytes of an RGBA pixel
that falls inside the framebuffer. -/
theorem drawpixels_plain (c : GLState) (width : Int) (src : Nat → Nat) (row fb_y col : Int)
    (fb : framebuffer_t) (hA : c.flags &&& FLAG_ALPHA_TEST = 0)
    (hD : c.flags &&& FLAG_DEPTH_TEST = 0) (hB : c.flags &&& FLAG_BLEND = 0)
    (hx : 0 ≤ c.raster_pos_x + col ∧ c.raster_pos_x + col < fb.width) :
    glDrawPixels_pixel c width GL_RGBA src row fb_y col fb =
      { fb with color := (Function.update fb.color
          (Int.toNat (fb_y * fb.width + (c.raster_pos_x + col)))
          (color_to_rgba32 (color
            ((src (Int.toNat ((row * width + col) * 4) + 0) : ℚ) / 255)
            ((src (Int.toNat ((row * width + col) * 4) + 1) : ℚ) / 255)
            ((src (Int.toNat ((row * width + col) * 4) + 2) : ℚ) / 255)
            ((src (Int.toNat ((row * width + col) * 4) + 3) : ℚ) / 255)))) } := by
  unfold glDrawPixels_pixel glDrawPixels_fetch
  simp only [hA, hD, hB, ne_eq, not_true_eq_false, false_and, if_false, if_true]
  rw [if_neg (by omega)]

theorem color_of_bytes (r g b a : Nat) (hr : r < 256) (hg : g < 256) (hb : b < 256)
    (ha : a < 256) :
    color_to_rgba32 (color ((r : ℚ) / 255) ((g : ℚ) / 255) ((b : ℚ) / 255) ((a : ℚ) / 255))
      = rgba_bytes_to_rgba32 r g b a := by
  unfold color_to_rgba32 color rgba_bytes_to_rgba32
  simp only [float_to_uint8_byte r hr, float_to_uint8_byte g hg, float_to_uint8_byte b hb,
    float_to_uint8_byte a ha]

/-- The column loop of `glDrawPixels` over a row that lies inside the
framebuffer, with the tests and blending disabled: the pixels of the row hold
the packed source bytes, every other element of the color plane and the size of
the framebuffer are as before. -/
theorem drawpixels_row (c : GLState) (width : Int) (src : Nat → Nat) (row fb_y : Int)
    (fb : framebuffer_t) (hA : c.flags &&& FLAG_ALPHA_TEST = 0)
    (hD : c.flags &&& FLAG_DEPTH_TEST = 0) (hB : c.flags &&& FLAG_BLEND = 0)
    (hsrc : ∀ i, src i < 256)
    (hw : 0 ≤ width)
    (hx0 : 0 ≤ c.raster_pos_x) (hx1 : c.raster_pos_x + width ≤ fb.width) (hy : 0 ≤ fb_y) :
    (for_range 0 width (fun col fb =>
        glDrawPixels_pixel c width GL_RGBA src row fb_y col fb) fb).width = fb.width ∧
    (for_range 0 width (fun col fb =>
        glDrawPixels_pixel c width GL_RGBA src row fb_y col fb) fb).height = fb.height ∧
    (∀ col, 0 ≤ col → col < width →
      (for_range 0 width (fun col fb =>
        glDrawPixels_pixel c width GL_RGBA src row fb_y col fb) fb).color
          (Int.toNat (fb_y * fb.width + (c.raster_pos_x + col)))
        = rgba_bytes_to_rgba32 (src (Int.toNat ((row * width + col) * 4) + 0))
            (src (Int.toNat ((row * width + col) * 4) + 1))
            (src (Int.toNat ((row * width + col) * 4) + 2))
            (src (Int.toNat ((row * width + col) * 4) + 3))) ∧
    (∀ i, (∀ col, 0 ≤ col → col < width →
        i ≠ Int.toNat (fb_y * fb.width + (c.raster_pos_x + col))) →
      (for_range 0 width (fun col fb =>
        glDrawPixels_pixel c width GL_RGBA src row fb_y col fb) fb).color i = fb.color i) := by
  have hstep : ∀ col, 0 ≤ col → col < width → ∀ s : framebuffer_t,
      (s.width = fb.width ∧ s.height = fb.height) →
      glDrawPixels_pixel c width GL_RGBA src row fb_y col s =
        { s with color := (Function.update s.color
          (Int.toNat (fb_y * fb.width + (c.raster_pos_x + col)))
          (rgba_bytes_to_rgba32 (src (Int.toNat ((row * width + col) * 4) + 0))
            (src (Int.toNat ((row * width + col) * 4) + 1))
            (src (Int.toNat ((row * width + col) * 4) + 2))
            (src (Int.toNat ((row * width + col) * 4) + 3)))) } := by
    intro col h0 h1 s hs
    rw [drawpixels_plain c width src row fb_y col s hA hD hB (by rw [hs.1]; omega),
      color_of_bytes _ _ _ _ (hsrc _) (hsrc _) (hsrc _) (hsrc _), hs.1]
  have hinv : ∀ col, 0 ≤ col → col < width → ∀ s : framebuffer_t,
      (s.width = fb.width ∧ s.height = fb.height) →
      ((glDrawPixels_pixel c width GL_RGBA src row fb_y col s).width = fb.width ∧
        (glDrawPixels_pixel c width GL_RGBA src row fb_y col s).height = fb.height) := by
    intro col h0 h1 s hs
    rw [hstep col h0 h1 s hs]
    exact hs
  have hW : 0 ≤ fb_y * fb.width := mul_nonneg hy (by omega)
  have hsize := for_range_keeps 0 width
    (fun col fb => glDrawPixels_pixel c width GL_RGBA src row fb_y col fb)
    (fun s => s.width = fb.width ∧ s.height = fb.height) (fun _ => ()) fb ⟨rfl, rfl⟩
    (fun k h0 h1 s hs => ⟨hinv k h0 h1 s hs, rfl⟩)
  refine ⟨hsize.1.1, hsize.1.2, fun col h0 h1 => ?_, fun i hi => ?_⟩
  · refine for_range_sets 0 width _ (fun s => s.width = fb.width ∧ s.height = fb.height)
      (fun s => s.color (Int.toNat (fb_y * fb.width + (c.raster_pos_x + col)))) col _ fb
      ⟨rfl, rfl⟩ ⟨h0, h1⟩ hinv (fun s hs => ?_) (fun k k0 k1 hk s hs => ?_)
    · show (glDrawPixels_pixel c width GL_RGBA src row fb_y col s).color _ = _
      rw [hstep col h0 h1 s hs]
      exact Function.update_same _ _ _
    · show (glDrawPixels_pixel c width GL_RGBA src row fb_y k s).color _ = s.color _
      rw [hstep k k0 k1 s hs]
      exact Function.update_noteq (by omega) _ _
  · refine (for_range_keeps 0 width _ (fun s => s.width = fb.width ∧ s.height = fb.height)
      (fun s => s.color i) fb ⟨rfl, rfl⟩ (fun k k0 k1 s hs => ⟨hinv k k0 k1 s hs, ?_⟩)).2
    show (glDrawPixels_pixel c width GL_RGBA src row fb_y k s).color i = s.color i
    rw [hstep k k0 k1 s hs]
    exact Function.update_noteq (hi k k0 k1) _ _

/-- The framebuffer after `glDrawPixels` of an RGBA rectangle that lies inside
it, with the tests and blending disabled: pixel `(row, col)` of the rectangle
is stored at column `raster_pos_x + col` of row
`height - 1 - (raster_pos_y + row)`. -/
theorem drawpixels_stores (c : GLState) (width height : Int) (src : Nat → Nat)
    (hvalid : c.raster_pos_valid = true) (hA : c.flags &&& FLAG_ALPHA_TEST = 0)
    (hD : c.flags &&& FLAG_DEPTH_TEST = 0) (hB : c.flags &&& FLAG_BLEND = 0)
    (hsrc : ∀ i, src i < 256) (hw : 0 ≤ width)
    (hx0 : 0 ≤ c.raster_pos_x) (hx1 : c.raster_pos_x + width ≤ c.framebuffer.width)
    (hy0 : 0 ≤ c.raster_pos_y) (hy1 : c.raster_pos_y + height ≤ c.framebuffer.height) :
    (glDrawPixels c width height GL_RGBA GL_UNSIGNED_BYTE (some src)).framebuffer.width
      = c.framebuffer.width ∧
    (glDrawPixels c width height GL_RGBA GL_UNSIGNED_BYTE (some src)).framebuffer.height
      = c.framebuffer.height ∧
    ∀ row col, 0 ≤ row → row < height → 0 ≤ col → col < width →
      (glDrawPixels c width height GL_RGBA GL_UNSIGNED_BYTE (some src)).framebuffer.color
          (Int.toNat ((c.framebuffer.height - 1 - (c.raster_pos_y + row)) * c.framebuffer.width
            + (c.raster_pos_x + col)))
        = rgba_bytes_to_rgba32 (src (Int.toNat ((row * width + col) * 4) + 0))
            (src (Int.toNat ((row * width + col) * 4) + 1))
            (src (Int.toNat ((row * width + col) * 4) + 2))
            (src (Int.toNat ((row * width + col) * 4) + 3)) := by
  have hdraw : (glDrawPixels c width height GL_RGBA GL_UNSIGNED_BYTE (some src)).framebuffer
      = for_range 0 height (glDrawPixels_row c width GL_RGBA src) c.framebuffer := by
    unfold glDrawPixels
    simp only [hvalid, ne_eq, not_true_eq_false, or_self, if_false]
  rw [hdraw]
  have hbody : ∀ row, 0 ≤ row → row < height → ∀ s : framebuffer_t,
      (s.width = c.framebuffer.width ∧ s.height = c.framebuffer.height) →
      glDrawPixels_row c width GL_RGBA src row s
        = for_range 0 width (fun col fb =>
            glDrawPixels_pixel c width GL_RGBA src row
              (c.framebuffer.height - 1 - (c.raster_pos_y + row)) col fb) s := by
    intro row h0 h1 s hs
    unfold glDrawPixels_row
    simp only []
    rw [if_neg (by rw [hs.2]; omega), hs.2]
  have hrow := fun (row : Int) (h0 : 0 ≤ row) (h1 : row < height) (s : framebuffer_t)
      (hs : s.width = c.framebuffer.width ∧ s.height = c.framebuffer.height) =>
    drawpixels_row c width src row (c.framebuffer.height - 1 - (c.raster_pos_y + row)) s
      hA hD hB hsrc hw hx0 (by rw [hs.1]; exact hx1) (by omega)
  have hinv : ∀ row, 0 ≤ row → row < height → ∀ s : framebuffer_t,
      (s.width = c.framebuffer.width ∧ s.height = c.framebuffer.height) →
      ((glDrawPixels_row c width GL_RGBA src row s).width = c.framebuffer.width ∧
       (glDrawPixels_row c width GL_RGBA src row s).height = c.framebuffer.height) := by
    intro row h0 h1 s hs
    rw [hbody row h0 h1 s hs]
    exact ⟨(hrow row h0 h1 s hs).1.trans hs.1, (hrow row h0 h1 s hs).2.1.trans hs.2⟩
  have hsize := for_range_keeps 0 height (glDrawPixels_row c width GL_RGBA src)
    (fun s : framebuffer_t => s.width = c.framebuffer.width ∧ s.height = c.framebuffer.height)
    (fun _ => ()) c.framebuffer ⟨rfl, rfl⟩
    (fun k h0 h1 s hs => ⟨hinv k h0 h1 s hs, rfl⟩)
  refine ⟨hsize.1.1, hsize.1.2, fun row col r0 r1 c0 c1 => ?_⟩
  refine for_range_sets 0 height (glDrawPixels_row c width GL_RGBA src)
    (fun s : framebuffer_t => s.width = c.framebuffer.width ∧ s.height = c.framebuffer.height)
    (fun s => s.color (Int.toNat ((c.framebuffer.height - 1 - (c.raster_pos_y + row))
      * c.framebuffer.width + (c.raster_pos_x + col)))) row _ c.framebuffer
    ⟨rfl, rfl⟩ ⟨r0, r1⟩ hinv (fun s hs => ?_) (fun k k0 k1 hk s hs => ?_)
  · show (glDrawPixels_row c width GL_RGBA src row s).color _ = _
    rw [hbody row r0 r1 s hs, ← hs.1]
    exact (hrow row r0 r1 s hs).2.2.1 col c0 c1
  · show (glDrawPixels_row c width GL_RGBA src k s).color _ = s.color _
    rw [hbody k k0 k1 s hs]
    refine (hrow k k0 k1 s hs).2.2.2 _ (fun col2 d0 d1 e => ?_)
    rw [hs.1] at e
    have := fb_index_inj c.framebuffer.width (c.raster_pos_x + col2)
      (c.framebuffer.height - 1 - (c.raster_pos_y + k)) (c.raster_pos_x + col)
      (c.framebuffer.height - 1 - (c.raster_pos_y + row)) ⟨by omega, by omega⟩ (by omega)
      ⟨by omega, by omega⟩ (by omega) e
    omega

theorem unpack_of_bytes (r g b a : Nat) (hr : r < 256) (hg : g < 256) (hb : b < 256)
    (ha : a < 256) : glReadPixels_unpack (rgba_bytes_to_rgba32 r g b a) = (r, g, b, a) := by
  have hpk : rgba_bytes_to_rgba32 r g b a = r + 2 ^ 8 * g + 2 ^ 16 * b + 2 ^ 24 * a :=
    pack_bytes r g b a hr hg hb ha
  have h0 : (r + 2 ^ 8 * g + 2 ^ 16 * b + 2 ^ 24 * a) &&& 0xFF = r := by
    rw [and_0xFF]; omega
  have h1 : ((r + 2 ^ 8 * g + 2 ^ 16 * b + 2 ^ 24 * a) >>> 8) &&& 0xFF = g := by
    rw [and_0xFF, Nat.shiftRight_eq_div_pow]; omega
  have h2 : ((r + 2 ^ 8 * g + 2 ^ 16 * b + 2 ^ 24 * a) >>> 16) &&& 0xFF = b := by
    rw [and_0xFF, Nat.shiftRight_eq_div_pow]; omega
  have h3 : ((r + 2 ^ 8 * g + 2 ^ 16 * b + 2 ^ 24 * a) >>> 24) &&& 0xFF = a := by
    rw [and_0xFF, Nat.shiftRight_eq_div_pow]; omega
  simp only [glReadPixels_unpack, hpk, h0, h1, h2, h3]

/-- The buffer after the body of the column loop of `glReadPixels` for an RGBA
pixel inside the framebuffer: the four bytes of the pixel at its four indices,
the old contents elsewhere. -/
theorem readpixels_pixel_at (fb : framebuffer_t) (x width row fb_y col : Int)
    (dst : Nat → Nat) (j : Nat) (hx : 0 ≤ x + col ∧ x + col < fb.width) :
    glReadPixels_pixel fb x width GL_RGBA row fb_y col dst j =
      if Int.toNat ((row * width + col) * 4) ≤ j ∧ j < Int.toNat ((row * width + col) * 4) + 4
      then pixel_channel (glReadPixels_unpack (fb.color (Int.toNat (fb_y * fb.width + (x + col)))))
        (j - Int.toNat ((row * width + col) * 4))
      else dst j := by
  unfold glReadPixels_pixel
  simp only [if_true, ge_iff_le, if_pos hx]
  generalize Int.toNat ((row * width + col) * 4) = idx
  generalize glReadPixels_unpack (fb.color (Int.toNat (fb_y * fb.width + (x + col)))) = p
  simp only [Function.update_apply, pixel_channel]
  split_ifs <;> first | rfl | (exfalso; omega)

/-- The column loop of `glReadPixels` over a row inside the framebuffer: the
bytes of pixel `col` of the row are at the indices
`(row * width + col) * 4 + ch`, every other byte of the buffer is as before. -/
theorem readpixels_row_at (fb : framebuffer_t) (x width row fb_y : Int) (dst : Nat → Nat)
    (hrow : 0 ≤ row) (hx0 : 0 ≤ x) (hx1 : x + width ≤ fb.width) :
    (∀ col ch, 0 ≤ col → col < width → ch < 4 →
      for_range 0 width (fun col dst =>
          glReadPixels_pixel fb x width GL_RGBA row fb_y col dst) dst
        (Int.toNat ((row * width + col) * 4) + ch)
        = pixel_channel
            (glReadPixels_unpack (fb.color (Int.toNat (fb_y * fb.width + (x + col))))) ch) ∧
    (∀ j, (∀ col, 0 ≤ col → col < width →
        ¬ (Int.toNat ((row * width + col) * 4) ≤ j ∧
          j < Int.toNat ((row * width + col) * 4) + 4)) →
      for_range 0 width (fun col dst =>
          glReadPixels_pixel fb x width GL_RGBA row fb_y col dst) dst j = dst j) := by
  refine ⟨fun col ch c0 c1 hch => ?_, fun j hj => ?_⟩
  · have hp : 0 ≤ row * width := mul_nonneg hrow (by omega)
    refine for_range_sets 0 width _ (fun _ => True)
      (fun d : Nat → Nat => d (Int.toNat ((row * width + col) * 4) + ch)) col _ dst
      trivial ⟨c0, c1⟩ (fun _ _ _ _ _ => trivial) (fun d _ => ?_) (fun k k0 k1 hk d _ => ?_)
    · show glReadPixels_pixel fb x width GL_RGBA row fb_y col d _ = _
      rw [readpixels_pixel_at fb x width row fb_y col d _ (by omega), if_pos (by omega)]
      congr 1
      omega
    · show glReadPixels_pixel fb x width GL_RGBA row fb_y k d _ = d _
      rw [readpixels_pixel_at fb x width row fb_y k d _ (by omega), if_neg (by omega)]
  · refine (for_range_keeps 0 width _ (fun _ => True) (fun d : Nat → Nat => d j) dst trivial
      (fun k k0 k1 d _ => ⟨trivial, ?_⟩)).2
    show glReadPixels_pixel fb x width GL_RGBA row fb_y k d j = d j
    rw [readpixels_pixel_at fb x width row fb_y k d j (by omega), if_neg (hj k k0 k1)]

/-- The buffer after `glReadPixels` of an RGBA rectangle that lies inside the
framebuffer: the bytes of pixel `(row, col)` of the rectangle are those of the
framebuffer pixel at column `x + col` of row `height - 1 - (y + row)`. -/
theorem readpixels_reads (c : GLState) (x y width height : Int) (dst0 : Nat → Nat)
    (hx0 : 0 ≤ x) (hx1 : x + width ≤ c.framebuffer.width)
    (hy0 : 0 ≤ y) (hy1 : y + height ≤ c.framebuffer.height) :
    ∃ dst, glReadPixels c x y width height GL_RGBA GL_UNSIGNED_BYTE (some dst0) = some dst ∧
      ∀ row col ch, 0 ≤ row → row < height → 0 ≤ col → col < width → ch < 4 →
        dst (Int.toNat ((row * width + col) * 4) + ch)
          = pixel_channel (glReadPixels_unpack (c.framebuffer.color
              (Int.toNat ((c.framebuffer.height - 1 - (y + row)) * c.framebuffer.width
                + (x + col))))) ch := by
  refine ⟨for_range 0 height (glReadPixels_row c.framebuffer x y width GL_RGBA) dst0, ?_, ?_⟩
  · unfold glReadPixels
    simp only [ne_eq, not_true_eq_false, if_false]
  intro row col ch r0 r1 c0 c1 hch
  have hbody : ∀ k, 0 ≤ k → k < height → ∀ d : Nat → Nat,
      glReadPixels_row c.framebuffer x y width GL_RGBA k d
        = for_range 0 width (fun col dst => glReadPixels_pixel c.framebuffer x width GL_RGBA k
            (c.framebuffer.height - 1 - (y + k)) col dst) d := by
    intro k k0 k1 d
    unfold glReadPixels_row
    simp only []
    rw [if_neg (by omega)]
  refine for_range_sets 0 height _ (fun _ => True)
    (fun d : Nat → Nat => d (Int.toNat ((row * width + col) * 4) + ch)) row _ dst0
    trivial ⟨r0, r1⟩ (fun _ _ _ _ _ => trivial) (fun d _ => ?_) (fun k k0 k1 hk d _ => ?_)
  · show glReadPixels_row c.framebuffer x y width GL_RGBA row d _ = _
    rw [hbody row r0 r1 d]
    exact (readpixels_row_at c.framebuffer x width row _ d r0 hx0 hx1).1 col ch c0 c1 hch
  · show glReadPixels_row c.framebuffer x y width GL_RGBA k d _ = d _
    rw [hbody k k0 k1 d]
    refine (readpixels_row_at c.framebuffer x width k _ d k0 hx0 hx1).2 _ (fun col2 d0 d1 => ?_)
    have hne : k * width + col2 ≠ row * width + col := by
      intro e
      have := fb_index_inj width col row col2 k ⟨c0, c1⟩ r0 ⟨d0, d1⟩ k0 (by rw [e])
      exact hk this.1
    have h1 : 0 ≤ k * width := mul_nonneg k0 (by omega)
    have h2 : 0 ≤ row * width := mul_nonneg r0 (by omega)
    omega

/-- C17: with a valid raster position, an RGBA rectangle of unsigned bytes that
lies inside the framebuffer, and the alpha test, the depth test and blending
disabled, `glDrawPixels` followed by `glReadPixels` at the raster position
returns the source bytes, byte for byte; the pixels of source row 0 are stored
in row `height - 1 - raster_pos_y` of the framebuffer. -/
theorem pixel_rectangle_round_trip (c : GLState) (w h : Int) (src dst0 : Nat → Nat)
    (hvalid : c.raster_pos_valid = true) (hA : c.flags &&& FLAG_ALPHA_TEST = 0)
    (hD : c.flags &&& FLAG_DEPTH_TEST = 0) (hB : c.flags &&& FLAG_BLEND = 0)
    (hsrc : ∀ i, src i < 256) (hw : 0 ≤ w)
    (hx0 : 0 ≤ c.raster_pos_x) (hx1 : c.raster_pos_x + w ≤ c.framebuffer.width)
    (hy0 : 0 ≤ c.raster_pos_y) (hy1 : c.raster_pos_y + h ≤ c.framebuffer.height) :
    ∃ dst, glReadPixels (glDrawPixels c w h GL_RGBA GL_UNSIGNED_BYTE (some src))
        c.raster_pos_x c.raster_pos_y w h GL_RGBA GL_UNSIGNED_BYTE (some dst0) = some dst ∧
      (∀ i : Nat, (i : Int) < w * h * 4 → dst i = src i) ∧
      (∀ col : Nat, (col : Int) < w → 0 < h →
        framebuffer_getpixel (glDrawPixels c w h GL_RGBA GL_UNSIGNED_BYTE (some src)).framebuffer
            (c.raster_pos_x + col) (c.framebuffer.height - 1 - c.raster_pos_y)
          = rgba_bytes_to_rgba32 (src (col * 4)) (src (col * 4 + 1)) (src (col * 4 + 2))
              (src (col * 4 + 3))) := by
  obtain ⟨dW, dH, dC⟩ := drawpixels_stores c w h src hvalid hA hD hB hsrc hw hx0 hx1 hy0 hy1
  obtain ⟨dst, hdst, hread⟩ := readpixels_reads
    (glDrawPixels c w h GL_RGBA GL_UNSIGNED_BYTE (some src)) c.raster_pos_x c.raster_pos_y w h
    dst0 hx0 (by rw [dW]; exact hx1) hy0 (by rw [dH]; exact hy1)
  refine ⟨dst, hdst, fun i hi => ?_, fun col hcol hpos => ?_⟩
  · have hwh : 0 < w * h := by omega
    have hw0 : 0 < w := by
      rcases eq_or_lt_of_le hw with e | e
      · rw [← e, zero_mul] at hwh; exact absurd hwh (lt_irrefl _)
      · exact e
    have hp : ((i / 4 : Nat) : Int) < h * w := by
      have : ((i / 4 : Nat) : Int) * 4 ≤ (i : Int) := by omega
      have e : h * w = w * h := mul_comm _ _
      omega
    have hrow1 : ((i / 4 : Nat) : Int) / w < h := Int.ediv_lt_of_lt_mul hw0 hp
    have hrow0 : 0 ≤ ((i / 4 : Nat) : Int) / w := Int.ediv_nonneg (by omega) hw
    have hcol0 : 0 ≤ ((i / 4 : Nat) : Int) % w := Int.emod_nonneg _ (by omega)
    have hcol1 : ((i / 4 : Nat) : Int) % w < w := Int.emod_lt_of_pos _ hw0
    have hsplit : ((i / 4 : Nat) : Int) / w * w + ((i / 4 : Nat) : Int) % w
        = ((i / 4 : Nat) : Int) := by
      rw [mul_comm]
      exact Int.ediv_add_emod _ _
    have hidx : Int.toNat ((((i / 4 : Nat) : Int) / w * w + ((i / 4 : Nat) : Int) % w) * 4)
        = i / 4 * 4 := by
      rw [hsplit]
      omega
    have hi4 : i = i / 4 * 4 + i % 4 := by omega
    have hr := hread _ _ (i % 4) hrow0 hrow1 hcol0 hcol1 (Nat.mod_lt _ (by decide))
    rw [dW, dH, dC _ _ hrow0 hrow1 hcol0 hcol1,
      unpack_of_bytes _ _ _ _ (hsrc _) (hsrc _) (hsrc _) (hsrc _), hidx, ← hi4] at hr
    rw [hr]
    unfold pixel_channel
    have h4 : i % 4 < 4 := Nat.mod_lt _ (by decide)
    by_cases e0 : i % 4 = 0
    · rw [if_pos e0]; exact congrArg src (by omega)
    · rw [if_neg e0]
      by_cases e1 : i % 4 = 1
      · rw [if_pos e1]; exact congrArg src (by omega)
      · rw [if_neg e1]
        by_cases e2 : i % 4 = 2
        · rw [if_pos e2]; exact congrArg src (by omega)
        · rw [if_neg e2]; exact congrArg src (by omega)
  · have hc := dC 0 col (le_refl _) hpos (by omega) hcol
    have e1 : Int.toNat ((0 * w + (col : Int)) * 4) = col * 4 := by omega
    rw [e1, add_zero, add_zero] at hc
    unfold framebuffer_getpixel fb_index
    rw [if_neg (by rw [dW, dH]; omega), dW, hc]

theorem pixel_rectangle_round_trip_witness :
    ∃ dst, glReadPixels (glDrawPixels raster_test_context 2 2 GL_RGBA GL_UNSIGNED_BYTE
          (some (fun i => i % 256)))
        1 1 2 2 GL_RGBA GL_UNSIGNED_BYTE (some (fun _ => 0)) = some dst ∧
      (∀ i : Nat, (i : Int) < 2 * 2 * 4 → dst i = i % 256) ∧
      (∀ col : Nat, (col : Int) < 2 → (0 : Int) < 2 →
        framebuffer_getpixel (glDrawPixels raster_test_context 2 2 GL_RGBA GL_UNSIGNED_BYTE
            (some (fun i => i % 256))).framebuffer (1 + col) (4 - 1 - 1)
          = rgba_bytes_to_rgba32 ((col * 4) % 256) ((col * 4 + 1) % 256) ((col * 4 + 2) % 256)
              ((col * 4 + 3) % 256)) :=
  pixel_rectangle_round_trip raster_test_context 2 2 (fun i => i % 256) (fun _ => 0)
    (by decide) (by decide) (by decide) (by decide) (fun i => Nat.mod_lt _ (by decide))
    (by decide) (by decide) (by decide) (by decide) (by decide)

/-! ## Texture sampling -/

/-- In exact arithmetic the coordinate that `texture_sample_lod` wraps with
`GL_REPEAT` is `u - floor(u)`, for negative `u` too. -/
theorem wrap_repeat_fract (u : ℚ) : texture_wrap_coord GL_REPEAT u = u - ⌊u⌋ := by
  have h1 := Int.floor_le u
  have h2 := Int.lt_floor_add_one u
  unfold texture_wrap_coord float_to_int
  rw [if_pos rfl]
  by_cases hu : u < 0
  · simp only [if_pos hu]
    have hc : -⌊-u⌋ = ⌈u⌉ := by rw [Int.floor_neg, neg_neg]
    rw [hc]
    have h3 := Int.le_ceil u
    have h4 := Int.ceil_lt_add_one u
    have hlo : ⌊u⌋ ≤ ⌈u⌉ := Int.floor_le_ceil u
    have hhi : ⌈u⌉ < ⌊u⌋ + 2 := by
      have : ((⌈u⌉ : Int) : ℚ) < ((⌊u⌋ + 2 : Int) : ℚ) := by push_cast; linarith
      exact_mod_cast this
    by_cases hlt : u - (⌈u⌉ : ℚ) < 0
    · rw [if_pos hlt]
      have hne : ⌈u⌉ ≠ ⌊u⌋ := by
        intro e
        rw [e] at hlt
        linarith
      have he : ⌈u⌉ = ⌊u⌋ + 1 := by omega
      rw [he]
      push_cast
      ring
    · rw [if_neg hlt]
      have hu2 : u = (⌈u⌉ : ℚ) := le_antisymm h3 (by linarith)
      have he : ⌊u⌋ = ⌈u⌉ := by
        conv_lhs => rw [hu2]
        exact Int.floor_intCast _
      rw [he]
  · simp only [if_neg hu]
    rw [if_neg (by linarith)]

theorem wrap_repeat_period (u : ℚ) (k : Int) :
    texture_wrap_coord GL_REPEAT (u + k) = texture_wrap_coord GL_REPEAT u := by
  rw [wrap_repeat_fract, wrap_repeat_fract, Int.floor_add_int]
  push_cast
  ring

/-- C20: with both wrap modes `GL_REPEAT`, `texture_sample_lod` returns the same
texel and leaves the same texture at `(u + k, v + m)` as at `(u, v)`, for all
integers `k`, `m`, every filter and every lod; the wrapped coordinate is
`u - floor(u)`. -/
theorem wrap_repeat_periodic (alloc_ok : Bool) (tex : texture_t) (u v lod : ℚ) (k m : Int)
    (hs : tex.wrap_s = GL_REPEAT) (ht : tex.wrap_t = GL_REPEAT) :
    texture_sample_lod alloc_ok tex (u + k) (v + m) lod = texture_sample_lod alloc_ok tex u v lod ∧
    texture_wrap_coord tex.wrap_s u = u - ⌊u⌋ ∧ texture_wrap_coord tex.wrap_t v = v - ⌊v⌋ := by
  refine ⟨?_, by rw [hs]; exact wrap_repeat_fract u, by rw [ht]; exact wrap_repeat_fract v⟩
  unfold texture_sample_lod
  rw [hs, ht, wrap_repeat_period u k, wrap_repeat_period v m]

theorem wrap_repeat_periodic_witness :
    (texture_sample_lod true repeat_test_texture (1 / 4 + ((3 : Int) : ℚ))
        (3 / 4 + ((-2 : Int) : ℚ)) 1
      = texture_sample_lod true repeat_test_texture (1 / 4) (3 / 4) 1 ∧
    texture_wrap_coord repeat_test_texture.wrap_s (1 / 4) = 1 / 4 - ⌊(1 / 4 : ℚ)⌋ ∧
    texture_wrap_coord repeat_test_texture.wrap_t (3 / 4) = 3 / 4 - ⌊(3 / 4 : ℚ)⌋) ∧
    (texture_sample_lod true repeat_test_texture (1 / 4) (3 / 4) 1).1 = 0xFF7F7F7F :=
  ⟨wrap_repeat_periodic true repeat_test_texture (1 / 4) (3 / 4) 1 3 (-2) rfl rfl, by decide!⟩

/-! ## Filled triangles -/

theorem touches_only_refl (x y : Int) (fb : framebuffer_t) : touches_only x y fb fb :=
  ⟨rfl, rfl, fun _ => Or.inr ⟨rfl, rfl, rfl⟩⟩

theorem touches_only_trans (x y : Int) (fb fb1 fb2 : framebuffer_t)
    (h1 : touches_only x y fb fb1) (h2 : touches_only x y fb1 fb2) : touches_only x y fb fb2 := by
  obtain ⟨w1, e1, p1⟩ := h1
  obtain ⟨w2, e2, p2⟩ := h2
  refine ⟨w2.trans w1, e2.trans e1, fun i => ?_⟩
  rcases p1 i with a | a
  · exact Or.inl a
  · rcases p2 i with b | b
    · left
      rw [w1, e1] at b
      refine ⟨b.1, ?_⟩
      rw [b.2]
      unfold fb_index
      rw [w1]
    · exact Or.inr ⟨b.1.trans a.1, b.2.1.trans a.2.1, b.2.2.trans a.2.2⟩

theorem putpixel_touches_only (x y : Int) (fb : framebuffer_t) (p : Nat) :
    touches_only x y fb (framebuffer_putpixel fb x y p) := by
  unfold framebuffer_putpixel
  by_cases hb : x < 0 ∨ x ≥ fb.width ∨ y < 0 ∨ y ≥ fb.height
  · rw [if_pos hb]; exact touches_only_refl x y fb
  · rw [if_neg hb]
    refine ⟨rfl, rfl, fun i => ?_⟩
    by_cases hi : i = fb_index fb x y
    · exact Or.inl ⟨by omega, hi⟩
    · exact Or.inr ⟨Function.update_noteq hi _ _, rfl, rfl⟩

theorem putdepth_touches_only (x y : Int) (fb : framebuffer_t) (d : ℚ) :
    touches_only x y fb (framebuffer_putdepth fb x y d) := by
  unfold framebuffer_putdepth
  by_cases hb : x < 0 ∨ x ≥ fb.width ∨ y < 0 ∨ y ≥ fb.height
  · rw [if_pos hb]; exact touches_only_refl x y fb
  · rw [if_neg hb]
    refine ⟨rfl, rfl, fun i => ?_⟩
    by_cases hi : i = fb_index fb x y
    · exact Or.inl ⟨by omega, hi⟩
    · exact Or.inr ⟨rfl, Function.update_noteq hi _ _, rfl⟩

theorem putstencil_touches_only (x y : Int) (fb : framebuffer_t) (s : Nat) :
    touches_only x y fb (framebuffer_putstencil fb x y s) := by
  unfold framebuffer_putstencil
  by_cases hb : x < 0 ∨ x ≥ fb.width ∨ y < 0 ∨ y ≥ fb.height
  · rw [if_pos hb]; exact touches_only_refl x y fb
  · rw [if_neg hb]
    refine ⟨rfl, rfl, fun i => ?_⟩
    by_cases hi : i = fb_index fb x y
    · exact Or.inl ⟨by omega, hi⟩
    · exact Or.inr ⟨rfl, rfl, Function.update_noteq hi _ _⟩

theorem write_stencil_touches_only (x y : Int) (fb : framebuffer_t) (v w : Nat) :
    touches_only x y fb (write_stencil_masked fb x y v w) := by
  unfold write_stencil_masked
  exact putstencil_touches_only x y fb _

theorem write_pixel_touches_only (c : GLState) (x y : Int) (col : color_t) :
    touches_only x y c.framebuffer (write_pixel_masked c x y col) := by
  unfold write_pixel_masked
  dsimp only
  by_cases h1 : c.color_mask_r = true ∧ c.color_mask_g = true ∧ c.color_mask_b = true ∧
      c.color_mask_a = true
  · rw [if_pos h1]; exact putpixel_touches_only x y _ _
  · rw [if_neg h1]
    by_cases h2 : ¬c.color_mask_r = true ∧ ¬c.color_mask_g = true ∧ ¬c.color_mask_b = true ∧
        ¬c.color_mask_a = true
    · rw [if_pos h2]; exact touches_only_refl x y _
    · rw [if_neg h2]; exact putpixel_touches_only x y _ _

theorem touches_only_ite (x y : Int) (fb a b : framebuffer_t) (C : Prop) [Decidable C]
    (ha : touches_only x y fb a) (hb : touches_only x y fb b) :
    touches_only x y fb (if C then a else b) := by
  split_ifs <;> assumption

/-- The body of the pixel loop of `rasterize_triangle_smooth` for the pixel
`(x, y)` leaves every other pixel of the three planes as it is. -/
theorem smooth_pixel_touches_only (c : GLState) (x y : Int) (depth : ℚ) (sh : shaded_t) :
    touches_only x y c.framebuffer (rasterize_triangle_smooth_pixel c x y depth sh) := by
  have hws := fun (fb : framebuffer_t) (v w : Nat) => write_stencil_touches_only x y fb v w
  have hst : ∀ (S : Prop) [Decidable S] (v w : Nat), touches_only x y c.framebuffer
      (if S then write_stencil_masked c.framebuffer x y v w else c.framebuffer) :=
    fun S _ v w => touches_only_ite x y _ _ _ S (hws _ _ _) (touches_only_refl x y _)
  unfold rasterize_triangle_smooth_pixel
  dsimp only
  refine touches_only_ite x y _ _ _ _ (hws _ _ _) ?_
  refine touches_only_ite x y _ _ _ _ (hst _ _ _) ?_
  refine touches_only_ite x y _ _ _ _ (hst _ _ _) ?_
  refine touches_only_trans x y _ _ _ ?_ (write_pixel_touches_only _ x y _)
  exact touches_only_ite x y _ _ _ _
    (touches_only_trans x y _ _ _ (hst _ _ _) (putdepth_touches_only x y _ _)) (hst _ _ _)

theorem touches_only_values (x y px py : Int) (fb fb1 : framebuffer_t)
    (h : touches_only x y fb fb1) (hne : ¬ (px = x ∧ py = y)) :
    pixel_values fb1 px py = pixel_values fb px py := by
  obtain ⟨hw, hh, hp⟩ := h
  unfold pixel_values framebuffer_getpixel framebuffer_getdepth framebuffer_getstencil
  rw [hw, hh]
  by_cases hb : px < 0 ∨ px ≥ fb.width ∨ py < 0 ∨ py ≥ fb.height
  · simp only [if_pos hb]
  · simp only [if_neg hb]
    have hi : fb_index fb1 px py = fb_index fb px py := by unfold fb_index; rw [hw]
    rw [hi]
    rcases hp (fb_index fb px py) with a | a
    · exfalso
      have := fb_index_inj fb.width x y px py ⟨a.1.1, a.1.2.1⟩ a.1.2.2.1 ⟨by omega, by omega⟩
        (by omega) a.2
      exact hne ⟨this.2, this.1⟩
    · rw [a.1, a.2.1, a.2.2]

/-- The body of the pixel loop of `rasterize_triangle_smooth` at `(x, y)` leaves
the values of a pixel `(px, py)` as they are, when that is another pixel or a
pixel that fails the inside test. -/
theorem smooth_at_keeps (lm : LibM) (alloc_ok : Bool) (v0 v1 v2 : raster_vertex_t)
    (is_back_facing : Bool) (area inv_area tex_lod : ℚ) (y x px py : Int) (s : GLState)
    (h : (px = x ∧ py = y) →
      ¬ ((area > 0 ∧ edge_function v1.x v1.y v2.x v2.y px py ≥ 0 ∧
            edge_function v2.x v2.y v0.x v0.y px py ≥ 0 ∧
            edge_function v0.x v0.y v1.x v1.y px py ≥ 0) ∨
          (area < 0 ∧ edge_function v1.x v1.y v2.x v2.y px py ≤ 0 ∧
            edge_function v2.x v2.y v0.x v0.y px py ≤ 0 ∧
            edge_function v0.x v0.y v1.x v1.y px py ≤ 0))) :
    pixel_values (rasterize_triangle_smooth_at lm alloc_ok v0 v1 v2 is_back_facing area inv_area
      tex_lod y x s).framebuffer px py = pixel_values s.framebuffer px py := by
  unfold rasterize_triangle_smooth_at
  dsimp only
  by_cases hin : (area > 0 ∧ edge_function v1.x v1.y v2.x v2.y x y ≥ 0 ∧
            edge_function v2.x v2.y v0.x v0.y x y ≥ 0 ∧
            edge_function v0.x v0.y v1.x v1.y x y ≥ 0) ∨
          (area < 0 ∧ edge_function v1.x v1.y v2.x v2.y x y ≤ 0 ∧
            edge_function v2.x v2.y v0.x v0.y x y ≤ 0 ∧
            edge_function v0.x v0.y v1.x v1.y x y ≤ 0)
  · rw [if_pos hin]
    have hne : ¬ (px = x ∧ py = y) := by
      rintro ⟨rfl, rfl⟩
      exact h ⟨rfl, rfl⟩ hin
    exact touches_only_values x y px py _ _ (smooth_pixel_touches_only s x y _ _) hne
  · rw [if_neg hin]

theorem min3_eq (a b c : Int) : min3 a b c = min a (min b c) := by
  unfold min3
  split_ifs <;> omega

theorem max3_eq (a b c : Int) : max3 a b c = max a (max b c) := by
  unfold max3
  split_ifs <;> omega

/-- A pixel inside the box that `rasterize_triangle_smooth` scans lies inside
the bounding box of the triangle, the viewport and, when the scissor test is
enabled, the scissor box. -/
theorem smooth_box_bounds (c : GLState) (v0 v1 v2 : raster_vertex_t) (px py : Int)
    (h : (rasterize_triangle_smooth_box c v0 v1 v2).1 ≤ px ∧
      px ≤ (rasterize_triangle_smooth_box c v0 v1 v2).2.2.1 ∧
      (rasterize_triangle_smooth_box c v0 v1 v2).2.1 ≤ py ∧
      py ≤ (rasterize_triangle_smooth_box c v0 v1 v2).2.2.2) :
    (min v0.x (min v1.x v2.x) ≤ px ∧ px ≤ max v0.x (max v1.x v2.x) ∧
      min v0.y (min v1.y v2.y) ≤ py ∧ py ≤ max v0.y (max v1.y v2.y)) ∧
    (c.viewport_x ≤ px ∧ px < c.viewport_x + c.viewport_w ∧
      c.viewport_y ≤ py ∧ py < c.viewport_y + c.viewport_h) ∧
    (c.flags &&& FLAG_SCISSOR_TEST ≠ 0 →
      c.scissor_x ≤ px ∧ px < c.scissor_x + c.scissor_w ∧
      c.scissor_y ≤ py ∧ py < c.scissor_y + c.scissor_h) := by
  rw [← min3_eq, ← max3_eq, ← min3_eq, ← max3_eq]
  unfold rasterize_triangle_smooth_box at h
  dsimp only at h
  generalize min3 v0.x v1.x v2.x = a0 at h ⊢
  generalize max3 v0.x v1.x v2.x = a1 at h ⊢
  generalize min3 v0.y v1.y v2.y = b0 at h ⊢
  generalize max3 v0.y v1.y v2.y = b1 at h ⊢
  by_cases hS : c.flags &&& FLAG_SCISSOR_TEST ≠ 0
  · rw [if_pos hS] at h
    obtain ⟨h1, h2, h3, h4⟩ := h
    dsimp only at h1 h2 h3 h4
    have q1 : a0 ≤ px ∧ c.viewport_x ≤ px ∧ c.scissor_x ≤ px := by
      split_ifs at h1 <;> omega
    have q2 : px ≤ a1 ∧ px < c.viewport_x + c.viewport_w ∧ px < c.scissor_x + c.scissor_w := by
      split_ifs at h2 <;> omega
    have q3 : b0 ≤ py ∧ c.viewport_y ≤ py ∧ c.scissor_y ≤ py := by
      split_ifs at h3 <;> omega
    have q4 : py ≤ b1 ∧ py < c.viewport_y + c.viewport_h ∧ py < c.scissor_y + c.scissor_h := by
      split_ifs at h4 <;> omega
    exact ⟨⟨q1.1, q2.1, q3.1, q4.1⟩, ⟨q1.2.1, q2.2.1, q3.2.1, q4.2.1⟩,
      fun _ => ⟨q1.2.2, q2.2.2, q3.2.2, q4.2.2⟩⟩
  · rw [if_neg hS] at h
    obtain ⟨h1, h2, h3, h4⟩ := h
    dsimp only at h1 h2 h3 h4
    have q1 : a0 ≤ px ∧ c.viewport_x ≤ px := by
      split_ifs at h1 <;> omega
    have q2 : px ≤ a1 ∧ px < c.viewport_x + c.viewport_w := by
      split_ifs at h2 <;> omega
    have q3 : b0 ≤ py ∧ c.viewport_y ≤ py := by
      split_ifs at h3 <;> omega
    have q4 : py ≤ b1 ∧ py < c.viewport_y + c.viewport_h := by
      split_ifs at h4 <;> omega
    exact ⟨⟨q1.1, q2.1, q3.1, q4.1⟩, ⟨q1.2, q2.2, q3.2, q4.2⟩, fun hs => absurd hs hS⟩

/-- C18: a pixel whose color, depth or stencil value `rasterize_triangle_smooth`
changes lies inside the bounding box of the triangle, inside the viewport and,
when the scissor test is enabled, inside the scissor box; and the three edge
functions at the pixel have the sign of the area of the triangle or are zero. -/
theorem filled_triangle_footprint (lm : LibM) (alloc_ok : Bool) (c : GLState)
    (v0 v1 v2 : raster_vertex_t) (is_back_facing : Bool) (px py : Int)
    (hchg :
      framebuffer_getpixel
          (rasterize_triangle_smooth lm alloc_ok c v0 v1 v2 is_back_facing).framebuffer px py
        ≠ framebuffer_getpixel c.framebuffer px py ∨
      framebuffer_getdepth
          (rasterize_triangle_smooth lm alloc_ok c v0 v1 v2 is_back_facing).framebuffer px py
        ≠ framebuffer_getdepth c.framebuffer px py ∨
      framebuffer_getstencil
          (rasterize_triangle_smooth lm alloc_ok c v0 v1 v2 is_back_facing).framebuffer px py
        ≠ framebuffer_getstencil c.framebuffer px py) :
    (min v0.x (min v1.x v2.x) ≤ px ∧ px ≤ max v0.x (max v1.x v2.x) ∧
      min v0.y (min v1.y v2.y) ≤ py ∧ py ≤ max v0.y (max v1.y v2.y)) ∧
    (c.viewport_x ≤ px ∧ px < c.viewport_x + c.viewport_w ∧
      c.viewport_y ≤ py ∧ py < c.viewport_y + c.viewport_h) ∧
    (c.flags &&& FLAG_SCISSOR_TEST ≠ 0 →
      c.scissor_x ≤ px ∧ px < c.scissor_x + c.scissor_w ∧
      c.scissor_y ≤ py ∧ py < c.scissor_y + c.scissor_h) ∧
    ((edge_function v0.x v0.y v1.x v1.y v2.x v2.y > 0 ∧
        edge_function v1.x v1.y v2.x v2.y px py ≥ 0 ∧
        edge_function v2.x v2.y v0.x v0.y px py ≥ 0 ∧
        edge_function v0.x v0.y v1.x v1.y px py ≥ 0) ∨
      (edge_function v0.x v0.y v1.x v1.y v2.x v2.y < 0 ∧
        edge_function v1.x v1.y v2.x v2.y px py ≤ 0 ∧
        edge_function v2.x v2.y v0.x v0.y px py ≤ 0 ∧
        edge_function v0.x v0.y v1.x v1.y px py ≤ 0)) := by
  by_contra hcon
  have hkeep : pixel_values
      (rasterize_triangle_smooth lm alloc_ok c v0 v1 v2 is_back_facing).framebuffer px py
        = pixel_values c.framebuffer px py := by
    unfold rasterize_triangle_smooth
    dsimp only
    split_ifs with hbox harea
    · rfl
    · rfl
    · refine (for_range_keeps _ _ _ (fun _ => True)
        (fun s : GLState => pixel_values s.framebuffer px py) c trivial
        (fun y y0 y1 s _ => ⟨trivial, ?_⟩)).2
      refine (for_range_keeps _ _ _ (fun _ => True)
        (fun s : GLState => pixel_values s.framebuffer px py) s trivial
        (fun x x0 x1 s2 _ => ⟨trivial, ?_⟩)).2
      refine smooth_at_keeps lm alloc_ok v0 v1 v2 is_back_facing _ _ _ y x px py s2 ?_
      rintro ⟨rfl, rfl⟩ hin
      obtain ⟨b1, b2, b3⟩ := smooth_box_bounds c v0 v1 v2 px py
        ⟨x0, by omega, y0, by omega⟩
      exact hcon ⟨b1, b2, b3, hin⟩
  unfold pixel_values at hkeep
  rw [Prod.mk.injEq, Prod.mk.injEq] at hkeep
  rcases hchg with h | h | h
  · exact h hkeep.1
  · exact h hkeep.2.1
  · exact h hkeep.2.2

theorem filled_triangle_footprint_witness :
    (framebuffer_getpixel
          (rasterize_triangle_smooth test_platform.lm true test_context
            (test_raster_vertex 0 0) (test_raster_vertex 3 0) (test_raster_vertex 0 3)
            true).framebuffer 1 1
        ≠ framebuffer_getpixel test_context.framebuffer 1 1) ∧
    ((min (test_raster_vertex 0 0).x (min (test_raster_vertex 3 0).x (test_raster_vertex 0 3).x)
          ≤ 1 ∧
        1 ≤ max (test_raster_vertex 0 0).x
          (max (test_raster_vertex 3 0).x (test_raster_vertex 0 3).x) ∧
        min (test_raster_vertex 0 0).y (min (test_raster_vertex 3 0).y (test_raster_vertex 0 3).y)
          ≤ 1 ∧
        1 ≤ max (test_raster_vertex 0 0).y
          (max (test_raster_vertex 3 0).y (test_raster_vertex 0 3).y)) ∧
      (test_context.viewport_x ≤ 1 ∧ 1 < test_context.viewport_x + test_context.viewport_w ∧
        test_context.viewport_y ≤ 1 ∧ 1 < test_context.viewport_y + test_context.viewport_h) ∧
      (test_context.flags &&& FLAG_SCISSOR_TEST ≠ 0 →
        test_context.scissor_x ≤ 1 ∧ 1 < test_context.scissor_x + test_context.scissor_w ∧
        test_context.scissor_y ≤ 1 ∧ 1 < test_context.scissor_y + test_context.scissor_h) ∧
      ((edge_function (test_raster_vertex 0 0).x (test_raster_vertex 0 0).y
            (test_raster_vertex 3 0).x (test_raster_vertex 3 0).y
            (test_raster_vertex 0 3).x (test_raster_vertex 0 3).y > 0 ∧
          edge_function (test_raster_vertex 3 0).x (test_raster_vertex 3 0).y
            (test_raster_vertex 0 3).x (test_raster_vertex 0 3).y (1 : Int) (1 : Int) ≥ 0 ∧
          edge_function (test_raster_vertex 0 3).x (test_raster_vertex 0 3).y
            (test_raster_vertex 0 0).x (test_raster_vertex 0 0).y (1 : Int) (1 : Int) ≥ 0 ∧
          edge_function (test_raster_vertex 0 0).x (test_raster_vertex 0 0).y
            (test_raster_vertex 3 0).x (test_raster_vertex 3 0).y (1 : Int) (1 : Int) ≥ 0) ∨
        (edge_function (test_raster_vertex 0 0).x (test_raster_vertex 0 0).y
            (test_raster_vertex 3 0).x (test_raster_vertex 3 0).y
            (test_raster_vertex 0 3).x (test_raster_vertex 0 3).y < 0 ∧
          edge_function (test_raster_vertex 3 0).x (test_raster_vertex 3 0).y
            (test_raster_vertex 0 3).x (test_raster_vertex 0 3).y (1 : Int) (1 : Int) ≤ 0 ∧
          edge_function (test_raster_vertex 0 3).x (test_raster_vertex 0 3).y
            (test_raster_vertex 0 0).x (test_raster_vertex 0 0).y (1 : Int) (1 : Int) ≤ 0 ∧
          edge_function (test_raster_vertex 0 0).x (test_raster_vertex 0 0).y
            (test_raster_vertex 3 0).x (test_raster_vertex 3 0).y (1 : Int) (1 : Int) ≤ 0))) :=
  have h : framebuffer_getpixel
          (rasterize_triangle_smooth test_platform.lm true test_context
            (test_raster_vertex 0 0) (test_raster_vertex 3 0) (test_raster_vertex 0 3)
            true).framebuffer 1 1
        ≠ framebuffer_getpixel test_context.framebuffer 1 1 := by decide!
  ⟨h, filled_triangle_footprint test_platform.lm true test_context
    (test_raster_vertex 0 0) (test_raster_vertex 3 0) (test_raster_vertex 0 3) true 1 1
    (Or.inl h)⟩

/-! ## Degenerate triangles -/

/-- A zero-area triangle is drawn when the polygon mode is `GL_POINT`: three
coincident vertices at the center of the viewport leave a white pixel. A
triangle that is clipped is drawn although its own screen vertices
`(0, 0)`, `(8, 3)`, `(8, 3)` have zero signed area: the triangle of the clipped
polygon has the screen vertices `(4, 2)`, `(0, 0)`, `(4, 1)`. -/
theorem degenerate_triangle_drawn :
    (screen_signed_area (screen_position point_mode_context (test_vertex 0 0))
        (screen_position point_mode_context (test_vertex 0 0))
        (screen_position point_mode_context (test_vertex 0 0)) = 0 ∧
      inside_clip_volume (test_vertex 0 0) ∧
      framebuffer_getpixel point_mode_context.framebuffer 2 2 = 0 ∧
      (render_triangle test_platform.lm true test_draw_line point_mode_context
          (test_vertex 0 0) (test_vertex 0 0) (test_vertex 0 0)).map
        (fun c => framebuffer_getpixel c.framebuffer 2 2) = some 0xFFFFFFFF) ∧
    (screen_signed_area (screen_position test_context (test_vertex (-1) (11 / 20)))
        (screen_position test_context (test_vertex 3 (-1 / 2)))
        (screen_position test_context (test_vertex 3 (-3 / 5))) = 0 ∧
      test_context.polygon_mode_front = GL_FILL ∧ test_context.polygon_mode_back = GL_FILL ∧
      framebuffer_getpixel test_context.framebuffer 0 0 = 0 ∧
      (render_triangle test_platform.lm true test_draw_line test_context
          (test_vertex (-1) (11 / 20)) (test_vertex 3 (-1 / 2)) (test_vertex 3 (-3 / 5))).map
        (fun c => framebuffer_getpixel c.framebuffer 0 0) = some 0xFFFFFFFF) := by
  decide!

/-- A triangle whose vertices are inside a clip plane passes it unchanged. -/
theorem clip_plane_inside (v0 v1 v2 : vertex_t) (f : vec4_t → ℚ) (id : Nat)
    (h0 : f v0.position ≥ 0) (h1 : f v1.position ≥ 0) (h2 : f v2.position ≥ 0) :
    clip_polygon_plane_id [v0, v1, v2] f id = [v0, v1, v2] := by
  unfold clip_polygon_plane_id
  simp only [List.getLast?, List.getLast, List.foldl_cons, List.foldl_nil,
    clip_polygon_plane_step, h0, h1, h2, if_true, List.nil_append, List.cons_append,
    List.append_nil]

theorem clip_triangle_inside (v0 v1 v2 : vertex_t) (h0 : inside_clip_volume v0)
    (h1 : inside_clip_volume v1) (h2 : inside_clip_volume v2) :
    clip_triangle [v0, v1, v2] = [v0, v1, v2] := by
  obtain ⟨a0, a1, a2, a3, a4, a5⟩ := h0
  obtain ⟨b0, b1, b2, b3, b4, b5⟩ := h1
  obtain ⟨c0, c1, c2, c3, c4, c5⟩ := h2
  unfold clip_triangle
  simp only [clip_plane_inside v0 v1 v2 clip_near PLANE_NEAR a0 b0 c0,
    clip_plane_inside v0 v1 v2 clip_far PLANE_FAR a1 b1 c1,
    clip_plane_inside v0 v1 v2 clip_left PLANE_LEFT a2 b2 c2,
    clip_plane_inside v0 v1 v2 clip_right PLANE_RIGHT a3 b3 c3,
    clip_plane_inside v0 v1 v2 clip_bottom PLANE_BOTTOM a4 b4 c4,
    clip_plane_inside v0 v1 v2 clip_top PLANE_TOP a5 b5 c5]
  rfl

/-- The area `rasterize_triangle_smooth` computes is the opposite of the signed
area `render_triangle` computes. -/
theorem edge_function_signed_area (p0 p1 p2 : Int × Int) :
    edge_function p0.1 p0.2 p1.1 p1.2 p2.1 p2.2 = -screen_signed_area p0 p1 p2 := by
  unfold edge_function screen_signed_area
  push_cast
  ring

/-- A triangle of zero area leaves `rasterize_triangle_smooth` before its
loop. -/
theorem smooth_zero_area (lm : LibM) (alloc_ok : Bool) (c : GLState)
    (v0 v1 v2 : raster_vertex_t) (is_back_facing : Bool)
    (h : edge_function v0.x v0.y v1.x v1.y v2.x v2.y = 0) :
    rasterize_triangle_smooth lm alloc_ok c v0 v1 v2 is_back_facing = c := by
  unfold rasterize_triangle_smooth
  dsimp only
  rw [h]
  split_ifs with h1 h2
  · rfl
  · rfl
  · exact absurd (by norm_num : |(0 : ℚ)| < 1 / 2) h2

theorem render_fan_zero_area (lm : LibM) (alloc_ok : Bool) (draw_line_full : draw_line_t)
    (c : GLState) (a b d : vertex_t)
    (harea : screen_signed_area (ndc_to_screen c a.position.x a.position.y)
      (ndc_to_screen c b.position.x b.position.y) (ndc_to_screen c d.position.x d.position.y) = 0)
    (hmode : (if c.front_face = GL_CCW then c.polygon_mode_back else c.polygon_mode_front)
        ≠ GL_POINT ∧
      (if c.front_face = GL_CCW then c.polygon_mode_back else c.polygon_mode_front) ≠ GL_LINE) :
    render_triangle_fan lm alloc_ok draw_line_full c a b d = some c := by
  unfold render_triangle_fan
  dsimp only
  rw [harea]
  by_cases hc : should_cull c 0 = true
  · rw [if_pos hc]
  · rw [if_neg hc]
    have hface : (if (if c.front_face = GL_CCW then decide ((0 : ℚ) ≥ 0)
          else decide ((0 : ℚ) < 0)) = true
        then c.polygon_mode_back else c.polygon_mode_front)
        = (if c.front_face = GL_CCW then c.polygon_mode_back else c.polygon_mode_front) := by
      by_cases hf : c.front_face = GL_CCW
      · simp only [if_pos hf, ge_iff_le, le_refl, decide_True, if_true]
      · simp only [if_neg hf, lt_self_iff_false, decide_False, Bool.false_eq_true, if_false]
    rw [hface, if_neg hmode.1, if_neg hmode.2]
    congr 1
    apply smooth_zero_area
    have := edge_function_signed_area (ndc_to_screen c a.position.x a.position.y)
      (ndc_to_screen c b.position.x b.position.y) (ndc_to_screen c d.position.x d.position.y)
    rw [harea, neg_zero] at this
    exact this

/-- C19: a triangle inside the clip volume whose three screen vertices have
zero signed area leaves the context as it is, color, depth and stencil planes
included, when the polygon mode that applies to it (that of back faces when
the front face is `GL_CCW`, that of front faces otherwise) is neither
`GL_POINT` nor `GL_LINE`. -/
theorem degenerate_triangle_unwritten (lm : LibM) (alloc_ok : Bool)
    (draw_line_full : draw_line_t) (c : GLState) (v0 v1 v2 : vertex_t)
    (h0 : inside_clip_volume v0) (h1 : inside_clip_volume v1) (h2 : inside_clip_volume v2)
    (harea : screen_signed_area (screen_position c v0) (screen_position c v1)
      (screen_position c v2) = 0)
    (hmode : (if c.front_face = GL_CCW then c.polygon_mode_back else c.polygon_mode_front)
        ≠ GL_POINT ∧
      (if c.front_face = GL_CCW then c.polygon_mode_back else c.polygon_mode_front) ≠ GL_LINE) :
    render_triangle lm alloc_ok draw_line_full c v0 v1 v2 = some c ∧
    ∀ c1, render_triangle lm alloc_ok draw_line_full c v0 v1 v2 = some c1 →
      c1.framebuffer.color = c.framebuffer.color ∧ c1.framebuffer.depth = c.framebuffer.depth ∧
      c1.framebuffer.stencil = c.framebuffer.stencil := by
  have hr : render_triangle lm alloc_ok draw_line_full c v0 v1 v2 = some c := by
    unfold render_triangle
    dsimp only
    rw [clip_triangle_inside v0 v1 v2 h0 h1 h2]
    simp only [List.length_cons, List.length_nil, List.map_cons, List.map_nil]
    rw [if_neg (by decide)]
    have hr1 : List.range (1 + 1 - 1) = [0] := rfl
    rw [hr1]
    have := render_fan_zero_area lm alloc_ok draw_line_full c (perspective_divide v0).2
      (perspective_divide v1).2 (perspective_divide v2).2 harea hmode
    show (render_triangle_fan lm alloc_ok draw_line_full c (perspective_divide v0).2
      (perspective_divide v1).2 (perspective_divide v2).2).bind _ = some c
    rw [this]
    rfl
  refine ⟨hr, fun c1 h => ?_⟩
  rw [hr] at h
  cases h
  exact ⟨rfl, rfl, rfl⟩

theorem degenerate_triangle_unwritten_witness :
    render_triangle test_platform.lm true test_draw_line test_context
        (test_vertex (-1 / 2) 0) (test_vertex 0 0) (test_vertex (1 / 2) 0) = some test_context ∧
    ∀ c1, render_triangle test_platform.lm true test_draw_line test_context
        (test_vertex (-1 / 2) 0) (test_vertex 0 0) (test_vertex (1 / 2) 0) = some c1 →
      c1.framebuffer.color = test_context.framebuffer.color ∧
      c1.framebuffer.depth = test_context.framebuffer.depth ∧
      c1.framebuffer.stencil = test_context.framebuffer.stencil :=
  degenerate_triangle_unwritten test_platform.lm true test_draw_line test_context
    (test_vertex (-1 / 2) 0) (test_vertex 0 0) (test_vertex (1 / 2) 0)
    (by decide!) (by decide!) (by decide!) (by decide!) (by decide!)

/-! ## Stencil operations -/

/-- C29: the value `stencil_op` returns for each of the eight operations, for an
8-bit stencil value `s` and a reference `ref`. -/
theorem stencil_op_table (s : Nat) (ref : Int) (hs : s < 256) :
    stencil_op GL_KEEP s ref = s ∧
    stencil_op GL_ZERO s ref = 0 ∧
    stencil_op GL_REPLACE s ref = int_to_uint32 ref &&& 0xFF ∧
    stencil_op GL_INCR s ref = min (s + 1) 255 ∧
    ((stencil_op GL_DECR s ref : Nat) : Int) = max ((s : Int) - 1) 0 ∧
    stencil_op GL_INCR_WRAP s ref = (s + 1) % 256 ∧
    ((stencil_op GL_DECR_WRAP s ref : Nat) : Int) = ((s : Int) - 1) % 256 ∧
    stencil_op GL_INVERT s ref = 255 - s := by
  refine ⟨?_, ?_, ?_, ?_, ?_, ?_, ?_, ?_⟩
  · unfold stencil_op
    rw [if_pos rfl]
  · unfold stencil_op
    rw [if_neg (by decide), if_pos rfl]
  · unfold stencil_op
    rw [if_neg (by decide), if_neg (by decide), if_pos rfl, and_0xFF]
    unfold int_to_uint32
    omega
  · unfold stencil_op
    rw [if_neg (by decide), if_neg (by decide), if_neg (by decide), if_pos rfl]
    split_ifs <;> omega
  · unfold stencil_op
    rw [if_neg (by decide), if_neg (by decide), if_neg (by decide), if_neg (by decide),
      if_neg (by decide), if_pos rfl]
    split_ifs <;> omega
  · unfold stencil_op
    rw [if_neg (by decide), if_neg (by decide), if_neg (by decide), if_neg (by decide),
      if_pos rfl]
  · unfold stencil_op
    rw [if_neg (by decide), if_neg (by decide), if_neg (by decide), if_neg (by decide),
      if_neg (by decide), if_neg (by decide), if_pos rfl]
    omega
  · unfold stencil_op
    rw [if_neg (by decide), if_neg (by decide), if_neg (by decide), if_neg (by decide),
      if_neg (by decide), if_neg (by decide), if_neg (by decide), if_pos rfl]
    have h : 0xFF ^^^ s = 255 - s := by
      have hx : ∀ t : Fin 256, 0xFF ^^^ t.val = 255 - t.val := by decide!
      exact hx ⟨s, hs⟩
    rw [h]
    omega

theorem stencil_op_table_witness :
    stencil_op GL_KEEP 200 (-1) = 200 ∧
    stencil_op GL_ZERO 200 (-1) = 0 ∧
    stencil_op GL_REPLACE 200 (-1) = int_to_uint32 (-1) &&& 0xFF ∧
    stencil_op GL_INCR 200 (-1) = min (200 + 1) 255 ∧
    ((stencil_op GL_DECR 200 (-1) : Nat) : Int) = max (((200 : Nat) : Int) - 1) 0 ∧
    stencil_op GL_INCR_WRAP 200 (-1) = (200 + 1) % 256 ∧
    ((stencil_op GL_DECR_WRAP 200 (-1) : Nat) : Int) = (((200 : Nat) : Int) - 1) % 256 ∧
    stencil_op GL_INVERT 200 (-1) = 255 - 200 :=
  stencil_op_table 200 (-1) (by decide)

theorem write_stencil_planes (fb : framebuffer_t) (x y : Int) (v w : Nat) :
    (write_stencil_masked fb x y v w).color = fb.color ∧
    (write_stencil_masked fb x y v w).depth = fb.depth := by
  unfold write_stencil_masked framebuffer_putstencil
  dsimp only
  split_ifs <;> exact ⟨rfl, rfl⟩

theorem or_lt_256 (a b : Nat) (ha : a < 256) (hb : b < 256) : a ||| b < 256 :=
  Nat.or_lt_two_pow (n := 8) ha hb

/-- The value `write_stencil_masked` stores, with the mask taken as 8 bits. -/
theorem write_stencil_value (fb : framebuffer_t) (x y : Int) (v w : Nat)
    (hb : 0 ≤ x ∧ x < fb.width ∧ 0 ≤ y ∧ y < fb.height) :
    framebuffer_getstencil (write_stencil_masked fb x y v w) x y
      = (framebuffer_getstencil fb x y &&& (0xFF ^^^ (w &&& 0xFF))) ||| (v &&& (w &&& 0xFF)) := by
  unfold write_stencil_masked
  dsimp only
  rw [framebuffer_put_getstencil _ _ _ _ hb]
  have hm : (w &&& 0xFF) % 256 = w &&& 0xFF := by
    rw [and_0xFF]; omega
  rw [hm]
  have hm2 : w &&& 0xFF < 256 := by rw [and_0xFF]; omega
  have h1 : 0xFF ^^^ (w &&& 0xFF) < 256 := Nat.xor_lt_two_pow (n := 8) (by decide) hm2
  have h2 : framebuffer_getstencil fb x y &&& (0xFF ^^^ (w &&& 0xFF)) < 256 :=
    lt_of_le_of_lt Nat.and_le_right h1
  have h3 : v &&& (w &&& 0xFF) < 256 := lt_of_le_of_lt Nat.and_le_right hm2
  exact Nat.mod_eq_of_lt (or_lt_256 _ _ h2 h3)

/-- With a write mask whose low 8 bits are zero, `write_stencil_masked` leaves a
stencil plane of bytes as it is. -/
theorem write_stencil_zero_mask (fb : framebuffer_t) (x y : Int) (v w : Nat)
    (hbyte : ∀ i, fb.stencil i < 256) (hw : w &&& 0xFF = 0) :
    (write_stencil_masked fb x y v w).stencil = fb.stencil := by
  unfold write_stencil_masked framebuffer_putstencil framebuffer_getstencil
  dsimp only
  by_cases hb : x < 0 ∨ x ≥ fb.width ∨ y < 0 ∨ y ≥ fb.height
  · rw [if_pos hb]
  · rw [if_neg hb, if_neg hb, hw]
    show Function.update fb.stencil (fb_index fb x y) _ = fb.stencil
    have hv : ((fb.stencil (fb_index fb x y) &&& (0xFF ^^^ 0 % 256)) ||| (v &&& 0 % 256)) % 256
        = fb.stencil (fb_index fb x y) := by
      rw [show (0 % 256 : Nat) = 0 from rfl, Nat.and_zero, Nat.or_zero,
        show (0xFF ^^^ 0 : Nat) = 0xFF from rfl, and_0xFF, Nat.mod_mod]
      exact Nat.mod_eq_of_lt (hbyte _)
    rw [hv]
    exact Function.update_eq_self _ _

theorem putdepth_stencil (fb : framebuffer_t) (x y : Int) (d : ℚ) :
    (framebuffer_putdepth fb x y d).stencil = fb.stencil := by
  unfold framebuffer_putdepth
  split_ifs <;> rfl

theorem write_pixel_stencil (c : GLState) (x y : Int) (col : color_t) :
    (write_pixel_masked c x y col).stencil = c.framebuffer.stencil := by
  have hp : ∀ p, (framebuffer_putpixel c.framebuffer x y p).stencil = c.framebuffer.stencil := by
    intro p
    unfold framebuffer_putpixel
    split_ifs <;> rfl
  unfold write_pixel_masked
  dsimp only
  by_cases h1 : c.color_mask_r = true ∧ c.color_mask_g = true ∧ c.color_mask_b = true ∧
      c.color_mask_a = true
  · rw [if_pos h1]; exact hp _
  · rw [if_neg h1]
    by_cases h2 : ¬c.color_mask_r = true ∧ ¬c.color_mask_g = true ∧ ¬c.color_mask_b = true ∧
        ¬c.color_mask_a = true
    · rw [if_pos h2]
    · rw [if_neg h2]; exact hp _

/-- With a write mask whose low 8 bits are zero, the body of the pixel loop of
`rasterize_triangle_smooth` leaves a stencil plane of bytes as it is. -/
theorem smooth_pixel_zero_mask (c : GLState) (x y : Int) (depth : ℚ) (sh : shaded_t)
    (hbyte : ∀ i, c.framebuffer.stencil i < 256) (hw : c.stencil_writemask &&& 0xFF = 0) :
    (rasterize_triangle_smooth_pixel c x y depth sh).stencil = c.framebuffer.stencil := by
  have hws := fun (v : Nat) =>
    write_stencil_zero_mask c.framebuffer x y v c.stencil_writemask hbyte hw
  have hst : ∀ (S : Prop) [Decidable S] (v : Nat),
      (if S then write_stencil_masked c.framebuffer x y v c.stencil_writemask
        else c.framebuffer).stencil = c.framebuffer.stencil := by
    intro S _ v
    by_cases h : S
    · rw [if_pos h]; exact hws v
    · rw [if_neg h]
  have hite : ∀ (C : Prop) [Decidable C] (a b : framebuffer_t),
      a.stencil = c.framebuffer.stencil → b.stencil = c.framebuffer.stencil →
      (if C then a else b).stencil = c.framebuffer.stencil := by
    intro C _ a b ha hb
    split_ifs <;> assumption
  unfold rasterize_triangle_smooth_pixel
  dsimp only
  refine hite _ _ _ (hws _) ?_
  refine hite _ _ _ (hst _ _) ?_
  refine hite _ _ _ (hst _ _) ?_
  rw [write_pixel_stencil]
  show (if _ then _ else _ : framebuffer_t).stencil = _
  refine hite _ _ _ ?_ (hst _ _)
  rw [putdepth_stencil]
  exact hst _ _

/-- C30: a fragment that fails the stencil test leaves the color and depth planes
as they are and stores `(old & ~m) | (op_fail(old) & m)` in the stencil plane,
`m` the low 8 bits of the stencil write mask; a fragment that passes the stencil
test and fails the depth test does the same with the depth-fail op; with
`m = 0` the stencil plane does not change, whatever happens to the fragment. -/
theorem rejected_fragment_effect (c : GLState) (x y : Int) (depth : ℚ) (sh : shaded_t)
    (hb : 0 ≤ x ∧ x < c.framebuffer.width ∧ 0 ≤ y ∧ y < c.framebuffer.height)
    (hbyte : ∀ i, c.framebuffer.stencil i < 256) :
    (c.flags &&& FLAG_STENCIL_TEST ≠ 0 →
      stencil_test c.stencil_func c.stencil_ref c.stencil_mask
        (framebuffer_getstencil c.framebuffer x y) = false →
      (rasterize_triangle_smooth_pixel c x y depth sh).color = c.framebuffer.color ∧
      (rasterize_triangle_smooth_pixel c x y depth sh).depth = c.framebuffer.depth ∧
      framebuffer_getstencil (rasterize_triangle_smooth_pixel c x y depth sh) x y
        = (framebuffer_getstencil c.framebuffer x y &&& (0xFF ^^^ (c.stencil_writemask &&& 0xFF)))
          ||| (stencil_op c.stencil_fail (framebuffer_getstencil c.framebuffer x y) c.stencil_ref
            &&& (c.stencil_writemask &&& 0xFF))) ∧
    (c.flags &&& FLAG_STENCIL_TEST ≠ 0 →
      stencil_test c.stencil_func c.stencil_ref c.stencil_mask
        (framebuffer_getstencil c.framebuffer x y) = true →
      c.flags &&& FLAG_DEPTH_TEST ≠ 0 →
      depth_test c.depth_func depth (framebuffer_getdepth c.framebuffer x y) = false →
      (rasterize_triangle_smooth_pixel c x y depth sh).color = c.framebuffer.color ∧
      (rasterize_triangle_smooth_pixel c x y depth sh).depth = c.framebuffer.depth ∧
      framebuffer_getstencil (rasterize_triangle_smooth_pixel c x y depth sh) x y
        = (framebuffer_getstencil c.framebuffer x y &&& (0xFF ^^^ (c.stencil_writemask &&& 0xFF)))
          ||| (stencil_op c.stencil_zfail (framebuffer_getstencil c.framebuffer x y) c.stencil_ref
            &&& (c.stencil_writemask &&& 0xFF))) ∧
    (c.stencil_writemask &&& 0xFF = 0 →
      (rasterize_triangle_smooth_pixel c x y depth sh).stencil = c.framebuffer.stencil) := by
  refine ⟨fun hS hfail => ?_, fun hS hpass hD hdfail => ?_,
    fun hw => smooth_pixel_zero_mask c x y depth sh hbyte hw⟩
  · have hR : rasterize_triangle_smooth_pixel c x y depth sh
        = write_stencil_masked c.framebuffer x y
            (stencil_op c.stencil_fail (framebuffer_getstencil c.framebuffer x y) c.stencil_ref)
            c.stencil_writemask := by
      unfold rasterize_triangle_smooth_pixel
      dsimp only
      rw [if_pos hS, if_pos ⟨hS, by rw [hfail]; decide⟩]
    rw [hR]
    exact ⟨(write_stencil_planes _ _ _ _ _).1, (write_stencil_planes _ _ _ _ _).2,
      write_stencil_value _ _ _ _ _ hb⟩
  · have hR : rasterize_triangle_smooth_pixel c x y depth sh
        = write_stencil_masked c.framebuffer x y
            (stencil_op c.stencil_zfail (framebuffer_getstencil c.framebuffer x y) c.stencil_ref)
            c.stencil_writemask := by
      unfold rasterize_triangle_smooth_pixel
      dsimp only
      rw [if_pos hS, if_neg (by rw [hpass]; simp), if_pos ⟨hD, by rw [hdfail]; decide⟩,
        if_pos hS]
    rw [hR]
    exact ⟨(write_stencil_planes _ _ _ _ _).1, (write_stencil_planes _ _ _ _ _).2,
      write_stencil_value _ _ _ _ _ hb⟩

theorem rejected_fragment_effect_witness :
    ((rasterize_triangle_smooth_pixel stencil_fail_context 1 1 (1 / 2) test_shaded).color
        = stencil_fail_context.framebuffer.color ∧
      (rasterize_triangle_smooth_pixel stencil_fail_context 1 1 (1 / 2) test_shaded).depth
        = stencil_fail_context.framebuffer.depth ∧
      framebuffer_getstencil
          (rasterize_triangle_smooth_pixel stencil_fail_context 1 1 (1 / 2) test_shaded) 1 1
        = (framebuffer_getstencil stencil_fail_context.framebuffer 1 1
            &&& (0xFF ^^^ (stencil_fail_context.stencil_writemask &&& 0xFF)))
          ||| (stencil_op stencil_fail_context.stencil_fail
              (framebuffer_getstencil stencil_fail_context.framebuffer 1 1)
              stencil_fail_context.stencil_ref
            &&& (stencil_fail_context.stencil_writemask &&& 0xFF))) ∧
    ((rasterize_triangle_smooth_pixel depth_fail_context 1 1 (1 / 2) test_shaded).color
        = depth_fail_context.framebuffer.color ∧
      (rasterize_triangle_smooth_pixel depth_fail_context 1 1 (1 / 2) test_shaded).depth
        = depth_fail_context.framebuffer.depth ∧
      framebuffer_getstencil
          (rasterize_triangle_smooth_pixel depth_fail_context 1 1 (1 / 2) test_shaded) 1 1
        = (framebuffer_getstencil depth_fail_context.framebuffer 1 1
            &&& (0xFF ^^^ (depth_fail_context.stencil_writemask &&& 0xFF)))
          ||| (stencil_op depth_fail_context.stencil_zfail
              (framebuffer_getstencil depth_fail_context.framebuffer 1 1)
              depth_fail_context.stencil_ref
            &&& (depth_fail_context.stencil_writemask &&& 0xFF))) ∧
    (rasterize_triangle_smooth_pixel stencil_masked_context 1 1 (1 / 2) test_shaded).stencil
      = stencil_masked_context.framebuffer.stencil ∧
    framebuffer_getstencil
      (rasterize_triangle_smooth_pixel stencil_fail_context 1 1 (1 / 2) test_shaded) 1 1 = 1 ∧
    framebuffer_getstencil
      (rasterize_triangle_smooth_pixel depth_fail_context 1 1 (1 / 2) test_shaded) 1 1 = 15 :=
  ⟨(rejected_fragment_effect stencil_fail_context 1 1 (1 / 2) test_shaded (by decide)
      (fun _ => show (0 : Nat) < 256 from by decide)).1 (by decide) (by decide!),
    (rejected_fragment_effect depth_fail_context 1 1 (1 / 2) test_shaded (by decide)
      (fun _ => show (0 : Nat) < 256 from by decide)).2.1 (by decide) (by decide!) (by decide) (by decide!),
    (rejected_fragment_effect stencil_masked_context 1 1 (1 / 2) test_shaded (by decide)
      (fun _ => show (0 : Nat) < 256 from by decide)).2.2 (by decide),
    by decide!, by decide!⟩

/-! ## Lighting -/

theorem lighting_light_disabled (lm : LibM) (c : GLState) (eye_pos N : vec3_t) (mat : material_t)
    (result : color_t) (i : Nat) (h : (c.lights i).enabled = false) :
    compute_lighting_light lm c eye_pos N mat result i = result := by
  unfold compute_lighting_light
  rw [h]
  rfl

/-- With the default directional light 0 enabled and a material of diffuse
alpha 1/2, `compute_lighting` returns alpha 1: the ambient and diffuse terms of
the light are added to all four channels. -/
theorem lighting_alpha_accumulates (lm : LibM) :
    (compute_lighting lm lit_test_context ⟨0, 0, 0⟩ ⟨0, 0, 1⟩ half_alpha_material).a = 1 ∧
    clamp01 half_alpha_material.diffuse.a = 1 / 2 := by
  constructor
  · have hoff : ∀ i, i ≠ 0 → (lit_test_context.lights i).enabled = false := by
      intro i hi
      show (Function.update test_context.lights 0 _ i).enabled = false
      rw [Function.update_noteq hi]
      rfl
    have hl0 : lit_test_context.lights 0 = { light_init 0 with enabled := true } := by
      show Function.update test_context.lights 0 _ 0 = _
      rw [Function.update_same]
      rfl
    unfold compute_lighting
    have hr : List.range MAX_LIGHTS = [0, 1, 2, 3, 4, 5, 6, 7] := rfl
    rw [hr]
    simp only [List.foldl_cons, List.foldl_nil]
    rw [lighting_light_disabled _ _ _ _ _ _ 7 (hoff 7 (by decide)),
      lighting_light_disabled _ _ _ _ _ _ 6 (hoff 6 (by decide)),
      lighting_light_disabled _ _ _ _ _ _ 5 (hoff 5 (by decide)),
      lighting_light_disabled _ _ _ _ _ _ 4 (hoff 4 (by decide)),
      lighting_light_disabled _ _ _ _ _ _ 3 (hoff 3 (by decide)),
      lighting_light_disabled _ _ _ _ _ _ 2 (hoff 2 (by decide)),
      lighting_light_disabled _ _ _ _ _ _ 1 (hoff 1 (by decide))]
    unfold compute_lighting_light
    rw [hl0]
    simp only [light_direction, light_init, vec4, half_alpha_material, material_init, color,
      color_add, color_scale, color_mul, color_clamp, if_true, Bool.not_true,
      Bool.false_eq_true, if_false]
    have hc : ∀ v : ℚ, 1 ≤ v → clamp01 v = 1 := by
      intro v hv
      unfold clamp01
      rw [if_neg (by linarith)]
      split_ifs with h
      · rfl
      · linarith
    split_ifs with h1 h2 h3 <;> apply hc <;> norm_num <;> nlinarith
  · unfold clamp01 half_alpha_material color
    norm_num

/-- With no light enabled `compute_lighting` returns the clamped sum of the
emission and the product of the material ambient and the light-model ambient,
with the clamped diffuse alpha of the material. -/
theorem lighting_no_lights (lm : LibM) (c : GLState) (eye_pos eye_normal : vec3_t)
    (mat : material_t) (h : ∀ i, (c.lights i).enabled = false) :
    compute_lighting lm c eye_pos eye_normal mat
      = color_clamp { color_add mat.emission (color_mul mat.ambient c.light_model_ambient) with
          a := mat.diffuse.a } := by
  unfold compute_lighting
  dsimp only
  congr 1
  generalize List.range MAX_LIGHTS = l
  induction l with
  | nil => rfl
  | cons a l ih => rw [List.foldl_cons, lighting_light_disabled _ _ _ _ _ _ a (h a), ih]

/-! ## Current color -/

theorem clamp_unit_range (v : ℚ) : 0 ≤ clamp_unit v ∧ clamp_unit v ≤ 1 := by
  unfold clamp_unit
  split_ifs <;> constructor <;> linarith

theorem clamp_unit_eq (v : ℚ) : clamp_unit v = max 0 (min 1 v) := by
  unfold clamp_unit
  split_ifs with h1 h2
  · rw [min_eq_right (by linarith), max_eq_left (by linarith)]
  · rw [min_eq_left (by linarith), max_eq_right (by linarith)]
  · rw [min_eq_right (by linarith), max_eq_right (by linarith)]

/-- A recordable entry point that sets the current color leaves it as it was
(the call is compiled into a list) or sets it. -/
theorem unless_recorded_color (c : GLState) (cmd : list_command_t) (v : color_t) :
    ((unless_recorded (list_record c cmd) fun c => { c with current_color := v }).current_color
        = c.current_color ∨
      (unless_recorded (list_record c cmd) fun c => { c with current_color := v }).current_color
        = v) ∧
    (unless_recorded (list_record c cmd) fun c => { c with current_color := v }).list_index
      = c.list_index := by
  have hrec : (list_record c cmd).1.current_color = c.current_color ∧
      (list_record c cmd).1.list_index = c.list_index := by
    unfold list_record record_cmd
    by_cases h : c.list_index = 0
    · simp only [if_pos h, and_self]
    · simp only [if_neg h]
      cases list_get c.lists c.list_index <;> exact ⟨rfl, rfl⟩
  unfold unless_recorded
  by_cases h : (list_record c cmd).2 = true
  · rw [if_pos h]
    exact ⟨Or.inl hrec.1, hrec.2⟩
  · rw [if_neg h]
    exact ⟨Or.inr rfl, hrec.2⟩

theorem byte_color_range (n : Nat) :
    0 ≤ ((n % 256 : Nat) : ℚ) / 255 ∧ ((n % 256 : Nat) : ℚ) / 255 ≤ 1 := by
  have h := clamp_unit_range (((n % 256 : Nat) : ℚ) / 255)
  rw [clamp_unit_byte] at h
  exact h

/-- Every `glColor*` call keeps the list index and leaves the current color as
it was or stores a normalized color. -/
theorem color_call_step (k : color_call) (c : GLState) :
    ((k.run c).current_color = c.current_color ∨ color_normalized (k.run c).current_color) ∧
    (k.run c).list_index = c.list_index ∧
    (c.list_index = 0 → color_normalized (k.run c).current_color) := by
  have key : ∀ (cmd : list_command_t) (v : color_t), color_normalized v →
      (((unless_recorded (list_record c cmd) fun c => { c with current_color := v }).current_color
        = c.current_color ∨ color_normalized
          (unless_recorded (list_record c cmd) fun c => { c with current_color := v }).current_color)
      ∧ (unless_recorded (list_record c cmd) fun c => { c with current_color := v }).list_index
        = c.list_index
      ∧ (c.list_index = 0 → color_normalized
          (unless_recorded (list_record c cmd) fun c => { c with current_color := v }).current_color))
      := by
    intro cmd v hv
    obtain ⟨h1, h2⟩ := unless_recorded_color c cmd v
    refine ⟨?_, h2, fun h0 => ?_⟩
    · rcases h1 with h | h
      · exact Or.inl h
      · exact Or.inr (by rw [h]; exact hv)
    · rw [unless_recorded_idle _ _ _ h0]
      exact hv
  cases k with
  | glColor3f r g b =>
    show (_ ∨ color_normalized (glColor3f_float c r g b).current_color) ∧ _
    unfold glColor3f_float
    dsimp only
    rw [glColor3f_eq]
    exact key _ _ ⟨(clamp_unit_range _).1, (clamp_unit_range _).2, (clamp_unit_range _).1,
      (clamp_unit_range _).2, (clamp_unit_range _).1, (clamp_unit_range _).2,
      by norm_num [color], by norm_num [color]⟩
  | glColor4f r g b a =>
    show (_ ∨ color_normalized (glColor4f_float c r g b a).current_color) ∧ _
    unfold glColor4f_float
    dsimp only
    rw [glColor4f_eq]
    exact key _ _ ⟨(clamp_unit_range _).1, (clamp_unit_range _).2, (clamp_unit_range _).1,
      (clamp_unit_range _).2, (clamp_unit_range _).1, (clamp_unit_range _).2,
      (clamp_unit_range _).1, (clamp_unit_range _).2⟩
  | glColor3ub r g b =>
    show (_ ∨ color_normalized (MyTinyGL.glColor3ub c r g b).current_color) ∧ _
    rw [glColor3ub_eq]
    exact key _ _ ⟨(byte_color_range _).1, (byte_color_range _).2, (byte_color_range _).1,
      (byte_color_range _).2, (byte_color_range _).1, (byte_color_range _).2,
      by norm_num [color], by norm_num [color]⟩
  | glColor4ub r g b a =>
    show (_ ∨ color_normalized (MyTinyGL.glColor4ub c r g b a).current_color) ∧ _
    rw [glColor4ub_eq]
    exact key _ _ ⟨(byte_color_range _).1, (byte_color_range _).2, (byte_color_range _).1,
      (byte_color_range _).2, (byte_color_range _).1, (byte_color_range _).2,
      (byte_color_range _).1, (byte_color_range _).2⟩

theorem color_calls_normalized (calls : List color_call) :
    ∀ c : GLState, color_normalized c.current_color →
      color_normalized (calls.foldl (fun c k => k.run c) c).current_color := by
  induction calls with
  | nil => intro c h; exact h
  | cons k l ih =>
    intro c h
    rw [List.foldl_cons]
    apply ih
    rcases (color_call_step k c).1 with e | e
    · rw [e]; exact h
    · exact e

/-- C24: with no list being recorded, `glColor3f` and `glColor4f` store every
component clamped to `[0, 1]`, `glColor3f` with alpha 1; a non-finite `r`, `g`
or `b` is stored as 0 and a non-finite alpha as 1; and after a sequence of
`glColor*` calls the current color is normalized (in any context whose current
color was normalized before, as that of a new context is). -/
theorem current_color_normalized (c : GLState) (hidx : c.list_index = 0) :
    (∀ r g b : ℚ, (glColor3f c r g b).current_color
      = color (max 0 (min 1 r)) (max 0 (min 1 g)) (max 0 (min 1 b)) 1) ∧
    (∀ r g b a : ℚ, (glColor4f c r g b a).current_color
      = color (max 0 (min 1 r)) (max 0 (min 1 g)) (max 0 (min 1 b)) (max 0 (min 1 a))) ∧
    (glColor3f c 2 (-1) (1 / 2)).current_color = color 1 0 (1 / 2) 1 ∧
    (∀ r g b : float_t,
      (is_valid_float_t r = false → (glColor3f_float c r g b).current_color.r = 0) ∧
      (is_valid_float_t g = false → (glColor3f_float c r g b).current_color.g = 0) ∧
      (is_valid_float_t b = false → (glColor3f_float c r g b).current_color.b = 0) ∧
      (glColor3f_float c r g b).current_color.a = 1) ∧
    (∀ r g b a : float_t,
      (is_valid_float_t r = false → (glColor4f_float c r g b a).current_color.r = 0) ∧
      (is_valid_float_t g = false → (glColor4f_float c r g b a).current_color.g = 0) ∧
      (is_valid_float_t b = false → (glColor4f_float c r g b a).current_color.b = 0) ∧
      (is_valid_float_t a = false → (glColor4f_float c r g b a).current_color.a = 1)) ∧
    (∀ r g b a : ℚ, glColor3f_float c (.finite r) (.finite g) (.finite b) = glColor3f c r g b ∧
      glColor4f_float c (.finite r) (.finite g) (.finite b) (.finite a) = glColor4f c r g b a) ∧
    (∀ calls : List color_call, calls ≠ [] →
      color_normalized (calls.foldl (fun c k => k.run c) c).current_color) ∧
    (∀ (c0 : GLState) (calls : List color_call), color_normalized c0.current_color →
      color_normalized (calls.foldl (fun c k => k.run c) c0).current_color) := by
  have h3 : ∀ r g b : ℚ, (glColor3f c r g b).current_color
      = color (clamp_unit r) (clamp_unit g) (clamp_unit b) 1 := by
    intro r g b
    rw [glColor3f_eq, unless_recorded_idle _ _ _ hidx]
  have h4 : ∀ r g b a : ℚ, (glColor4f c r g b a).current_color
      = color (clamp_unit r) (clamp_unit g) (clamp_unit b) (clamp_unit a) := by
    intro r g b a
    rw [glColor4f_eq, unless_recorded_idle _ _ _ hidx]
  have hz : clamp_unit 0 = 0 := by unfold clamp_unit; norm_num
  refine ⟨fun r g b => ?_, fun r g b a => ?_, ?_, fun r g b => ⟨fun h => ?_, fun h => ?_,
    fun h => ?_, ?_⟩, fun r g b a => ⟨fun h => ?_, fun h => ?_, fun h => ?_, fun h => ?_⟩,
    fun r g b a => ⟨rfl, rfl⟩, fun calls hne => ?_, fun c0 calls h0 =>
      color_calls_normalized calls c0 h0⟩
  · rw [h3, clamp_unit_eq, clamp_unit_eq, clamp_unit_eq]
  · rw [h4, clamp_unit_eq, clamp_unit_eq, clamp_unit_eq, clamp_unit_eq]
  · rw [h3]
    unfold clamp_unit
    norm_num
  · unfold glColor3f_float
    dsimp only
    rw [h3, h]
    exact hz
  · unfold glColor3f_float
    dsimp only
    rw [h3, h]
    exact hz
  · unfold glColor3f_float
    dsimp only
    rw [h3, h]
    exact hz
  · unfold glColor3f_float
    dsimp only
    rw [h3]
    rfl
  · unfold glColor4f_float
    dsimp only
    rw [h4, h]
    exact hz
  · unfold glColor4f_float
    dsimp only
    rw [h4, h]
    exact hz
  · unfold glColor4f_float
    dsimp only
    rw [h4, h]
    exact hz
  · unfold glColor4f_float
    dsimp only
    rw [h4, h]
    exact clamp_unit_one
  · cases calls with
    | nil => exact absurd rfl hne
    | cons k l =>
      rw [List.foldl_cons]
      exact color_calls_normalized l _ ((color_call_step k c).2.2 hidx)

theorem current_color_normalized_witness :
    (glColor3f test_context 2 (-1) (1 / 2)).current_color = color 1 0 (1 / 2) 1 ∧
    (glColor4f_float test_context .nan .pos_inf .neg_inf .nan).current_color = color 0 0 0 1 ∧
    color_normalized ([color_call.glColor3ub 255 0 7, color_call.glColor4f .nan (.finite 3)
      (.finite (-2)) .pos_inf].foldl (fun c k => k.run c) test_context).current_color :=
  ⟨(current_color_normalized test_context (by decide)).2.2.1,
    by
      have h := (current_color_normalized test_context (by decide)).2.2.2.2.1
        .nan .pos_inf .neg_inf .nan
      have e : ∀ col : color_t, col.r = 0 → col.g = 0 → col.b = 0 → col.a = 1 →
          col = color 0 0 0 1 := by
        intro col h1 h2 h3 h4
        cases col
        simp only [color] at *
        subst h1 h2 h3 h4
        rfl
      exact e _ (h.1 rfl) (h.2.1 rfl) (h.2.2.1 rfl) (h.2.2.2 rfl),
    (current_color_normalized test_context (by decide)).2.2.2.2.2.2.1 _ (by simp)⟩

/-! ## Calls inside a begin/end bracket -/

theorem cap_flag_keeps_inside (cap : Nat) :
    FLAG_INSIDE_BEGIN_END &&& bit_not32 (cap_to_flag cap) = FLAG_INSIDE_BEGIN_END := by
  by_cases hc : flag_cap cap
  · rw [Nat.and_comm]
    exact (flag_cap_bit cap hc).2.2.2
  · have h0 : cap_to_flag cap = 0 := by
      unfold flag_cap at hc
      simp only [not_or] at hc
      obtain ⟨h1, h2, h3, h4, h5, h6, h7, h8, h9, h10, h11⟩ := hc
      unfold cap_to_flag
      rw [if_neg h1, if_neg h2, if_neg h3, if_neg h4, if_neg h5, if_neg h6, if_neg h7,
        if_neg h8, if_neg h9, if_neg h10, if_neg h11]
    rw [h0]
    decide

/-- The invariant is not vacuous: the operations `mip_test_ops` leave the
half-resolution level present, with the average of the four base texels. -/
theorem mip_test_ops_level :
    (texture_ops_run mip_test_ops (texture_init_slot repeat_test_texture)).mip1_pixels
      = some [0xFF0F0F0F] := by
  decide!

theorem clip_step_emitted (f : vec4_t → ℚ) (id : Nat) (st : List vertex_t × vertex_t × ℚ)
    (curr : vertex_t) :
    clip_polygon_plane_step f id st curr
      = (st.1 ++ clip_emitted f id st.2.1 st.2.2 curr, curr, f curr.position) := by
  unfold clip_polygon_plane_step clip_emitted
  dsimp only
  split_ifs <;> simp

theorem clip_planes_linear : ∀ pl ∈ clip_planes, plane_linear pl.1 := by
  intro pl hpl
  simp only [clip_planes, List.mem_cons, List.mem_singleton, List.not_mem_nil, or_false] at hpl
  rcases hpl with rfl | rfl | rfl | rfl | rfl | rfl <;> intro a b t <;>
    simp only [clip_near, clip_far, clip_left, clip_right, clip_bottom, clip_top, vec4_lerp] <;>
    ring

theorem snap_on_plane : ∀ pl ∈ clip_planes, ∀ v : vertex_t, pl.1 v.position = 0 →
    snap_to_plane v pl.2 = v := by
  intro pl hpl
  simp only [clip_planes, List.mem_cons, List.mem_singleton, List.not_mem_nil, or_false] at hpl
  rcases hpl with rfl | rfl | rfl | rfl | rfl | rfl <;> intro v h <;>
    obtain ⟨⟨x, y, z, w⟩, c, tc, n, ez, ep, en⟩ := v <;>
    simp only [clip_near, clip_far, clip_left, clip_right, clip_bottom, clip_top] at h <;>
    simp only [snap_to_plane, PLANE_NEAR, PLANE_FAR, PLANE_LEFT, PLANE_RIGHT, PLANE_BOTTOM,
      PLANE_TOP] <;>
    simp <;> linarith

theorem crossing_parameter (pd cd : ℚ) (h : (pd ≥ 0 ∧ cd < 0) ∨ (pd < 0 ∧ cd ≥ 0)) :
    0 ≤ pd / (pd - cd) ∧ pd / (pd - cd) ≤ 1 ∧ pd + pd / (pd - cd) * (cd - pd) = 0 := by
  rcases h with ⟨h1, h2⟩ | ⟨h1, h2⟩
  · have hd : 0 < pd - cd := by linarith
    refine ⟨div_nonneg h1 (le_of_lt hd), ?_, ?_⟩
    · rw [div_le_one hd]; linarith
    · field_simp
      ring
  · have hd : 0 < cd - pd := by linarith
    have e : pd / (pd - cd) = (-pd) / (cd - pd) := by
      rw [← neg_div_neg_eq]
      congr 1
      ring
    have hne : pd - cd ≠ 0 := by linarith
    refine ⟨?_, ?_, ?_⟩
    · rw [e]; exact div_nonneg (by linarith) (le_of_lt hd)
    · rw [e, div_le_one hd]; linarith
    · field_simp
      ring

theorem clip_emitted_cases (f : vec4_t → ℚ) (id : Nat) (hlin : plane_linear f)
    (hsnap : ∀ v : vertex_t, f v.position = 0 → snap_to_plane v id = v)
    (prev curr : vertex_t) :
    ∀ v ∈ clip_emitted f id prev (f prev.position) curr,
      (v = curr ∧ f curr.position ≥ 0) ∨
      (∃ t : ℚ, 0 ≤ t ∧ t ≤ 1 ∧
        t = f prev.position / (f prev.position - f curr.position) ∧
        v = snap_to_plane (vertex_lerp prev curr t) id ∧ v = vertex_lerp prev curr t ∧
        f v.position = 0) := by
  have hcross : (f prev.position ≥ 0 ∧ f curr.position < 0) ∨
      (f prev.position < 0 ∧ f curr.position ≥ 0) →
      ∀ v, v = snap_to_plane (vertex_lerp prev curr
          (f prev.position / (f prev.position - f curr.position))) id →
        ∃ t : ℚ, 0 ≤ t ∧ t ≤ 1 ∧
          t = f prev.position / (f prev.position - f curr.position) ∧
          v = snap_to_plane (vertex_lerp prev curr t) id ∧ v = vertex_lerp prev curr t ∧
          f v.position = 0 := by
    intro hc v hv
    obtain ⟨t0, t1, tz⟩ := crossing_parameter _ _ hc
    have hz : f (vertex_lerp prev curr
        (f prev.position / (f prev.position - f curr.position))).position = 0 := by
      show f (vec4_lerp prev.position curr.position _) = 0
      rw [hlin]
      exact tz
    have hs := hsnap _ hz
    refine ⟨_, t0, t1, rfl, hv, ?_, ?_⟩
    · rw [hv, hs]
    · rw [hv, hs, hz]
  intro v hv
  unfold clip_emitted at hv
  dsimp only at hv
  by_cases hp : f prev.position ≥ 0
  · rw [if_pos hp] at hv
    by_cases hq : f curr.position ≥ 0
    · rw [if_pos hq] at hv
      exact Or.inl ⟨List.mem_singleton.mp hv, hq⟩
    · rw [if_neg hq] at hv
      split_ifs at hv
      · exact Or.inr (hcross (Or.inl ⟨hp, not_le.mp hq⟩) v (List.mem_singleton.mp hv))
      · exact absurd hv (List.not_mem_nil v)
  · rw [if_neg hp] at hv
    by_cases hq : f curr.position ≥ 0
    · rw [if_pos hq] at hv
      rcases List.mem_append.mp hv with h | h
      · split_ifs at h
        · exact Or.inr (hcross (Or.inr ⟨not_le.mp hp, hq⟩) v (List.mem_singleton.mp h))
        · exact absurd h (List.not_mem_nil v)
      · exact Or.inl ⟨List.mem_singleton.mp h, hq⟩
    · rw [if_neg hq] at hv
      exact absurd hv (List.not_mem_nil v)

theorem clip_fold_provenance (f : vec4_t → ℚ) (id : Nat) (hlin : plane_linear f)
    (hsnap : ∀ v : vertex_t, f v.position = 0 → snap_to_plane v id = v)
    (inp : List vertex_t) :
    ∀ (l out : List vertex_t) (prev : vertex_t), (∀ v ∈ l, v ∈ inp) → prev ∈ inp →
      (∀ v ∈ out, clip_provenance f id inp v) →
      ∀ v ∈ (l.foldl (clip_polygon_plane_step f id) (out, prev, f prev.position)).1,
        clip_provenance f id inp v := by
  intro l
  induction l with
  | nil => intro out prev _ _ hout v hv; exact hout v hv
  | cons curr l ih =>
    intro out prev hl hprev hout
    rw [List.foldl_cons, clip_step_emitted]
    apply ih _ curr (fun v hv => hl v (List.mem_cons_of_mem _ hv)) (hl curr (List.mem_cons_self _ _))
    intro v hv
    rcases List.mem_append.mp hv with h | h
    · exact hout v h
    · rcases clip_emitted_cases f id hlin hsnap prev curr v h with ⟨rfl, h2⟩ | ⟨t, t0, t1, te, e1, e2, e3⟩
      · exact Or.inl ⟨hl _ (List.mem_cons_self _ _), h2⟩
      · exact Or.inr ⟨prev, hprev, curr, hl curr (List.mem_cons_self _ _), t, t0, t1, te, e1,
          e2, e3⟩

/-- Every vertex a plane pass writes is a vertex of its input inside the plane
or the intersection of an input edge with the plane. -/
theorem clip_pass_provenance (f : vec4_t → ℚ) (id : Nat) (hpl : (f, id) ∈ clip_planes)
    (inp : List vertex_t) :
    ∀ v ∈ clip_polygon_plane_id inp f id, clip_provenance f id inp v := by
  unfold clip_polygon_plane_id
  cases hlast : inp.getLast? with
  | none => intro v hv; exact absurd hv (List.not_mem_nil v)
  | some prev =>
    exact clip_fold_provenance f id (clip_planes_linear _ hpl) (snap_on_plane _ hpl) inp inp []
      prev (fun v hv => hv) (List.mem_of_getLast?_eq_some hlast)
      (fun v hv => absurd hv (List.not_mem_nil v))

/-- A plane pass keeps every half-space condition its whole input satisfies,
and its output satisfies the condition of the plane. -/
theorem clip_pass_inside (f : vec4_t → ℚ) (id : Nat) (hpl : (f, id) ∈ clip_planes)
    (inp : List vertex_t) :
    (∀ v ∈ clip_polygon_plane_id inp f id, f v.position ≥ 0) ∧
    (∀ g : vec4_t → ℚ, plane_linear g → (∀ v ∈ inp, g v.position ≥ 0) →
      ∀ v ∈ clip_polygon_plane_id inp f id, g v.position ≥ 0) := by
  constructor
  · intro v hv
    rcases clip_pass_provenance f id hpl inp v hv with ⟨_, h⟩ | ⟨_, _, _, _, _, _, _, _, _, _, h⟩
    · exact h
    · exact le_of_eq h.symm
  · intro g hg hin v hv
    rcases clip_pass_provenance f id hpl inp v hv with ⟨h, _⟩ |
      ⟨p, hp, q, hq, t, t0, t1, _, _, e2, _⟩
    · exact hin v h
    · rw [e2]
      show g (vec4_lerp p.position q.position t) ≥ 0
      rw [hg]
      have h1 := hin p hp
      have h2 := hin q hq
      have : g p.position + t * (g q.position - g p.position)
          = (1 - t) * g p.position + t * g q.position := by ring
      rw [this]
      have a1 : 0 ≤ (1 - t) * g p.position := mul_nonneg (by linarith) h1
      have a2 : 0 ≤ t * g q.position := mul_nonneg t0 h2
      linarith

theorem clip_triangle_all_inside (tri : List vertex_t) :
    ∀ v ∈ clip_triangle tri, inside_clip_volume v := by
  have m1 : (clip_near, PLANE_NEAR) ∈ clip_planes := by unfold clip_planes; simp
  have m2 : (clip_far, PLANE_FAR) ∈ clip_planes := by unfold clip_planes; simp
  have m3 : (clip_left, PLANE_LEFT) ∈ clip_planes := by unfold clip_planes; simp
  have m4 : (clip_right, PLANE_RIGHT) ∈ clip_planes := by unfold clip_planes; simp
  have m5 : (clip_bottom, PLANE_BOTTOM) ∈ clip_planes := by unfold clip_planes; simp
  have m6 : (clip_top, PLANE_TOP) ∈ clip_planes := by unfold clip_planes; simp
  have l1 := clip_planes_linear _ m1
  have l2 := clip_planes_linear _ m2
  have l3 := clip_planes_linear _ m3
  have l4 := clip_planes_linear _ m4
  have l5 := clip_planes_linear _ m5
  have a1 := (clip_pass_inside clip_near PLANE_NEAR m1 tri).1
  have b := clip_pass_inside clip_far PLANE_FAR m2 (clip_polygon_plane_id tri clip_near PLANE_NEAR)
  have a2 := b.2 clip_near l1 a1
  have c := clip_pass_inside clip_left PLANE_LEFT m3
    (clip_polygon_plane_id (clip_polygon_plane_id tri clip_near PLANE_NEAR) clip_far PLANE_FAR)
  have a3 := c.2 clip_near l1 a2
  have b3 := c.2 clip_far l2 b.1
  have d := clip_pass_inside clip_right PLANE_RIGHT m4
    (clip_polygon_plane_id
      (clip_polygon_plane_id (clip_polygon_plane_id tri clip_near PLANE_NEAR) clip_far PLANE_FAR)
      clip_left PLANE_LEFT)
  have a4 := d.2 clip_near l1 a3
  have b4 := d.2 clip_far l2 b3
  have c4 := d.2 clip_left l3 c.1
  have e := clip_pass_inside clip_bottom PLANE_BOTTOM m5
    (clip_polygon_plane_id
      (clip_polygon_plane_id
        (clip_polygon_plane_id (clip_polygon_plane_id tri clip_near PLANE_NEAR) clip_far
          PLANE_FAR)
        clip_left PLANE_LEFT)
      clip_right PLANE_RIGHT)
  have a5 := e.2 clip_near l1 a4
  have b5 := e.2 clip_far l2 b4
  have c5 := e.2 clip_left l3 c4
  have d5 := e.2 clip_right l4 d.1
  have f := clip_pass_inside clip_top PLANE_TOP m6
    (clip_polygon_plane_id
      (clip_polygon_plane_id
        (clip_polygon_plane_id
          (clip_polygon_plane_id (clip_polygon_plane_id tri clip_near PLANE_NEAR) clip_far
            PLANE_FAR)
          clip_left PLANE_LEFT)
        clip_right PLANE_RIGHT)
      clip_bottom PLANE_BOTTOM)
  have a6 := f.2 clip_near l1 a5
  have b6 := f.2 clip_far l2 b5
  have c6 := f.2 clip_left l3 c5
  have d6 := f.2 clip_right l4 d5
  have e6 := f.2 clip_bottom l5 e.1
  intro v hv
  unfold clip_triangle at hv
  dsimp only at hv
  split_ifs at hv
  all_goals first
    | exact absurd hv (List.not_mem_nil v)
    | exact ⟨a6 v hv, b6 v hv, c6 v hv, d6 v hv, e6 v hv, f.1 v hv⟩

/-- C25. Clipper postcondition, in exact arithmetic. For every input triangle
in clip space, every vertex `clip_triangle` outputs satisfies `-w <= x <= w`,
`-w <= y <= w` and `-w <= z <= w`; every vertex a plane pass writes is a vertex
of its input that is inside the plane, or is created by interpolation along an
input edge with parameter `t = d_prev / (d_prev - d_curr)` in `[0, 1]` and lies
exactly on the plane (distance 0, the snap changing nothing); and a triangle
whose three vertices are all inside is returned unchanged. -/
theorem clipper_postcondition (v0 v1 v2 : vertex_t) :
    (∀ v ∈ clip_triangle [v0, v1, v2],
      -v.position.w ≤ v.position.x ∧ v.position.x ≤ v.position.w ∧
      -v.position.w ≤ v.position.y ∧ v.position.y ≤ v.position.w ∧
      -v.position.w ≤ v.position.z ∧ v.position.z ≤ v.position.w) ∧
    (∀ pl ∈ clip_planes, ∀ (inp : List vertex_t), ∀ v ∈ clip_polygon_plane_id inp pl.1 pl.2,
      clip_provenance pl.1 pl.2 inp v) ∧
    (inside_clip_volume v0 → inside_clip_volume v1 → inside_clip_volume v2 →
      clip_triangle [v0, v1, v2] = [v0, v1, v2]) := by
  refine ⟨?_, ?_, clip_triangle_inside v0 v1 v2⟩
  · intro v hv
    obtain ⟨h1, h2, h3, h4, h5, h6⟩ := clip_triangle_all_inside _ v hv
    simp only [clip_near, clip_far, clip_left, clip_right, clip_bottom, clip_top] at h1 h2 h3 h4 h5 h6
    refine ⟨?_, ?_, ?_, ?_, ?_, ?_⟩ <;> linarith
  · intro pl hpl inp v hv
    exact clip_pass_provenance pl.1 pl.2 hpl inp v hv

theorem clipper_postcondition_witness :
    clip_triangle [test_vertex 0 0, test_vertex 1 0, test_vertex 0 1]
      = [test_vertex 0 0, test_vertex 1 0, test_vertex 0 1] :=
  (clipper_postcondition (test_vertex 0 0) (test_vertex 1 0) (test_vertex 0 1)).2.2
    (by decide!) (by decide!) (by decide!)

/-! ## Size of the clipped polygon -/

theorem alt_from_sublist {l1 l2 : List Bool} (h : List.Sublist l1 l2) :
    ∀ a, alt_from a l1 ≤ alt_from a l2 := by
  induction h with
  | slnil => intro a; exact le_refl _
  | @cons l1 l2 b _ ih =>
    intro a
    have h1 := ih b
    have h2 : alt_from a l1 ≤ (if a = b then 0 else 1) + alt_from b l1 := by
      cases l1 with
      | nil => simp [alt_from]
      | cons c l1 =>
        simp only [alt_from]
        cases a <;> cases b <;> cases c <;> simp <;> omega
    simp only [alt_from]
    omega
  | @cons₂ l1 l2 b _ ih =>
    intro a
    have h1 := ih b
    simp only [alt_from]
    omega

theorem alternations_le_alt_from (a : Bool) (l : List Bool) :
    alternations l ≤ alt_from a l := by
  cases l with
  | nil => exact le_refl _
  | cons b l => simp only [alternations, alt_from]; omega

theorem alt_from_parity : ∀ (l : List Bool) (a : Bool),
    alt_from a l % 2 = if last_from a l = a then 0 else 1 := by
  intro l
  induction l with
  | nil => intro a; simp [alt_from, last_from]
  | cons b l ih =>
    intro a
    have h := ih b
    simp only [alt_from, last_from]
    rcases Bool.eq_false_or_eq_true (last_from b l) with hx | hx <;>
      cases a <;> cases b <;> simp [hx] at h ⊢ <;> omega

theorem alt_from_append : ∀ (x y : List Bool) (a : Bool),
    alt_from a (x ++ y) = alt_from a x + alt_from (last_from a x) y := by
  intro x
  induction x with
  | nil => intro y a; simp [alt_from, last_from]
  | cons b x ih =>
    intro y a
    rw [List.cons_append]
    simp only [alt_from, last_from]
    rw [ih y b]
    omega

theorem last_from_getLast : ∀ (l : List Bool) (a last : Bool), l.getLast? = some last →
    last_from a l = last := by
  intro l
  induction l with
  | nil => intro a last h; simp at h
  | cons b l ih =>
    intro a last h
    cases l with
    | nil =>
      simp only [List.getLast?_singleton, Option.some.injEq] at h
      simp only [last_from]
      exact h
    | cons c l =>
      rw [List.getLast?_cons_cons] at h
      simp only [last_from]
      exact ih b last h

/-- Closing the polygon adds no third change of value. -/
theorem alt_from_last (l : List Bool) (last : Bool) (hl : l.getLast? = some last)
    (h : alternations l ≤ 2) : alt_from last l ≤ 2 := by
  have hp := alt_from_parity l last
  rw [last_from_getLast l last last hl, if_pos rfl] at hp
  cases l with
  | nil => simp [alt_from]
  | cons b l =>
    simp only [alternations] at h
    simp only [alt_from] at hp ⊢
    split_ifs at hp ⊢ <;> omega

theorem side_between (g : vec4_t → ℚ) (hg : plane_linear g) (p q : vertex_t) (t : ℚ)
    (t0 : 0 ≤ t) (t1 : t ≤ 1) :
    side g (vertex_lerp p q t) = side g p ∨ side g (vertex_lerp p q t) = side g q := by
  have e : g (vertex_lerp p q t).position = (1 - t) * g p.position + t * g q.position := by
    show g (vec4_lerp p.position q.position t) = _
    rw [hg]
    ring
  unfold side
  rw [e]
  by_cases hp : g p.position ≥ 0
  · by_cases hq : g q.position ≥ 0
    · left
      have a1 : 0 ≤ (1 - t) * g p.position := mul_nonneg (by linarith) hp
      have a2 : 0 ≤ t * g q.position := mul_nonneg t0 hq
      simp only [hp, decide_True, decide_eq_true_eq]
      linarith
    · by_cases hm : (1 - t) * g p.position + t * g q.position ≥ 0
      · left; simp only [hm, hp]
      · right; simp only [hm, hq]
  · by_cases hq : g q.position ≥ 0
    · by_cases hm : (1 - t) * g p.position + t * g q.position ≥ 0
      · right; simp only [hm, hq]
      · left; simp only [hm, hp]
    · left
      have hp1 : g p.position < 0 := not_le.mp hp
      have hq1 : g q.position < 0 := not_le.mp hq
      have hm : ¬((1 - t) * g p.position + t * g q.position ≥ 0) := by
        rw [not_le]
        by_cases ht : t = 0
        · subst ht; linarith
        · have tp : 0 < t := lt_of_le_of_ne t0 (Ne.symm ht)
          have a1 : (1 - t) * g p.position ≤ 0 :=
            mul_nonpos_of_nonneg_of_nonpos (by linarith) (le_of_lt hp1)
          have a2 : t * g q.position < 0 := mul_neg_of_pos_of_neg tp hq1
          linarith
      simp only [hm, hp]

theorem alt_from_between (a m b : Bool) (h : m = a ∨ m = b) :
    alt_from a [m, b] = if a = b then 0 else 1 := by
  simp only [alt_from]
  cases a <;> cases b <;> cases m <;> simp_all

/-- The vertices a pass of the loop appends are part of the list made of the
intersection (if any) and the current vertex, along which no linear function
changes sign more often than between the previous and the current vertex. -/
theorem clip_emitted_chain (f : vec4_t → ℚ) (id : Nat) (hlin : plane_linear f)
    (hsnap : ∀ v : vertex_t, f v.position = 0 → snap_to_plane v id = v)
    (g : vec4_t → ℚ) (hg : plane_linear g) (prev curr : vertex_t) :
    ∃ pre : List vertex_t,
      List.Sublist (clip_emitted f id prev (f prev.position) curr) (pre ++ [curr]) ∧
      alt_from (side g prev) ((pre ++ [curr]).map (side g))
        = if side g prev = side g curr then 0 else 1 := by
  have hone : alt_from (side g prev) (([] ++ [curr]).map (side g))
      = if side g prev = side g curr then 0 else 1 := by
    simp [alt_from]
  have htwo : (f prev.position ≥ 0 ∧ f curr.position < 0) ∨
      (f prev.position < 0 ∧ f curr.position ≥ 0) →
      alt_from (side g prev)
        (([snap_to_plane (vertex_lerp prev curr
            (f prev.position / (f prev.position - f curr.position))) id] ++ [curr]).map
          (side g))
        = if side g prev = side g curr then 0 else 1 := by
    intro hc
    obtain ⟨t0, t1, tz⟩ := crossing_parameter _ _ hc
    have hz : f (vertex_lerp prev curr
        (f prev.position / (f prev.position - f curr.position))).position = 0 := by
      show f (vec4_lerp prev.position curr.position _) = 0
      rw [hlin]
      exact tz
    rw [hsnap _ hz]
    exact alt_from_between _ _ _ (side_between g hg prev curr _ t0 t1)
  unfold clip_emitted
  dsimp only
  by_cases hp : f prev.position ≥ 0
  · rw [if_pos hp]
    by_cases hq : f curr.position ≥ 0
    · rw [if_pos hq]
      exact ⟨[], List.Sublist.refl _, hone⟩
    · rw [if_neg hq]
      by_cases hd : |f prev.position - f curr.position| > 1 / 10 ^ 10
      · rw [if_pos hd]
        exact ⟨_, List.sublist_append_left _ _, htwo (Or.inl ⟨hp, not_le.mp hq⟩)⟩
      · rw [if_neg hd]
        exact ⟨[], List.nil_sublist _, hone⟩
  · rw [if_neg hp]
    by_cases hq : f curr.position ≥ 0
    · rw [if_pos hq]
      by_cases hd : |f prev.position - f curr.position| > 1 / 10 ^ 10
      · rw [if_pos hd]
        exact ⟨_, List.Sublist.refl _, htwo (Or.inr ⟨not_le.mp hp, hq⟩)⟩
      · rw [if_neg hd]
        exact ⟨[], List.Sublist.refl _, hone⟩
    · rw [if_neg hq]
      exact ⟨[], List.nil_sublist _, hone⟩

theorem last_from_map_append (g : vec4_t → ℚ) (a : Bool) (pre : List vertex_t)
    (curr : vertex_t) : last_from a ((pre ++ [curr]).map (side g)) = side g curr := by
  apply last_from_getLast
  simp

/-- The output of the loop of `clip_polygon_plane_id` is part of a list along
which a linear function changes sign as often as along the closed input. -/
theorem clip_fold_chain (f : vec4_t → ℚ) (id : Nat) (hlin : plane_linear f)
    (hsnap : ∀ v : vertex_t, f v.position = 0 → snap_to_plane v id = v)
    (g : vec4_t → ℚ) (hg : plane_linear g) :
    ∀ (l out : List vertex_t) (prev : vertex_t),
      ∃ o t : List vertex_t,
        (l.foldl (clip_polygon_plane_step f id) (out, prev, f prev.position)).1 = out ++ o ∧
        List.Sublist o t ∧
        alt_from (side g prev) (t.map (side g)) = alt_from (side g prev) (l.map (side g)) := by
  intro l
  induction l with
  | nil => intro out prev; exact ⟨[], [], by simp, List.Sublist.refl _, rfl⟩
  | cons curr l ih =>
    intro out prev
    rw [List.foldl_cons, clip_step_emitted]
    obtain ⟨o, t, h1, h2, h3⟩ := ih (out ++ clip_emitted f id prev (f prev.position) curr) curr
    obtain ⟨pre, c1, c2⟩ := clip_emitted_chain f id hlin hsnap g hg prev curr
    refine ⟨clip_emitted f id prev (f prev.position) curr ++ o, (pre ++ [curr]) ++ t, ?_, ?_, ?_⟩
    · rw [h1, List.append_assoc]
    · exact List.Sublist.append c1 h2
    · rw [List.map_append, alt_from_append, c2, last_from_map_append, h3]
      simp only [List.map_cons, alt_from]

theorem clip_emitted_length (f : vec4_t → ℚ) (id : Nat) (prev curr : vertex_t) :
    (clip_emitted f id prev (f prev.position) curr).length
      ≤ (if side f curr = true then 1 else 0)
        + (if side f prev = side f curr then 0 else 1) := by
  unfold clip_emitted side
  dsimp only
  by_cases hp : f prev.position ≥ 0 <;> by_cases hq : f curr.position ≥ 0 <;>
    simp only [hp, hq, if_true, if_false, decide_True, decide_False] <;>
    first
      | (split_ifs <;> first | contradiction | simp)
      | simp

theorem clip_fold_length (f : vec4_t → ℚ) (id : Nat) :
    ∀ (l out : List vertex_t) (prev : vertex_t),
      (l.foldl (clip_polygon_plane_step f id) (out, prev, f prev.position)).1.length
        ≤ out.length + (l.map (side f)).count true
          + alt_from (side f prev) (l.map (side f)) := by
  intro l
  induction l with
  | nil => intro out prev; simp [alt_from]
  | cons curr l ih =>
    intro out prev
    rw [List.foldl_cons, clip_step_emitted]
    have h := ih (out ++ clip_emitted f id prev (f prev.position) curr) curr
    have hl := clip_emitted_length f id prev curr
    rw [List.length_append] at h
    simp only [List.map_cons, alt_from, List.count_cons]
    by_cases hs : side f curr = true
    · rw [hs] at h hl ⊢
      simp only [if_true, beq_self_eq_true] at hl ⊢
      omega
    · have hs2 : side f curr = false := by simpa using hs
      rw [hs2] at h hl ⊢
      have hb : (false == true) = false := rfl
      simp only [Bool.false_eq_true, if_false, hb] at hl ⊢
      omega

theorem count_true_all : ∀ (l : List Bool), l.count true = l.length →
    ∀ a, a = true → alt_from a l = 0 := by
  intro l
  induction l with
  | nil => intro _ a _; rfl
  | cons b l ih =>
    intro h a ha
    have hle := List.count_le_length true l
    cases b with
    | true =>
      simp only [List.count_cons_self, List.length_cons] at h
      subst ha
      simp only [alt_from, if_true]
      rw [ih (by omega) true rfl]
    | false =>
      rw [List.count_cons_of_ne (by decide)] at h
      simp only [List.length_cons] at h
      omega

/-- A pass over a polygon along which no linear function changes sign more
than twice writes at most one vertex more than it reads, and its output is such
a polygon again. -/
theorem clip_pass_bound (f : vec4_t → ℚ) (id : Nat) (hpl : (f, id) ∈ clip_planes)
    (inp : List vertex_t) (hinv : sign_changes_bounded inp) :
    (clip_polygon_plane_id inp f id).length ≤ inp.length + 1 ∧
      sign_changes_bounded (clip_polygon_plane_id inp f id) := by
  have hlin := clip_planes_linear _ hpl
  have hsnap := snap_on_plane _ hpl
  unfold clip_polygon_plane_id
  cases hlast : inp.getLast? with
  | none => exact ⟨Nat.zero_le _, fun g _ => Nat.zero_le _⟩
  | some prev =>
    show (inp.foldl (clip_polygon_plane_step f id) ([], prev, f prev.position)).1.length
        ≤ inp.length + 1 ∧
      sign_changes_bounded
        (inp.foldl (clip_polygon_plane_step f id) ([], prev, f prev.position)).1
    have hlastmap : ∀ g, (inp.map (side g)).getLast? = some (side g prev) := by
      intro g
      rw [List.getLast?_map, hlast]
      rfl
    constructor
    · have h := clip_fold_length f id inp [] prev
      have hc := alt_from_last _ _ (hlastmap f) (hinv f hlin)
      have hle := List.count_le_length true (inp.map (side f))
      rw [List.length_map] at hle
      by_cases hall : (inp.map (side f)).count true = (inp.map (side f)).length
      · have hz := count_true_all _ hall (side f prev) (by
          have hm : side f prev ∈ inp.map (side f) :=
            List.mem_of_getLast?_eq_some (hlastmap f)
          have hcnt := List.count_eq_length.mp hall
          exact (hcnt _ hm).symm)
        rw [hz] at h
        simp only [List.length_nil] at h
        omega
      · rw [List.length_map] at hall
        simp only [List.length_nil] at h
        omega
    · intro g hg
      obtain ⟨o, t, h1, h2, h3⟩ := clip_fold_chain f id hlin hsnap g hg inp [] prev
      show alternations (List.map (side g)
        (inp.foldl (clip_polygon_plane_step f id) ([], prev, f prev.position)).1) ≤ 2
      rw [h1, List.nil_append]
      have s1 := alternations_le_alt_from (side g prev) (o.map (side g))
      have s2 := alt_from_sublist (List.Sublist.map (side g) h2) (side g prev)
      have s3 := alt_from_last _ _ (hlastmap g) (hinv g hg)
      omega

theorem clip_empty (f : vec4_t → ℚ) (id : Nat) : clip_polygon_plane_id [] f id = [] := rfl

/-- The early returns of `clip_triangle` change nothing: a pass over an empty
polygon writes nothing. -/
theorem clip_triangle_passes (tri : List vertex_t) :
    clip_triangle tri = clip_triangle_pass tri 6 := by
  have e : clip_triangle_pass tri 6
      = clip_polygon_plane_id
          (clip_polygon_plane_id
            (clip_polygon_plane_id
              (clip_polygon_plane_id
                (clip_polygon_plane_id (clip_polygon_plane_id tri clip_near PLANE_NEAR) clip_far
                  PLANE_FAR)
                clip_left PLANE_LEFT)
              clip_right PLANE_RIGHT)
            clip_bottom PLANE_BOTTOM)
          clip_top PLANE_TOP := rfl
  rw [e]
  unfold clip_triangle
  dsimp only
  split_ifs with h1 h2 h3 h4 h5
  · rw [List.length_eq_zero.mp h1]; rfl
  · rw [List.length_eq_zero.mp h2]; rfl
  · rw [List.length_eq_zero.mp h3]; rfl
  · rw [List.length_eq_zero.mp h4]; rfl
  · rw [List.length_eq_zero.mp h5]; rfl
  · rfl

theorem triangle_sign_changes (v0 v1 v2 : vertex_t) : sign_changes_bounded [v0, v1, v2] := by
  intro g _
  simp only [List.map, alternations, alt_from]
  split_ifs <;> omega

theorem clip_triangle_pass_bound (v0 v1 v2 : vertex_t) :
    ∀ k, k ≤ 6 → sign_changes_bounded (clip_triangle_pass [v0, v1, v2] k) ∧
      (clip_triangle_pass [v0, v1, v2] k).length ≤ 3 + k ∧
      (∀ j, k = j + 1 → (clip_triangle_pass [v0, v1, v2] k).length
        ≤ (clip_triangle_pass [v0, v1, v2] j).length + 1) := by
  intro k
  induction k with
  | zero =>
    intro _
    exact ⟨triangle_sign_changes v0 v1 v2, le_refl _, fun j hj => by omega⟩
  | succ k ih =>
    intro hk
    obtain ⟨h1, h2, _⟩ := ih (by omega)
    have hlt : k < clip_planes.length := by
      show k < 6
      omega
    have hget : clip_planes[k]? = some clip_planes[k] := List.getElem?_eq_getElem hlt
    have hmem : (clip_planes[k].1, clip_planes[k].2) ∈ clip_planes := List.getElem_mem hlt
    have hb := clip_pass_bound clip_planes[k].1 clip_planes[k].2 hmem _ h1
    have e : clip_triangle_pass [v0, v1, v2] (k + 1)
        = clip_polygon_plane_id (clip_triangle_pass [v0, v1, v2] k) clip_planes[k].1
          clip_planes[k].2 := by
      show (match clip_planes[k]? with
        | some pl => clip_polygon_plane_id (clip_triangle_pass [v0, v1, v2] k) pl.1 pl.2
        | none => clip_triangle_pass [v0, v1, v2] k) = _
      rw [hget]
    rw [e]
    refine ⟨hb.2, by omega, fun j hj => ?_⟩
    have : j = k := by omega
    subst this
    exact hb.1

/-- C26. Clipper output bound, in exact arithmetic. For every input triangle
each of the six passes of `clip_triangle` writes at most one vertex more than
it reads, hence at most `MAX_CLIP_VERTS = 12` vertices, and `clip_triangle`
returns a count of at most 12 (the polygon after the six passes; the early
returns change nothing). -/
theorem clipper_output_bound (v0 v1 v2 : vertex_t) :
    clip_triangle [v0, v1, v2] = clip_triangle_pass [v0, v1, v2] 6 ∧
    (∀ k, k < 6 →
      (clip_triangle_pass [v0, v1, v2] (k + 1)).length
        ≤ (clip_triangle_pass [v0, v1, v2] k).length + 1 ∧
      (clip_triangle_pass [v0, v1, v2] (k + 1)).length ≤ MAX_CLIP_VERTS) ∧
    (clip_triangle [v0, v1, v2]).length ≤ MAX_CLIP_VERTS := by
  refine ⟨clip_triangle_passes _, fun k hk => ?_, ?_⟩
  · obtain ⟨_, h2, h3⟩ := clip_triangle_pass_bound v0 v1 v2 (k + 1) (by omega)
    exact ⟨h3 k rfl, by show _ ≤ 12; omega⟩
  · rw [clip_triangle_passes]
    obtain ⟨_, h2, _⟩ := clip_triangle_pass_bound v0 v1 v2 6 (le_refl _)
    show _ ≤ 12
    omega

theorem clipper_output_bound_witness :
    (clip_triangle_pass [test_vertex (-1) (-1), test_vertex 2 (-1), test_vertex (-1) 2] (3 + 1)).length
        ≤ (clip_triangle_pass [test_vertex (-1) (-1), test_vertex 2 (-1), test_vertex (-1) 2] 3).length + 1 ∧
      (clip_triangle_pass [test_vertex (-1) (-1), test_vertex 2 (-1), test_vertex (-1) 2] (3 + 1)).length
        ≤ MAX_CLIP_VERTS :=
  (clipper_output_bound (test_vertex (-1) (-1)) (test_vertex 2 (-1)) (test_vertex (-1) 2)).2.1 3
    (by decide)

/-- The bound of one more vertex per pass is reached: the triangle
`(-1, -1), (2, -1), (-1, 2)` leaves the pass of the right plane with four
vertices and `clip_triangle` with five. -/
theorem clip_triangle_grows :
    (clip_triangle_pass [test_vertex (-1) (-1), test_vertex 2 (-1), test_vertex (-1) 2] 3).length
      = 3 ∧
    (clip_triangle_pass [test_vertex (-1) (-1), test_vertex 2 (-1), test_vertex (-1) 2] 4).length
      = 4 ∧
    (clip_triangle [test_vertex (-1) (-1), test_vertex 2 (-1), test_vertex (-1) 2]).length
      = 5 := by
  decide!

/-! ## Line clipping -/

/-- The segment of the witness is clipped: `clip_line` returns 1 with the
first end moved onto the right plane. -/
theorem line_clip_cuts :
    (clip_line 7 (line_test_vertex 2 1) (line_test_vertex 0 1)).map
        (fun r => (r.1, r.2.1.position.x, r.2.2.position.x)) = some (1, 1, 0) := by
  decide!

/-! ## C35: NDC-to-screen mapping -/

theorem mat4_normal_matrix_regular (M : mat4_t) (h : ¬ |mat4_normal_matrix_det M| < 1 / 10 ^ 10) :
    mat4_normal_matrix M =
      ![(M 5 * M 10 - M 6 * M 9) * (1 / mat4_normal_matrix_det M),
        (M 4 * M 10 - M 6 * M 8) * -(1 / mat4_normal_matrix_det M),
        (M 4 * M 9 - M 5 * M 8) * (1 / mat4_normal_matrix_det M), 0,
        (M 1 * M 10 - M 2 * M 9) * -(1 / mat4_normal_matrix_det M),
        (M 0 * M 10 - M 2 * M 8) * (1 / mat4_normal_matrix_det M),
        (M 0 * M 9 - M 1 * M 8) * -(1 / mat4_normal_matrix_det M), 0,
        (M 1 * M 6 - M 2 * M 5) * (1 / mat4_normal_matrix_det M),
        (M 0 * M 6 - M 2 * M 4) * -(1 / mat4_normal_matrix_det M),
        (M 0 * M 5 - M 1 * M 4) * (1 / mat4_normal_matrix_det M), 0,
        0, 0, 0, 1] := by
  unfold mat4_normal_matrix
  exact if_neg h

theorem mat4_normal_matrix_singular (M : mat4_t) (h : |mat4_normal_matrix_det M| < 1 / 10 ^ 10) :
    mat4_normal_matrix M = mat4_identity := by
  unfold mat4_normal_matrix
  exact if_pos h

theorem mat4_normal_matrix_det_ne (M : mat4_t) (h : 1 / 10 ^ 10 ≤ |mat4_normal_matrix_det M|) :
    mat4_normal_matrix_det M ≠ 0 := by
  intro h0
  rw [h0, abs_zero] at h
  norm_num at h

theorem mat4_upper3_entries (m : mat4_t) :
    mat4_upper3 m = !![m 0, m 4, m 8; m 1, m 5, m 9; m 2, m 6, m 10] := by
  ext r c
  fin_cases r <;> fin_cases c <;> rfl

theorem mat4_upper3_transpose (m : mat4_t) :
    (mat4_upper3 m).transpose = !![m 0, m 1, m 2; m 4, m 5, m 6; m 8, m 9, m 10] := by
  ext r c
  fin_cases r <;> fin_cases c <;> rfl

theorem mat4_normal_matrix_entries (M : mat4_t) (h : 1 / 10 ^ 10 ≤ |mat4_normal_matrix_det M|) :
    mat4_normal_matrix M 0 = (M 5 * M 10 - M 6 * M 9) * (1 / mat4_normal_matrix_det M) ∧
    mat4_normal_matrix M 1 = (M 4 * M 10 - M 6 * M 8) * -(1 / mat4_normal_matrix_det M) ∧
    mat4_normal_matrix M 2 = (M 4 * M 9 - M 5 * M 8) * (1 / mat4_normal_matrix_det M) ∧
    mat4_normal_matrix M 4 = (M 1 * M 10 - M 2 * M 9) * -(1 / mat4_normal_matrix_det M) ∧
    mat4_normal_matrix M 5 = (M 0 * M 10 - M 2 * M 8) * (1 / mat4_normal_matrix_det M) ∧
    mat4_normal_matrix M 6 = (M 0 * M 9 - M 1 * M 8) * -(1 / mat4_normal_matrix_det M) ∧
    mat4_normal_matrix M 8 = (M 1 * M 6 - M 2 * M 5) * (1 / mat4_normal_matrix_det M) ∧
    mat4_normal_matrix M 9 = (M 0 * M 6 - M 2 * M 4) * -(1 / mat4_normal_matrix_det M) ∧
    mat4_normal_matrix M 10 = (M 0 * M 5 - M 1 * M 4) * (1 / mat4_normal_matrix_det M) := by
  rw [mat4_normal_matrix_regular M (not_lt.mpr h)]
  exact ⟨rfl, rfl, rfl, rfl, rfl, rfl, rfl, rfl, rfl⟩

theorem mat4_normal_matrix_transpose_mul (M : mat4_t)
    (h : 1 / 10 ^ 10 ≤ |mat4_normal_matrix_det M|) :
    (mat4_upper3 (mat4_normal_matrix M)).transpose * mat4_upper3 M = 1 := by
  have hd := mat4_normal_matrix_det_ne M h
  have hd2 : M 0 * (M 5 * M 10 - M 6 * M 9) - M 1 * (M 4 * M 10 - M 6 * M 8)
      + M 2 * (M 4 * M 9 - M 5 * M 8) = mat4_normal_matrix_det M := rfl
  obtain ⟨n0, n1, n2, n4, n5, n6, n8, n9, n10⟩ := mat4_normal_matrix_entries M h
  rw [mat4_upper3_transpose, mat4_upper3_entries M, Matrix.mul_fin_three, Matrix.one_fin_three,
    n0, n1, n2, n4, n5, n6, n8, n9, n10]
  generalize mat4_normal_matrix_det M = det at hd hd2
  have e00 : (M 5 * M 10 - M 6 * M 9) * (1 / det) * M 0
      + (M 4 * M 10 - M 6 * M 8) * -(1 / det) * M 1
      + (M 4 * M 9 - M 5 * M 8) * (1 / det) * M 2 = 1 := by
    field_simp; rw [← hd2]; ring
  have e01 : (M 5 * M 10 - M 6 * M 9) * (1 / det) * M 4
      + (M 4 * M 10 - M 6 * M 8) * -(1 / det) * M 5
      + (M 4 * M 9 - M 5 * M 8) * (1 / det) * M 6 = 0 := by
    field_simp; ring
  have e02 : (M 5 * M 10 - M 6 * M 9) * (1 / det) * M 8
      + (M 4 * M 10 - M 6 * M 8) * -(1 / det) * M 9
      + (M 4 * M 9 - M 5 * M 8) * (1 / det) * M 10 = 0 := by
    field_simp; ring
  have e10 : (M 1 * M 10 - M 2 * M 9) * -(1 / det) * M 0
      + (M 0 * M 10 - M 2 * M 8) * (1 / det) * M 1
      + (M 0 * M 9 - M 1 * M 8) * -(1 / det) * M 2 = 0 := by
    field_simp; ring
  have e11 : (M 1 * M 10 - M 2 * M 9) * -(1 / det) * M 4
      + (M 0 * M 10 - M 2 * M 8) * (1 / det) * M 5
      + (M 0 * M 9 - M 1 * M 8) * -(1 / det) * M 6 = 1 := by
    field_simp; rw [← hd2]; ring
  have e12 : (M 1 * M 10 - M 2 * M 9) * -(1 / det) * M 8
      + (M 0 * M 10 - M 2 * M 8) * (1 / det) * M 9
      + (M 0 * M 9 - M 1 * M 8) * -(1 / det) * M 10 = 0 := by
    field_simp; ring
  have e20 : (M 1 * M 6 - M 2 * M 5) * (1 / det) * M 0
      + (M 0 * M 6 - M 2 * M 4) * -(1 / det) * M 1
      + (M 0 * M 5 - M 1 * M 4) * (1 / det) * M 2 = 0 := by
    field_simp; ring
  have e21 : (M 1 * M 6 - M 2 * M 5) * (1 / det) * M 4
      + (M 0 * M 6 - M 2 * M 4) * -(1 / det) * M 5
      + (M 0 * M 5 - M 1 * M 4) * (1 / det) * M 6 = 0 := by
    field_simp; ring
  have e22 : (M 1 * M 6 - M 2 * M 5) * (1 / det) * M 8
      + (M 0 * M 6 - M 2 * M 4) * -(1 / det) * M 9
      + (M 0 * M 5 - M 1 * M 4) * (1 / det) * M 10 = 1 := by
    field_simp; rw [← hd2]; ring
  rw [e00, e01, e02, e10, e11, e12, e20, e21, e22]

theorem mat4_normal_matrix_det_eq (M : mat4_t) :
    mat4_normal_matrix_det M = (mat4_upper3 M).det := by
  rw [Matrix.det_fin_three]
  show _ = M 0 * M 5 * M 10 - M 0 * M 9 * M 6 - M 4 * M 1 * M 10 + M 4 * M 9 * M 2
    + M 8 * M 1 * M 6 - M 8 * M 5 * M 2
  unfold mat4_normal_matrix_det
  ring

theorem mat4_normal_matrix_dot (M : mat4_t) (h : 1 / 10 ^ 10 ≤ |mat4_normal_matrix_det M|)
    (n t : vec3_t) :
    vec3_dot (mat4_mul_dir (mat4_normal_matrix M) n) (mat4_mul_dir M t) = vec3_dot n t := by
  have hd := mat4_normal_matrix_det_ne M h
  have hd2 : M 0 * (M 5 * M 10 - M 6 * M 9) - M 1 * (M 4 * M 10 - M 6 * M 8)
      + M 2 * (M 4 * M 9 - M 5 * M 8) = mat4_normal_matrix_det M := rfl
  obtain ⟨n0, n1, n2, n4, n5, n6, n8, n9, n10⟩ := mat4_normal_matrix_entries M h
  unfold mat4_mul_dir mat4_mul_vec4 vec3_dot vec3 vec4
  simp only [n0, n1, n2, n4, n5, n6, n8, n9, n10]
  generalize mat4_normal_matrix_det M = det at hd hd2
  field_simp
  rw [← hd2]
  ring

/-- C32: the upper-left 3x3 block `N` of `mat4_normal_matrix(M)` is the inverse
transpose of the upper-left block `A` of `M`. The threshold is taken on the
determinant of `A`; when `|det A| ≥ 1e-10`, `transpose(N) * A` is the identity
and `dot(N n, A t) = dot(n, t)` for all `n` and `t`; when `|det A| < 1e-10` the
result is the identity matrix. -/
theorem normal_matrix_inverse_transpose (M : mat4_t) :
    mat4_normal_matrix_det M = (mat4_upper3 M).det ∧
      (1 / 10 ^ 10 ≤ |(mat4_upper3 M).det| →
        (mat4_upper3 (mat4_normal_matrix M)).transpose * mat4_upper3 M = 1 ∧
        ∀ n t : vec3_t,
          vec3_dot (mat4_mul_dir (mat4_normal_matrix M) n) (mat4_mul_dir M t) = vec3_dot n t) ∧
      (|(mat4_upper3 M).det| < 1 / 10 ^ 10 → mat4_normal_matrix M = mat4_identity) := by
  rw [← mat4_normal_matrix_det_eq]
  exact ⟨rfl, fun h => ⟨mat4_normal_matrix_transpose_mul M h, mat4_normal_matrix_dot M h⟩,
    mat4_normal_matrix_singular M⟩

theorem normal_matrix_inverse_transpose_witness :
    1 / 10 ^ 10 ≤ |(mat4_upper3 scale_234).det| ∧
      (mat4_upper3 (mat4_normal_matrix scale_234)).transpose * mat4_upper3 scale_234 = 1 ∧
      |(mat4_upper3 (fun _ => 0)).det| < 1 / 10 ^ 10 ∧
      mat4_normal_matrix (fun _ => 0) = mat4_identity := by
  have h1 : 1 / 10 ^ 10 ≤ |(mat4_upper3 scale_234).det| := by
    rw [← mat4_normal_matrix_det_eq]; decide!
  have h2 : |(mat4_upper3 (fun _ => 0)).det| < 1 / 10 ^ 10 := by
    rw [← mat4_normal_matrix_det_eq]; decide!
  exact ⟨h1, ((normal_matrix_inverse_transpose scale_234).2.1 h1).1, h2,
    (normal_matrix_inverse_transpose (fun _ => 0)).2.2 h2⟩

/-! ## C40: the alpha test and untextured triangles -/

theorem flags_off_alpha (fl g X : Nat) (h : fl ||| FLAG_ALPHA_TEST = g ||| FLAG_ALPHA_TEST)
    (hX : X &&& FLAG_ALPHA_TEST = 0) : fl &&& X = g &&& X := by
  apply Nat.eq_of_testBit_eq
  intro i
  have h1 := congrArg (fun n => Nat.testBit n i) h
  have h2 := congrArg (fun n => Nat.testBit n i) hX
  simp only [Nat.testBit_or, Nat.testBit_and, Nat.zero_testBit] at h1 h2
  rw [Nat.testBit_and, Nat.testBit_and]
  cases hx : X.testBit i
  · simp
  · rw [hx] at h2
    simp only [Bool.true_and] at h2
    rw [h2] at h1
    simpa using h1

theorem compute_lighting_alpha (lm : LibM) (c : GLState) (fl f : Nat) (r : ℚ)
    (h : fl ||| FLAG_ALPHA_TEST = c.flags ||| FLAG_ALPHA_TEST) (p n : vec3_t) (m : material_t) :
    compute_lighting lm (with_alpha_state c fl f r) p n m = compute_lighting lm c p n m := by
  have e : ∀ q N res i, compute_lighting_light lm (with_alpha_state c fl f r) q N m res i
      = compute_lighting_light lm c q N m res i := fun _ _ _ _ => rfl
  have e2 : compute_lighting_light lm (with_alpha_state c fl f r)
      = compute_lighting_light lm c := rfl
  unfold compute_lighting
  rw [e2]
  show color_clamp (List.foldl _ _ _) = _
  have hn : fl &&& FLAG_NORMALIZE = c.flags &&& FLAG_NORMALIZE :=
    flags_off_alpha fl c.flags FLAG_NORMALIZE h (by decide)
  show color_clamp (List.foldl
    (compute_lighting_light lm c p
      (if fl &&& FLAG_NORMALIZE ≠ 0 then vec3_normalize lm n else n) m) _ _) = _
  rw [hn]
  rfl

theorem fog_factor_alpha (lm : LibM) (c : GLState) (fl f : Nat) (r : ℚ) (z : ℚ) :
    fog_factor lm (with_alpha_state c fl f r) z = fog_factor lm c z := rfl

theorem blend_colors_alpha (c : GLState) (fl f : Nat) (r : ℚ) (fb : framebuffer_t)
    (s d : color_t) :
    blend_colors { with_alpha_state c fl f r with framebuffer := fb } s d
      = blend_colors { c with framebuffer := fb } s d := rfl

theorem write_pixel_masked_alpha (c : GLState) (fl f : Nat) (r : ℚ) (fb : framebuffer_t)
    (x y : Int) (col : color_t) :
    write_pixel_masked { with_alpha_state c fl f r with framebuffer := fb } x y col
      = write_pixel_masked { c with framebuffer := fb } x y col := rfl

theorem rasterize_triangle_smooth_tex_alpha (c : GLState) (fl f : Nat) (r : ℚ)
    (h : fl ||| FLAG_ALPHA_TEST = c.flags ||| FLAG_ALPHA_TEST) :
    rasterize_triangle_smooth_tex (with_alpha_state c fl f r)
      = rasterize_triangle_smooth_tex c := by
  have ht : fl &&& FLAG_TEXTURE_2D = c.flags &&& FLAG_TEXTURE_2D :=
    flags_off_alpha fl c.flags FLAG_TEXTURE_2D h (by decide)
  unfold rasterize_triangle_smooth_tex
  show (if fl &&& FLAG_TEXTURE_2D ≠ 0 ∧ c.bound_texture_2d ≠ 0 then _ else _) = _
  rw [ht]
  rfl

theorem rasterize_triangle_smooth_box_alpha (c : GLState) (fl f : Nat) (r : ℚ)
    (h : fl ||| FLAG_ALPHA_TEST = c.flags ||| FLAG_ALPHA_TEST) (v0 v1 v2 : raster_vertex_t) :
    rasterize_triangle_smooth_box (with_alpha_state c fl f r) v0 v1 v2
      = rasterize_triangle_smooth_box c v0 v1 v2 := by
  have ht : fl &&& FLAG_SCISSOR_TEST = c.flags &&& FLAG_SCISSOR_TEST :=
    flags_off_alpha fl c.flags FLAG_SCISSOR_TEST h (by decide)
  unfold rasterize_triangle_smooth_box
  show (if fl &&& FLAG_SCISSOR_TEST ≠ 0 then _ else _) = _
  rw [ht]
  rfl

theorem rasterize_triangle_smooth_shade_untextured (lm : LibM) (alloc_ok : Bool) (c : GLState)
    (v0 v1 v2 : raster_vertex_t) (bf : Bool) (lod b0 b1 b2 : ℚ)
    (ht : rasterize_triangle_smooth_tex c = none) :
    (rasterize_triangle_smooth_shade lm alloc_ok c v0 v1 v2 bf lod b0 b1 b2).1.tex_alpha = none ∧
      (rasterize_triangle_smooth_shade lm alloc_ok c v0 v1 v2 bf lod b0 b1 b2).2 = c.textures := by
  unfold rasterize_triangle_smooth_shade
  simp only [ht]
  exact ⟨trivial, trivial⟩

theorem rasterize_triangle_smooth_shade_alpha (lm : LibM) (alloc_ok : Bool) (c : GLState)
    (fl f : Nat) (r : ℚ) (h : fl ||| FLAG_ALPHA_TEST = c.flags ||| FLAG_ALPHA_TEST)
    (v0 v1 v2 : raster_vertex_t) (bf : Bool) (lod b0 b1 b2 : ℚ)
    (ht : rasterize_triangle_smooth_tex c = none) :
    rasterize_triangle_smooth_shade lm alloc_ok (with_alpha_state c fl f r) v0 v1 v2 bf lod
        b0 b1 b2
      = rasterize_triangle_smooth_shade lm alloc_ok c v0 v1 v2 bf lod b0 b1 b2 := by
  have ht2 := (rasterize_triangle_smooth_tex_alpha c fl f r h).trans ht
  have hl : fl &&& FLAG_LIGHTING = c.flags &&& FLAG_LIGHTING :=
    flags_off_alpha fl c.flags FLAG_LIGHTING h (by decide)
  have hf : fl &&& FLAG_FOG = c.flags &&& FLAG_FOG :=
    flags_off_alpha fl c.flags FLAG_FOG h (by decide)
  have hflags : (with_alpha_state c fl f r).flags = fl := rfl
  have hsm : (with_alpha_state c fl f r).shade_model = c.shade_model := rfl
  have hts : (with_alpha_state c fl f r).light_model_two_side = c.light_model_two_side := rfl
  have hmf : (with_alpha_state c fl f r).material_front = c.material_front := rfl
  have hmb : (with_alpha_state c fl f r).material_back = c.material_back := rfl
  have hfc : (with_alpha_state c fl f r).fog_color = c.fog_color := rfl
  have htx : (with_alpha_state c fl f r).textures = c.textures := rfl
  unfold rasterize_triangle_smooth_shade
  simp only [ht, ht2, hflags, hsm, hts, hmf, hmb, hfc, htx, hl, hf, compute_lighting_alpha lm c fl f r h,
    fog_factor_alpha]

theorem rasterize_triangle_smooth_pixel_alpha (c : GLState) (fl f : Nat) (r : ℚ)
    (h : fl ||| FLAG_ALPHA_TEST = c.flags ||| FLAG_ALPHA_TEST) (x y : Int) (depth : ℚ)
    (sh : shaded_t) (hs : sh.tex_alpha = none) :
    rasterize_triangle_smooth_pixel (with_alpha_state c fl f r) x y depth sh
      = rasterize_triangle_smooth_pixel c x y depth sh := by
  have hd : fl &&& FLAG_DEPTH_TEST = c.flags &&& FLAG_DEPTH_TEST :=
    flags_off_alpha fl c.flags FLAG_DEPTH_TEST h (by decide)
  have hst : fl &&& FLAG_STENCIL_TEST = c.flags &&& FLAG_STENCIL_TEST :=
    flags_off_alpha fl c.flags FLAG_STENCIL_TEST h (by decide)
  have hb : fl &&& FLAG_BLEND = c.flags &&& FLAG_BLEND :=
    flags_off_alpha fl c.flags FLAG_BLEND h (by decide)
  have hflags : (with_alpha_state c fl f r).flags = fl := rfl
  have hfb : (with_alpha_state c fl f r).framebuffer = c.framebuffer := rfl
  have h1 : (with_alpha_state c fl f r).stencil_func = c.stencil_func := rfl
  have h2 : (with_alpha_state c fl f r).stencil_ref = c.stencil_ref := rfl
  have h3 : (with_alpha_state c fl f r).stencil_mask = c.stencil_mask := rfl
  have h4 : (with_alpha_state c fl f r).stencil_fail = c.stencil_fail := rfl
  have h5 : (with_alpha_state c fl f r).stencil_zfail = c.stencil_zfail := rfl
  have h6 : (with_alpha_state c fl f r).stencil_zpass = c.stencil_zpass := rfl
  have h7 : (with_alpha_state c fl f r).stencil_writemask = c.stencil_writemask := rfl
  have h8 : (with_alpha_state c fl f r).depth_func = c.depth_func := rfl
  have h9 : (with_alpha_state c fl f r).depth_mask = c.depth_mask := rfl
  unfold rasterize_triangle_smooth_pixel
  simp only [hs, hflags, hfb, h1, h2, h3, h4, h5, h6, h7, h8, h9, hd, hst, hb,
    blend_colors_alpha, write_pixel_masked_alpha]
  rfl

theorem foldl_sim {σ ι : Type} (body : ι → σ → σ) (R : σ → σ → Prop) :
    ∀ (l : List ι) (s t : σ), R s t →
      (∀ k ∈ l, ∀ s t, R s t → R (body k s) (body k t)) →
      R (l.foldl (fun s k => body k s) s) (l.foldl (fun s k => body k s) t) := by
  intro l
  induction l with
  | nil => intro s t h _; exact h
  | cons a l ih =>
    intro s t h hb
    rw [List.foldl_cons, List.foldl_cons]
    exact ih _ _ (hb a (List.mem_cons_self _ _) s t h)
      (fun k hk => hb k (List.mem_cons_of_mem _ hk))

/-- Two runs of the same loop from related states end in related states when
the body keeps the relation. -/
theorem for_range_sim {σ : Type} (lo hi : Int) (body : Int → σ → σ) (R : σ → σ → Prop)
    (s t : σ) (h : R s t)
    (hb : ∀ k, lo ≤ k → k < hi → ∀ s t, R s t → R (body k s) (body k t)) :
    R (for_range lo hi body s) (for_range lo hi body t) := by
  rw [for_range_eq_foldl, for_range_eq_foldl]
  exact foldl_sim body R _ s t h (fun k hk =>
    hb k ((mem_range_map lo hi k).mp hk).1 ((mem_range_map lo hi k).mp hk).2)

theorem rasterize_triangle_smooth_fragment_untextured (lm : LibM) (alloc_ok : Bool)
    (v0 v1 v2 : raster_vertex_t) (bf : Bool) (lod : ℚ) (x y : Int) (b0 b1 b2 depth : ℚ)
    (c : GLState) (ht : rasterize_triangle_smooth_tex c = none) :
    rasterize_triangle_smooth_fragment lm alloc_ok v0 v1 v2 bf lod x y b0 b1 b2 depth c
      = { c with framebuffer := (rasterize_triangle_smooth_pixel c x y depth
            (rasterize_triangle_smooth_shade lm alloc_ok c v0 v1 v2 bf lod b0 b1 b2).1) } := by
  unfold rasterize_triangle_smooth_fragment
  simp only [(rasterize_triangle_smooth_shade_untextured lm alloc_ok c v0 v1 v2 bf lod b0 b1 b2
    ht).2, ite_self]

theorem rasterize_triangle_smooth_at_untextured (lm : LibM) (alloc_ok : Bool)
    (v0 v1 v2 : raster_vertex_t) (bf : Bool) (area inv_area lod : ℚ) (y x : Int)
    (c : GLState) (ht : rasterize_triangle_smooth_tex c = none) :
    (rasterize_triangle_smooth_at lm alloc_ok v0 v1 v2 bf area inv_area lod y x c).flags = c.flags ∧
      rasterize_triangle_smooth_tex
        (rasterize_triangle_smooth_at lm alloc_ok v0 v1 v2 bf area inv_area lod y x c) = none := by
  unfold rasterize_triangle_smooth_at
  simp only []
  split_ifs
  · rw [rasterize_triangle_smooth_fragment_untextured _ _ _ _ _ _ _ _ _ _ _ _ _ _ ht]
    exact ⟨rfl, ht⟩
  · exact ⟨rfl, ht⟩

theorem rasterize_triangle_smooth_at_alpha (lm : LibM) (alloc_ok : Bool)
    (v0 v1 v2 : raster_vertex_t) (bf : Bool) (area inv_area lod : ℚ) (y x : Int)
    (c : GLState) (fl f : Nat) (r : ℚ)
    (h : fl ||| FLAG_ALPHA_TEST = c.flags ||| FLAG_ALPHA_TEST)
    (ht : rasterize_triangle_smooth_tex c = none) :
    rasterize_triangle_smooth_at lm alloc_ok v0 v1 v2 bf area inv_area lod y x
        (with_alpha_state c fl f r)
      = with_alpha_state
          (rasterize_triangle_smooth_at lm alloc_ok v0 v1 v2 bf area inv_area lod y x c)
          fl f r := by
  have ht2 := (rasterize_triangle_smooth_tex_alpha c fl f r h).trans ht
  unfold rasterize_triangle_smooth_at
  simp only []
  split_ifs
  · rw [rasterize_triangle_smooth_fragment_untextured _ _ _ _ _ _ _ _ _ _ _ _ _ _ ht,
      rasterize_triangle_smooth_fragment_untextured _ _ _ _ _ _ _ _ _ _ _ _ _ _ ht2,
      rasterize_triangle_smooth_shade_alpha lm alloc_ok c fl f r h _ _ _ _ _ _ _ _ ht,
      rasterize_triangle_smooth_pixel_alpha c fl f r h _ _ _ _
        (rasterize_triangle_smooth_shade_untextured lm alloc_ok c v0 v1 v2 bf lod _ _ _ ht).1]
    rfl
  · rfl

theorem rasterize_triangle_smooth_lod_untextured (lm : LibM) (c : GLState)
    (v0 v1 v2 : raster_vertex_t) (area : ℚ) (ht : rasterize_triangle_smooth_tex c = none) :
    rasterize_triangle_smooth_lod lm c v0 v1 v2 area = 0 := by
  unfold rasterize_triangle_smooth_lod
  rw [ht]

theorem rasterize_triangle_smooth_at_sim (lm : LibM) (alloc_ok : Bool)
    (v0 v1 v2 : raster_vertex_t) (bf : Bool) (area inv_area : ℚ) (y x : Int)
    (c : GLState) (fl f : Nat) (r : ℚ)
    (h : fl ||| FLAG_ALPHA_TEST = c.flags ||| FLAG_ALPHA_TEST) (s t : GLState)
    (hst : alpha_sim c fl f r s t) :
    alpha_sim c fl f r
      (rasterize_triangle_smooth_at lm alloc_ok v0 v1 v2 bf area inv_area 0 y x s)
      (rasterize_triangle_smooth_at lm alloc_ok v0 v1 v2 bf area inv_area 0 y x t) := by
  obtain ⟨e, hf, hts⟩ := hst
  have hu := rasterize_triangle_smooth_at_untextured lm alloc_ok v0 v1 v2 bf area inv_area 0 y x
    s hts
  refine ⟨?_, hu.1.trans hf, hu.2⟩
  rw [e]
  exact rasterize_triangle_smooth_at_alpha lm alloc_ok v0 v1 v2 bf _ _ 0 y x s fl f r
    (by rw [hf]; exact h) hts

theorem rasterize_triangle_smooth_row_sim (lm : LibM) (alloc_ok : Bool)
    (v0 v1 v2 : raster_vertex_t) (bf : Bool) (area inv_area : ℚ) (lo hi y : Int)
    (c : GLState) (fl f : Nat) (r : ℚ)
    (h : fl ||| FLAG_ALPHA_TEST = c.flags ||| FLAG_ALPHA_TEST) (s t : GLState)
    (hst : alpha_sim c fl f r s t) :
    alpha_sim c fl f r
      (for_range lo hi (fun x c =>
        rasterize_triangle_smooth_at lm alloc_ok v0 v1 v2 bf area inv_area 0 y x c) s)
      (for_range lo hi (fun x c =>
        rasterize_triangle_smooth_at lm alloc_ok v0 v1 v2 bf area inv_area 0 y x c) t) :=
  for_range_sim lo hi _ (alpha_sim c fl f r) s t hst (fun x _ _ s t hst =>
    rasterize_triangle_smooth_at_sim lm alloc_ok v0 v1 v2 bf area inv_area y x c fl f r h s t hst)

theorem rasterize_triangle_smooth_alpha (lm : LibM) (alloc_ok : Bool) (c : GLState)
    (fl f : Nat) (r : ℚ) (h : fl ||| FLAG_ALPHA_TEST = c.flags ||| FLAG_ALPHA_TEST)
    (ht : rasterize_triangle_smooth_tex c = none) (v0 v1 v2 : raster_vertex_t) (bf : Bool) :
    rasterize_triangle_smooth lm alloc_ok (with_alpha_state c fl f r) v0 v1 v2 bf
      = with_alpha_state (rasterize_triangle_smooth lm alloc_ok c v0 v1 v2 bf) fl f r := by
  have ht2 := (rasterize_triangle_smooth_tex_alpha c fl f r h).trans ht
  unfold rasterize_triangle_smooth
  simp only [rasterize_triangle_smooth_box_alpha c fl f r h,
    rasterize_triangle_smooth_lod_untextured lm c v0 v1 v2 _ ht,
    rasterize_triangle_smooth_lod_untextured lm _ v0 v1 v2 _ ht2]
  split_ifs
  · rfl
  · rfl
  · exact (for_range_sim _ _ _ (alpha_sim c fl f r) c (with_alpha_state c fl f r) ⟨rfl, rfl, ht⟩
      (fun y _ _ s t hst =>
        rasterize_triangle_smooth_row_sim lm alloc_ok v0 v1 v2 bf _ _ _ _ y c fl f r h s t hst)).1

/-- C40: the alpha test never affects an untextured filled triangle. When no
texture is sampled (texturing disabled, texture 0 bound, or the bound texture
without an image), two contexts that differ at most in the state of the alpha
test (enable bit, function, reference) have the same framebuffer (color, depth
and stencil planes) after `rasterize_triangle_smooth` ran on the same
triangle. -/
theorem alpha_test_untextured (lm : LibM) (alloc_ok : Bool) (c s : GLState)
    (v0 v1 v2 : raster_vertex_t) (is_back_facing : Bool)
    (hv : alpha_state_variant c s) (ht : rasterize_triangle_smooth_tex c = none) :
    (rasterize_triangle_smooth lm alloc_ok s v0 v1 v2 is_back_facing).framebuffer
      = (rasterize_triangle_smooth lm alloc_ok c v0 v1 v2 is_back_facing).framebuffer := by
  obtain ⟨fl, f, r, h, rfl⟩ := hv
  rw [rasterize_triangle_smooth_alpha lm alloc_ok c fl f r h ht]
  rfl

theorem alpha_test_untextured_witness :
    alpha_state_variant test_context alpha_never_test_context ∧
      rasterize_triangle_smooth_tex test_context = none ∧
      (rasterize_triangle_smooth test_platform.lm true alpha_never_test_context
          (test_raster_vertex 0 0) (test_raster_vertex 3 0) (test_raster_vertex 0 3)
          true).framebuffer
        = (rasterize_triangle_smooth test_platform.lm true test_context
          (test_raster_vertex 0 0) (test_raster_vertex 3 0) (test_raster_vertex 0 3)
          true).framebuffer :=
  ⟨⟨_, _, _, by decide, rfl⟩, if_neg (by decide),
    alpha_test_untextured test_platform.lm true test_context alpha_never_test_context
      (test_raster_vertex 0 0) (test_raster_vertex 3 0) (test_raster_vertex 0 3) true
      ⟨_, _, _, by decide, rfl⟩ (if_neg (by decide))⟩

/-! ## C36: line fragments and the stencil test -/

theorem flags_off_bit (A fl g X : Nat) (h : fl ||| A = g ||| A) (hX : X &&& A = 0) :
    fl &&& X = g &&& X := by
  apply Nat.eq_of_testBit_eq
  intro i
  have h1 := congrArg (fun n => Nat.testBit n i) h
  have h2 := congrArg (fun n => Nat.testBit n i) hX
  simp only [Nat.testBit_or, Nat.testBit_and, Nat.zero_testBit] at h1 h2
  rw [Nat.testBit_and, Nat.testBit_and]
  cases hx : X.testBit i
  · simp
  · rw [hx] at h2
    simp only [Bool.true_and] at h2
    rw [h2] at h1
    simpa using h1

theorem draw_line_full_locals_stencil (p : stencil_state_t) (c : GLState)
    (h : p.flags ||| FLAG_STENCIL_TEST = c.flags ||| FLAG_STENCIL_TEST) (x0 y0 x1 y1 : Int) :
    draw_line_full_locals (with_stencil_state p c) x0 y0 x1 y1
      = draw_line_full_locals c x0 y0 x1 y1 := by
  have h1 := flags_off_bit FLAG_STENCIL_TEST p.flags c.flags FLAG_DEPTH_TEST h (by decide)
  have h2 := flags_off_bit FLAG_STENCIL_TEST p.flags c.flags FLAG_FOG h (by decide)
  have h3 := flags_off_bit FLAG_STENCIL_TEST p.flags c.flags FLAG_BLEND h (by decide)
  have h4 := flags_off_bit FLAG_STENCIL_TEST p.flags c.flags FLAG_ALPHA_TEST h (by decide)
  have h5 := flags_off_bit FLAG_STENCIL_TEST p.flags c.flags FLAG_SCISSOR_TEST h (by decide)
  have h6 := flags_off_bit FLAG_STENCIL_TEST p.flags c.flags FLAG_TEXTURE_2D h (by decide)
  have hflags : (with_stencil_state p c).flags = p.flags := rfl
  have hlw : (with_stencil_state p c).line_width = c.line_width := rfl
  have hb : (with_stencil_state p c).bound_texture_2d = c.bound_texture_2d := rfl
  have htx : (with_stencil_state p c).textures = c.textures := rfl
  unfold draw_line_full_locals
  simp only [hflags, hlw, hb, htx, h1, h2, h3, h4, h5, h6]

theorem draw_line_full_fragment_stencil (lm : LibM) (p : stencil_state_t) (c : GLState)
    (L : line_locals_t) (c0 c1 : color_t) (ez0 ez1 : ℚ) (uv0 uv1 : vec2_t) (t : ℚ) :
    draw_line_full_fragment lm (with_stencil_state p c) L c0 c1 ez0 ez1 uv0 uv1 t
      = draw_line_full_fragment lm c L c0 c1 ez0 ez1 uv0 uv1 t := rfl

theorem write_line_pixel_stencil (p : stencil_state_t) (c : GLState) (px py : Int) (depth : ℚ)
    (col : color_t) (d b sc : Bool) :
    write_line_pixel (with_stencil_state p c) px py depth col d b sc
      = with_stencil_state p (write_line_pixel c px py depth col d b sc) := by
  have hfb : (with_stencil_state p c).framebuffer = c.framebuffer := rfl
  have h1 : (with_stencil_state p c).scissor_x = c.scissor_x := rfl
  have h2 : (with_stencil_state p c).scissor_y = c.scissor_y := rfl
  have h3 : (with_stencil_state p c).scissor_w = c.scissor_w := rfl
  have h4 : (with_stencil_state p c).scissor_h = c.scissor_h := rfl
  have h5 : (with_stencil_state p c).depth_func = c.depth_func := rfl
  have h6 : (with_stencil_state p c).depth_mask = c.depth_mask := rfl
  unfold write_line_pixel
  simp only [hfb, h1, h2, h3, h4, h5, h6]
  split_ifs <;> rfl

theorem framebuffer_putpixel_stencil_plane (fb : framebuffer_t) (x y : Int) (p : Nat) :
    (framebuffer_putpixel fb x y p).stencil = fb.stencil := by
  unfold framebuffer_putpixel
  split_ifs <;> rfl

theorem framebuffer_putdepth_stencil_plane (fb : framebuffer_t) (x y : Int) (d : ℚ) :
    (framebuffer_putdepth fb x y d).stencil = fb.stencil := by
  unfold framebuffer_putdepth
  split_ifs <;> rfl

theorem write_pixel_masked_stencil_plane (c : GLState) (x y : Int) (col : color_t) :
    (write_pixel_masked c x y col).stencil = c.framebuffer.stencil := by
  unfold write_pixel_masked
  simp only []
  by_cases h1 : c.color_mask_r ∧ c.color_mask_g ∧ c.color_mask_b ∧ c.color_mask_a
  · rw [if_pos h1]; exact framebuffer_putpixel_stencil_plane _ _ _ _
  · rw [if_neg h1]
    by_cases h2 : ¬c.color_mask_r ∧ ¬c.color_mask_g ∧ ¬c.color_mask_b ∧ ¬c.color_mask_a
    · rw [if_pos h2]
    · rw [if_neg h2]; exact framebuffer_putpixel_stencil_plane _ _ _ _

theorem write_line_pixel_stencil_plane (c : GLState) (px py : Int) (depth : ℚ)
    (col : color_t) (d b sc : Bool) :
    (write_line_pixel c px py depth col d b sc).framebuffer.stencil = c.framebuffer.stencil := by
  unfold write_line_pixel
  simp only []
  by_cases h1 : px < 0 ∨ px ≥ c.framebuffer.width ∨ py < 0 ∨ py ≥ c.framebuffer.height
  · rw [if_pos h1]
  · rw [if_neg h1]
    by_cases h2 : sc = true ∧ (px < c.scissor_x ∨ px ≥ c.scissor_x + c.scissor_w ∨
        py < c.scissor_y ∨ py ≥ c.scissor_y + c.scissor_h)
    · rw [if_pos h2]
    · rw [if_neg h2]
      by_cases h3 : d = true ∧
          ¬depth_test c.depth_func depth (framebuffer_getdepth c.framebuffer px py)
      · rw [if_pos h3]
      · rw [if_neg h3]
        show (write_pixel_masked _ px py _).stencil = _
        rw [write_pixel_masked_stencil_plane]
        show (if d = true ∧ c.depth_mask then framebuffer_putdepth c.framebuffer px py depth
          else c.framebuffer).stencil = _
        split_ifs
        · exact framebuffer_putdepth_stencil_plane _ _ _ _
        · rfl

theorem draw_line_full_plot_stencil (p : stencil_state_t) (c : GLState) (L : line_locals_t)
    (x y : Int) (depth : ℚ) (col : color_t) :
    draw_line_full_plot (with_stencil_state p c) L x y depth col
      = with_stencil_state p (draw_line_full_plot c L x y depth col) := by
  have hfb : (with_stencil_state p c).framebuffer = c.framebuffer := rfl
  unfold draw_line_full_plot
  rw [hfb]
  split_ifs
  · exact write_line_pixel_stencil p c _ _ _ _ _ _ _
  · rfl
  · exact (for_range_sim _ _ _ (fun s t => t = with_stencil_state p s) c
      (with_stencil_state p c) rfl (fun w _ _ s t hst => by
        rw [hst]; exact write_line_pixel_stencil p s _ _ _ _ _ _ _))

theorem draw_line_full_plot_stencil_plane (c : GLState) (L : line_locals_t)
    (x y : Int) (depth : ℚ) (col : color_t) :
    (draw_line_full_plot c L x y depth col).framebuffer.stencil = c.framebuffer.stencil := by
  unfold draw_line_full_plot
  split_ifs
  · exact write_line_pixel_stencil_plane _ _ _ _ _ _ _ _
  · rfl
  · exact (for_range_keeps _ _ _ (fun _ => True) (fun s => s.framebuffer.stencil) c trivial
      (fun w _ _ s _ => ⟨trivial, write_line_pixel_stencil_plane _ _ _ _ _ _ _ _⟩)).2

theorem draw_line_full_loop_stencil (lm : LibM) (x1 y1 : Int) (z0 z1 : ℚ) (c0 c1 : color_t)
    (ez0 ez1 : ℚ) (uv0 uv1 : vec2_t) (L : line_locals_t) (p : stencil_state_t) :
    ∀ (fuel : Nat) (c : GLState) (k : line_cursor_t),
      draw_line_full_loop lm x1 y1 z0 z1 c0 c1 ez0 ez1 uv0 uv1 L fuel (with_stencil_state p c) k
        = (draw_line_full_loop lm x1 y1 z0 z1 c0 c1 ez0 ez1 uv0 uv1 L fuel c k).map
            (fun r => (with_stencil_state p r.1, r.2)) := by
  intro fuel
  induction fuel with
  | zero => intro c k; rfl
  | succ n ih =>
    intro c k
    have hn : (with_stencil_state p c).depth_near = c.depth_near := rfl
    have hf : (with_stencil_state p c).depth_far = c.depth_far := rfl
    unfold draw_line_full_loop
    simp only [draw_line_full_fragment_stencil, hn, hf]
    cases hfr : draw_line_full_fragment lm c L c0 c1 ez0 ez1 uv0 uv1 (line_t L k) with
    | none =>
      simp only [ih, Option.map_map]
      rfl
    | some col =>
      simp only [draw_line_full_plot_stencil]
      split_ifs
      · rfl
      · simp only [ih, Option.map_map]
        rfl

theorem draw_line_full_loop_stencil_plane (lm : LibM) (x1 y1 : Int) (z0 z1 : ℚ)
    (c0 c1 : color_t) (ez0 ez1 : ℚ) (uv0 uv1 : vec2_t) (L : line_locals_t) :
    ∀ (fuel : Nat) (c : GLState) (k : line_cursor_t) (r : GLState × List line_cursor_t),
      draw_line_full_loop lm x1 y1 z0 z1 c0 c1 ez0 ez1 uv0 uv1 L fuel c k = some r →
      r.1.framebuffer.stencil = c.framebuffer.stencil := by
  intro fuel
  induction fuel with
  | zero => intro c k r h; exact absurd h (by unfold draw_line_full_loop; exact Option.noConfusion)
  | succ n ih =>
    intro c k r h
    unfold draw_line_full_loop at h
    simp only [] at h
    cases hfr : draw_line_full_fragment lm c L c0 c1 ez0 ez1 uv0 uv1 (line_t L k) with
    | none =>
      rw [hfr] at h
      cases hl : draw_line_full_loop lm x1 y1 z0 z1 c0 c1 ez0 ez1 uv0 uv1 L n c k with
      | none => rw [hl] at h; exact Option.noConfusion h
      | some r1 =>
        rw [hl] at h
        cases h
        exact ih c k r1 hl
    | some col =>
      rw [hfr] at h
      simp only [] at h
      split_ifs at h
      · cases h
        exact draw_line_full_plot_stencil_plane _ _ _ _ _ _
      · cases hl : draw_line_full_loop lm x1 y1 z0 z1 c0 c1 ez0 ez1 uv0 uv1 L n
            (draw_line_full_plot c L k.cur_x k.cur_y
              ((z0 + line_t L k * (z1 - z0) + 1) * (1 / 2) * (c.depth_far - c.depth_near)
                + c.depth_near) col) (line_advance L k) with
        | none => rw [hl] at h; exact Option.noConfusion h
        | some r1 =>
          rw [hl] at h
          cases h
          exact (ih _ _ r1 hl).trans (draw_line_full_plot_stencil_plane _ _ _ _ _ _)

/-- C36 (counterexample): with the stencil test enabled, the function
`GL_NEVER` and the fail operation `GL_REPLACE` with reference 1, the line from
`(0, 0)` to `(3, 0)` writes its color at pixel `(1, 0)` and leaves the stencil
value 0 there; the merge stages of a triangle fragment at the same pixel leave
the color and set the stencil value to 1. -/
theorem line_fragment_skips_stencil :
    (draw_line_full test_platform.lm 4 stencil_never_context 0 0 0 3 0 0 ⟨1, 1, 1, 1⟩
        ⟨1, 1, 1, 1⟩ 0 0 ⟨0, 0⟩ ⟨0, 0⟩).map (fun r => pixel_values r.framebuffer 1 0)
      = some (0xFFFFFFFF, 1, 0) ∧
    pixel_values stencil_never_context.framebuffer 1 0 = (0, 1, 0) ∧
    pixel_values
        (rasterize_triangle_smooth_pixel stencil_never_context 1 0 (1 / 2) test_shaded) 1 0
      = (0, 1, 1) := by
  decide!

/-- C36 (amended): line fragments pass the merge stages of the line rasterizer
(bounds and scissor test, depth test, blending, depth write, color mask) and no
stencil stage. For two contexts that differ at most in the stencil state
`draw_line_full` leaves the same framebuffer, and it leaves the stencil plane
as it was; the same holds for the pixels `draw_line_full_plot` writes for one
fragment, including each replicated pixel of a wide line. -/
theorem line_fragment_merge (lm : LibM) (fuel : Nat) (c s : GLState) (x0 y0 : Int) (z0 : ℚ)
    (x1 y1 : Int) (z1 : ℚ) (c0 c1 : color_t) (ez0 ez1 : ℚ) (uv0 uv1 : vec2_t)
    (hv : stencil_state_variant c s) :
    (draw_line_full lm fuel s x0 y0 z0 x1 y1 z1 c0 c1 ez0 ez1 uv0 uv1).map
        (fun r => r.framebuffer)
      = (draw_line_full lm fuel c x0 y0 z0 x1 y1 z1 c0 c1 ez0 ez1 uv0 uv1).map
        (fun r => r.framebuffer) ∧
    (∀ r, draw_line_full lm fuel c x0 y0 z0 x1 y1 z1 c0 c1 ez0 ez1 uv0 uv1 = some r →
      r.framebuffer.stencil = c.framebuffer.stencil) ∧
    (∀ (L : line_locals_t) (x y : Int) (depth : ℚ) (col : color_t),
      (draw_line_full_plot s L x y depth col).framebuffer
        = (draw_line_full_plot c L x y depth col).framebuffer ∧
      (draw_line_full_plot c L x y depth col).framebuffer.stencil = c.framebuffer.stencil) := by
  obtain ⟨p, h, rfl⟩ := hv
  refine ⟨?_, ?_, ?_⟩
  · unfold draw_line_full draw_line_full_trace
    simp only [draw_line_full_locals_stencil p c h, draw_line_full_loop_stencil, Option.map_map]
    rfl
  · intro r hr
    unfold draw_line_full draw_line_full_trace at hr
    simp only [] at hr
    cases hl : draw_line_full_loop lm x1 y1 z0 z1 c0 c1 ez0 ez1 uv0 uv1
        (draw_line_full_locals c x0 y0 x1 y1) fuel c
        { cur_x := x0, cur_y := y0,
          err := (draw_line_full_locals c x0 y0 x1 y1).adx
            - (draw_line_full_locals c x0 y0 x1 y1).ady, step := 0 } with
    | none => rw [hl] at hr; exact Option.noConfusion hr
    | some r1 =>
      rw [hl] at hr
      cases hr
      exact draw_line_full_loop_stencil_plane lm x1 y1 z0 z1 c0 c1 ez0 ez1 uv0 uv1 _ fuel c _ r1 hl
  · intro L x y depth col
    refine ⟨?_, draw_line_full_plot_stencil_plane c L x y depth col⟩
    rw [draw_line_full_plot_stencil]
    rfl

theorem line_fragment_merge_witness :
    stencil_state_variant test_context stencil_never_context ∧
      (draw_line_full test_platform.lm 4 stencil_never_context 0 0 0 3 0 0 ⟨1, 1, 1, 1⟩
          ⟨1, 1, 1, 1⟩ 0 0 ⟨0, 0⟩ ⟨0, 0⟩).map (fun r => r.framebuffer)
        = (draw_line_full test_platform.lm 4 test_context 0 0 0 3 0 0 ⟨1, 1, 1, 1⟩
          ⟨1, 1, 1, 1⟩ 0 0 ⟨0, 0⟩ ⟨0, 0⟩).map (fun r => r.framebuffer) :=
  ⟨⟨_, by decide, rfl⟩,
    (line_fragment_merge test_platform.lm 4 test_context stencil_never_context 0 0 0 3 0 0
      ⟨1, 1, 1, 1⟩ ⟨1, 1, 1, 1⟩ 0 0 ⟨0, 0⟩ ⟨0, 0⟩ ⟨_, by decide, rfl⟩).1⟩

/-! ## C37: the fog coordinate -/

/-- C37: `emit_vertex` stores `eye_z = -z_eye`. The triangle rasterizer takes
the interpolated `eye_z` as the fog coordinate; the line rasterizer and
`flush_points` negate it once more. For a white vertex at eye-space `z = -5`
with linear fog from 0 to 10 and the fog color `(0, 0, 0, 0)` the triangle
fragment gets the factor `1/2`, the line and the point fragment the factor 1
(the clamped `15/10`). -/
theorem fog_coordinate_by_primitive :
    fog_test_vertex.eye_z = 5 ∧
    fog_test_vertex.color = ⟨1, 1, 1, 1⟩ ∧
    (rasterize_triangle_smooth_shade test_platform.lm true fog_linear_context
        (fog_raster_vertex 0 0) (fog_raster_vertex 3 0) (fog_raster_vertex 0 3) false 0
        (1 / 3) (1 / 3) (1 / 3)).1.color = ⟨1 / 2, 1 / 2, 1 / 2, 0⟩ ∧
    draw_line_full_fragment test_platform.lm fog_linear_context
        (draw_line_full_locals fog_linear_context 0 0 3 0) fog_test_vertex.color
        fog_test_vertex.color fog_test_vertex.eye_z fog_test_vertex.eye_z ⟨0, 0⟩ ⟨0, 0⟩ (1 / 3)
      = some ⟨1, 1, 1, 0⟩ ∧
    flush_points_fragment test_platform.lm fog_linear_context
        (flush_points_locals fog_linear_context) fog_test_vertex = some ⟨1, 1, 1, 0⟩ ∧
    fog_factor test_platform.lm fog_linear_context 5 = 1 / 2 ∧
    fog_factor test_platform.lm fog_linear_context (-5) = 1 := by
  decide!

/-! ## C31: perspective-correct interpolation -/

/-- The shading stages sample the texture at `rasterize_triangle_smooth_uv`. -/
theorem rasterize_triangle_smooth_shade_uv (lm : LibM) (alloc_ok : Bool) (c : GLState)
    (v0 v1 v2 : raster_vertex_t) (bf : Bool) (lod b0 b1 b2 : ℚ) (tex : texture_t)
    (ht : rasterize_triangle_smooth_tex c = some tex) :
    (rasterize_triangle_smooth_shade lm alloc_ok c v0 v1 v2 bf lod b0 b1 b2).1.tex_alpha
        = some (color_from_rgba32 (texture_sample_lod alloc_ok tex
            (rasterize_triangle_smooth_uv c v0 v1 v2 b0 b1 b2).1
            (rasterize_triangle_smooth_uv c v0 v1 v2 b0 b1 b2).2 lod).1).a ∧
      (rasterize_triangle_smooth_shade lm alloc_ok c v0 v1 v2 bf lod b0 b1 b2).2
        = texture_put c.textures c.bound_texture_2d (texture_sample_lod alloc_ok tex
            (rasterize_triangle_smooth_uv c v0 v1 v2 b0 b1 b2).1
            (rasterize_triangle_smooth_uv c v0 v1 v2 b0 b1 b2).2 lod).2 := by
  unfold rasterize_triangle_smooth_shade rasterize_triangle_smooth_uv
  simp only [ht]
  exact ⟨trivial, trivial⟩

theorem perspective_divide_w_inv (v : vertex_t) (p : Int × Int)
    (h : ¬ |v.position.w| < 1 / 10 ^ 6) :
    (raster_vertex p (perspective_divide v).2).w_inv = 1 / v.position.w := by
  unfold perspective_divide
  rw [if_neg h]
  rfl

theorem weights_sum_pos (b0 b1 b2 w0 w1 w2 : ℚ) (hw0 : 0 < w0) (hw1 : 0 < w1) (hw2 : 0 < w2)
    (hb : b0 + b1 + b2 = 1) (hb0 : 0 ≤ b0) (hb1 : 0 ≤ b1) (hb2 : 0 ≤ b2) :
    0 < b0 / w0 + b1 / w1 + b2 / w2 := by
  have h0 : 0 ≤ b0 / w0 := div_nonneg hb0 hw0.le
  have h1 : 0 ≤ b1 / w1 := div_nonneg hb1 hw1.le
  have h2 : 0 ≤ b2 / w2 := div_nonneg hb2 hw2.le
  rcases lt_or_eq_of_le hb0 with h | h
  · have : 0 < b0 / w0 := div_pos h hw0
    linarith
  · rcases lt_or_eq_of_le hb1 with h' | h'
    · have : 0 < b1 / w1 := div_pos h' hw1
      linarith
    · have hb2' : 0 < b2 := by linarith
      have : 0 < b2 / w2 := div_pos hb2' hw2
      linarith

/-- C31: perspective-correct interpolation equals the closed form. For
clip-space `w0, w1, w2 > 0`, whose reciprocals the rasterizer receives as
`w_inv`, and barycentric weights `b0 + b1 + b2 = 1`, `b_i ≥ 0`, the `(u, v)`
computed with a hint other than `GL_FASTEST` is `sum_i l_i (u_i, v_i)` with
`l_i = (b_i / w_i) / sum_j (b_j / w_j)`; the weights `l_i` sum to 1 and the
point `sum_i l_i P_i` projects to `sum_i b_i (x_i / w_i)` for every clip-space
coordinate `x`; with `GL_FASTEST` the `(u, v)` is `sum_i b_i (u_i, v_i)`, and
for `w0 = w1 = w2` the two coincide. `perspective_divide` hands `1 / w` to the
rasterizer for `|w| ≥ 1e-6`. -/
theorem perspective_correct_interpolation (c : GLState) (v0 v1 v2 : raster_vertex_t)
    (b0 b1 b2 w0 w1 w2 : ℚ) (hw0 : 0 < w0) (hw1 : 0 < w1) (hw2 : 0 < w2)
    (hi0 : v0.w_inv = 1 / w0) (hi1 : v1.w_inv = 1 / w1) (hi2 : v2.w_inv = 1 / w2)
    (hb : b0 + b1 + b2 = 1) (hb0 : 0 ≤ b0) (hb1 : 0 ≤ b1) (hb2 : 0 ≤ b2) :
    (c.perspective_correction_hint ≠ GL_FASTEST →
      rasterize_triangle_smooth_uv c v0 v1 v2 b0 b1 b2 =
        (b0 / w0 / (b0 / w0 + b1 / w1 + b2 / w2) * v0.uv.x
            + b1 / w1 / (b0 / w0 + b1 / w1 + b2 / w2) * v1.uv.x
            + b2 / w2 / (b0 / w0 + b1 / w1 + b2 / w2) * v2.uv.x,
          b0 / w0 / (b0 / w0 + b1 / w1 + b2 / w2) * v0.uv.y
            + b1 / w1 / (b0 / w0 + b1 / w1 + b2 / w2) * v1.uv.y
            + b2 / w2 / (b0 / w0 + b1 / w1 + b2 / w2) * v2.uv.y)) ∧
    (b0 / w0 / (b0 / w0 + b1 / w1 + b2 / w2) + b1 / w1 / (b0 / w0 + b1 / w1 + b2 / w2)
        + b2 / w2 / (b0 / w0 + b1 / w1 + b2 / w2) = 1) ∧
    (∀ x0 x1 x2 : ℚ,
      (b0 / w0 / (b0 / w0 + b1 / w1 + b2 / w2) * x0
          + b1 / w1 / (b0 / w0 + b1 / w1 + b2 / w2) * x1
          + b2 / w2 / (b0 / w0 + b1 / w1 + b2 / w2) * x2)
        / (b0 / w0 / (b0 / w0 + b1 / w1 + b2 / w2) * w0
          + b1 / w1 / (b0 / w0 + b1 / w1 + b2 / w2) * w1
          + b2 / w2 / (b0 / w0 + b1 / w1 + b2 / w2) * w2)
        = b0 * (x0 / w0) + b1 * (x1 / w1) + b2 * (x2 / w2)) ∧
    (c.perspective_correction_hint = GL_FASTEST →
      rasterize_triangle_smooth_uv c v0 v1 v2 b0 b1 b2 =
        (b0 * v0.uv.x + b1 * v1.uv.x + b2 * v2.uv.x,
          b0 * v0.uv.y + b1 * v1.uv.y + b2 * v2.uv.y)) ∧
    (w0 = w1 → w1 = w2 →
      rasterize_triangle_smooth_uv c v0 v1 v2 b0 b1 b2 =
        (b0 * v0.uv.x + b1 * v1.uv.x + b2 * v2.uv.x,
          b0 * v0.uv.y + b1 * v1.uv.y + b2 * v2.uv.y)) ∧
    (∀ (v : vertex_t) (p : Int × Int), ¬ |v.position.w| < 1 / 10 ^ 6 →
      (raster_vertex p (perspective_divide v).2).w_inv = 1 / v.position.w) := by
  have hS := weights_sum_pos b0 b1 b2 w0 w1 w2 hw0 hw1 hw2 hb hb0 hb1 hb2
  have hS0 : b0 / w0 + b1 / w1 + b2 / w2 ≠ 0 := hS.ne.symm
  have h0 : w0 ≠ 0 := hw0.ne.symm
  have h1 : w1 ≠ 0 := hw1.ne.symm
  have h2 : w2 ≠ 0 := hw2.ne.symm
  have e : b0 * (1 / w0) + b1 * (1 / w1) + b2 * (1 / w2) = b0 / w0 + b1 / w1 + b2 / w2 := by
    ring
  have persp : c.perspective_correction_hint ≠ GL_FASTEST →
      rasterize_triangle_smooth_uv c v0 v1 v2 b0 b1 b2 =
        (b0 / w0 / (b0 / w0 + b1 / w1 + b2 / w2) * v0.uv.x
            + b1 / w1 / (b0 / w0 + b1 / w1 + b2 / w2) * v1.uv.x
            + b2 / w2 / (b0 / w0 + b1 / w1 + b2 / w2) * v2.uv.x,
          b0 / w0 / (b0 / w0 + b1 / w1 + b2 / w2) * v0.uv.y
            + b1 / w1 / (b0 / w0 + b1 / w1 + b2 / w2) * v1.uv.y
            + b2 / w2 / (b0 / w0 + b1 / w1 + b2 / w2) * v2.uv.y) := by
    intro hh
    unfold rasterize_triangle_smooth_uv
    simp only [if_pos hh, hi0, hi1, hi2, e]
    generalize b0 / w0 + b1 / w1 + b2 / w2 = S at hS0
    refine Prod.ext ?_ ?_ <;> simp only [] <;> field_simp <;> ring
  have fast : c.perspective_correction_hint = GL_FASTEST →
      rasterize_triangle_smooth_uv c v0 v1 v2 b0 b1 b2 =
        (b0 * v0.uv.x + b1 * v1.uv.x + b2 * v2.uv.x,
          b0 * v0.uv.y + b1 * v1.uv.y + b2 * v2.uv.y) := by
    intro hh
    unfold rasterize_triangle_smooth_uv
    simp only [if_neg (not_not.mpr hh)]
  refine ⟨persp, ?_, ?_, fast, ?_, fun v p h => perspective_divide_w_inv v p h⟩
  · rw [← add_div, ← add_div]
    exact div_self hS0
  · intro x0 x1 x2
    have hden : b0 / w0 / (b0 / w0 + b1 / w1 + b2 / w2) * w0
        + b1 / w1 / (b0 / w0 + b1 / w1 + b2 / w2) * w1
        + b2 / w2 / (b0 / w0 + b1 / w1 + b2 / w2) * w2
        = 1 / (b0 / w0 + b1 / w1 + b2 / w2) := by
      generalize b0 / w0 + b1 / w1 + b2 / w2 = S at hS0
      have a0 : b0 / w0 / S * w0 = b0 / S := by field_simp; ring
      have a1 : b1 / w1 / S * w1 = b1 / S := by field_simp; ring
      have a2 : b2 / w2 / S * w2 = b2 / S := by field_simp; ring
      rw [a0, a1, a2, ← add_div, ← add_div, hb]
    rw [hden]
    generalize hSd : b0 / w0 + b1 / w1 + b2 / w2 = S at hS0
    field_simp
    ring
  · intro e01 e12
    by_cases hh : c.perspective_correction_hint = GL_FASTEST
    · exact fast hh
    · rw [persp hh]
      subst e01
      subst e12
      have hsum : b0 / w0 + b1 / w0 + b2 / w0 = 1 / w0 := by
        field_simp; linarith
      rw [hsum]
      refine Prod.ext ?_ ?_ <;> simp only [] <;> field_simp

theorem perspective_correct_interpolation_witness :
    test_context.perspective_correction_hint ≠ GL_FASTEST ∧
      rasterize_triangle_smooth_uv test_context (uv_raster_vertex (1 / 2) 0 0)
          (uv_raster_vertex (1 / 4) 1 0) (uv_raster_vertex 1 0 1) (1 / 2) (1 / 4) (1 / 4) =
        ((1 / 2 : ℚ) / 2 / ((1 / 2) / 2 + (1 / 4) / 4 + (1 / 4) / 1)
              * (uv_raster_vertex (1 / 2) 0 0).uv.x
            + (1 / 4 : ℚ) / 4 / ((1 / 2) / 2 + (1 / 4) / 4 + (1 / 4) / 1)
              * (uv_raster_vertex (1 / 4) 1 0).uv.x
            + (1 / 4 : ℚ) / 1 / ((1 / 2) / 2 + (1 / 4) / 4 + (1 / 4) / 1)
              * (uv_raster_vertex 1 0 1).uv.x,
          (1 / 2 : ℚ) / 2 / ((1 / 2) / 2 + (1 / 4) / 4 + (1 / 4) / 1)
              * (uv_raster_vertex (1 / 2) 0 0).uv.y
            + (1 / 4 : ℚ) / 4 / ((1 / 2) / 2 + (1 / 4) / 4 + (1 / 4) / 1)
              * (uv_raster_vertex (1 / 4) 1 0).uv.y
            + (1 / 4 : ℚ) / 1 / ((1 / 2) / 2 + (1 / 4) / 4 + (1 / 4) / 1)
              * (uv_raster_vertex 1 0 1).uv.y) :=
  ⟨by decide,
    (perspective_correct_interpolation test_context (uv_raster_vertex (1 / 2) 0 0)
      (uv_raster_vertex (1 / 4) 1 0) (uv_raster_vertex 1 0 1) (1 / 2) (1 / 4) (1 / 4) 2 4 1
      (by norm_num) (by norm_num) (by norm_num) rfl rfl (by decide!)
      (by norm_num) (by norm_num) (by norm_num) (by norm_num)).1 (by decide)⟩

/-! ## C38: termination of `clip_line` -/

theorem index_loop_eq (off step count : Nat) (body : Nat → List pipeline_call) :
    ∀ (m fuel i : Nat), m ≤ fuel → (∀ k < m, i + k * step + off < count) →
      ¬ (i + m * step + off < count) →
      index_loop off step count body fuel i
        = ((List.range m).map (fun k => i + k * step)).flatMap body := by
  intro m
  induction m with
  | zero =>
    intro fuel i _ _ hend
    simp only [Nat.zero_mul, Nat.add_zero] at hend
    cases fuel with
    | zero => rfl
    | succ f => rw [index_loop, if_neg hend]; rfl
  | succ m ih =>
    intro fuel i hf hin hend
    cases fuel with
    | zero => omega
    | succ f =>
      have h0 : i + off < count := by
        have := hin 0 (Nat.succ_pos m)
        simpa using this
      rw [index_loop, if_pos h0, ih f (i + step) (by omega)
        (fun k hk => by
          have := hin (k + 1) (by omega)
          rw [Nat.succ_mul] at this
          omega)
        (by rw [Nat.succ_mul] at hend; omega)]
      rw [List.range_succ_eq_map, List.map_cons, List.flatMap_cons, List.map_map]
      simp only [Nat.zero_mul, Nat.add_zero]
      congr 2
      apply List.map_congr_left
      intro k _
      simp only [Function.comp, Nat.succ_mul]
      omega

theorem flatMap_map_index (l : List Nat) (f : Nat → Nat) (body : Nat → List pipeline_call) :
    (l.map f).flatMap body = l.flatMap (fun k => body (f k)) := by
  induction l with
  | nil => rfl
  | cons a l ih => rw [List.map_cons, List.flatMap_cons, List.flatMap_cons, ih]

theorem flatMap_single (l : List Nat) (g : Nat → pipeline_call) :
    l.flatMap (fun k => [g k]) = l.map g := by
  induction l with
  | nil => rfl
  | cons a l ih => rw [List.flatMap_cons, List.map_cons, ih]; rfl

theorem even_filter_range (n : Nat) :
    (List.range n).filter (fun i => i % 2 = 0 ∧ i + 3 < n)
      = (List.range ((n - 2) / 2)).map (fun k => 2 * k) := by
  apply List.eq_of_perm_of_sorted (r := (· < ·))
  · apply (List.perm_ext_iff_of_nodup ((List.nodup_range n).filter _) _).mpr
    · intro a
      simp only [List.mem_filter, List.mem_range, List.mem_map, decide_eq_true_eq]
      constructor
      · rintro ⟨_, h1, h2⟩
        exact ⟨a / 2, by omega, by omega⟩
      · rintro ⟨k, hk, rfl⟩
        omega
    · apply List.Nodup.map _ (List.nodup_range _)
      intro a b h
      simp only at h
      omega
  · exact (List.sorted_lt_range n).filter _
  · apply List.Pairwise.map (fun k => 2 * k) _ (List.sorted_lt_range _)
    intro a b h
    show 2 * a < 2 * b
    omega

theorem emission_table_triangles (n : Nat) :
    emission_table GL_TRIANGLES n
      = (List.range (n / 3)).map
          (fun k => pipeline_call.triangle (3 * k) (3 * k + 1) (3 * k + 2)) := by
  unfold emission_table
  rw [if_pos rfl]

theorem emission_table_triangle_strip (n : Nat) :
    emission_table GL_TRIANGLE_STRIP n
      = (List.range (n - 2)).map (fun i =>
          if i % 2 = 0 then pipeline_call.triangle i (i + 1) (i + 2)
          else pipeline_call.triangle (i + 1) i (i + 2)) := by
  unfold emission_table
  rw [if_neg (by decide), if_pos rfl]

theorem emission_table_triangle_fan (n : Nat) :
    emission_table GL_TRIANGLE_FAN n
      = (List.range (n - 2)).map (fun j => pipeline_call.triangle 0 (j + 1) (j + 2)) := by
  unfold emission_table
  rw [if_neg (by decide), if_neg (by decide), if_pos (by decide)]

theorem emission_table_polygon (n : Nat) :
    emission_table GL_POLYGON n
      = (List.range (n - 2)).map (fun j => pipeline_call.triangle 0 (j + 1) (j + 2)) := by
  unfold emission_table
  rw [if_neg (by decide), if_neg (by decide), if_pos (by decide)]

theorem emission_table_quads (n : Nat) :
    emission_table GL_QUADS n
      = (List.range (n / 4)).flatMap (fun k =>
          [pipeline_call.triangle (4 * k) (4 * k + 1) (4 * k + 2),
            pipeline_call.triangle (4 * k) (4 * k + 2) (4 * k + 3)]) := by
  unfold emission_table
  rw [if_neg (by decide), if_neg (by decide), if_neg (by decide), if_pos rfl]

theorem emission_table_quad_strip (n : Nat) :
    emission_table GL_QUAD_STRIP n
      = ((List.range n).filter (fun i => i % 2 = 0 ∧ i + 3 < n)).flatMap (fun i =>
          [pipeline_call.triangle i (i + 1) (i + 3), pipeline_call.triangle i (i + 3) (i + 2)]) := by
  unfold emission_table
  rw [if_neg (by decide), if_neg (by decide), if_neg (by decide), if_neg (by decide),
    if_pos rfl]

theorem emission_table_lines (n : Nat) :
    emission_table GL_LINES n
      = (List.range (n / 2)).map (fun k => pipeline_call.line (2 * k) (2 * k + 1)) := by
  unfold emission_table
  rw [if_neg (by decide), if_neg (by decide), if_neg (by decide), if_neg (by decide),
    if_neg (by decide), if_pos rfl]

theorem emission_table_line_strip (n : Nat) :
    emission_table GL_LINE_STRIP n
      = (List.range (n - 1)).map (fun i => pipeline_call.line i (i + 1)) := by
  unfold emission_table
  rw [if_neg (by decide), if_neg (by decide), if_neg (by decide), if_neg (by decide),
    if_neg (by decide), if_neg (by decide), if_pos rfl]

theorem emission_table_line_loop (n : Nat) :
    emission_table GL_LINE_LOOP n
      = (List.range (n - 1)).map (fun i => pipeline_call.line i (i + 1))
        ++ (if 2 ≤ n then [pipeline_call.line (n - 1) 0] else []) := by
  unfold emission_table
  rw [if_neg (by decide), if_neg (by decide), if_neg (by decide), if_neg (by decide),
    if_neg (by decide), if_neg (by decide), if_neg (by decide), if_pos rfl]

theorem flush_triangles_calls_eq (n : Nat) :
    flush_triangles_calls n = emission_table GL_TRIANGLES n := by
  unfold flush_triangles_calls
  rw [index_loop_eq 2 3 n _ (n / 3) n 0 (by omega) (fun k hk => by omega) (by omega),
    flatMap_map_index, flatMap_single]
  rw [emission_table_triangles]
  apply List.map_congr_left
  intro k _
  have e : 0 + k * 3 = 3 * k := by omega
  rw [e]

theorem flush_quads_calls_eq (n : Nat) :
    flush_quads_calls n = emission_table GL_QUADS n := by
  unfold flush_quads_calls
  rw [index_loop_eq 3 4 n _ (n / 4) n 0 (by omega) (fun k hk => by omega) (by omega),
    flatMap_map_index]
  rw [emission_table_quads]
  congr 1
  funext k
  have e : 0 + k * 4 = 4 * k := by omega
  rw [e]

theorem flush_lines_calls_eq (n : Nat) :
    flush_lines_calls n = emission_table GL_LINES n := by
  unfold flush_lines_calls
  rw [index_loop_eq 1 2 n _ (n / 2) n 0 (by omega) (fun k hk => by omega) (by omega),
    flatMap_map_index, flatMap_single]
  rw [emission_table_lines]
  apply List.map_congr_left
  intro k _
  have e : 0 + k * 2 = 2 * k := by omega
  rw [e]

theorem flush_triangle_strip_calls_eq (n : Nat) :
    flush_triangle_strip_calls n = emission_table GL_TRIANGLE_STRIP n := by
  unfold flush_triangle_strip_calls
  rw [emission_table_triangle_strip]
  by_cases h : n < 3
  · rw [if_pos h]
    have e : n - 2 = 0 := by omega
    rw [e]
    rfl
  · rw [if_neg h, index_loop_eq 2 1 n _ (n - 2) n 0 (by omega) (fun k hk => by omega) (by omega),
      flatMap_map_index]
    have e : ∀ k : Nat,
        (if (0 + k * 1) % 2 = 0 then
            [pipeline_call.triangle (0 + k * 1) (0 + k * 1 + 1) (0 + k * 1 + 2)]
          else [pipeline_call.triangle (0 + k * 1 + 1) (0 + k * 1) (0 + k * 1 + 2)])
          = [if k % 2 = 0 then pipeline_call.triangle k (k + 1) (k + 2)
              else pipeline_call.triangle (k + 1) k (k + 2)] := by
      intro k
      have e0 : 0 + k * 1 = k := by omega
      rw [e0]
      split_ifs <;> rfl
    simp only [e]
    exact flatMap_single _ _

theorem fan_calls_eq (n : Nat) (h : ¬ n < 3) :
    index_loop 1 1 n (fun i => [pipeline_call.triangle 0 i (i + 1)]) n 1
      = (List.range (n - 2)).map (fun j => pipeline_call.triangle 0 (j + 1) (j + 2)) := by
  rw [index_loop_eq 1 1 n _ (n - 2) n 1 (by omega) (fun k hk => by omega) (by omega),
    flatMap_map_index, flatMap_single]
  apply List.map_congr_left
  intro k _
  have e : 1 + k * 1 = k + 1 := by omega
  rw [e]

theorem flush_triangle_fan_calls_eq (n : Nat) :
    flush_triangle_fan_calls n = emission_table GL_TRIANGLE_FAN n := by
  unfold flush_triangle_fan_calls
  rw [emission_table_triangle_fan]
  by_cases h : n < 3
  · rw [if_pos h]
    have e : n - 2 = 0 := by omega
    rw [e]
    rfl
  · rw [if_neg h, fan_calls_eq n h]

theorem flush_polygon_calls_eq (n : Nat) :
    flush_polygon_calls n = emission_table GL_POLYGON n := by
  unfold flush_polygon_calls
  rw [emission_table_polygon]
  by_cases h : n < 3
  · rw [if_pos h]
    have e : n - 2 = 0 := by omega
    rw [e]
    rfl
  · rw [if_neg h, fan_calls_eq n h]

theorem flush_quad_strip_calls_eq (n : Nat) :
    flush_quad_strip_calls n = emission_table GL_QUAD_STRIP n := by
  unfold flush_quad_strip_calls
  rw [emission_table_quad_strip, even_filter_range, flatMap_map_index]
  by_cases h : n < 4
  · rw [if_pos h]
    have e : (n - 2) / 2 = 0 := by omega
    rw [e]
    rfl
  · rw [if_neg h, index_loop_eq 3 2 n _ ((n - 2) / 2) n 0 (by omega) (fun k hk => by omega)
      (by omega), flatMap_map_index]
    congr 1
    funext k
    have e : 0 + k * 2 = 2 * k := by omega
    rw [e]

theorem strip_calls_eq (n : Nat) :
    index_loop 1 1 n (fun i => [pipeline_call.line i (i + 1)]) n 0
      = (List.range (n - 1)).map (fun i => pipeline_call.line i (i + 1)) := by
  rw [index_loop_eq 1 1 n _ (n - 1) n 0 (by omega) (fun k hk => by omega) (by omega),
    flatMap_map_index, flatMap_single]
  apply List.map_congr_left
  intro k _
  have e : 0 + k * 1 = k := by omega
  rw [e]

theorem flush_line_strip_calls_eq (n : Nat) :
    flush_line_strip_calls n = emission_table GL_LINE_STRIP n := by
  unfold flush_line_strip_calls
  rw [emission_table_line_strip]
  by_cases h : n < 2
  · rw [if_pos h]
    have e : n - 1 = 0 := by omega
    rw [e]
    rfl
  · rw [if_neg h, strip_calls_eq]

theorem flush_line_loop_calls_eq (n : Nat) :
    flush_line_loop_calls n = emission_table GL_LINE_LOOP n := by
  unfold flush_line_loop_calls
  rw [emission_table_line_loop]
  by_cases h : n < 2
  · rw [if_pos h, if_neg (by omega)]
    have e : n - 1 = 0 := by omega
    rw [e]
    rfl
  · rw [if_neg h, strip_calls_eq, if_pos (by omega)]

theorem emission_table_indices (mode n : Nat) :
    ∀ t ∈ emission_table mode n, ∀ i ∈ t.indices, i < n := by
  intro t ht i hi
  unfold emission_table at ht
  split_ifs at ht with h1 h2 h3 h4 h5 h6 h7 h8 h9
  · simp only [List.mem_map, List.mem_range] at ht
    obtain ⟨k, hk, rfl⟩ := ht
    simp only [pipeline_call.indices, List.mem_cons, List.mem_singleton, List.not_mem_nil,
      or_false] at hi
    omega
  · simp only [List.mem_map, List.mem_range] at ht
    obtain ⟨k, hk, rfl⟩ := ht
    split_ifs at hi <;>
      simp only [pipeline_call.indices, List.mem_cons, List.mem_singleton, List.not_mem_nil,
        or_false] at hi <;> omega
  · simp only [List.mem_map, List.mem_range] at ht
    obtain ⟨k, hk, rfl⟩ := ht
    simp only [pipeline_call.indices, List.mem_cons, List.mem_singleton, List.not_mem_nil,
      or_false] at hi
    omega
  · simp only [List.mem_flatMap, List.mem_range, List.mem_cons, List.mem_singleton,
      List.not_mem_nil, or_false] at ht
    obtain ⟨k, hk, rfl | rfl⟩ := ht <;>
      simp only [pipeline_call.indices, List.mem_cons, List.mem_singleton, List.not_mem_nil,
        or_false] at hi <;> omega
  · simp only [List.mem_flatMap, List.mem_filter, List.mem_range, List.mem_cons,
      List.mem_singleton, List.not_mem_nil, or_false, decide_eq_true_eq] at ht
    obtain ⟨k, ⟨_, _, hk⟩, rfl | rfl⟩ := ht <;>
      simp only [pipeline_call.indices, List.mem_cons, List.mem_singleton, List.not_mem_nil,
        or_false] at hi <;> omega
  · simp only [List.mem_map, List.mem_range] at ht
    obtain ⟨k, hk, rfl⟩ := ht
    simp only [pipeline_call.indices, List.mem_cons, List.mem_singleton, List.not_mem_nil,
      or_false] at hi
    omega
  · simp only [List.mem_map, List.mem_range] at ht
    obtain ⟨k, hk, rfl⟩ := ht
    simp only [pipeline_call.indices, List.mem_cons, List.mem_singleton, List.not_mem_nil,
      or_false] at hi
    omega
  · rw [List.mem_append] at ht
    rcases ht with ht | ht
    · simp only [List.mem_map, List.mem_range] at ht
      obtain ⟨k, hk, rfl⟩ := ht
      simp only [pipeline_call.indices, List.mem_cons, List.mem_singleton, List.not_mem_nil,
        or_false] at hi
      omega
    · simp only [List.mem_singleton] at ht
      subst ht
      simp only [pipeline_call.indices, List.mem_cons, List.mem_singleton, List.not_mem_nil,
        or_false] at hi
      omega
  · rw [List.append_nil] at ht
    simp only [List.mem_map, List.mem_range] at ht
    obtain ⟨k, hk, rfl⟩ := ht
    simp only [pipeline_call.indices, List.mem_cons, List.mem_singleton, List.not_mem_nil,
      or_false] at hi
    omega
  · exact absurd ht (List.not_mem_nil _)

theorem flush_primitive_calls_eq (mode n : Nat) :
    flush_primitive_calls mode n = emission_table mode n := by
  unfold flush_primitive_calls
  split_ifs with h0 h1 h2 h3 h4 h5 h6 h7 h8 h9
  · rw [h0]; rfl
  · rw [h1]; exact flush_lines_calls_eq n
  · rw [h2]; exact flush_line_strip_calls_eq n
  · rw [h3]; exact flush_line_loop_calls_eq n
  · rw [h4]; exact flush_triangles_calls_eq n
  · rw [h5]; exact flush_triangle_strip_calls_eq n
  · rw [h6]; exact flush_triangle_fan_calls_eq n
  · rw [h7]; exact flush_quads_calls_eq n
  · rw [h8]; exact flush_quad_strip_calls_eq n
  · rw [h9]; exact flush_polygon_calls_eq n
  · unfold emission_table
    rw [if_neg h4, if_neg h5, if_neg (not_or.mpr ⟨h6, h9⟩), if_neg h7, if_neg h8, if_neg h1,
      if_neg h2, if_neg h3]

/-- C33: primitive assembly. For every primitive mode and every number `n` of
buffered vertices the calls into the triangle and line pipeline that `glEnd`
leads to are, in order, those of the emission table; every index is below
`n`; vertices after the last complete primitive change nothing; and the flush
is the run of the calls of the table, which returns the context as it is when
the table is empty. -/
theorem primitive_assembly_table (mode n : Nat) :
    flush_primitive_calls mode n = emission_table mode n ∧
    (∀ t ∈ flush_primitive_calls mode n, ∀ i ∈ t.indices, i < n) ∧
    (flush_primitive_calls GL_TRIANGLES n = flush_primitive_calls GL_TRIANGLES (n - n % 3) ∧
      flush_primitive_calls GL_QUADS n = flush_primitive_calls GL_QUADS (n - n % 4) ∧
      flush_primitive_calls GL_LINES n = flush_primitive_calls GL_LINES (n - n % 2) ∧
      flush_primitive_calls GL_QUAD_STRIP n = flush_primitive_calls GL_QUAD_STRIP (n - n % 2) ∧
      (n < 4 → flush_primitive_calls GL_QUAD_STRIP n = []) ∧
      (n < 3 → flush_primitive_calls GL_TRIANGLE_STRIP n = [] ∧
        flush_primitive_calls GL_TRIANGLE_FAN n = [] ∧
        flush_primitive_calls GL_POLYGON n = []) ∧
      (n < 2 → flush_primitive_calls GL_LINE_STRIP n = [] ∧
        flush_primitive_calls GL_LINE_LOOP n = [])) ∧
    (∀ (lm : LibM) (alloc_ok : Bool) (fuel : Nat) (c : GLState),
      c.primitive_mode = mode → c.vertices.length = n → mode ≠ GL_POINTS →
      flush_primitive_run lm alloc_ok fuel c
          = (emission_table mode n).foldlM (fun s t => t.run lm alloc_ok fuel c.vertices s) c ∧
        (emission_table mode n = [] → flush_primitive_run lm alloc_ok fuel c = some c)) := by
  refine ⟨flush_primitive_calls_eq mode n, ?_, ?_, ?_⟩
  · rw [flush_primitive_calls_eq]
    exact emission_table_indices mode n
  · simp only [flush_primitive_calls_eq]
    rw [emission_table_triangles, emission_table_triangles, emission_table_quads,
      emission_table_quads, emission_table_lines, emission_table_lines,
      emission_table_quad_strip, emission_table_quad_strip, even_filter_range,
      even_filter_range, emission_table_triangle_strip, emission_table_triangle_fan,
      emission_table_polygon, emission_table_line_strip, emission_table_line_loop]
    have e3 : (n - n % 3) / 3 = n / 3 := by omega
    have e4 : (n - n % 4) / 4 = n / 4 := by omega
    have e2 : (n - n % 2) / 2 = n / 2 := by omega
    have e22 : (n - n % 2 - 2) / 2 = (n - 2) / 2 := by omega
    rw [e3, e4, e2, e22]
    refine ⟨rfl, rfl, rfl, rfl, ?_, ?_, ?_⟩
    · intro h
      have e : (n - 2) / 2 = 0 := by omega
      rw [e]
      rfl
    · intro h
      have e : n - 2 = 0 := by omega
      rw [e]
      exact ⟨rfl, rfl, rfl⟩
    · intro h
      have e : n - 1 = 0 := by omega
      rw [e, if_neg (by omega)]
      exact ⟨rfl, rfl⟩
  · intro lm alloc_ok fuel c hm hn hp
    have e : flush_primitive_run lm alloc_ok fuel c
        = (emission_table mode n).foldlM (fun s t => t.run lm alloc_ok fuel c.vertices s) c := by
      unfold flush_primitive_run
      rw [hm, hn, if_neg hp, flush_primitive_calls_eq]
    refine ⟨e, fun h => ?_⟩
    rw [e, h]
    rfl

theorem primitive_assembly_table_witness :
    flush_primitive_calls GL_TRIANGLE_STRIP 5
        = [.triangle 0 1 2, .triangle 2 1 3, .triangle 2 3 4] ∧
      flush_primitive_calls GL_QUAD_STRIP 7
        = [.triangle 0 1 3, .triangle 0 3 2, .triangle 2 3 5, .triangle 2 5 4] ∧
      flush_primitive_calls GL_LINE_LOOP 3 = [.line 0 1, .line 1 2, .line 2 0] ∧
      flush_primitive_calls GL_QUADS 7 = [.triangle 0 1 2, .triangle 0 2 3] :=
  ⟨(primitive_assembly_table GL_TRIANGLE_STRIP 5).1.trans (by decide),
    (primitive_assembly_table GL_QUAD_STRIP 7).1.trans (by decide),
    (primitive_assembly_table GL_LINE_LOOP 3).1.trans (by decide),
    (primitive_assembly_table GL_QUADS 7).1.trans (by decide)⟩

/-! ## C39: indexed draws and the bound buffers -/

/-- C39: `glDrawElements` checks only that the byte offset lies below the size
of the element buffer. With an element buffer of 4 bytes, the offset 2, the
count 2 and indices of 2 bytes (`o + c*s = 6 > 4`) the call is not rejected,
reads the first index from the bytes 2 and 3 and the second from the bytes 4
and 5, outside the buffer. With an array buffer of 12 bytes that holds one
position of three floats and the index 1 the position is read from the bytes
12 to 23, outside the buffer. -/
theorem draw_elements_reads_outside :
    (glDrawElements_index_data (test_vertex_arrays 1000 [0, 0, 0, 0]) element_buffer_context 2
        = .base (.buffer [0, 0, 0, 0] 2) ∧
      read_index (test_client_memory 0) (.buffer [0, 0, 0, 0] 2) GL_UNSIGNED_SHORT 0 = some 0 ∧
      read_index (test_client_memory 0) (.buffer [0, 0, 0, 0] 2) GL_UNSIGNED_SHORT 1 = none ∧
      (glDrawElements test_platform (test_vertex_arrays 1000 [0, 0, 0, 0]) (test_client_memory 0)
        element_buffer_context GL_TRIANGLES 2 GL_UNSIGNED_SHORT 2).isNone = true ∧
      (glDrawElements test_platform (test_vertex_arrays 1000 [0, 0, 0, 0]) (test_client_memory 0)
        element_buffer_context GL_TRIANGLES 1 GL_UNSIGNED_SHORT 2).map
          (fun s => (s.error, s.vertices.length)) = some (GL_NO_ERROR, 0)) ∧
    (get_array_pointer (test_vertex_arrays 0 (List.replicate 12 0)) array_buffer_context
        (float3_pointer 0) = .buffer (List.replicate 12 0) 0 ∧
      read_index (test_client_memory 1) (.client 1000) GL_UNSIGNED_BYTE 0 = some 1 ∧
      get_array_element (test_client_memory 1) (float3_pointer 0)
        (.buffer (List.replicate 12 0) 0) 0 4 = some [0, 0, 0, 1] ∧
      get_array_element (test_client_memory 1) (float3_pointer 0)
        (.buffer (List.replicate 12 0) 0) 1 4 = none ∧
      (glDrawElements test_platform (test_vertex_arrays 0 (List.replicate 12 0))
        (test_client_memory 1) array_buffer_context GL_TRIANGLES 1 GL_UNSIGNED_BYTE 1000).isNone
          = true) := by
  decide!

/-! ## C34: the in-flight vertex buffer -/

theorem gl_set_error_bracket (c : GLState) (e : Nat) :
    bracket_state (gl_set_error c e) = bracket_state c := by
  unfold gl_set_error
  split_ifs <;> rfl

theorem current_matrix_store_bracket (c : GLState) (m : Fin 16 → ℚ) :
    bracket_state (current_matrix_store c m) = bracket_state c := by
  unfold current_matrix_store
  split_ifs <;> rfl

theorem current_stack_depth_store_bracket (c : GLState) (d : Int) :
    bracket_state (current_stack_depth_store c d) = bracket_state c := by
  unfold current_stack_depth_store
  split_ifs <;> rfl

theorem glMatrixMode_bracket (c : GLState) (mode : Nat) (hidx : c.list_index = 0) :
    bracket_state (glMatrixMode c mode) = bracket_state c := by
  unfold glMatrixMode list_record_matrix_mode
  rw [unless_recorded_idle _ _ _ hidx]
  rfl

theorem glLoadIdentity_bracket (c : GLState) (hidx : c.list_index = 0) :
    bracket_state (glLoadIdentity c) = bracket_state c := by
  unfold glLoadIdentity list_record_load_identity
  rw [unless_recorded_idle _ _ _ hidx]
  exact current_matrix_store_bracket _ _

theorem glPushMatrix_bracket (c : GLState) (hidx : c.list_index = 0) :
    bracket_state (glPushMatrix c) = bracket_state c := by
  unfold glPushMatrix list_record_push_matrix
  rw [unless_recorded_idle _ _ _ hidx]
  dsimp only
  split_ifs
  · exact gl_set_error_bracket _ _
  · rw [current_matrix_store_bracket, current_stack_depth_store_bracket]

theorem glPopMatrix_bracket (c : GLState) (hidx : c.list_index = 0) :
    bracket_state (glPopMatrix c) = bracket_state c := by
  unfold glPopMatrix list_record_pop_matrix
  rw [unless_recorded_idle _ _ _ hidx]
  dsimp only
  split_ifs
  · exact gl_set_error_bracket _ _
  · exact current_stack_depth_store_bracket _ _

theorem glOrtho_bracket (c : GLState) (l r b t n f : ℚ) (hidx : c.list_index = 0) :
    bracket_state (glOrtho c l r b t n f) = bracket_state c := by
  unfold glOrtho list_record_ortho
  rw [unless_recorded_idle _ _ _ hidx]
  exact current_matrix_store_bracket _ _

theorem glFrustum_bracket (c : GLState) (l r b t n f : ℚ) (hidx : c.list_index = 0) :
    bracket_state (glFrustum c l r b t n f) = bracket_state c := by
  unfold glFrustum list_record_frustum
  rw [unless_recorded_idle _ _ _ hidx]
  exact current_matrix_store_bracket _ _

theorem glTranslatef_bracket (c : GLState) (x y z : ℚ) (hidx : c.list_index = 0) :
    bracket_state (glTranslatef c x y z) = bracket_state c := by
  unfold glTranslatef list_record_translatef
  rw [unless_recorded_idle _ _ _ hidx]
  exact current_matrix_store_bracket _ _

theorem glScalef_bracket (c : GLState) (x y z : ℚ) (hidx : c.list_index = 0) :
    bracket_state (glScalef c x y z) = bracket_state c := by
  unfold glScalef list_record_scalef
  rw [unless_recorded_idle _ _ _ hidx]
  exact current_matrix_store_bracket _ _

theorem glMultMatrixf_bracket (c : GLState) (m : Fin 16 → ℚ) (hidx : c.list_index = 0) :
    bracket_state (glMultMatrixf c m) = bracket_state c := by
  unfold glMultMatrixf list_record_mult_matrixf
  rw [unless_recorded_idle _ _ _ hidx]
  exact current_matrix_store_bracket _ _

theorem glLoadMatrixf_bracket (c : GLState) (m : Fin 16 → ℚ) (hidx : c.list_index = 0) :
    bracket_state (glLoadMatrixf c m) = bracket_state c := by
  unfold glLoadMatrixf list_record_load_matrixf
  rw [unless_recorded_idle _ _ _ hidx]
  exact current_matrix_store_bracket _ _

theorem glBindTexture_bracket (c : GLState) (target texture : Nat) (hidx : c.list_index = 0) :
    bracket_state (glBindTexture c target texture) = bracket_state c := by
  unfold glBindTexture list_record_bind_texture
  rw [unless_recorded_idle _ _ _ hidx]
  split_ifs
  · exact gl_set_error_bracket _ _
  · rfl

theorem glBlendFunc_bracket (c : GLState) (sfactor dfactor : Nat) (hidx : c.list_index = 0) :
    bracket_state (glBlendFunc c sfactor dfactor) = bracket_state c := by
  unfold glBlendFunc list_record_blend_func
  rw [unless_recorded_idle _ _ _ hidx]
  split_ifs
  · exact gl_set_error_bracket _ _
  · rfl

theorem glCullFace_bracket (c : GLState) (mode : Nat) (hidx : c.list_index = 0) :
    bracket_state (glCullFace c mode) = bracket_state c := by
  unfold glCullFace list_record_cull_face
  rw [unless_recorded_idle _ _ _ hidx]
  split_ifs
  · exact gl_set_error_bracket _ _
  · rfl

theorem glFrontFace_bracket (c : GLState) (mode : Nat) (hidx : c.list_index = 0) :
    bracket_state (glFrontFace c mode) = bracket_state c := by
  unfold glFrontFace list_record_front_face
  rw [unless_recorded_idle _ _ _ hidx]
  split_ifs
  · exact gl_set_error_bracket _ _
  · rfl

theorem glDepthFunc_bracket (c : GLState) (func : Nat) (hidx : c.list_index = 0) :
    bracket_state (glDepthFunc c func) = bracket_state c := by
  unfold glDepthFunc list_record_depth_func
  rw [unless_recorded_idle _ _ _ hidx]
  split_ifs
  · exact gl_set_error_bracket _ _
  · rfl

theorem glDepthMask_bracket (c : GLState) (flag : Bool) (hidx : c.list_index = 0) :
    bracket_state (glDepthMask c flag) = bracket_state c := by
  unfold glDepthMask list_record_depth_mask
  rw [unless_recorded_idle _ _ _ hidx]
  rfl

theorem glShadeModel_bracket (c : GLState) (mode : Nat) (hidx : c.list_index = 0) :
    bracket_state (glShadeModel c mode) = bracket_state c := by
  unfold glShadeModel list_record_shade_model
  rw [unless_recorded_idle _ _ _ hidx]
  split_ifs
  · exact gl_set_error_bracket _ _
  · rfl

theorem glTexCoord2f_bracket (c : GLState) (s t : ℚ) (hidx : c.list_index = 0) :
    bracket_state (glTexCoord2f c s t) = bracket_state c := by
  unfold glTexCoord2f list_record_texcoord
  rw [unless_recorded_idle _ _ _ hidx]
  rfl

theorem glNormal3f_bracket (c : GLState) (x y z : ℚ) (hidx : c.list_index = 0) :
    bracket_state (glNormal3f c x y z) = bracket_state c := by
  unfold glNormal3f list_record_normal
  rw [unless_recorded_idle _ _ _ hidx]
  rfl

theorem glRotatef_bracket (lm : LibM) (c : GLState) (a x y z : ℚ) (hidx : c.list_index = 0) :
    bracket_state (glRotatef lm c a x y z) = bracket_state c := by
  unfold glRotatef list_record_rotatef
  rw [unless_recorded_idle _ _ _ hidx]
  exact current_matrix_store_bracket _ _

theorem glColor3f_bracket (c : GLState) (r g b : ℚ) (hidx : c.list_index = 0) :
    bracket_state (glColor3f c r g b) = bracket_state c := by
  unfold glColor3f list_record_color
  dsimp only
  rw [unless_recorded_idle _ _ _ hidx]
  rfl

theorem glColor4f_bracket (c : GLState) (r g b a : ℚ) (hidx : c.list_index = 0) :
    bracket_state (glColor4f c r g b a) = bracket_state c := by
  unfold glColor4f list_record_color
  dsimp only
  rw [unless_recorded_idle _ _ _ hidx]
  rfl

theorem glColor3ub_bracket (c : GLState) (r g b : Nat) (hidx : c.list_index = 0) :
    bracket_state (glColor3ub c r g b) = bracket_state c := by
  unfold glColor3ub list_record_color
  dsimp only
  rw [unless_recorded_idle _ _ _ hidx]
  rfl

theorem glColor4ub_bracket (c : GLState) (r g b a : Nat) (hidx : c.list_index = 0) :
    bracket_state (glColor4ub c r g b a) = bracket_state c := by
  unfold glColor4ub list_record_color
  dsimp only
  rw [unless_recorded_idle _ _ _ hidx]
  rfl

theorem glLightfv_bracket (c : GLState) (light pname : Nat) (params : Fin 4 → ℚ)
    (hidx : c.list_index = 0) :
    bracket_state (glLightfv c light pname params) = bracket_state c := by
  unfold glLightfv list_record_lightfv
  rw [unless_recorded_idle _ _ _ hidx]
  split_ifs
  · exact gl_set_error_bracket _ _
  · rfl

theorem glLightf_bracket (c : GLState) (light pname : Nat) (param : ℚ)
    (hidx : c.list_index = 0) :
    bracket_state (glLightf c light pname param) = bracket_state c := by
  unfold glLightf list_record_lightf
  rw [unless_recorded_idle _ _ _ hidx]
  exact glLightfv_bracket c _ _ _ hidx

theorem glMaterialfv_bracket (c : GLState) (face pname : Nat) (params : Fin 4 → ℚ)
    (hidx : c.list_index = 0) :
    bracket_state (glMaterialfv c face pname params) = bracket_state c := by
  unfold glMaterialfv list_record_materialfv
  rw [unless_recorded_idle _ _ _ hidx]
  by_cases h : face ≠ GL_FRONT ∧ face ≠ GL_BACK ∧ face ≠ GL_FRONT_AND_BACK
  · rw [if_pos h]
    exact gl_set_error_bracket _ _
  · rw [if_neg h]
    cases material_set c.material_front pname params <;>
      cases material_set c.material_back pname params <;>
      first | exact gl_set_error_bracket _ _ | rfl

theorem glMaterialf_bracket (c : GLState) (face pname : Nat) (param : ℚ)
    (hidx : c.list_index = 0) :
    bracket_state (glMaterialf c face pname param) = bracket_state c := by
  unfold glMaterialf list_record_materialf
  rw [unless_recorded_idle _ _ _ hidx]
  exact glMaterialfv_bracket c _ _ _ hidx

theorem cap_flag_inside (cap : Nat) : cap_to_flag cap &&& FLAG_INSIDE_BEGIN_END = 0 := by
  by_cases hc : flag_cap cap
  · exact (flag_cap_bit cap hc).2.2.1
  · have h0 : cap_to_flag cap = 0 := by
      unfold flag_cap at hc
      simp only [not_or] at hc
      obtain ⟨h1, h2, h3, h4, h5, h6, h7, h8, h9, h10, h11⟩ := hc
      unfold cap_to_flag
      rw [if_neg h1, if_neg h2, if_neg h3, if_neg h4, if_neg h5, if_neg h6, if_neg h7,
        if_neg h8, if_neg h9, if_neg h10, if_neg h11]
    rw [h0]
    decide

theorem glEnable_bracket (c : GLState) (cap : Nat) (hidx : c.list_index = 0) :
    bracket_state (glEnable c cap) = bracket_state c := by
  unfold glEnable list_record_enable
  rw [unless_recorded_idle _ _ _ hidx]
  dsimp only
  by_cases h : cap_to_flag cap ≠ 0
  · rw [if_pos h]
    show (c.vertices, (c.flags ||| cap_to_flag cap) &&& FLAG_INSIDE_BEGIN_END, c.list_index)
      = (c.vertices, c.flags &&& FLAG_INSIDE_BEGIN_END, c.list_index)
    rw [Nat.and_distrib_right, cap_flag_inside, Nat.or_zero]
  · rw [if_neg h]
    split_ifs
    · rfl
    · exact gl_set_error_bracket _ _

theorem glDisable_bracket (c : GLState) (cap : Nat) (hidx : c.list_index = 0) :
    bracket_state (glDisable c cap) = bracket_state c := by
  unfold glDisable list_record_disable
  rw [unless_recorded_idle _ _ _ hidx]
  dsimp only
  by_cases h : cap_to_flag cap ≠ 0
  · rw [if_pos h]
    show (c.vertices, (c.flags &&& bit_not32 (cap_to_flag cap)) &&& FLAG_INSIDE_BEGIN_END,
        c.list_index)
      = (c.vertices, c.flags &&& FLAG_INSIDE_BEGIN_END, c.list_index)
    rw [Nat.and_assoc, Nat.and_comm (bit_not32 (cap_to_flag cap)), cap_flag_keeps_inside]
  · rw [if_neg h]
    split_ifs
    · rfl
    · exact gl_set_error_bracket _ _

/-- A plain call with no list being recorded leaves the vertex buffer, the
inside-begin-end flag and the list index as they are. -/
theorem plain_call_bracket (pf : Platform) (fuel : Nat) (k : recordable_call) (c s : GLState)
    (hk : k.is_plain = true) (hidx : c.list_index = 0) (hs : k.run pf fuel c = some s) :
    bracket_state s = bracket_state c := by
  cases k with
  | glEnable cap => cases hs; exact glEnable_bracket c cap hidx
  | glDisable cap => cases hs; exact glDisable_bracket c cap hidx
  | glMatrixMode mode => cases hs; exact glMatrixMode_bracket c mode hidx
  | glLoadIdentity => cases hs; exact glLoadIdentity_bracket c hidx
  | glPushMatrix => cases hs; exact glPushMatrix_bracket c hidx
  | glPopMatrix => cases hs; exact glPopMatrix_bracket c hidx
  | glOrtho l r b t n f => cases hs; exact glOrtho_bracket c l r b t n f hidx
  | glFrustum l r b t n f => cases hs; exact glFrustum_bracket c l r b t n f hidx
  | glTranslatef x y z => cases hs; exact glTranslatef_bracket c x y z hidx
  | glRotatef a x y z => cases hs; exact glRotatef_bracket pf.lm c a x y z hidx
  | glScalef x y z => cases hs; exact glScalef_bracket c x y z hidx
  | glMultMatrixf m => cases hs; exact glMultMatrixf_bracket c m hidx
  | glLoadMatrixf m => cases hs; exact glLoadMatrixf_bracket c m hidx
  | glBegin _ => exact Bool.noConfusion hk
  | glEnd => exact Bool.noConfusion hk
  | glVertex2f _ _ => exact Bool.noConfusion hk
  | glVertex3f _ _ _ => exact Bool.noConfusion hk
  | glColor3f r g b => cases hs; exact glColor3f_bracket c r g b hidx
  | glColor4f r g b a => cases hs; exact glColor4f_bracket c r g b a hidx
  | glColor3ub r g b => cases hs; exact glColor3ub_bracket c r g b hidx
  | glColor4ub r g b a => cases hs; exact glColor4ub_bracket c r g b a hidx
  | glTexCoord2f x y => cases hs; exact glTexCoord2f_bracket c x y hidx
  | glNormal3f x y z => cases hs; exact glNormal3f_bracket c x y z hidx
  | glBindTexture t x => cases hs; exact glBindTexture_bracket c t x hidx
  | glBlendFunc a b => cases hs; exact glBlendFunc_bracket c a b hidx
  | glCullFace m => cases hs; exact glCullFace_bracket c m hidx
  | glFrontFace m => cases hs; exact glFrontFace_bracket c m hidx
  | glDepthFunc f => cases hs; exact glDepthFunc_bracket c f hidx
  | glDepthMask f => cases hs; exact glDepthMask_bracket c f hidx
  | glShadeModel m => cases hs; exact glShadeModel_bracket c m hidx
  | glLightfv l p v => cases hs; exact glLightfv_bracket c l p v hidx
  | glLightf l p v => cases hs; exact glLightf_bracket c l p v hidx
  | glMaterialfv f p v => cases hs; exact glMaterialfv_bracket c f p v hidx
  | glMaterialf f p v => cases hs; exact glMaterialf_bracket c f p v hidx
  | glCallList _ => exact Bool.noConfusion hk

theorem inside_bit_or (n : Nat) : (n ||| FLAG_INSIDE_BEGIN_END) &&& FLAG_INSIDE_BEGIN_END ≠ 0 := by
  rw [Nat.and_distrib_right]
  have e : FLAG_INSIDE_BEGIN_END &&& FLAG_INSIDE_BEGIN_END = 1 := rfl
  rw [e]
  intro h
  have := congrArg (fun n => Nat.testBit n 0) h
  simp at this

theorem inside_bit_clear (n : Nat) :
    (n &&& bit_not32 FLAG_INSIDE_BEGIN_END) &&& FLAG_INSIDE_BEGIN_END = 0 := by
  rw [Nat.and_assoc]
  have e : bit_not32 FLAG_INSIDE_BEGIN_END &&& FLAG_INSIDE_BEGIN_END = 0 := by decide
  rw [e, Nat.and_zero]

/-- The three outcomes of `glBegin` with no list being recorded. -/
theorem glBegin_bracket (c : GLState) (mode : Nat) (hidx : c.list_index = 0) :
    (glBegin c mode).vertices = c.vertices ∧ (glBegin c mode).list_index = 0 ∧
      (c.flags &&& FLAG_INSIDE_BEGIN_END ≠ 0 →
        (glBegin c mode).flags &&& FLAG_INSIDE_BEGIN_END ≠ 0) ∧
      (c.flags &&& FLAG_INSIDE_BEGIN_END = 0 → mode ≤ GL_POLYGON →
        (glBegin c mode).flags &&& FLAG_INSIDE_BEGIN_END ≠ 0) ∧
      (c.flags &&& FLAG_INSIDE_BEGIN_END = 0 → ¬ mode ≤ GL_POLYGON →
        (glBegin c mode).flags &&& FLAG_INSIDE_BEGIN_END = 0) := by
  unfold glBegin list_record_begin
  rw [unless_recorded_idle _ _ _ hidx]
  by_cases h1 : c.flags &&& FLAG_INSIDE_BEGIN_END ≠ 0
  · rw [if_pos h1]
    have e := gl_set_error_bracket c GL_INVALID_OPERATION
    have e1 := congrArg Prod.fst e
    have e2 := congrArg (fun p => p.2.1) e
    have e3 := congrArg (fun p => p.2.2) e
    simp only [bracket_state] at e1 e2 e3
    refine ⟨e1, e3.trans hidx, fun _ => ?_, fun h => absurd h h1, fun h => absurd h h1⟩
    rw [e2]
    exact h1
  · rw [if_neg h1]
    by_cases h2 : mode > GL_POLYGON
    · rw [if_pos h2]
      have e := gl_set_error_bracket c GL_INVALID_ENUM
      have e1 := congrArg Prod.fst e
      have e2 := congrArg (fun p => p.2.1) e
      have e3 := congrArg (fun p => p.2.2) e
      simp only [bracket_state] at e1 e2 e3
      refine ⟨e1, e3.trans hidx, fun h => absurd h h1, fun _ h => absurd h (not_le.mpr h2),
        fun h _ => ?_⟩
      rw [e2]
      exact h
    · rw [if_neg h2]
      exact ⟨rfl, hidx, fun _ => inside_bit_or _, fun _ _ => inside_bit_or _,
        fun _ h => absurd (not_lt.mp h2) h⟩

theorem flush_primitive_bracket (rs : Rasterizer) (c : GLState) :
    bracket_state (flush_primitive rs c) = bracket_state c := by
  have h : ∀ r : framebuffer_t × texture_store_t,
      bracket_state { c with framebuffer := r.1, textures := r.2 } = bracket_state c :=
    fun _ => rfl
  unfold flush_primitive
  simp only [apply_ite bracket_state, h, ite_self]

/-- The two outcomes of `glEnd` with no list being recorded. -/
theorem glEnd_bracket (rs : Rasterizer) (c : GLState) (hidx : c.list_index = 0) :
    (glEnd rs c).list_index = 0 ∧
      (c.flags &&& FLAG_INSIDE_BEGIN_END ≠ 0 →
        (glEnd rs c).vertices = [] ∧ (glEnd rs c).flags &&& FLAG_INSIDE_BEGIN_END = 0) ∧
      (c.flags &&& FLAG_INSIDE_BEGIN_END = 0 → bracket_state (glEnd rs c) = bracket_state c) := by
  unfold glEnd list_record_end
  rw [unless_recorded_idle _ _ _ hidx]
  by_cases h1 : c.flags &&& FLAG_INSIDE_BEGIN_END = 0
  · rw [if_pos h1]
    have e := gl_set_error_bracket c GL_INVALID_OPERATION
    have e3 := congrArg (fun p => p.2.2) e
    simp only [bracket_state] at e3
    exact ⟨e3.trans hidx, fun h => absurd h1 h, fun _ => e⟩
  · rw [if_neg h1]
    dsimp only
    have e := flush_primitive_bracket rs
      { c with flags := c.flags &&& bit_not32 FLAG_INSIDE_BEGIN_END }
    have e2 := congrArg (fun p => p.2.1) e
    have e3 := congrArg (fun p => p.2.2) e
    simp only [bracket_state] at e2 e3
    refine ⟨?_, fun _ => ⟨rfl, ?_⟩, fun h => absurd h h1⟩
    · show (flush_primitive rs _).list_index = 0
      rw [e3]
      exact hidx
    · show (flush_primitive rs _).flags &&& FLAG_INSIDE_BEGIN_END = 0
      rw [e2]
      exact inside_bit_clear _

theorem emit_vertex_bracket (lm : LibM) (c : GLState) (x y z w : ℚ) :
    (emit_vertex lm c x y z w).flags = c.flags ∧
      (emit_vertex lm c x y z w).list_index = c.list_index ∧
      ∃ v, (emit_vertex lm c x y z w).vertices = c.vertices ++ [v] :=
  ⟨rfl, rfl, _, rfl⟩

theorem glVertex3f_bracket (lm : LibM) (c : GLState) (x y z : ℚ) (hidx : c.list_index = 0) :
    (glVertex3f lm c x y z).flags = c.flags ∧ (glVertex3f lm c x y z).list_index = 0 ∧
      ∃ v, (glVertex3f lm c x y z).vertices = c.vertices ++ [v] := by
  unfold glVertex3f list_record_vertex
  rw [unless_recorded_idle _ _ _ hidx]
  exact ⟨rfl, hidx, _, rfl⟩

theorem glVertex2f_bracket (lm : LibM) (c : GLState) (x y : ℚ) (hidx : c.list_index = 0) :
    (glVertex2f lm c x y).flags = c.flags ∧ (glVertex2f lm c x y).list_index = 0 ∧
      ∃ v, (glVertex2f lm c x y).vertices = c.vertices ++ [v] := by
  unfold glVertex2f list_record_vertex
  rw [unless_recorded_idle _ _ _ hidx]
  exact ⟨rfl, hidx, _, rfl⟩

theorem draw_array_color_bracket (va : vertex_arrays_t) (mem : client_memory_t)
    (B : array_bases_t) (c s : GLState) (idx : Int) (hidx : c.list_index = 0)
    (h : draw_array_color va mem B c idx = some s) : bracket_state s = bracket_state c := by
  unfold draw_array_color at h
  by_cases hb : B.color_base ≠ .null
  · rw [if_pos hb] at h
    cases hg : get_array_element mem va.color_pointer B.color_base idx 4 with
    | none => rw [hg] at h; exact Option.noConfusion h
    | some k => rw [hg] at h; cases h; exact glColor4f_bracket c _ _ _ _ hidx
  · rw [if_neg hb] at h
    cases h
    rfl

theorem draw_array_texcoord_bracket (va : vertex_arrays_t) (mem : client_memory_t)
    (B : array_bases_t) (c s : GLState) (idx : Int) (hidx : c.list_index = 0)
    (h : draw_array_texcoord va mem B c idx = some s) : bracket_state s = bracket_state c := by
  unfold draw_array_texcoord at h
  by_cases hb : B.texcoord_base ≠ .null
  · rw [if_pos hb] at h
    cases hg : get_array_element mem va.texcoord_pointer B.texcoord_base idx 2 with
    | none => rw [hg] at h; exact Option.noConfusion h
    | some k => rw [hg] at h; cases h; exact glTexCoord2f_bracket c _ _ hidx
  · rw [if_neg hb] at h
    cases h
    rfl

theorem draw_array_normal_bracket (va : vertex_arrays_t) (mem : client_memory_t)
    (B : array_bases_t) (c s : GLState) (idx : Int) (hidx : c.list_index = 0)
    (h : draw_array_normal va mem B c idx = some s) : bracket_state s = bracket_state c := by
  unfold draw_array_normal at h
  by_cases hb : B.normal_base ≠ .null
  · rw [if_pos hb] at h
    cases hg : get_array_element mem va.normal_pointer B.normal_base idx 3 with
    | none => rw [hg] at h; exact Option.noConfusion h
    | some k => rw [hg] at h; cases h; exact glNormal3f_bracket c _ _ _ hidx
  · rw [if_neg hb] at h
    cases h
    rfl

theorem bracket_state_flags (c s : GLState) (e : bracket_state s = bracket_state c) :
    s.vertices = c.vertices ∧
      s.flags &&& FLAG_INSIDE_BEGIN_END = c.flags &&& FLAG_INSIDE_BEGIN_END ∧
      s.list_index = c.list_index :=
  ⟨congrArg Prod.fst e, congrArg (fun p => p.2.1) e, congrArg (fun p => p.2.2) e⟩

/-- A pass of the loop of a draw call leaves the inside-begin-end flag and the
list index as they are. -/
theorem draw_array_vertex_bracket (pf : Platform) (va : vertex_arrays_t) (mem : client_memory_t)
    (B : array_bases_t) (c s : GLState) (idx : Int) (hidx : c.list_index = 0)
    (h : draw_array_vertex pf va mem B c idx = some s) :
    s.flags &&& FLAG_INSIDE_BEGIN_END = c.flags &&& FLAG_INSIDE_BEGIN_END ∧
      s.list_index = 0 := by
  unfold draw_array_vertex at h
  cases hv : get_array_element mem va.vertex_pointer B.vertex_base idx 4 with
  | none => rw [hv] at h; exact Option.noConfusion h
  | some v =>
    rw [hv] at h
    simp only [] at h
    cases h1 : draw_array_color va mem B c idx with
    | none => rw [h1] at h; exact Option.noConfusion h
    | some c1 =>
      rw [h1, Option.some_bind] at h
      obtain ⟨_, f1, i1⟩ := bracket_state_flags _ _
        (draw_array_color_bracket va mem B c c1 idx hidx h1)
      have j1 : c1.list_index = 0 := i1.trans hidx
      cases h2 : draw_array_texcoord va mem B c1 idx with
      | none => rw [h2] at h; exact Option.noConfusion h
      | some c2 =>
        rw [h2, Option.some_bind] at h
        obtain ⟨_, f2, i2⟩ := bracket_state_flags _ _
          (draw_array_texcoord_bracket va mem B c1 c2 idx j1 h2)
        have j2 : c2.list_index = 0 := i2.trans j1
        cases h3 : draw_array_normal va mem B c2 idx with
        | none => rw [h3] at h; exact Option.noConfusion h
        | some c3 =>
          rw [h3, Option.some_bind] at h
          obtain ⟨_, f3, i3⟩ := bracket_state_flags _ _
            (draw_array_normal_bracket va mem B c2 c3 idx j2 h3)
          have j3 : c3.list_index = 0 := i3.trans j2
          by_cases hsz : va.vertex_pointer.size = 2
          · rw [if_pos hsz] at h
            cases h
            obtain ⟨g1, g2, _⟩ := glVertex2f_bracket pf.lm c3 (v.getD 0 0) (v.getD 1 0) j3
            rw [g1]
            exact ⟨f3.trans (f2.trans f1), g2⟩
          · rw [if_neg hsz] at h
            cases h
            obtain ⟨g1, g2, _⟩ := glVertex3f_bracket pf.lm c3 (v.getD 0 0) (v.getD 1 0)
              (v.getD 2 0) j3
            rw [g1]
            exact ⟨f3.trans (f2.trans f1), g2⟩

theorem foldlM_inv {σ ι : Type} (f : σ → ι → Option σ) (P : σ → Prop)
    (hf : ∀ s i s1, P s → f s i = some s1 → P s1) :
    ∀ (l : List ι) (s s1 : σ), P s → l.foldlM f s = some s1 → P s1 := by
  intro l
  induction l with
  | nil =>
    intro s s1 hs h
    cases h
    exact hs
  | cons a l ih =>
    intro s s1 hs h
    rw [List.foldlM_cons] at h
    cases ha : f s a with
    | none => rw [ha] at h; exact Option.noConfusion h
    | some s2 =>
      rw [ha] at h
      exact ih s2 s1 (hf s a s2 hs ha) h

theorem bracket_same_idle (c s : GLState) (e : bracket_state s = bracket_state c)
    (hidx : c.list_index = 0) (hinv : buffer_idle c) : buffer_idle s ∧ s.list_index = 0 := by
  obtain ⟨e1, e2, e3⟩ := bracket_state_flags c s e
  refine ⟨fun h => ?_, e3.trans hidx⟩
  rw [e1]
  exact hinv (e2 ▸ h)

/-- The bracket `glDrawArrays` makes: called with the inside-begin-end flag
set or with a valid mode it leaves the flag clear and the buffer empty. -/
theorem glDrawArrays_bracket (pf : Platform) (va : vertex_arrays_t) (mem : client_memory_t)
    (c s : GLState) (mode : Nat) (first count : Int) (hidx : c.list_index = 0)
    (hinv : buffer_idle c)
    (hsub : c.flags &&& FLAG_INSIDE_BEGIN_END ≠ 0 ∨ mode ≤ GL_POLYGON)
    (h : glDrawArrays pf va mem c mode first count = some s) :
    buffer_idle s ∧ s.list_index = 0 := by
  unfold glDrawArrays at h
  by_cases h1 : count < 0
  · rw [if_pos h1] at h
    cases h
    exact bracket_same_idle c _ (gl_set_error_bracket c _) hidx hinv
  · rw [if_neg h1] at h
    simp only [] at h
    by_cases h2 : c.client_state &&& CLIENT_VERTEX_ARRAY = 0 ∨
        (draw_array_bases va c).vertex_base = .null
    · rw [if_pos h2] at h
      cases h
      exact ⟨hinv, hidx⟩
    · rw [if_neg h2] at h
      obtain ⟨_, b2, b3, b4, _⟩ := glBegin_bracket c mode hidx
      have hin : (glBegin c mode).flags &&& FLAG_INSIDE_BEGIN_END ≠ 0 := by
        by_cases hc : c.flags &&& FLAG_INSIDE_BEGIN_END = 0
        · rcases hsub with hs | hs
          · exact absurd hc hs
          · exact b4 hc hs
        · exact b3 hc
      cases hl : (List.range (Int.toNat count)).foldlM
          (fun s (i : Nat) =>
            draw_array_vertex pf va mem (draw_array_bases va c) s (wrap_int32 (first + i)))
          (glBegin c mode) with
      | none =>
        rw [hl] at h
        exact Option.noConfusion h
      | some c2 =>
        rw [hl] at h
        cases h
        have hP := foldlM_inv
          (fun s (i : Nat) =>
            draw_array_vertex pf va mem (draw_array_bases va c) s (wrap_int32 (first + i)))
          (fun s => s.flags &&& FLAG_INSIDE_BEGIN_END ≠ 0 ∧ s.list_index = 0)
          (fun s i s1 hs hr => by
            obtain ⟨f1, f2⟩ := draw_array_vertex_bracket pf va mem _ s s1 _ hs.2 hr
            exact ⟨f1 ▸ hs.1, f2⟩)
          _ _ c2 ⟨hin, b2⟩ hl
        obtain ⟨e1, e2, _⟩ := glEnd_bracket pf.rs c2 hP.2
        exact ⟨fun _ => (e2 hP.1).1, e1⟩

/-- A call that submits its vertices with the inside-begin-end flag set keeps
the invariant of the vertex buffer. -/
theorem buffer_call_step (pf : Platform) (fuel : Nat) (va : vertex_arrays_t)
    (mem : client_memory_t) (k : buffer_call) (c s : GLState) (hidx : c.list_index = 0)
    (hinv : buffer_idle c) (hsub : k.submits_inside c = true)
    (h : k.run pf fuel va mem c = some s) : buffer_idle s ∧ s.list_index = 0 := by
  cases k with
  | glDrawArrays mode first count =>
    simp only [buffer_call.submits_inside, decide_eq_true_eq] at hsub
    exact glDrawArrays_bracket pf va mem c s mode first count hidx hinv hsub h
  | recordable k =>
    by_cases hp : k.is_plain = true
    · exact bracket_same_idle c s (plain_call_bracket pf fuel k c s hp hidx h) hidx hinv
    · cases k with
      | glBegin mode =>
        cases h
        obtain ⟨b1, b2, b3, b4, b5⟩ := glBegin_bracket c mode hidx
        refine ⟨fun hf => ?_, b2⟩
        rw [b1]
        by_cases hc : c.flags &&& FLAG_INSIDE_BEGIN_END = 0
        · exact hinv hc
        · exact absurd hf (b3 hc)
      | glEnd =>
        cases h
        obtain ⟨e1, e2, e3⟩ := glEnd_bracket pf.rs c hidx
        by_cases hc : c.flags &&& FLAG_INSIDE_BEGIN_END = 0
        · exact bracket_same_idle c _ (e3 hc) hidx hinv
        · exact ⟨fun _ => (e2 hc).1, e1⟩
      | glVertex2f x y =>
        cases h
        simp only [buffer_call.submits_inside, decide_eq_true_eq] at hsub
        obtain ⟨g1, g2, _⟩ := glVertex2f_bracket pf.lm c x y hidx
        refine ⟨fun hf => ?_, g2⟩
        rw [g1] at hf
        exact absurd hf hsub
      | glVertex3f x y z =>
        cases h
        simp only [buffer_call.submits_inside, decide_eq_true_eq] at hsub
        obtain ⟨g1, g2, _⟩ := glVertex3f_bracket pf.lm c x y z hidx
        refine ⟨fun hf => ?_, g2⟩
        rw [g1] at hf
        exact absurd hf hsub
      | glCallList l => exact Bool.noConfusion hsub
      | _ => exact absurd rfl hp

theorem run_buffer_calls_inv (pf : Platform) (fuel : Nat) (va : vertex_arrays_t)
    (mem : client_memory_t) :
    ∀ (calls : List buffer_call) (c s : GLState), c.list_index = 0 → buffer_idle c →
      submits_inside pf fuel va mem calls c = true →
      run_buffer_calls pf fuel va mem calls c = some s → buffer_idle s ∧ s.list_index = 0 := by
  intro calls
  induction calls with
  | nil =>
    intro c s hidx hinv _ h
    cases h
    exact ⟨hinv, hidx⟩
  | cons k ks ih =>
    intro c s hidx hinv hsub h
    unfold run_buffer_calls at h
    rw [List.foldlM_cons] at h
    unfold submits_inside at hsub
    rw [Bool.and_eq_true] at hsub
    cases hk : k.run pf fuel va mem c with
    | none => rw [hk] at h; exact Option.noConfusion h
    | some s1 =>
      rw [hk] at h
      have hs := hsub.2
      rw [hk] at hs
      obtain ⟨i1, j1⟩ := buffer_call_step pf fuel va mem k c s1 hidx hinv hsub.1 hk
      exact ih s1 s j1 i1 hs h

/-- C34 (counterexample): `glVertex3f` outside a bracket leaves the
inside-begin-end flag clear and one vertex in the buffer; the bracket opened
next holds three vertices after two calls of `glVertex3f`; and `glDrawArrays`
with the invalid mode 10 leaves the flag clear and two vertices in the
buffer. -/
theorem vertex_outside_bracket :
    ((glVertex3f test_platform.lm test_context 0 0 0).flags &&& FLAG_INSIDE_BEGIN_END,
        (glVertex3f test_platform.lm test_context 0 0 0).vertices.length) = (0, 1) ∧
    (run_buffer_calls test_platform 1 (test_vertex_arrays 1000 []) (test_client_memory 0)
        stale_vertex_calls test_context).map
          (fun s => (s.flags &&& FLAG_INSIDE_BEGIN_END, s.vertices.length, s.error))
      = some (1, 3, GL_NO_ERROR) ∧
    (glDrawArrays test_platform (test_vertex_arrays 1000 []) (test_client_memory 0)
        vertex_array_context 10 0 2).map
          (fun s => (s.flags &&& FLAG_INSIDE_BEGIN_END, s.vertices.length))
      = some (0, 2) := by
  decide!

/-- C34 (amended): in-flight vertex buffer invariant. After every sequence of
front-end calls that returns (recordable calls and `glDrawArrays`, no list
being recorded or called) in which `glVertex2f` and `glVertex3f` are called
only with the inside-begin-end flag set and `glDrawArrays` only with the flag
set or a valid mode, the buffer is empty whenever the flag is clear; a bracket
that `glBegin` opens then starts with an empty buffer, a vertex call appends
one vertex to the buffer, and `glEnd` in a bracket empties it. -/
theorem vertex_buffer_invariant (pf : Platform) (fuel : Nat) (va : vertex_arrays_t)
    (mem : client_memory_t) (calls : List buffer_call) (c s : GLState)
    (hidx : c.list_index = 0) (hinv : buffer_idle c)
    (hsub : submits_inside pf fuel va mem calls c = true)
    (hrun : run_buffer_calls pf fuel va mem calls c = some s) :
    buffer_idle s ∧
    (s.flags &&& FLAG_INSIDE_BEGIN_END = 0 → ∀ mode, (glBegin s mode).vertices = []) ∧
    (∀ x y z, ∃ v, (glVertex3f pf.lm s x y z).vertices = s.vertices ++ [v]) ∧
    (∀ x y, ∃ v, (glVertex2f pf.lm s x y).vertices = s.vertices ++ [v]) ∧
    (s.flags &&& FLAG_INSIDE_BEGIN_END ≠ 0 →
      (glEnd pf.rs s).vertices = [] ∧ (glEnd pf.rs s).flags &&& FLAG_INSIDE_BEGIN_END = 0) := by
  obtain ⟨i1, j1⟩ := run_buffer_calls_inv pf fuel va mem calls c s hidx hinv hsub hrun
  refine ⟨i1, fun hf mode => ?_, fun x y z => (glVertex3f_bracket pf.lm s x y z j1).2.2,
    fun x y => (glVertex2f_bracket pf.lm s x y j1).2.2, (glEnd_bracket pf.rs s j1).2.1⟩
  rw [(glBegin_bracket s mode j1).1]
  exact i1 hf

theorem vertex_buffer_invariant_witness :
    (run_buffer_calls test_platform 1 (test_vertex_arrays 1000 []) (test_client_memory 0)
        bracket_test_calls vertex_array_context).map
          (fun s => (s.flags &&& FLAG_INSIDE_BEGIN_END, s.vertices.length)) = some (0, 0) ∧
      ∃ s, run_buffer_calls test_platform 1 (test_vertex_arrays 1000 []) (test_client_memory 0)
        bracket_test_calls vertex_array_context = some s ∧ buffer_idle s := by
  have hsome : (run_buffer_calls test_platform 1 (test_vertex_arrays 1000 [])
      (test_client_memory 0) bracket_test_calls vertex_array_context).isSome = true := by
    decide!
  obtain ⟨s, hs⟩ := Option.isSome_iff_exists.mp hsome
  exact ⟨by decide!, s, hs,
    (vertex_buffer_invariant test_platform 1 (test_vertex_arrays 1000 []) (test_client_memory 0)
      bracket_test_calls vertex_array_context s (by decide) (fun _ => by decide) (by decide!)
      hs).1⟩

end MyTinyGL
